import Mathlib

/-!
# avr_meteo_station: bus engine, BMP180 pipeline, SSD1306 pipeline

A shallow embedding of `lib/i2c/i2c.c`, `lib/bmp180/bmp180.c` and
`lib/ssd1306/ssd1306.c`.

Conventions of the embedding.

* The target is an AVR microcontroller (`avr/io.h`, `util/twi.h`): `int` is 16 bits wide,
  `long`/`int32_t` is 32 bits wide.  Integer values are `Int`/`Nat`; every conversion to a
  C integer type is an explicit reduction (`to_int16`, `to_int32`, `to_uint32`, `% 256`).
* `pow(2, k)` returns a `double`, so every expression `e / pow(2, k)` of `bmp180.c` is a
  floating-point expression.  With avr-gcc `double` is the IEEE 754 binary32 format: a
  conversion from an integer, a product, a quotient and a sum are rounded to 24 significant
  bits, to nearest, ties to even (`Dbl`, `round24`); `pow(2, k)` is taken to return the power
  of two exactly.  The conversion back to an integer type discards the fractional part
  (C99 6.3.1.4); it is undefined when the value is out of the range of the integer type.
* The TWI hardware is an oracle `bus` that answers every completed bus operation with a status
  byte and a data byte.  `i2c_wait` is assumed to return (the hardware raises TWINT).
* `log` is a ghost field: the sequence of engine primitives called so far with their results.
* `_delay_ms` has no effect on the state and is omitted.
-/

namespace AvrMeteo

/-! ## Machine integers -/

/-- Conversion to `uint8_t`. -/
def to_uint8 (n : Int) : Int := n % 256

/-- Conversion to `uint16_t`. -/
def to_uint16 (n : Int) : Int := n % 65536

/-- Conversion to `int16_t` (and to `int` on AVR): two's complement wrap-around. -/
def to_int16 (n : Int) : Int := (n + 32768) % 65536 - 32768

/-- Conversion to `uint32_t`. -/
def to_uint32 (n : Int) : Int := n % 4294967296

/-- Conversion to `int32_t` (`long` on AVR): two's complement wrap-around. -/
def to_int32 (n : Int) : Int := (n + 2147483648) % 4294967296 - 2147483648

/-! ## Binary32 arithmetic -/

/-- Floor of the binary logarithm by repeated halving; the first argument bounds the number
of halvings. -/
def log2Fuel : Nat → Nat → Nat
  | 0, _ => 0
  | fuel + 1, n => if n < 2 then 0 else log2Fuel fuel (n / 2) + 1

/-- Floor of the binary logarithm of `n` (0 for `n = 0`). -/
def ilog2 (n : Nat) : Nat := log2Fuel n n

/-- The quotient `a / 2^s` rounded to the nearest natural number, a tie going to the even
neighbour. -/
def rne (a s : Nat) : Nat :=
  if 2 * (a % 2 ^ s) < 2 ^ s then a / 2 ^ s
  else if 2 ^ s < 2 * (a % 2 ^ s) then a / 2 ^ s + 1
  else a / 2 ^ s + (a / 2 ^ s) % 2

/-- The integer nearest to `n` among those with at most 24 significant bits, a tie going to
the one with an even 24-bit significand: the value of `n` after conversion to binary32. -/
def round24 (n : Int) : Int :=
  if n.natAbs < 2 ^ 24 then n
  else n.sign * ((rne n.natAbs (ilog2 n.natAbs - 23) * 2 ^ (ilog2 n.natAbs - 23) : Nat) : Int)

/-- A finite `double` value `num / 2^scale`.  On the AVR target `double` is the IEEE 754
binary32 format (24 significant bits); every operation below returns a value of that format,
rounded to nearest, ties to even.  The exponent range is not modelled: the magnitudes that
`bmp180.c` reaches (below `2^64`, and at least `2^-32` when not zero) lie inside it. -/
structure Dbl where
  num : Int
  scale : Nat
deriving DecidableEq, Repr

/-- Conversion of an integer to `double`. -/
def Dbl.ofInt (n : Int) : Dbl := ⟨round24 n, 0⟩

/-- The call `pow(2, k)`. -/
def Dbl.pow2 (k : Nat) : Dbl := ⟨2 ^ k, 0⟩

/-- Product of two `double` values. -/
def Dbl.mul (a b : Dbl) : Dbl := ⟨round24 (a.num * b.num), a.scale + b.scale⟩

/-- Sum of two `double` values. -/
def Dbl.add (a b : Dbl) : Dbl :=
  ⟨round24 (a.num * 2 ^ b.scale + b.num * 2 ^ a.scale), a.scale + b.scale⟩

/-- The quotient `x / y` of two naturals rounded to binary32: the quotient is taken with
`26 + ilog2 y` binary places (at least 26 significant bits when `x ≠ 0`), a sticky bit records
a non-zero remainder, and the result is rounded to 24 significant bits. -/
def roundQuot (x y : Nat) : Dbl :=
  ⟨round24 ((2 * (x * 2 ^ (26 + ilog2 y) / y)
      + (if x * 2 ^ (26 + ilog2 y) % y = 0 then 0 else 1) : Nat) : Int),
    26 + ilog2 y + 1⟩

/-- Quotient of two `double` values.  A quotient by a power of two is a binary32 value and is
not rounded; any other quotient is rounded.  For a zero divisor the C result is an infinity or
a NaN, whose conversion to an integer type is undefined (C99 6.3.1.4): the value returned here
for that case carries no meaning, and the theorems about computed values exclude it. -/
def Dbl.div (a b : Dbl) : Dbl :=
  if b.scale = 0 ∧ b.num = 2 ^ ilog2 b.num.natAbs then ⟨a.num, a.scale + ilog2 b.num.natAbs⟩
  else
    ⟨a.num.sign * b.num.sign
        * (roundQuot (a.num.natAbs * 2 ^ b.scale) (b.num.natAbs * 2 ^ a.scale)).num,
      (roundQuot (a.num.natAbs * 2 ^ b.scale) (b.num.natAbs * 2 ^ a.scale)).scale⟩

/-- Conversion of a `double` to an integer: the fractional part is discarded
(truncation toward zero). -/
def Dbl.trunc (a : Dbl) : Int := Int.tdiv a.num (2 ^ a.scale)

/-! ## Bus transaction engine (`lib/i2c/i2c.c`) -/

/-- Transfer direction, `i2c_def.h`. -/
inductive i2c_mode_t where
  | I2C_MODE_WRITE
  | I2C_MODE_READ
deriving DecidableEq, Repr

/-- Numeric value of the enumeration constant. -/
def i2c_mode_t.toNat : i2c_mode_t → Nat
  | .I2C_MODE_WRITE => 0
  | .I2C_MODE_READ => 1

/-- The bus operation the hardware is asked to perform before `i2c_wait`. -/
inductive BusOp where
  | startCondition
  | address (sla_rw : Nat)
  | dataOut (byte : Nat)
  | dataInAck
  | dataInNack
deriving DecidableEq, Repr

/-- The engine primitives of `i2c.h`. -/
inductive Prim where
  | start (address : Nat) (mode : i2c_mode_t)
  | write (byte : Nat)
  | readAck
  | readNack
  | stop
deriving DecidableEq, Repr

/-- One call of an engine primitive and the value it returned (`true` for `i2c_stop`,
which returns nothing). -/
structure Event where
  prim : Prim
  ok : Bool
deriving DecidableEq, Repr

/-- Engine state: the two static variables of `i2c.c`, the TWI registers, and the
environment (hardware oracle, number of completed bus operations, ghost call log). -/
structure I2C where
  i2c_ready : Bool
  i2c_error : Nat
  TWBR : Nat
  TWCR : Nat
  TWSR : Nat
  TWDR : Nat
  tick : Nat
  bus : Nat → BusOp → Nat × Nat
  log : List Event

/-- Status codes of `util/twi.h` (avr-libc). -/
def TW_START : Nat := 0x08
/-- Repeated start condition transmitted. -/
def TW_REP_START : Nat := 0x10
/-- SLA+W transmitted, ACK received. -/
def TW_MT_SLA_ACK : Nat := 0x18
/-- Data transmitted, ACK received. -/
def TW_MT_DATA_ACK : Nat := 0x28
/-- SLA+R transmitted, ACK received. -/
def TW_MR_SLA_ACK : Nat := 0x40
/-- Data received, ACK returned. -/
def TW_MR_DATA_ACK : Nat := 0x50
/-- Data received, NACK returned. -/
def TW_MR_DATA_NACK : Nat := 0x58

/-- The macro `TW_STATUS` of `util/twi.h`: `TWSR & TW_STATUS_MASK`. -/
def TW_STATUS (s : I2C) : Nat := s.TWSR &&& 0xF8

/-- Control register value `_BV(TWINT) | _BV(TWEN)`. -/
def I2C_NACK : Nat := 0x84
/-- Control register value `_BV(TWINT) | _BV(TWEN) | _BV(TWEA)`. -/
def I2C_ACK : Nat := 0xC4

/-- Bus frequency in Hz. -/
def I2C_FREQ : Nat := 400000
/-- Prescaler value. -/
def I2C_PRESCALER_VALUE : Nat := 1

/-- `i2c_init`; the CPU clock `F_CPU` is a build parameter, an `unsigned long` constant (the
convention of `util/delay.h`), so the quotient, the subtraction and the division are carried
out in `unsigned long`: the difference wraps modulo `2^32` when `F_CPU / I2C_FREQ < 16`.  The
8-bit register `TWBR` takes the low byte. -/
def i2c_init (F_CPU : Nat) (s : I2C) : I2C :=
  { s with
    TWBR := (to_uint32 (to_uint32 (F_CPU : Int) / (I2C_FREQ : Int) - 16)
      / ((2 * I2C_PRESCALER_VALUE : Nat) : Int)).toNat % 256,
    i2c_ready := true }

/-- `i2c_wait`: the hardware completes operation `op`, latches status and data. -/
def i2c_wait (op : BusOp) (s : I2C) : I2C :=
  { s with TWSR := (s.bus s.tick op).1 % 256, TWDR := (s.bus s.tick op).2 % 256, tick := s.tick + 1 }

/-- Ghost instrumentation: record the call of primitive `p` with its result. -/
def record (p : Prim) (r : Bool × I2C) : Bool × I2C :=
  (r.1, { r.2 with log := r.2.log ++ [⟨p, r.1⟩] })

/-- The body of `i2c_start`. -/
def i2c_start_body (address : Nat) (mode : i2c_mode_t) (s : I2C) : Bool × I2C :=
  if !s.i2c_ready then (s.i2c_ready, s) else
  let s1 := i2c_wait .startCondition { s with TWCR := 0xA4 }
  let is_ok := TW_STATUS s1 == TW_START || TW_STATUS s1 == TW_REP_START
  if !is_ok then (is_ok, { s1 with i2c_error := TW_STATUS s1 }) else
  let sla := ((address <<< 1) ||| mode.toNat) % 256
  let s2 := i2c_wait (.address sla) { s1 with TWDR := sla, TWCR := I2C_NACK }
  let is_ok := (mode == .I2C_MODE_WRITE && TW_STATUS s2 == TW_MT_SLA_ACK)
    || (mode == .I2C_MODE_READ && TW_STATUS s2 == TW_MR_SLA_ACK)
  if !is_ok then (is_ok, { s2 with i2c_error := TW_STATUS s2 }) else (is_ok, s2)

/-- `i2c_start`. -/
def i2c_start (address : Nat) (mode : i2c_mode_t) (s : I2C) : Bool × I2C :=
  record (.start address mode) (i2c_start_body address mode s)

/-- The body of `i2c_write_byte`. -/
def i2c_write_byte_body (data : Nat) (s : I2C) : Bool × I2C :=
  if !s.i2c_ready then (s.i2c_ready, s) else
  let s1 := i2c_wait (.dataOut (data % 256)) { s with TWDR := data % 256, TWCR := I2C_NACK }
  let is_ok := TW_STATUS s1 == TW_MT_DATA_ACK
  if !is_ok then (is_ok, { s1 with i2c_error := TW_STATUS s1 }) else (is_ok, s1)

/-- `i2c_write_byte`. -/
def i2c_write_byte (data : Nat) (s : I2C) : Bool × I2C :=
  record (.write (data % 256)) (i2c_write_byte_body data s)

/-- The body of `i2c_read_byte_ACK`; the second component is the new value of `*byte`. -/
def i2c_read_byte_ACK_body (byte : Nat) (s : I2C) : Bool × Nat × I2C :=
  if !s.i2c_ready then (s.i2c_ready, byte, s) else
  let s1 := i2c_wait .dataInAck { s with TWCR := I2C_ACK }
  let is_ok := TW_STATUS s1 == TW_MR_DATA_ACK
  if is_ok then (is_ok, s1.TWDR, s1) else (is_ok, byte, { s1 with i2c_error := TW_STATUS s1 })

/-- `i2c_read_byte_ACK`. -/
def i2c_read_byte_ACK (byte : Nat) (s : I2C) : Bool × Nat × I2C :=
  let r := i2c_read_byte_ACK_body byte s
  (r.1, r.2.1, (record .readAck (r.1, r.2.2)).2)

/-- The body of `i2c_read_byte_NACK`; the second component is the new value of `*byte`. -/
def i2c_read_byte_NACK_body (byte : Nat) (s : I2C) : Bool × Nat × I2C :=
  if !s.i2c_ready then (s.i2c_ready, byte, s) else
  let s1 := i2c_wait .dataInNack { s with TWCR := I2C_NACK }
  let is_ok := TW_STATUS s1 == TW_MR_DATA_NACK
  if is_ok then (is_ok, s1.TWDR, s1) else (is_ok, byte, { s1 with i2c_error := TW_STATUS s1 })

/-- `i2c_read_byte_NACK`. -/
def i2c_read_byte_NACK (byte : Nat) (s : I2C) : Bool × Nat × I2C :=
  let r := i2c_read_byte_NACK_body byte s
  (r.1, r.2.1, (record .readNack (r.1, r.2.2)).2)

/-- `i2c_stop`. -/
def i2c_stop (s : I2C) : I2C :=
  (record .stop (true, if !s.i2c_ready then s else { s with TWCR := 0x94 })).2

/-- `i2c_get_error`. -/
def i2c_get_error (s : I2C) : Nat := s.i2c_error

/-- The statement `is_ok = is_ok && f(...)`: `f` is called only when `is_ok` holds. -/
def andAlso (r : Bool × I2C) (f : I2C → Bool × I2C) : Bool × I2C :=
  if r.1 then f r.2 else (false, r.2)

/-- The statement `is_ok = is_ok & f(...)`: `f` is called whatever `is_ok` is. -/
def bitAnd (r : Bool × I2C) (f : I2C → Bool × I2C) : Bool × I2C :=
  (r.1 && (f r.2).1, (f r.2).2)

/-- The statement `is_ok = is_ok && f(&byte)` for the two read primitives. -/
def andRead (r : Bool × I2C) (byte : Nat) (f : Nat → I2C → Bool × Nat × I2C) : Bool × Nat × I2C :=
  if r.1 then f byte r.2 else (false, byte, r.2)

/-! ## Measurement pipeline (`lib/bmp180/bmp180.c`) -/

/-- Register and command constants of `bmp180_def.h`. -/
def BMP180_START_MEASURE_TEMPERATURE : Nat := 0x2E
/-- Start measure pressure. -/
def BMP180_START_MEASURE_PRESSURE : Nat := 0x34
/-- Soft reset command. -/
def BMP180_START_SOFT_RESET : Nat := 0xB6
/-- Result register, most significant byte. -/
def BMP180_REGISTER_OUT_MSB : Nat := 0xF6
/-- Measurement control register. -/
def BMP180_REGISTER_CTR_MEAS : Nat := 0xF4
/-- Soft reset register. -/
def BMP180_REGISTER_SOFT_RESET : Nat := 0xE0
/-- Chip id register. -/
def BMP180_REGISTER_CHIP_ID : Nat := 0xD0

/-- Oversampling mode, `bmp180_def.h`. -/
inductive bmp180_mode_t where
  | BMP180_ULTRA_LOW_POWER_MODE
  | BMP180_STANDARD_MODE
  | BMP180_HIGH_RESOLUTION_MODE
  | BMP180_ULTRA_HIGH_RESOLUTION_MODE
deriving DecidableEq, Repr

/-- Numeric value of the enumeration constant. -/
def bmp180_mode_t.toNat : bmp180_mode_t → Nat
  | .BMP180_ULTRA_LOW_POWER_MODE => 0
  | .BMP180_STANDARD_MODE => 1
  | .BMP180_HIGH_RESOLUTION_MODE => 2
  | .BMP180_ULTRA_HIGH_RESOLUTION_MODE => 3

/-- Calibration coefficients; `AC4`, `AC5`, `AC6` are `uint16_t`, the others `int16_t`. -/
structure bmp180_calibration_data_t where
  AC1 : Int
  AC2 : Int
  AC3 : Int
  AC4 : Int
  AC5 : Int
  AC6 : Int
  B1 : Int
  B2 : Int
  MB : Int
  MC : Int
  MD : Int
deriving DecidableEq, Repr

/-- Every coefficient lies in the range of its C type. -/
def bmp180_calibration_data_t.InRange (d : bmp180_calibration_data_t) : Prop :=
  (-32768 ≤ d.AC1 ∧ d.AC1 ≤ 32767) ∧ (-32768 ≤ d.AC2 ∧ d.AC2 ≤ 32767) ∧
  (-32768 ≤ d.AC3 ∧ d.AC3 ≤ 32767) ∧ (0 ≤ d.AC4 ∧ d.AC4 ≤ 65535) ∧
  (0 ≤ d.AC5 ∧ d.AC5 ≤ 65535) ∧ (0 ≤ d.AC6 ∧ d.AC6 ≤ 65535) ∧
  (-32768 ≤ d.B1 ∧ d.B1 ≤ 32767) ∧ (-32768 ≤ d.B2 ∧ d.B2 ≤ 32767) ∧
  (-32768 ≤ d.MB ∧ d.MB ≤ 32767) ∧ (-32768 ≤ d.MC ∧ d.MC ≤ 32767) ∧
  (-32768 ≤ d.MD ∧ d.MD ≤ 32767)

instance (d : bmp180_calibration_data_t) : Decidable d.InRange := by
  unfold bmp180_calibration_data_t.InRange; infer_instance

/-- The sensor instance `bmp180_t`. -/
structure bmp180_t where
  i2c_address : Nat
  mode : bmp180_mode_t
  data : bmp180_calibration_data_t
  B5 : Int
deriving DecidableEq, Repr

/-- `bmp180_create`: members without initializer are zero. -/
def bmp180_create (i2c_address : Nat) : bmp180_t :=
  { i2c_address := i2c_address, mode := .BMP180_STANDARD_MODE,
    data := ⟨0, 0, 0, 0, 0, 0, 0, 0, 0, 0, 0⟩, B5 := 0 }

/-- `bmp180_set_mode`. -/
def bmp180_set_mode (bmp180 : bmp180_t) (mode : bmp180_mode_t) : bmp180_t :=
  { bmp180 with mode := mode }

/-- `int32_t ut = (msb << 8) | lsb;` with `msb`, `lsb` promoted to the 16-bit `int`. -/
def temperature_ut (msb lsb : Nat) : Int :=
  to_int32 (to_int16 (((msb <<< 8) ||| lsb : Nat) : Int))

/-- `int32_t x1 = (ut - data->AC6) * data->AC5 / pow(2, 15);` -/
def temperature_x1 (data : bmp180_calibration_data_t) (ut : Int) : Int :=
  to_int32 (Dbl.trunc (Dbl.div (Dbl.ofInt (to_int32 (to_int32 (ut - data.AC6) * data.AC5)))
    (Dbl.pow2 15)))

/-- `int32_t x2 = data->MC * pow(2, 11) / (x1 + data->MD);`  When the divisor `x1 + data->MD`
is zero the quotient is an infinity or a NaN and its conversion to `int32_t` is undefined:
the value below carries no meaning then, and the theorems about the values computed assume
`temperature_divisor ≠ 0`. -/
def temperature_x2 (data : bmp180_calibration_data_t) (x1 : Int) : Int :=
  to_int32 (Dbl.trunc (Dbl.div (Dbl.mul (Dbl.ofInt data.MC) (Dbl.pow2 11))
    (Dbl.ofInt (to_int32 (x1 + data.MD)))))

/-- `bmp180->B5 = x1 + x2;` -/
def temperature_B5 (data : bmp180_calibration_data_t) (msb lsb : Nat) : Int :=
  to_int32 (temperature_x1 data (temperature_ut msb lsb)
    + temperature_x2 data (temperature_x1 data (temperature_ut msb lsb)))

/-- `int32_t t = (bmp180->B5 + 8) / pow(2, 4);` -/
def temperature_t (B5 : Int) : Int :=
  to_int32 (Dbl.trunc (Dbl.div (Dbl.ofInt (to_int32 (B5 + 8))) (Dbl.pow2 4)))

/-- `bmp180_get_temperature`; returns the result flag, the instance, `*temp` and the engine. -/
def bmp180_get_temperature (bmp180 : bmp180_t) (temp : Int) (s : I2C) :
    Bool × bmp180_t × Int × I2C :=
  let r1 := i2c_start bmp180.i2c_address .I2C_MODE_WRITE s
  let r2 := andAlso r1 (i2c_write_byte BMP180_REGISTER_CTR_MEAS)
  let r3 := andAlso r2 (i2c_write_byte BMP180_START_MEASURE_TEMPERATURE)
  let s4 := i2c_stop r3.2
  if !r3.1 then (r3.1, bmp180, temp, s4) else
  let r5 := andAlso (r3.1, s4) (i2c_start bmp180.i2c_address .I2C_MODE_WRITE)
  let r6 := andAlso r5 (i2c_write_byte BMP180_REGISTER_OUT_MSB)
  let r7 := andAlso r6 (i2c_start bmp180.i2c_address .I2C_MODE_READ)
  let r8 := andRead r7 0 i2c_read_byte_ACK
  let r9 := andRead (r8.1, r8.2.2) 0 i2c_read_byte_NACK
  let s10 := i2c_stop r9.2.2
  if r9.1 then
    (r9.1, { bmp180 with B5 := temperature_B5 bmp180.data r8.2.1 r9.2.1 },
      temperature_t (temperature_B5 bmp180.data r8.2.1 r9.2.1), s10)
  else (r9.1, bmp180, temp, s10)

/-- `int32_t up = ((uint32_t)msb << 16 | (uint32_t)lsb << 8 | xlsb) >> (8 - bmp180->mode);` -/
def pressure_up (mode : bmp180_mode_t) (msb lsb xlsb : Nat) : Int :=
  to_int32 ((((((msb <<< 16) ||| (lsb <<< 8)) ||| xlsb) % 4294967296) >>> (8 - mode.toNat) : Nat) : Int)

/-- `int32_t b6 = bmp180->B5 - 4000;` -/
def pressure_b6 (B5 : Int) : Int := to_int32 (B5 - 4000)

/-- `int32_t b3`, lines 146-149. -/
def pressure_b3 (data : bmp180_calibration_data_t) (mode : bmp180_mode_t) (b6 : Int) : Int :=
  let x1 := to_int32 (Dbl.trunc (Dbl.div (Dbl.mul (Dbl.ofInt data.B2)
    (Dbl.div (Dbl.ofInt (to_int32 (b6 * b6))) (Dbl.pow2 12))) (Dbl.pow2 11)))
  let x2 := to_int32 (Dbl.trunc (Dbl.div (Dbl.ofInt (to_int32 (data.AC2 * b6))) (Dbl.pow2 11)))
  let x3 := to_int32 (x1 + x2)
  Int.tdiv (to_int32 (to_int32 (to_int32 (to_int32 (data.AC1 * 4) + x3) * 2 ^ mode.toNat) + 2)) 4

/-- `uint32_t b4`, lines 150-153. -/
def pressure_b4 (data : bmp180_calibration_data_t) (b6 : Int) : Int :=
  let x1 := to_int32 (Dbl.trunc (Dbl.div (Dbl.ofInt (to_int32 (data.AC3 * b6))) (Dbl.pow2 13)))
  let x2 := to_int32 (Dbl.trunc (Dbl.div (Dbl.mul (Dbl.ofInt data.B1)
    (Dbl.div (Dbl.ofInt (to_int32 (b6 * b6))) (Dbl.pow2 12))) (Dbl.pow2 16)))
  let x3 := to_int32 (Dbl.trunc (Dbl.div (Dbl.ofInt (to_int32 (to_int32 (x1 + x2) + 2))) (Dbl.pow2 2)))
  to_uint32 (Dbl.trunc (Dbl.div (Dbl.ofInt (to_uint32 (data.AC4 * to_uint32 (to_int32 (x3 + 32768)))))
    (Dbl.pow2 15)))

/-- `uint32_t b7 = ((uint32_t)up - b3) * (50000 >> bmp180->mode);` -/
def pressure_b7 (mode : bmp180_mode_t) (up b3 : Int) : Int :=
  to_uint32 (to_uint32 (up - b3) * (50000 / 2 ^ mode.toNat))

/-- The branch of lines 155-160 on the unsigned values `b7` and `b4`; the result is `int32_t p`.
For `b4 = 0` the integer division is undefined in C (C99 6.5.5): the value below carries no
meaning then, and the theorems about the values computed assume `b4 ≠ 0`
(`pressure_defined`, or `0 < b4`). -/
def pressure_p (b7 b4 : Int) : Int :=
  if b7 < 0x80000000 then to_int32 (Int.tdiv (to_uint32 (b7 * 2)) b4)
  else to_int32 (to_uint32 (Int.tdiv b7 b4 * 2))

/-- Lines 161-164: the final compensation of `p`.  Each of the four `double` values is
converted to `int32_t`; the conversion is defined only when the truncated value lies in the
range of `int32_t` (`pressure_final_defined`), and the wrap-around `to_int32` written here
carries no meaning outside it. -/
def pressure_final (p : Int) : Int :=
  let x1 := to_int32 (Dbl.trunc (Dbl.mul (Dbl.div (Dbl.ofInt p) (Dbl.pow2 8))
    (Dbl.div (Dbl.ofInt p) (Dbl.pow2 8))))
  let x1 := to_int32 (Dbl.trunc (Dbl.div (Dbl.ofInt (to_int32 (x1 * 3038))) (Dbl.pow2 16)))
  let x2 := to_int32 (Dbl.trunc (Dbl.div (Dbl.ofInt (to_int32 (-7357 * p))) (Dbl.pow2 16)))
  to_int32 (Dbl.trunc (Dbl.add (Dbl.ofInt p)
    (Dbl.div (Dbl.ofInt (to_int32 (to_int32 (x1 + x2) + 3791))) (Dbl.pow2 4))))

/-- Lines 143-165: the value stored in `*press`. -/
def pressure_value (bmp180 : bmp180_t) (msb lsb xlsb : Nat) : Int :=
  let b6 := pressure_b6 bmp180.B5
  pressure_final (pressure_p
    (pressure_b7 bmp180.mode (pressure_up bmp180.mode msb lsb xlsb) (pressure_b3 bmp180.data bmp180.mode b6))
    (pressure_b4 bmp180.data b6))

/-- The value lies in the range of `int32_t`. -/
def fits32 (n : Int) : Prop := -2147483648 ≤ n ∧ n < 2147483648

instance (n : Int) : Decidable (fits32 n) := by unfold fits32; infer_instance

/-- The value lies in the range of `uint32_t`. -/
def fitsU32 (n : Int) : Prop := 0 ≤ n ∧ n < 4294967296

instance (n : Int) : Decidable (fitsU32 n) := by unfold fitsU32; infer_instance

/-- The divisor `(x1 + data->MD)` of `int32_t x2 = data->MC * pow(2, 11) / (x1 + data->MD);`
for the bytes `msb`, `lsb` read. -/
def temperature_divisor (data : bmp180_calibration_data_t) (msb lsb : Nat) : Int :=
  to_int32 (temperature_x1 data (temperature_ut msb lsb) + data.MD)

/-- The two conversions of a `double` to `int32_t` in the `b3` step (lines 146-147) are
defined: the truncated values lie in the range of `int32_t`. -/
def pressure_b3_defined (data : bmp180_calibration_data_t) (b6 : Int) : Prop :=
  fits32 (Dbl.trunc (Dbl.div (Dbl.mul (Dbl.ofInt data.B2)
    (Dbl.div (Dbl.ofInt (to_int32 (b6 * b6))) (Dbl.pow2 12))) (Dbl.pow2 11)))
  ∧ fits32 (Dbl.trunc (Dbl.div (Dbl.ofInt (to_int32 (data.AC2 * b6))) (Dbl.pow2 11)))

instance (data : bmp180_calibration_data_t) (b6 : Int) :
    Decidable (pressure_b3_defined data b6) := by unfold pressure_b3_defined; infer_instance

/-- The four conversions of a `double` to an integer type in the `b4` step (lines 150-153)
are defined: the truncated values lie in the range of the type converted to. -/
def pressure_b4_defined (data : bmp180_calibration_data_t) (b6 : Int) : Prop :=
  let t1 := Dbl.trunc (Dbl.div (Dbl.ofInt (to_int32 (data.AC3 * b6))) (Dbl.pow2 13))
  let t2 := Dbl.trunc (Dbl.div (Dbl.mul (Dbl.ofInt data.B1)
    (Dbl.div (Dbl.ofInt (to_int32 (b6 * b6))) (Dbl.pow2 12))) (Dbl.pow2 16))
  let t3 := Dbl.trunc (Dbl.div (Dbl.ofInt (to_int32 (to_int32 (to_int32 t1 + to_int32 t2) + 2)))
    (Dbl.pow2 2))
  let t4 := Dbl.trunc (Dbl.div
    (Dbl.ofInt (to_uint32 (data.AC4 * to_uint32 (to_int32 (to_int32 t3 + 32768)))))
    (Dbl.pow2 15))
  fits32 t1 ∧ fits32 t2 ∧ fits32 t3 ∧ fitsU32 t4

instance (data : bmp180_calibration_data_t) (b6 : Int) :
    Decidable (pressure_b4_defined data b6) := by unfold pressure_b4_defined; infer_instance

/-- The four conversions of a `double` to `int32_t` in the final compensation (lines 161-164)
are defined. -/
def pressure_final_defined (p : Int) : Prop :=
  let t1 := Dbl.trunc (Dbl.mul (Dbl.div (Dbl.ofInt p) (Dbl.pow2 8))
    (Dbl.div (Dbl.ofInt p) (Dbl.pow2 8)))
  let t2 := Dbl.trunc (Dbl.div (Dbl.ofInt (to_int32 (to_int32 t1 * 3038))) (Dbl.pow2 16))
  let t3 := Dbl.trunc (Dbl.div (Dbl.ofInt (to_int32 (-7357 * p))) (Dbl.pow2 16))
  let t4 := Dbl.trunc (Dbl.add (Dbl.ofInt p)
    (Dbl.div (Dbl.ofInt (to_int32 (to_int32 (to_int32 t2 + to_int32 t3) + 3791))) (Dbl.pow2 4)))
  fits32 t1 ∧ fits32 t2 ∧ fits32 t3 ∧ fits32 t4

instance (p : Int) : Decidable (pressure_final_defined p) := by
  unfold pressure_final_defined; infer_instance

/-- The arithmetic of lines 144-164 has defined behaviour for the instance and the bytes
read: the divisor `b4` is not zero (an integer division by zero is undefined, C99 6.5.5) and
every `double` value converted to an integer type lies, once truncated, in the range of that
type.  Outside this predicate `pressure_value` carries no meaning. -/
def pressure_defined (bmp180 : bmp180_t) (msb lsb xlsb : Nat) : Prop :=
  let b6 := pressure_b6 bmp180.B5
  pressure_b3_defined bmp180.data b6 ∧ pressure_b4_defined bmp180.data b6
  ∧ pressure_b4 bmp180.data b6 ≠ 0
  ∧ pressure_final_defined (pressure_p
      (pressure_b7 bmp180.mode (pressure_up bmp180.mode msb lsb xlsb)
        (pressure_b3 bmp180.data bmp180.mode b6))
      (pressure_b4 bmp180.data b6))

instance (bmp180 : bmp180_t) (msb lsb xlsb : Nat) :
    Decidable (pressure_defined bmp180 msb lsb xlsb) := by
  unfold pressure_defined; infer_instance

/-- `bmp180_get_pressure`; returns the result flag, `*press` and the engine. -/
def bmp180_get_pressure (bmp180 : bmp180_t) (press : Int) (s : I2C) : Bool × Int × I2C :=
  let r1 := i2c_start bmp180.i2c_address .I2C_MODE_WRITE s
  let r2 := andAlso r1 (i2c_write_byte BMP180_REGISTER_CTR_MEAS)
  let r3 := andAlso r2 (i2c_write_byte
    ((BMP180_START_MEASURE_PRESSURE ||| (bmp180.mode.toNat <<< 6)) % 256))
  let s4 := i2c_stop r3.2
  if !r3.1 then (r3.1, press, s4) else
  let r5 := andAlso (r3.1, s4) (i2c_start bmp180.i2c_address .I2C_MODE_WRITE)
  let r6 := andAlso r5 (i2c_write_byte BMP180_REGISTER_OUT_MSB)
  let r7 := andAlso r6 (i2c_start bmp180.i2c_address .I2C_MODE_READ)
  let r8 := andRead r7 0 i2c_read_byte_ACK
  let r9 := andRead (r8.1, r8.2.2) 0 i2c_read_byte_ACK
  let r10 := andRead (r9.1, r9.2.2) 0 i2c_read_byte_NACK
  let s11 := i2c_stop r10.2.2
  if r10.1 then (r10.1, pressure_value bmp180 r8.2.1 r9.2.1 r10.2.1, s11)
  else (r10.1, press, s11)

/-- `i2c_read_uin16`; the second component is the new value of `*result`. -/
def i2c_read_uin16 (i2c_address reg : Nat) (result : Int) (s : I2C) : Bool × Int × I2C :=
  let r1 := i2c_start i2c_address .I2C_MODE_WRITE s
  let r2 := andAlso r1 (i2c_write_byte reg)
  let r3 := andAlso r2 (i2c_start i2c_address .I2C_MODE_READ)
  let r4 := andRead r3 0 i2c_read_byte_ACK
  let r5 := andRead (r4.1, r4.2.2) 0 i2c_read_byte_NACK
  let result1 := if r5.1 then to_uint16 (to_int16 (((r4.2.1 <<< 8) ||| r5.2.1 : Nat) : Int)) else result
  (r5.1, result1, i2c_stop r5.2.2)

/-- `i2c_read_in16`; the second component is the new value of `*result`. -/
def i2c_read_in16 (i2c_address reg : Nat) (result : Int) (s : I2C) : Bool × Int × I2C :=
  let r := i2c_read_uin16 i2c_address reg 0 s
  (r.1, if r.1 then to_int16 r.2.1 else result, r.2.2)

/-- `bmp180_reset`. -/
def bmp180_reset (bmp180 : bmp180_t) (s : I2C) : Bool × I2C :=
  let r1 := i2c_start bmp180.i2c_address .I2C_MODE_WRITE s
  let r2 := andAlso r1 (i2c_write_byte BMP180_REGISTER_SOFT_RESET)
  let r3 := andAlso r2 (i2c_write_byte BMP180_START_SOFT_RESET)
  (r3.1, i2c_stop r3.2)

/-- `bmp180_get_id`; the second component is the new value of `*chip_id`. -/
def bmp180_get_id (bmp180 : bmp180_t) (chip_id : Nat) (s : I2C) : Bool × Nat × I2C :=
  let r1 := i2c_start bmp180.i2c_address .I2C_MODE_WRITE s
  let r2 := andAlso r1 (i2c_write_byte BMP180_REGISTER_CHIP_ID)
  let r3 := andAlso r2 (i2c_start bmp180.i2c_address .I2C_MODE_READ)
  let r4 := andRead r3 chip_id i2c_read_byte_NACK
  (r4.1, r4.2.1, i2c_stop r4.2.2)

/-! ## Rendering pipeline (`lib/ssd1306/ssd1306.c`) -/

/-- Number of bits in a byte, `ssd1306_def.h`. -/
def SSD1306_BITS_IN_BYTE : Nat := 8
/-- Number of segments in one column of a page. -/
def SSD1306_BITS_PER_COLUMN : Nat := 8
/-- Display size in bytes: `SSD1306_WIDTH * SSD1306_HEIGHT / SSD1306_BITS_IN_BYTE`. -/
def SSD1306_DISPLAY_BYTES : Nat := 128 * 64 / 8
/-- Control byte announcing commands. -/
def SSD1306_SEND_COMMAND : Nat := 0x00
/-- Control byte announcing display data. -/
def SSD1306_SEND_DATA : Nat := 0x40
/-- Set column address command. -/
def SSD1306_COLUMN_START_END_ADDRESS_COMMAND : Nat := 0x21
/-- First column. -/
def SSD1306_COLUMN_START_ADDRESS : Nat := 0x00
/-- Last column. -/
def SSD1306_COLUMN_END_ADDRESS : Nat := 0x7F
/-- Set page address command. -/
def SSD1306_PAGE_START_END_ADDRESS_COMMAND : Nat := 0x22
/-- First page. -/
def SSD1306_PAGE_START_ADDRESS : Nat := 0x00
/-- Last page. -/
def SSD1306_PAGE_END_ADDRESS : Nat := 0x07
/-- Set display start line command. -/
def SSD1306_DISPLAY_START_LINE_COMMAND : Nat := 0x40

/-- A bitmap pointer `const uint8_t*`: the flash memory seen from the pointer,
`bitmap i` being the byte `bitmap[i]`. -/
abbrev ssd1306_bitmap_t : Type := Nat → Nat

/-- One glyph of a font; `bitmap` is `none` for a `NULL` pointer. -/
structure ssd1306_letter_t where
  letter : Nat
  bitmap : Option ssd1306_bitmap_t

/-- A glyph table. -/
structure ssd1306_font_t where
  width : Nat
  height : Nat
  size : Nat
  letter_spacing : Nat
  data : List ssd1306_letter_t

/-- The display session `ssd1306_t`; `font` is `none` for a `NULL` pointer. -/
structure ssd1306_t where
  i2c_address : Nat
  font : Option ssd1306_font_t

/-- `div_ceil`, on `uint8_t`. -/
def div_ceil (a b : Nat) : Nat := (a / b + (if a % b > 0 then 1 else 0)) % 256

/-- `ssd1306_send_command`. -/
def ssd1306_send_command (ssd1306 : ssd1306_t) (command : Nat) (s : I2C) : Bool × I2C :=
  let r1 := i2c_start ssd1306.i2c_address .I2C_MODE_WRITE s
  let r2 := andAlso r1 (i2c_write_byte SSD1306_SEND_COMMAND)
  let r3 := andAlso r2 (i2c_write_byte command)
  (r3.1, i2c_stop r3.2)

/-- `ssd1306_send_command_value`; the flag is combined with the bitwise `&`. -/
def ssd1306_send_command_value (ssd1306 : ssd1306_t) (command value : Nat) (s : I2C) : Bool × I2C :=
  let r1 := i2c_start ssd1306.i2c_address .I2C_MODE_WRITE s
  let r2 := bitAnd r1 (i2c_write_byte SSD1306_SEND_COMMAND)
  let r3 := bitAnd r2 (i2c_write_byte command)
  let r4 := bitAnd r3 (i2c_write_byte value)
  (r4.1, i2c_stop r4.2)

/-- `is_valid_page`. -/
def is_valid_page (page : Nat) : Bool :=
  decide (page ≥ SSD1306_PAGE_START_ADDRESS) && decide (page ≤ SSD1306_PAGE_END_ADDRESS)

/-- `is_valid_column`. -/
def is_valid_column (column : Nat) : Bool :=
  decide (column ≥ SSD1306_COLUMN_START_ADDRESS) && decide (column ≤ SSD1306_COLUMN_END_ADDRESS)

/-- `ssd1306_set_area`. -/
def ssd1306_set_area (ssd1306 : ssd1306_t) (start_page end_page start_column end_column : Nat)
    (s : I2C) : Bool × I2C :=
  let r1 := i2c_start ssd1306.i2c_address .I2C_MODE_WRITE s
  let r2 := andAlso r1 (i2c_write_byte SSD1306_SEND_COMMAND)
  let r3 := andAlso r2 (i2c_write_byte SSD1306_DISPLAY_START_LINE_COMMAND)
  let r6 :=
    if is_valid_page start_page && is_valid_page end_page then
      andAlso (andAlso (andAlso r3 (i2c_write_byte SSD1306_PAGE_START_END_ADDRESS_COMMAND))
        (i2c_write_byte start_page)) (i2c_write_byte end_page)
    else r3
  let r9 :=
    if is_valid_column start_column && is_valid_column end_column then
      andAlso (andAlso (andAlso r6 (i2c_write_byte SSD1306_COLUMN_START_END_ADDRESS_COMMAND))
        (i2c_write_byte start_column)) (i2c_write_byte end_column)
    else r6
  (r9.1, i2c_stop r9.2)

/-- `ssd1306_clear_display`. -/
def ssd1306_clear_display (ssd1306 : ssd1306_t) (s : I2C) : Bool × I2C :=
  let r1 := ssd1306_set_area ssd1306 SSD1306_PAGE_START_ADDRESS SSD1306_PAGE_END_ADDRESS
    SSD1306_COLUMN_START_ADDRESS SSD1306_COLUMN_END_ADDRESS s
  let r2 := andAlso r1 (i2c_start ssd1306.i2c_address .I2C_MODE_WRITE)
  let r3 := andAlso r2 (i2c_write_byte SSD1306_SEND_DATA)
  let r4 := (List.range SSD1306_DISPLAY_BYTES).foldl (fun r _ => andAlso r (i2c_write_byte 0x00)) r3
  (r4.1, i2c_stop r4.2)

/-- The macro `bit_is_set(sfr, bit)` of `avr/sfr_defs.h`: `sfr & _BV(bit)`, used as a condition. -/
def bit_is_set (sfr bit : Nat) : Bool := (sfr &&& (1 <<< bit)) != 0

/-- The macro `set_bit(reg, bit)`: `reg |= _BV(bit)` on a `uint8_t`. -/
def set_bit (reg bit : Nat) : Nat := (reg ||| (1 <<< bit)) % 256

/-- The macro `clear_bit(reg, bit)`: `reg &= ~_BV(bit)` on a `uint8_t`; `~` acts on the 16-bit `int`. -/
def clear_bit (reg bit : Nat) : Nat := (reg &&& (0xFFFF ^^^ (1 <<< bit))) % 256

/-- The macro `copy_bit(src_reg, dst_reg, src_bit, dst_bit)`; returns the new `dst_reg`. -/
def copy_bit (src_reg dst_reg src_bit dst_bit : Nat) : Nat :=
  if bit_is_set src_reg src_bit then set_bit dst_reg dst_bit else clear_bit dst_reg dst_bit

/-- `const uint16_t max_index = width * height / SSD1306_BITS_IN_BYTE;` computed in `int`. -/
def draw_bitmap_max_index (width height : Nat) : Nat :=
  (to_uint16 (Int.tdiv (to_int16 ((width : Int) * (height : Int))) 8)).toNat

/-- `const uint16_t index = i * x_len + x + y * width;` computed in `int`. -/
def draw_bitmap_index (x_len width y x i : Nat) : Nat :=
  (to_uint16 (to_int16 (((i * x_len + x + y * width : Nat) : Int)))).toNat

/-- The array `buff` after the gather loop of lines 341-347, as a function of the position `i`. -/
def draw_bitmap_buff (bitmap : ssd1306_bitmap_t) (width height y x : Nat) (i : Nat) : Nat :=
  if draw_bitmap_index (div_ceil width SSD1306_BITS_IN_BYTE) width y x i
      < draw_bitmap_max_index width height
  then bitmap (draw_bitmap_index (div_ceil width SSD1306_BITS_IN_BYTE) width y x i) % 256
  else 0

/-- The value of `dst_value` after the inner loop of lines 349-354. -/
def draw_bitmap_dst_value (buff : Nat → Nat) (col : Nat) : Nat :=
  (List.range SSD1306_BITS_IN_BYTE).foldl (fun dst_value bit => copy_bit (buff bit) dst_value col bit) 0

/-- `ssd1306_draw_bitmap`. -/
def ssd1306_draw_bitmap (ssd1306 : ssd1306_t) (start_page start_column width height : Nat)
    (bitmap : ssd1306_bitmap_t) (s : I2C) : Bool × I2C :=
  let end_page := (height / SSD1306_BITS_PER_COLUMN + start_page) % 256
  let end_column := (to_uint8 ((start_column : Int) + (width : Int) - 1)).toNat
  let r1 := ssd1306_set_area ssd1306 start_page end_page start_column end_column s
  let r2 := andAlso r1 (i2c_start ssd1306.i2c_address .I2C_MODE_WRITE)
  let r3 := andAlso r2 (i2c_write_byte SSD1306_SEND_DATA)
  let x_len := div_ceil width SSD1306_BITS_IN_BYTE
  let y_len := div_ceil height SSD1306_BITS_IN_BYTE
  let r4 := (List.range y_len).foldl (fun r y =>
    (List.range x_len).foldl (fun r x =>
      (List.range SSD1306_BITS_IN_BYTE).foldl (fun r col =>
        andAlso r (i2c_write_byte (draw_bitmap_dst_value (draw_bitmap_buff bitmap width height y x) col)))
        r) r) r3
  (r4.1, i2c_stop r4.2)

/-! ## Observations on the call log -/

/-- The events recorded between two engine states. -/
def issued (s s1 : I2C) : List Event := s1.log.drop s.log.length

/-- Whether an event is a call of `i2c_stop`. -/
def Event.isStop (e : Event) : Bool := e.prim == .stop

/-- Whether an event is a call of `i2c_start`. -/
def Event.isStart (e : Event) : Bool :=
  match e.prim with
  | .start _ _ => true
  | _ => false

/-- The bytes passed to `i2c_write_byte` in a list of events. -/
def writtenBytes : List Event → List Nat
  | [] => []
  | ⟨.write b, _⟩ :: es => b :: writtenBytes es
  | _ :: es => writtenBytes es

/-- The events of the last transaction: those after the last call of `i2c_start`. -/
def lastTransaction (evs : List Event) : List Event :=
  (evs.reverse.takeWhile (fun e => !e.isStart)).reverse

/-- The data stream of the last transaction: the bytes written after its first byte
(the control byte `0x40`). -/
def dataStream (evs : List Event) : List Nat := (writtenBytes (lastTransaction evs)).tail

/-- No primitive other than `i2c_stop` is called after a primitive returned false. -/
def StopsAfterFailure (evs : List Event) : Prop :=
  ∀ pre e post, evs = pre ++ e :: post → e.ok = false → ∀ f ∈ post, f.prim = Prim.stop

/-- Executable form of `StopsAfterFailure`. -/
def stopsAfterFailure : List Event → Bool
  | [] => true
  | e :: es => (e.ok || es.all Event.isStop) && stopsAfterFailure es

/-- The hardware acknowledges everything: a start condition is answered by `TW_START`, an
address byte by the SLA acknowledge of its direction bit, a data byte by `TW_MT_DATA_ACK`,
a read by the status matching the requested acknowledge. -/
def ackStatus : BusOp → Nat
  | .startCondition => TW_START
  | .address sla_rw => if sla_rw % 2 = 0 then TW_MT_SLA_ACK else TW_MR_SLA_ACK
  | .dataOut _ => TW_MT_DATA_ACK
  | .dataInAck => TW_MR_DATA_ACK
  | .dataInNack => TW_MR_DATA_NACK

/-- Whether the primitive that carries out the bus operation `op` takes the masked status
`status` for success: `TW_START` or `TW_REP_START` after a start condition, the SLA
acknowledge of the direction bit after an address byte, `TW_MT_DATA_ACK` after a data byte,
`TW_MR_DATA_ACK` or `TW_MR_DATA_NACK` after a read with the matching acknowledge. -/
def accepted (op : BusOp) (status : Nat) : Bool :=
  match op with
  | .startCondition => status == TW_START || status == TW_REP_START
  | .address sla_rw => status == (if sla_rw % 2 = 0 then TW_MT_SLA_ACK else TW_MR_SLA_ACK)
  | .dataOut _ => status == TW_MT_DATA_ACK
  | .dataInAck => status == TW_MR_DATA_ACK
  | .dataInNack => status == TW_MR_DATA_NACK

/-- A ready engine on a bus where every primitive succeeds: whatever the operation and its
position, the status byte the hardware latches is, once the prescaler bits are masked out
(`TWSR & 0xF8`), one that the primitive accepts.  A start condition may be answered with
`TW_START` or with `TW_REP_START`. -/
def AllAck (s : I2C) : Prop :=
  s.i2c_ready = true ∧ ∀ t op, accepted op ((s.bus t op).1 % 256 &&& 0xF8) = true

/-- An acknowledging bus delivering the data byte `data t` at the `t`-th bus operation. -/
def ackBus (data : Nat → Nat) : Nat → BusOp → Nat × Nat := fun t op => (ackStatus op, data t)

/-- An acknowledging bus on which the start conditions at the operations selected by `rep`
are answered with `TW_REP_START`, as the hardware does for a start condition that follows a
transfer without a stop in between; every other operation is answered as on `ackBus`. -/
def repStartBus (rep : Nat → Bool) (data : Nat → Nat) : Nat → BusOp → Nat × Nat := fun t op =>
  match op with
  | .startCondition => (if rep t then TW_REP_START else TW_START, data t)
  | o => (ackStatus o, data t)

/-- A ready engine with nothing logged, on bus `bus`. -/
def readyEngine (bus : Nat → BusOp → Nat × Nat) : I2C :=
  { i2c_ready := true, i2c_error := 0, TWBR := 0, TWCR := 0, TWSR := 0xF8, TWDR := 0,
    tick := 0, bus := bus, log := [] }

/-- The engine before `i2c_init`: not ready, nothing logged. -/
def idleEngine (bus : Nat → BusOp → Nat × Nat) : I2C :=
  { i2c_ready := false, i2c_error := 0, TWBR := 0, TWCR := 0, TWSR := 0xF8, TWDR := 0,
    tick := 0, bus := bus, log := [] }

/-! ## Reference formulas, written from the specification -/

/-- Specification: `x1 = (raw − AC6) × AC5 / 2^15`, truncating integer division. -/
def spec_temperature_x1 (data : bmp180_calibration_data_t) (raw : Int) : Int :=
  Int.tdiv ((raw - data.AC6) * data.AC5) (2 ^ 15)

/-- Specification: `x2 = MC × 2^11 / (x1 + MD)`, truncating integer division. -/
def spec_temperature_x2 (data : bmp180_calibration_data_t) (x1 : Int) : Int :=
  Int.tdiv (data.MC * 2 ^ 11) (x1 + data.MD)

/-- Specification: `B5 = x1 + x2`. -/
def spec_temperature_B5 (data : bmp180_calibration_data_t) (raw : Int) : Int :=
  spec_temperature_x1 data raw + spec_temperature_x2 data (spec_temperature_x1 data raw)

/-- Specification: temperature in tenths of a degree, `(B5 + 8) / 2^4`. -/
def spec_temperature (B5 : Int) : Int := Int.tdiv (B5 + 8) (2 ^ 4)

/-- Specification: the documented branch on `b7`, in unbounded integers. -/
def spec_pressure_p (b7 b4 : Int) : Int :=
  if b7 < 2 ^ 31 then (b7 * 2) / b4 else (b7 / b4) * 2

/-- Specification: the documented sensor reduction with truncating integer division at every
division step, the inner quotients `b6*b6/2^12` and `p/2^8` included. -/
def spec_pressure (data : bmp180_calibration_data_t) (mode : Nat) (B5 up : Int) : Int :=
  let b6 := B5 - 4000
  let x1 := Int.tdiv (data.B2 * Int.tdiv (b6 * b6) (2 ^ 12)) (2 ^ 11)
  let x2 := Int.tdiv (data.AC2 * b6) (2 ^ 11)
  let x3 := x1 + x2
  let b3 := Int.tdiv (((data.AC1 * 4 + x3) * 2 ^ mode) + 2) 4
  let x1 := Int.tdiv (data.AC3 * b6) (2 ^ 13)
  let x2 := Int.tdiv (data.B1 * Int.tdiv (b6 * b6) (2 ^ 12)) (2 ^ 16)
  let x3 := Int.tdiv (x1 + x2 + 2) 4
  let b4 := Int.tdiv (data.AC4 * (x3 + 32768)) (2 ^ 15)
  let b7 := (up - b3) * (50000 / 2 ^ mode)
  let p := spec_pressure_p b7 b4
  let x1 := Int.tdiv p (2 ^ 8) * Int.tdiv p (2 ^ 8)
  let x1 := Int.tdiv (x1 * 3038) (2 ^ 16)
  let x2 := Int.tdiv (-7357 * p) (2 ^ 16)
  p + Int.tdiv (x1 + x2 + 3791) (2 ^ 4)

/-- Binary32 reading of the temperature formula: `x1 = (raw − AC6) × AC5 / 2^15`, the product
being rounded to 24 significant bits when it is converted to `double`, the quotient truncated
toward zero. -/
def f32_temperature_x1 (data : bmp180_calibration_data_t) (raw : Int) : Int :=
  Int.tdiv (round24 ((raw - data.AC6) * data.AC5)) (2 ^ 15)

/-- The binary32 quotient of two integers that are binary32 values, truncated toward zero. -/
def f32_quotient (a b : Int) : Int := Dbl.trunc (Dbl.div ⟨a, 0⟩ ⟨b, 0⟩)

/-- Binary32 reading of the temperature formula: `x2 = MC × 2^11 / (x1 + MD)`, the quotient
being rounded to 24 significant bits before it is truncated. -/
def f32_temperature_x2 (data : bmp180_calibration_data_t) (x1 : Int) : Int :=
  f32_quotient (data.MC * 2 ^ 11) (x1 + data.MD)

/-- Binary32 reading of the temperature formula: `B5 = x1 + x2`. -/
def f32_temperature_B5 (data : bmp180_calibration_data_t) (raw : Int) : Int :=
  f32_temperature_x1 data raw + f32_temperature_x2 data (f32_temperature_x1 data raw)

/-- Binary32 reading of the temperature formula: `(B5 + 8) / 2^4`, the sum being rounded to 24
significant bits when it is converted to `double`. -/
def f32_temperature (B5 : Int) : Int := Int.tdiv (round24 (B5 + 8)) (2 ^ 4)

/-- Binary32 reading of the reduction, in unbounded integers: `b3`.  An integer is rounded to
24 significant bits when it is converted to `double`, a product of two `double` values is
rounded likewise, and the quotient `b6*b6/2^12` is not truncated before it is multiplied by
`B2`. -/
def f32_b3 (data : bmp180_calibration_data_t) (mode : Nat) (b6 : Int) : Int :=
  let x1 := Int.tdiv (round24 (data.B2 * round24 (b6 * b6))) (2 ^ 23)
  let x2 := Int.tdiv (round24 (data.AC2 * b6)) (2 ^ 11)
  Int.tdiv ((data.AC1 * 4 + (x1 + x2)) * 2 ^ mode + 2) 4

/-- No step of `f32_b3` leaves the range of `int32_t`. -/
def f32_b3_fits (data : bmp180_calibration_data_t) (mode : Nat) (b6 : Int) : Prop :=
  let x1 := Int.tdiv (round24 (data.B2 * round24 (b6 * b6))) (2 ^ 23)
  let x2 := Int.tdiv (round24 (data.AC2 * b6)) (2 ^ 11)
  fits32 (b6 * b6) ∧ fits32 x1 ∧ fits32 (data.AC2 * b6) ∧ fits32 x2 ∧ fits32 (x1 + x2) ∧
  fits32 (data.AC1 * 4) ∧ fits32 (data.AC1 * 4 + (x1 + x2)) ∧
  fits32 ((data.AC1 * 4 + (x1 + x2)) * 2 ^ mode) ∧
  fits32 ((data.AC1 * 4 + (x1 + x2)) * 2 ^ mode + 2)

instance (data : bmp180_calibration_data_t) (mode : Nat) (b6 : Int) :
    Decidable (f32_b3_fits data mode b6) := by unfold f32_b3_fits; infer_instance

/-- The third intermediate `x3` of the `b4` step, binary32 reading. -/
def f32_x3 (data : bmp180_calibration_data_t) (b6 : Int) : Int :=
  let x1 := Int.tdiv (round24 (data.AC3 * b6)) (2 ^ 13)
  let x2 := Int.tdiv (round24 (data.B1 * round24 (b6 * b6))) (2 ^ 28)
  Int.tdiv (round24 (x1 + x2 + 2)) (2 ^ 2)

/-- Binary32 reading of the reduction, in unbounded integers: `b4`. -/
def f32_b4 (data : bmp180_calibration_data_t) (b6 : Int) : Int :=
  Int.tdiv (round24 (data.AC4 * (f32_x3 data b6 + 32768))) (2 ^ 15)

/-- No step of `f32_b4` leaves the range of its C type. -/
def f32_b4_fits (data : bmp180_calibration_data_t) (b6 : Int) : Prop :=
  let x1 := Int.tdiv (round24 (data.AC3 * b6)) (2 ^ 13)
  let x2 := Int.tdiv (round24 (data.B1 * round24 (b6 * b6))) (2 ^ 28)
  fits32 (b6 * b6) ∧ fits32 (data.AC3 * b6) ∧ fits32 x1 ∧ fits32 x2 ∧ fits32 (x1 + x2) ∧
  fits32 (x1 + x2 + 2) ∧ fits32 (f32_x3 data b6) ∧ fits32 (f32_x3 data b6 + 32768) ∧
  0 ≤ f32_x3 data b6 + 32768 ∧ fitsU32 (data.AC4 * (f32_x3 data b6 + 32768)) ∧
  fitsU32 (f32_b4 data b6)

instance (data : bmp180_calibration_data_t) (b6 : Int) :
    Decidable (f32_b4_fits data b6) := by unfold f32_b4_fits; infer_instance

/-- Binary32 reading of the final compensation, in unbounded integers.  The factors `p/2^8`
are not truncated before they are multiplied, and the last quotient is added to `p` before
the sum is truncated; `p`, the product and the sum are rounded to 24 significant bits. -/
def f32_final (p : Int) : Int :=
  let x1 := Int.tdiv (round24 (round24 p * round24 p)) (2 ^ 16)
  let x1 := Int.tdiv (round24 (x1 * 3038)) (2 ^ 16)
  let x2 := Int.tdiv (round24 (-7357 * p)) (2 ^ 16)
  Int.tdiv (round24 (round24 p * 2 ^ 4 + round24 (x1 + x2 + 3791))) (2 ^ 4)

/-- No step of `f32_final` leaves the range of `int32_t`. -/
def f32_final_fits (p : Int) : Prop :=
  let x1 := Int.tdiv (round24 (round24 p * round24 p)) (2 ^ 16)
  let x1b := Int.tdiv (round24 (x1 * 3038)) (2 ^ 16)
  let x2 := Int.tdiv (round24 (-7357 * p)) (2 ^ 16)
  fits32 x1 ∧ fits32 (x1 * 3038) ∧ fits32 x1b ∧ fits32 (-7357 * p) ∧ fits32 x2 ∧
  fits32 (x1b + x2) ∧ fits32 (x1b + x2 + 3791) ∧
  fits32 (Int.tdiv (round24 (round24 p * 2 ^ 4 + round24 (x1b + x2 + 3791))) (2 ^ 4))

instance (p : Int) : Decidable (f32_final_fits p) := by unfold f32_final_fits; infer_instance

/-- Binary32 reading of the whole reduction, in unbounded integers. -/
def f32_pressure (data : bmp180_calibration_data_t) (mode : Nat) (B5 up : Int) : Int :=
  f32_final (spec_pressure_p ((up - f32_b3 data mode (B5 - 4000)) * (50000 / 2 ^ mode))
    (f32_b4 data (B5 - 4000)))

/-- No intermediate value of the reduction leaves the range of its C type. -/
def f32_pressure_fits (data : bmp180_calibration_data_t) (mode : Nat) (B5 up : Int) : Prop :=
  fits32 (B5 - 4000) ∧ f32_b3_fits data mode (B5 - 4000) ∧ f32_b4_fits data (B5 - 4000) ∧
  fitsU32 (up - f32_b3 data mode (B5 - 4000)) ∧
  fitsU32 ((up - f32_b3 data mode (B5 - 4000)) * (50000 / 2 ^ mode)) ∧
  fits32 (spec_pressure_p ((up - f32_b3 data mode (B5 - 4000)) * (50000 / 2 ^ mode))
    (f32_b4 data (B5 - 4000))) ∧
  f32_final_fits (spec_pressure_p ((up - f32_b3 data mode (B5 - 4000)) * (50000 / 2 ^ mode))
    (f32_b4 data (B5 - 4000)))

instance (data : bmp180_calibration_data_t) (mode : Nat) (B5 up : Int) :
    Decidable (f32_pressure_fits data mode B5 up) := by unfold f32_pressure_fits; infer_instance

/-- The calibration coefficients of the data sheet example. -/
def datasheet_calibration : bmp180_calibration_data_t :=
  ⟨408, -72, -14383, 32741, 32757, 23153, 6190, 4, -32768, -8711, 2868⟩

/-- A sensor instance in ultra low power mode with the data sheet calibration. -/
def datasheet_sensor (B5 : Int) : bmp180_t :=
  ⟨0x77, .BMP180_ULTRA_LOW_POWER_MODE, datasheet_calibration, B5⟩

/-- Data bytes of a bus that answers the temperature read with `UT = 27898 = 0x6CFA`
(operations 9 and 10) and the following pressure read with `UP = 23843 = 0x5D23`
(operations 20 to 22). -/
def datasheet_data : Nat → Nat
  | 9 => 0x6C
  | 10 => 0xFA
  | 20 => 0x5D
  | 21 => 0x23
  | _ => 0

/-- Data bytes of a bus that answers a pressure read with `0x5D`, `0x43`, `0x00`. -/
def pressure_data_5D43 : Nat → Nat
  | 9 => 0x5D
  | 10 => 0x43
  | _ => 0

/-- The bus of the data sheet example as the TWI hardware answers it: the temperature read
occupies operations 0 to 10 and the pressure read operations 11 to 22; the start conditions
at operations 7 and 18 follow a register write without a stop and are answered with
`TW_REP_START`. -/
def datasheet_bus : Nat → BusOp → Nat × Nat :=
  repStartBus (fun t => t == 7 || t == 18) datasheet_data

/-- Data bytes of a bus that answers a temperature read with `0x66 0x14` (`UT = 26132`). -/
def temperature_data_6614 : Nat → Nat
  | 9 => 0x66
  | 10 => 0x14
  | _ => 0

/-- A calibration record for which no value of the temperature formula is rounded at the
reading `UT = 27898`: the data sheet record with `AC5 = 400` and `MC = -8000`. -/
def small_calibration : bmp180_calibration_data_t :=
  ⟨408, -72, -14383, 32741, 400, 23153, 6190, 4, -32768, -8000, 2868⟩

/-- Data bytes of a bus that answers a pressure read with `0x6D`, `0x30`, `0x00`. -/
def pressure_data_6D30 : Nat → Nat
  | 9 => 0x6D
  | 10 => 0x30
  | _ => 0

/-- A calibration record with `AC5 = 32768`, `MD = 100` and every other coefficient zero. -/
def half_scale_calibration : bmp180_calibration_data_t :=
  ⟨0, 0, 0, 0, 32768, 0, 0, 0, 0, 0, 100⟩

/-- A calibration record inside the ranges of its C types with extreme `AC5` and `AC6`. -/
def extreme_calibration : bmp180_calibration_data_t :=
  ⟨0, 0, 0, 0, 65535, 65535, 0, 0, 0, 0, 1⟩

/-- A calibration record with `AC4 = 1` and every other coefficient zero. -/
def unit_calibration : bmp180_calibration_data_t :=
  ⟨0, 0, 0, 1, 0, 0, 0, 0, 0, 0, 0⟩

/-- The bytes handed to `i2c_write_byte` by the loops of lines 339-358 of `ssd1306.c`, in the
order of the calls: for every `y`, for every `x`, for every `col` the value `dst_value`. -/
def draw_bitmap_stream (width height : Nat) (bitmap : ssd1306_bitmap_t) : List Nat :=
  (List.range (div_ceil height SSD1306_BITS_IN_BYTE)).flatMap fun y =>
    (List.range (div_ceil width SSD1306_BITS_IN_BYTE)).flatMap fun x =>
      (List.range SSD1306_BITS_IN_BYTE).map fun col =>
        draw_bitmap_dst_value (draw_bitmap_buff bitmap width height y x) col

/-- The statement `is_ok = is_ok && i2c_write_byte(b)` repeated for every byte of a list. -/
def writeAll (bytes : List Nat) (r : Bool × I2C) : Bool × I2C :=
  bytes.foldl (fun r b => andAlso r (i2c_write_byte b)) r

/-- The flag is set and the engine is ready on an acknowledging bus. -/
def Good (r : Bool × I2C) : Prop := r.1 = true ∧ AllAck r.2

/-- Specification (inverse transpose of one 8-byte group): output byte `i` has bit `c` taken
from bit `i` of group byte `c`. -/
def transpose_back_byte (group : Nat → Nat) (i : Nat) : Nat :=
  (List.range 8).foldl (fun acc c => acc + (if (group c).testBit i then 2 ^ c else 0)) 0

/-- Specification (inverse transpose): the byte written back to row-major index
`(8*y + i)*(w/8) + x` is output byte `i` of the group of band `y`, column band `x`, whose eight
bytes sit at positions `8*(y*(w/8) + x) + c` of the data stream. -/
def inverse_transpose (w h : Nat) (data : List Nat) : List Nat :=
  (List.range (w * h / 8)).map fun k =>
    transpose_back_byte
      (fun c => data.getD (8 * ((k / (w / 8)) / 8 * (w / 8) + k % (w / 8)) + c) 0)
      ((k / (w / 8)) % 8)

/-- The bitmap bytes of a `w` by `h` bitmap stored at `bitmap`: `w*h/8` bytes, row-major. -/
def bitmap_bytes (w h : Nat) (bitmap : ssd1306_bitmap_t) : List Nat :=
  (List.range (w * h / 8)).map fun i => bitmap i % 256

/-- Flash contents: a four byte bitmap `0xAA 0xAA 0xAA 0xAA` followed by bytes `0xFF`. -/
def short_bitmap_then_ff : ssd1306_bitmap_t := fun i => if i < 4 then 0xAA else 0xFF

/-- Flash contents: the same four byte bitmap followed by zero bytes. -/
def short_bitmap_then_zero : ssd1306_bitmap_t := fun i => if i < 4 then 0xAA else 0

/-- Flash contents: byte `i` is `i + 1`. -/
def counting_bitmap : ssd1306_bitmap_t := fun i => i + 1

/-- `i2c_stop` is called exactly once in the list of events, as its last element. -/
def StopOnceAtEnd (evs : List Event) : Prop :=
  evs.countP Event.isStop = 1 ∧ evs.getLast? = some ⟨.stop, true⟩

/-- Since the log `base`, no call of `i2c_stop` has been recorded. -/
def NoStopSince (base : List Event) (s : I2C) : Prop :=
  ∃ evs, s.log = base ++ evs ∧ ∀ e ∈ evs, e.isStop = false

/-- Status `TW_MT_SLA_NACK` of `util/twi.h`: SLA+W transmitted, NACK received. -/
def TW_MT_SLA_NACK : Nat := 0x20

/-- A bus on which the addressed slave does not acknowledge its address and everything else
is acknowledged. -/
def addressNackBus : Nat → BusOp → Nat × Nat := fun _ op =>
  match op with
  | .address _ => (TW_MT_SLA_NACK, 0)
  | o => (ackStatus o, 0)

/-- Since the log `base`, the calls recorded stop after the first failure, and while the flag
of the operation is still set every call recorded has succeeded. -/
def Orderly (base : List Event) (r : Bool × I2C) : Prop :=
  ∃ evs, r.2.log = base ++ evs ∧ stopsAfterFailure evs = true
    ∧ (r.1 = true → ∀ e ∈ evs, e.ok = true)

/-! ## Calibration read-out (`bmp180_init`) -/

/-- Calibration register addresses of `bmp180_def.h`. -/
def BMP180_EPROM_AC1 : Nat := 0xAA
/-- Register of `AC2`. -/
def BMP180_EPROM_AC2 : Nat := 0xAC
/-- Register of `AC3`. -/
def BMP180_EPROM_AC3 : Nat := 0xAE
/-- Register of `AC4`. -/
def BMP180_EPROM_AC4 : Nat := 0xB0
/-- Register of `AC5`. -/
def BMP180_EPROM_AC5 : Nat := 0xB2
/-- Register of `AC6`. -/
def BMP180_EPROM_AC6 : Nat := 0xB4
/-- Register of `B1`. -/
def BMP180_EPROM_B1 : Nat := 0xB6
/-- Register of `B2`. -/
def BMP180_EPROM_B2 : Nat := 0xB8
/-- Register of `MB`. -/
def BMP180_EPROM_MB : Nat := 0xBA
/-- Register of `MC`. -/
def BMP180_EPROM_MC : Nat := 0xBC
/-- Register of `MD`. -/
def BMP180_EPROM_MD : Nat := 0xBE

/-- One statement `is_ok = is_ok && read(bmp180->i2c_address, reg, &bmp180->data.FIELD)` of
`bmp180_init`: the register, the read function called, and the field the pointer designates
(how it is read and how it is written). -/
structure CalSlot where
  reg : Nat
  read : Nat → Nat → Int → I2C → Bool × Int × I2C
  get : bmp180_calibration_data_t → Int
  set : bmp180_calibration_data_t → Int → bmp180_calibration_data_t

/-- Line 50: `i2c_read_in16(..., BMP180_EPROM_AC1, &bmp180->data.AC1)`. -/
def slot_AC1 : CalSlot := ⟨BMP180_EPROM_AC1, i2c_read_in16, fun d => d.AC1, fun d v => { d with AC1 := v }⟩
/-- Line 51: `i2c_read_in16(..., BMP180_EPROM_AC2, &bmp180->data.AC2)`. -/
def slot_AC2 : CalSlot := ⟨BMP180_EPROM_AC2, i2c_read_in16, fun d => d.AC2, fun d v => { d with AC2 := v }⟩
/-- Line 52: `i2c_read_in16(..., BMP180_EPROM_AC3, &bmp180->data.AC3)`. -/
def slot_AC3 : CalSlot := ⟨BMP180_EPROM_AC3, i2c_read_in16, fun d => d.AC3, fun d v => { d with AC3 := v }⟩
/-- Line 53: `i2c_read_uin16(..., BMP180_EPROM_AC4, &bmp180->data.AC4)`. -/
def slot_AC4 : CalSlot := ⟨BMP180_EPROM_AC4, i2c_read_uin16, fun d => d.AC4, fun d v => { d with AC4 := v }⟩
/-- Line 54: `i2c_read_uin16(..., BMP180_EPROM_AC5, &bmp180->data.AC5)`. -/
def slot_AC5 : CalSlot := ⟨BMP180_EPROM_AC5, i2c_read_uin16, fun d => d.AC5, fun d v => { d with AC5 := v }⟩
/-- Line 55: `i2c_read_uin16(..., BMP180_EPROM_AC6, &bmp180->data.AC6)`. -/
def slot_AC6 : CalSlot := ⟨BMP180_EPROM_AC6, i2c_read_uin16, fun d => d.AC6, fun d v => { d with AC6 := v }⟩
/-- Line 56: `i2c_read_in16(..., BMP180_EPROM_B1, &bmp180->data.B1)`. -/
def slot_B1 : CalSlot := ⟨BMP180_EPROM_B1, i2c_read_in16, fun d => d.B1, fun d v => { d with B1 := v }⟩
/-- Line 57: `i2c_read_in16(..., BMP180_EPROM_B2, &bmp180->data.B2)`. -/
def slot_B2 : CalSlot := ⟨BMP180_EPROM_B2, i2c_read_in16, fun d => d.B2, fun d v => { d with B2 := v }⟩
/-- Line 58: `i2c_read_in16(..., BMP180_EPROM_MB, &bmp180->data.MB)`. -/
def slot_MB : CalSlot := ⟨BMP180_EPROM_MB, i2c_read_in16, fun d => d.MB, fun d v => { d with MB := v }⟩
/-- Line 59: `i2c_read_in16(..., BMP180_EPROM_MC, &bmp180->data.MC)`. -/
def slot_MC : CalSlot := ⟨BMP180_EPROM_MC, i2c_read_in16, fun d => d.MC, fun d v => { d with MC := v }⟩
/-- Line 60: `i2c_read_in16(..., BMP180_EPROM_MD, &bmp180->data.MD)`. -/
def slot_MD : CalSlot := ⟨BMP180_EPROM_MD, i2c_read_in16, fun d => d.MD, fun d v => { d with MD := v }⟩

/-- The call `read(i2c_address, reg, &data.FIELD)`: the read function receives the present
value of the field and returns its new value, which is stored back. -/
def calRead (i2c_address : Nat) (slot : CalSlot) (d : bmp180_calibration_data_t) (s : I2C) :
    Bool × bmp180_calibration_data_t × I2C :=
  ((slot.read i2c_address slot.reg (slot.get d) s).1,
    slot.set d (slot.read i2c_address slot.reg (slot.get d) s).2.1,
    (slot.read i2c_address slot.reg (slot.get d) s).2.2)

/-- The statement `is_ok = is_ok && read(...)`: the read is called only when `is_ok` holds. -/
def calStep (i2c_address : Nat) (r : Bool × bmp180_calibration_data_t × I2C) (slot : CalSlot) :
    Bool × bmp180_calibration_data_t × I2C :=
  if r.1 then calRead i2c_address slot r.2.1 r.2.2 else (false, r.2.1, r.2.2)

/-- `bmp180_init`; returns the result flag, the instance and the engine. -/
def bmp180_init (bmp180 : bmp180_t) (s : I2C) : Bool × bmp180_t × I2C :=
  let r0 : Bool × bmp180_calibration_data_t × I2C := (true, bmp180.data, s)
  let r1 := calStep bmp180.i2c_address r0 slot_AC1
  let r2 := calStep bmp180.i2c_address r1 slot_AC2
  let r3 := calStep bmp180.i2c_address r2 slot_AC3
  let r4 := calStep bmp180.i2c_address r3 slot_AC4
  let r5 := calStep bmp180.i2c_address r4 slot_AC5
  let r6 := calStep bmp180.i2c_address r5 slot_AC6
  let r7 := calStep bmp180.i2c_address r6 slot_B1
  let r8 := calStep bmp180.i2c_address r7 slot_B2
  let r9 := calStep bmp180.i2c_address r8 slot_MB
  let r10 := calStep bmp180.i2c_address r9 slot_MC
  let r11 := calStep bmp180.i2c_address r10 slot_MD
  (r11.1, { bmp180 with data := r11.2.1 }, r11.2.2)

/-- The eleven statements of `bmp180_init`, in the order of the source. -/
def calibration_slots : List CalSlot :=
  [slot_AC1, slot_AC2, slot_AC3, slot_AC4, slot_AC5, slot_AC6, slot_B1, slot_B2, slot_MB,
    slot_MC, slot_MD]

/-- The flag, calibration data and engine after the first `n` statements of `bmp180_init`. -/
def bmp180_init_upto (n : Nat) (bmp180 : bmp180_t) (s : I2C) :
    Bool × bmp180_calibration_data_t × I2C :=
  (calibration_slots.take n).foldl (calStep bmp180.i2c_address) (true, bmp180.data, s)

/-- The read of statement `k` (counted from 0), called in the state reached after the first
`k` statements. -/
def kth_calibration_read (k : Nat) (bmp180 : bmp180_t) (s : I2C) :
    Bool × bmp180_calibration_data_t × I2C :=
  calRead bmp180.i2c_address (calibration_slots.getD k slot_AC1)
    (bmp180_init_upto k bmp180 s).2.1 (bmp180_init_upto k bmp180 s).2.2

/-- Field number `k` of the calibration data, in the order of `bmp180_init`. -/
def calibration_field (k : Nat) (d : bmp180_calibration_data_t) : Int :=
  (calibration_slots.getD k slot_AC1).get d

/-- The 16-bit value `msb*256 + lsb` delivered by the bus to calibration read `k` of a
successful read-out started in state `s`: every read takes seven bus operations, the last two
of which deliver the bytes. -/
def calibration_raw (s : I2C) (k : Nat) : Int :=
  (((s.bus (s.tick + 7 * k + 5) BusOp.dataInAck).2 % 256 : Nat) : Int) * 256
    + (((s.bus (s.tick + 7 * k + 6) BusOp.dataInNack).2 % 256 : Nat) : Int)

/-- The EEPROM bytes of the data sheet calibration, register `0xAA` onwards. -/
def datasheet_eeprom : List Nat :=
  [0x01, 0x98, 0xFF, 0xB8, 0xC7, 0xD1, 0x7F, 0xE5, 0x7F, 0xF5, 0x5A, 0x71, 0x18, 0x2E, 0x00, 0x04,
    0x80, 0x00, 0xDD, 0xF9, 0x0B, 0x34]

/-- Data bytes of a bus that answers the eleven calibration reads (operations 0 to 76) with
the data sheet EEPROM and a following pressure read with `0x5D 0x23 0x00`. -/
def eeprom_then_pressure_data (t : Nat) : Nat :=
  if t < 77 then
    (if t % 7 = 5 then datasheet_eeprom.getD (2 * (t / 7)) 0
     else if t % 7 = 6 then datasheet_eeprom.getD (2 * (t / 7) + 1) 0 else 0)
  else if t = 86 then 0x5D else if t = 87 then 0x23 else 0

/-- The bus of `eeprom_then_pressure_data` as the TWI hardware answers it: within each of the
eleven register reads (operations `7k` to `7k + 6`) the start condition at operation `7k + 3`
follows the register write without a stop and is answered with `TW_REP_START`, and so is the
start condition at operation 84 of the pressure read (operations 77 to 88). -/
def eeprom_bus : Nat → BusOp → Nat × Nat :=
  repStartBus (fun t => (decide (t < 77) && t % 7 == 3) || t == 84) eeprom_then_pressure_data

/-- A bus that acknowledges the first `n` bus operations, delivering `0xFF` data bytes, and
answers every later operation with status `0x00` (bus error). -/
def ackUntilBus (n : Nat) : Nat → BusOp → Nat × Nat := fun t op =>
  if t < n then (ackStatus op, 0xFF) else (0x00, 0)

/-! ## Multiplex ratio (`ssd1306_set_multiplex_ratio`) -/

/-- Set multiplex ratio command. -/
def SSD1306_MUX_RATIO_COMMAND : Nat := 0xA8
/-- Smallest multiplex ratio. -/
def SSD1306_MUX_RATIO_MIN : Nat := 0x0F
/-- Largest multiplex ratio. -/
def SSD1306_MUX_RATIO_MAX : Nat := 0x3F

/-- `ssd1306_set_multiplex_ratio`. -/
def ssd1306_set_multiplex_ratio (ssd1306 : ssd1306_t) (value : Nat) (s : I2C) : Bool × I2C :=
  if decide (value ≥ SSD1306_MUX_RATIO_MIN) && decide (value ≤ SSD1306_MUX_RATIO_MAX) then
    ssd1306_send_command_value ssd1306 SSD1306_MUX_RATIO_COMMAND value s
  else (false, s)

/-- The bytes `ssd1306_set_area` writes after the address: the command control byte, the
start line reset, and the page and column commands of the valid ranges. -/
def set_area_bytes (start_page end_page start_column end_column : Nat) : List Nat :=
  [SSD1306_SEND_COMMAND, SSD1306_DISPLAY_START_LINE_COMMAND]
    ++ (if is_valid_page start_page && is_valid_page end_page then
          [SSD1306_PAGE_START_END_ADDRESS_COMMAND, start_page, end_page] else [])
    ++ (if is_valid_column start_column && is_valid_column end_column then
          [SSD1306_COLUMN_START_END_ADDRESS_COMMAND, start_column, end_column] else [])

/-! ## Display commands and setters (`ssd1306_def.h`, `ssd1306.c`) -/

/-- Set contrast control command. -/
def SSD1306_CONTRAST_COMMAND : Nat := 0x81
/-- Contrast after reset. -/
def SSD1306_CONTRAST_DEFAULT : Nat := 0x7F
/-- Normal display command. -/
def SSD1306_DISPLAY_NORMAL_COMMAND : Nat := 0xA6
/-- Inverse display command. -/
def SSD1306_DISPLAY_INVERSE_COMMAND : Nat := 0xA7
/-- Display off command. -/
def SSD1306_DISPLAY_OFF_COMMAND : Nat := 0xAE
/-- Display on command. -/
def SSD1306_DISPLAY_ON_COMMAND : Nat := 0xAF
/-- Set memory addressing mode command. -/
def SSD1306_MEMORY_ADDRESSING_MODE_COMMAND : Nat := 0x20
/-- Enumerator of `ssd1306_memory_addressing_mode_t`. -/
def SSD1306_MEMORY_ADDRESSING_MODE_HORIZONTAL : Nat := 0x00
/-- Enumerator of `ssd1306_memory_addressing_mode_t`. -/
def SSD1306_MEMORY_ADDRESSING_MODE_VERTICAL : Nat := 0x01
/-- Enumerator of `ssd1306_memory_addressing_mode_t`. -/
def SSD1306_MEMORY_ADDRESSING_MODE_PAGE : Nat := 0x02
/-- Segment re-map command, normal. -/
def SSD1306_SEGMENT_RE_MAP_NORMAL_COMMAND : Nat := 0xA0
/-- Segment re-map command, inverse. -/
def SSD1306_SEGMENT_RE_MAP_INVERSE_COMMAND : Nat := 0xA1
/-- COM output scan direction command, normal. -/
def SSD1306_COM_OUTPUT_SCAN_DIRECTION_NORMAL_COMMAND : Nat := 0xC0
/-- COM output scan direction command, remapped. -/
def SSD1306_COM_OUTPUT_SCAN_DIRECTION_REMAPPED_COMMAND : Nat := 0xC8
/-- Set display offset command. -/
def SSD1306_DISPLAY_OFFSET_COMMAND : Nat := 0xD3
/-- Smallest display offset. -/
def SSD1306_DISPLAY_OFFSET_MIN : Nat := 0x00
/-- Largest display offset. -/
def SSD1306_DISPLAY_OFFSET_MAX : Nat := 0x3F
/-- Set COM pins hardware configuration command. -/
def SSD1306_COM_PINS_HARDWARE_CONFIG_COMMAND : Nat := 0xDA
/-- Sequential COM pin configuration. -/
def SSD1306_COM_PINS_HARDWARE_CONFIG_SEQUENTIAL_COM_PIN : Nat := 0x00
/-- Alternative COM pin configuration. -/
def SSD1306_COM_PINS_HARDWARE_CONFIG_ALTERNATIVE_COM_PIN : Nat := 0x16
/-- Disable COM left/right remap. -/
def SSD1306_COM_PINS_HARDWARE_CONFIG_DISABLE_REMAP : Nat := 0x00
/-- Enable COM left/right remap. -/
def SSD1306_COM_PINS_HARDWARE_CONFIG_ENABLE_REMAP : Nat := 0x20
/-- Set display clock divide ratio and oscillator frequency command. -/
def SSD1306_DISPLAY_CLOCK_DIVIDE_COMMAND : Nat := 0xD5
/-- Smallest divide ratio. -/
def SSD1306_DISPLAY_CLOCK_DIVIDE_RATIO_MIN : Nat := 0x01
/-- Largest divide ratio. -/
def SSD1306_DISPLAY_CLOCK_DIVIDE_RATIO_MAX : Nat := 0x0F
/-- Smallest oscillator frequency. -/
def SSD1306_DISPLAY_CLOCK_OSCILLATOR_FREQUENCY_MIN : Nat := 0x00
/-- Largest oscillator frequency. -/
def SSD1306_DISPLAY_CLOCK_OSCILLATOR_FREQUENCY_MAX : Nat := 0x0F
/-- Set pre-charge period command. -/
def SSD1306_PRE_CHARGE_PERIOD_COMMAND : Nat := 0xD9
/-- Smallest pre-charge phase. -/
def SSD1306_PRE_CHARGE_PERIOD_PHASE_MIN : Nat := 0x01
/-- Largest pre-charge phase. -/
def SSD1306_PRE_CHARGE_PERIOD_PHASE_MAX : Nat := 0x0F
/-- Pre-charge phase 1 after reset. -/
def SSD1306_PRE_CHARGE_PERIOD_PHASE1_DEFAULT : Nat := 0x02
/-- Pre-charge phase 2 after reset. -/
def SSD1306_PRE_CHARGE_PERIOD_PHASE2_DEFAULT : Nat := 0x02
/-- Set VCOMH deselect level command. -/
def SSD1306_VCOMH_DESELECT_LEVEL_COMMAND : Nat := 0xDB
/-- Enumerator of `ssd1306_vcomh_deselect_level_t`. -/
def SSD1306_VCOMH_DESELECT_LEVEL0 : Nat := 0x00
/-- Enumerator of `ssd1306_vcomh_deselect_level_t`. -/
def SSD1306_VCOMH_DESELECT_LEVEL1 : Nat := 0x20
/-- Enumerator of `ssd1306_vcomh_deselect_level_t`. -/
def SSD1306_VCOMH_DESELECT_LEVEL2 : Nat := 0x30
/-- Set fade out and blinking command. -/
def SSD1306_FADE_OUT_BLINKING_COMMAND : Nat := 0x23
/-- Enumerator of `ssd1306_fade_out_blinking_mode_t`. -/
def SSD1306_FADE_OUT_BLINKING_DISABLE : Nat := 0x00
/-- Enumerator of `ssd1306_fade_out_blinking_mode_t`. -/
def SSD1306_FADE_OUT_MODE : Nat := 0x20
/-- Enumerator of `ssd1306_fade_out_blinking_mode_t`. -/
def SSD1306_BLINKING_MODE : Nat := 0x30
/-- Smallest fade time interval. -/
def SSD1306_FADE_OUT_BLINKING_TIME_INTERVAL_MIN : Nat := 0x00
/-- Largest fade time interval. -/
def SSD1306_FADE_OUT_BLINKING_TIME_INTERVAL_MAX : Nat := 0x0F
/-- Set zoom in command. -/
def SSD1306_ZOOM_IN_COMMAND : Nat := 0xD6
/-- Disable zoom in mode. -/
def SSD1306_ZOOM_IN_DISABLE : Nat := 0x00
/-- Enable zoom in mode. -/
def SSD1306_ZOOM_IN_ENABLE : Nat := 0x01
/-- Charge pump setting command. -/
def SSD1306_CHARGE_PUMP_COMMAND : Nat := 0x8D
/-- Enable charge pump. -/
def SSD1306_CHARGE_PUMP_ENABLE : Nat := 0x14
/-- Disable charge pump. -/
def SSD1306_CHARGE_PUMP_DISABLE : Nat := 0x10

/-- The configuration record `ssd1306_config_t`; members of an enumeration type hold the
integer value of the enumerator. -/
structure ssd1306_config_t where
  i2c_address : Nat
  contrast : Nat
  inverse : Bool
  memory_addressing_mode : Nat
  segment_re_map_inverse : Bool
  mux_ratio : Nat
  com_output_scan_direction_remapped : Bool
  com_alt_pin_config : Bool
  com_disable_left_right_remap : Bool
  divide_ratio : Nat
  oscillator_frequency : Nat
  pre_charge_period_phase_1 : Nat
  pre_charge_period_phase_2 : Nat
  vcomh_deselect_level : Nat
  fade_out_blinking_mode : Nat
  fade_out_time_interval : Nat
  zoom : Bool
  charge_pump : Bool
deriving DecidableEq, Repr

/-- `ssd1306_set_contrast`. -/
def ssd1306_set_contrast (ssd1306 : ssd1306_t) (contrast : Nat) (s : I2C) : Bool × I2C :=
  ssd1306_send_command_value ssd1306 SSD1306_CONTRAST_COMMAND contrast s

/-- `ssd1306_set_inverse`. -/
def ssd1306_set_inverse (ssd1306 : ssd1306_t) (enabled : Bool) (s : I2C) : Bool × I2C :=
  ssd1306_send_command ssd1306
    (if enabled then SSD1306_DISPLAY_INVERSE_COMMAND else SSD1306_DISPLAY_NORMAL_COMMAND) s

/-- `ssd1306_display_on`. -/
def ssd1306_display_on (ssd1306 : ssd1306_t) (s : I2C) : Bool × I2C :=
  ssd1306_send_command ssd1306 SSD1306_DISPLAY_ON_COMMAND s

/-- `ssd1306_display_off`. -/
def ssd1306_display_off (ssd1306 : ssd1306_t) (s : I2C) : Bool × I2C :=
  ssd1306_send_command ssd1306 SSD1306_DISPLAY_OFF_COMMAND s

/-- `ssd1306_set_offset`. -/
def ssd1306_set_offset (ssd1306 : ssd1306_t) (value : Nat) (s : I2C) : Bool × I2C :=
  if decide (value ≥ SSD1306_DISPLAY_OFFSET_MIN) && decide (value ≤ SSD1306_DISPLAY_OFFSET_MAX) then
    ssd1306_send_command_value ssd1306 SSD1306_DISPLAY_OFFSET_COMMAND value s
  else (false, s)

/-- `ssd1306_set_display_clock`. -/
def ssd1306_set_display_clock (ssd1306 : ssd1306_t) (divide_ratio oscillator_frequency : Nat)
    (s : I2C) : Bool × I2C :=
  if decide (divide_ratio ≥ SSD1306_DISPLAY_CLOCK_DIVIDE_RATIO_MIN)
      && decide (divide_ratio ≤ SSD1306_DISPLAY_CLOCK_DIVIDE_RATIO_MAX)
      && decide (oscillator_frequency ≥ SSD1306_DISPLAY_CLOCK_OSCILLATOR_FREQUENCY_MIN)
      && decide (oscillator_frequency ≤ SSD1306_DISPLAY_CLOCK_OSCILLATOR_FREQUENCY_MAX) then
    ssd1306_send_command_value ssd1306 SSD1306_DISPLAY_CLOCK_DIVIDE_COMMAND
      ((divide_ratio ||| (oscillator_frequency <<< 4)) % 256) s
  else (false, s)

/-- `ssd1306_set_memory_addressing_mode`. -/
def ssd1306_set_memory_addressing_mode (ssd1306 : ssd1306_t) (mode : Nat) (s : I2C) : Bool × I2C :=
  ssd1306_send_command_value ssd1306 SSD1306_MEMORY_ADDRESSING_MODE_COMMAND (mode % 256) s

/-- `ssd1306_set_vcomh_deselect_level`. -/
def ssd1306_set_vcomh_deselect_level (ssd1306 : ssd1306_t) (level : Nat) (s : I2C) : Bool × I2C :=
  if level == SSD1306_VCOMH_DESELECT_LEVEL0 || level == SSD1306_VCOMH_DESELECT_LEVEL1
      || level == SSD1306_VCOMH_DESELECT_LEVEL2 then
    ssd1306_send_command_value ssd1306 SSD1306_VCOMH_DESELECT_LEVEL_COMMAND (level % 256) s
  else (false, s)

/-- `ssd1306_set_pre_charge_period`. -/
def ssd1306_set_pre_charge_period (ssd1306 : ssd1306_t) (phase_1 phase_2 : Nat) (s : I2C) :
    Bool × I2C :=
  if decide (phase_1 ≥ SSD1306_PRE_CHARGE_PERIOD_PHASE_MIN)
      && decide (phase_1 ≤ SSD1306_PRE_CHARGE_PERIOD_PHASE_MAX)
      && decide (phase_2 ≥ SSD1306_PRE_CHARGE_PERIOD_PHASE_MIN)
      && decide (phase_2 ≤ SSD1306_PRE_CHARGE_PERIOD_PHASE_MAX) then
    ssd1306_send_command_value ssd1306 SSD1306_PRE_CHARGE_PERIOD_COMMAND
      (((phase_1 <<< 4) ||| phase_2) % 256) s
  else (false, s)

/-- `ssd1306_set_com_pins_hardware_config`. -/
def ssd1306_set_com_pins_hardware_config (ssd1306 : ssd1306_t)
    (com_alt_pin_config com_disable_left_right_remap : Bool) (s : I2C) : Bool × I2C :=
  let value1 := if com_alt_pin_config then SSD1306_COM_PINS_HARDWARE_CONFIG_ALTERNATIVE_COM_PIN
    else SSD1306_COM_PINS_HARDWARE_CONFIG_SEQUENTIAL_COM_PIN
  let value2 := if com_disable_left_right_remap then SSD1306_COM_PINS_HARDWARE_CONFIG_DISABLE_REMAP
    else SSD1306_COM_PINS_HARDWARE_CONFIG_ENABLE_REMAP
  ssd1306_send_command_value ssd1306 SSD1306_COM_PINS_HARDWARE_CONFIG_COMMAND
    ((value1 ||| value2) % 256) s

/-- `ssd1306_set_charge_pump`. -/
def ssd1306_set_charge_pump (ssd1306 : ssd1306_t) (enabled : Bool) (s : I2C) : Bool × I2C :=
  ssd1306_send_command_value ssd1306 SSD1306_CHARGE_PUMP_COMMAND
    (if enabled then SSD1306_CHARGE_PUMP_ENABLE else SSD1306_CHARGE_PUMP_DISABLE) s

/-- `ssd1306_set_segment_re_map`. -/
def ssd1306_set_segment_re_map (ssd1306 : ssd1306_t) (inverse : Bool) (s : I2C) : Bool × I2C :=
  ssd1306_send_command ssd1306
    (if inverse then SSD1306_SEGMENT_RE_MAP_INVERSE_COMMAND
      else SSD1306_SEGMENT_RE_MAP_NORMAL_COMMAND) s

/-- `ssd1306_set_com_output_scan_direction`. -/
def ssd1306_set_com_output_scan_direction (ssd1306 : ssd1306_t) (remapped : Bool) (s : I2C) :
    Bool × I2C :=
  ssd1306_send_command ssd1306
    (if remapped then SSD1306_COM_OUTPUT_SCAN_DIRECTION_REMAPPED_COMMAND
      else SSD1306_COM_OUTPUT_SCAN_DIRECTION_NORMAL_COMMAND) s

/-- `ssd1306_set_zoom`. -/
def ssd1306_set_zoom (ssd1306 : ssd1306_t) (enabled : Bool) (s : I2C) : Bool × I2C :=
  ssd1306_send_command_value ssd1306 SSD1306_ZOOM_IN_COMMAND
    (if enabled then SSD1306_ZOOM_IN_ENABLE else SSD1306_ZOOM_IN_DISABLE) s

/-- `ssd1306_set_fade_out_and_blinking`. -/
def ssd1306_set_fade_out_and_blinking (ssd1306 : ssd1306_t) (mode time_interval : Nat) (s : I2C) :
    Bool × I2C :=
  if (mode == SSD1306_FADE_OUT_BLINKING_DISABLE || mode == SSD1306_FADE_OUT_MODE
        || mode == SSD1306_BLINKING_MODE)
      && (decide (time_interval ≥ SSD1306_FADE_OUT_BLINKING_TIME_INTERVAL_MIN)
        && decide (time_interval ≤ SSD1306_FADE_OUT_BLINKING_TIME_INTERVAL_MAX)) then
    ssd1306_send_command_value ssd1306 SSD1306_FADE_OUT_BLINKING_COMMAND
      ((mode ||| time_interval) % 256) s
  else (false, s)

/-! ## Configuration sequence (`ssd1306_create_config`, `ssd1306_create`, `ssd1306_init`) -/

/-- `ssd1306_create_config`. -/
def ssd1306_create_config (i2c_address : Nat) : ssd1306_config_t :=
  { i2c_address := i2c_address
    contrast := SSD1306_CONTRAST_DEFAULT
    inverse := false
    memory_addressing_mode := SSD1306_MEMORY_ADDRESSING_MODE_HORIZONTAL
    segment_re_map_inverse := true
    mux_ratio := SSD1306_MUX_RATIO_MAX
    com_output_scan_direction_remapped := true
    com_alt_pin_config := true
    com_disable_left_right_remap := true
    divide_ratio := SSD1306_DISPLAY_CLOCK_DIVIDE_RATIO_MIN
    oscillator_frequency := SSD1306_DISPLAY_CLOCK_OSCILLATOR_FREQUENCY_MAX
    pre_charge_period_phase_1 := SSD1306_PRE_CHARGE_PERIOD_PHASE1_DEFAULT
    pre_charge_period_phase_2 := SSD1306_PRE_CHARGE_PERIOD_PHASE2_DEFAULT
    vcomh_deselect_level := SSD1306_VCOMH_DESELECT_LEVEL1
    fade_out_blinking_mode := SSD1306_FADE_OUT_BLINKING_DISABLE
    fade_out_time_interval := SSD1306_FADE_OUT_BLINKING_TIME_INTERVAL_MIN
    zoom := false
    charge_pump := true }

/-- `ssd1306_create`: the session has no font (`NULL`). -/
def ssd1306_create (settings : ssd1306_config_t) : ssd1306_t :=
  { i2c_address := settings.i2c_address, font := none }

/-- `ssd1306_set_font`. -/
def ssd1306_set_font (ssd1306 : ssd1306_t) (font : ssd1306_font_t) : ssd1306_t :=
  { ssd1306 with font := some font }

/-- `ssd1306_init`. -/
def ssd1306_init (ssd1306 : ssd1306_t) (config : ssd1306_config_t) (s : I2C) : Bool × I2C :=
  let r0 : Bool × I2C := (true, s)
  let r1 := andAlso r0 (ssd1306_set_com_output_scan_direction ssd1306
    config.com_output_scan_direction_remapped)
  let r2 := andAlso r1 (ssd1306_set_multiplex_ratio ssd1306 config.mux_ratio)
  let r3 := andAlso r2 (ssd1306_set_display_clock ssd1306 config.divide_ratio
    config.oscillator_frequency)
  let r4 := andAlso r3 (ssd1306_set_inverse ssd1306 config.inverse)
  let r5 := andAlso r4 (ssd1306_set_contrast ssd1306 config.contrast)
  let r6 := andAlso r5 (ssd1306_set_fade_out_and_blinking ssd1306 config.fade_out_blinking_mode
    config.fade_out_time_interval)
  let r7 := andAlso r6 (ssd1306_set_zoom ssd1306 config.zoom)
  let r8 := andAlso r7 (ssd1306_set_offset ssd1306 SSD1306_DISPLAY_OFFSET_MIN)
  let r9 := andAlso r8 (ssd1306_set_memory_addressing_mode ssd1306 config.memory_addressing_mode)
  let r10 := andAlso r9 (ssd1306_set_pre_charge_period ssd1306 config.pre_charge_period_phase_1
    config.pre_charge_period_phase_2)
  let r11 := andAlso r10 (ssd1306_set_vcomh_deselect_level ssd1306 config.vcomh_deselect_level)
  let r12 := andAlso r11 (ssd1306_set_com_pins_hardware_config ssd1306 config.com_alt_pin_config
    config.com_disable_left_right_remap)
  let r13 := andAlso r12 (ssd1306_set_segment_re_map ssd1306 config.segment_re_map_inverse)
  let r14 := andAlso r13 (ssd1306_set_charge_pump ssd1306 config.charge_pump)
  let r15 := andAlso r14 (ssd1306_display_on ssd1306)
  r15

/-- The fifteen setter calls of `ssd1306_init`, in the order of the source. -/
def init_setters (ssd1306 : ssd1306_t) (config : ssd1306_config_t) : List (I2C → Bool × I2C) :=
  [ssd1306_set_com_output_scan_direction ssd1306 config.com_output_scan_direction_remapped,
    ssd1306_set_multiplex_ratio ssd1306 config.mux_ratio,
    ssd1306_set_display_clock ssd1306 config.divide_ratio config.oscillator_frequency,
    ssd1306_set_inverse ssd1306 config.inverse,
    ssd1306_set_contrast ssd1306 config.contrast,
    ssd1306_set_fade_out_and_blinking ssd1306 config.fade_out_blinking_mode
      config.fade_out_time_interval,
    ssd1306_set_zoom ssd1306 config.zoom,
    ssd1306_set_offset ssd1306 SSD1306_DISPLAY_OFFSET_MIN,
    ssd1306_set_memory_addressing_mode ssd1306 config.memory_addressing_mode,
    ssd1306_set_pre_charge_period ssd1306 config.pre_charge_period_phase_1
      config.pre_charge_period_phase_2,
    ssd1306_set_vcomh_deselect_level ssd1306 config.vcomh_deselect_level,
    ssd1306_set_com_pins_hardware_config ssd1306 config.com_alt_pin_config
      config.com_disable_left_right_remap,
    ssd1306_set_segment_re_map ssd1306 config.segment_re_map_inverse,
    ssd1306_set_charge_pump ssd1306 config.charge_pump,
    ssd1306_display_on ssd1306]

/-- A sequence of statements `is_ok = is_ok && f(...)`. -/
def runAll (fs : List (I2C → Bool × I2C)) (r : Bool × I2C) : Bool × I2C :=
  fs.foldl andAlso r

/-- The flag and the engine after the first `n` statements of `ssd1306_init`. -/
def ssd1306_init_upto (n : Nat) (ssd1306 : ssd1306_t) (config : ssd1306_config_t) (s : I2C) :
    Bool × I2C :=
  runAll ((init_setters ssd1306 config).take n) (true, s)

/-- The call of setter `k` (counted from 0) in the engine state reached after the first `k`
statements of `ssd1306_init`. -/
def kth_setter_call (k : Nat) (ssd1306 : ssd1306_t) (config : ssd1306_config_t) (s : I2C) :
    Bool × I2C :=
  ((init_setters ssd1306 config).getD k (fun s => (false, s)))
    (ssd1306_init_upto k ssd1306 config s).2

/-! ## Text (`ssd1306_find_char`, `ssd1306_print`) -/

/-- `ssd1306_find_char`: the bitmap pointer of the first of the `font->size` entries of the
glyph table whose letter is `chr`, `none` (`NULL`) when there is none or its pointer is
`NULL`.  The table `data` is taken to hold at least `size` entries. -/
def ssd1306_find_char (chr : Nat) (font : ssd1306_font_t) : Option ssd1306_bitmap_t :=
  match (font.data.take font.size).find? (fun l => l.letter == chr) with
  | some l => l.bitmap
  | none => none

/-- `const uint8_t column = start_column + i * font->width + i * font->letter_spacing;`
computed in the 16-bit `int` and stored in a `uint8_t`. -/
def print_column (font : ssd1306_font_t) (start_column i : Nat) : Nat :=
  (to_uint8 (to_int16 ((start_column : Int) + (i : Int) * (font.width : Int)
    + (i : Int) * (font.letter_spacing : Int)))).toNat

/-- The body of the loop of `ssd1306_print` for the index `i`, up to `i++`. -/
def print_step (ssd1306 : ssd1306_t) (font : ssd1306_font_t) (text : Nat → Nat)
    (start_page start_column : Nat) (r : Bool × I2C) (i : Nat) : Bool × I2C :=
  match ssd1306_find_char (text i) font with
  | some bitmap =>
    andAlso r (ssd1306_draw_bitmap ssd1306 start_page (print_column font start_column i)
      font.width font.height bitmap)
  | none => r

/-- The loop `while (text[i] != 0) { ...; i++; }` of `ssd1306_print` with `uint8_t i`; `text`
is the memory seen from the pointer; `none` when the fuel runs out before the loop ends. -/
def ssd1306_print_loop (ssd1306 : ssd1306_t) (font : ssd1306_font_t) (text : Nat → Nat)
    (start_page start_column : Nat) : Nat → Nat → Bool × I2C → Option (Bool × I2C)
  | 0, _, _ => none
  | fuel + 1, i, r =>
    if text i = 0 then some r
    else ssd1306_print_loop ssd1306 font text start_page start_column fuel ((i + 1) % 256)
      (print_step ssd1306 font text start_page start_column r i)

/-- `ssd1306_print`; `none` when the fuel runs out before the call returns. -/
def ssd1306_print (fuel : Nat) (ssd1306 : ssd1306_t) (text : Nat → Nat)
    (start_page start_column : Nat) (s : I2C) : Option (Bool × I2C) :=
  match ssd1306.font with
  | none => some (false, s)
  | some font => ssd1306_print_loop ssd1306 font text start_page start_column fuel 0 (true, s)

/-- A text in memory: the characters of the list followed by zero bytes. -/
def text_of (chars : List Nat) : Nat → Nat := fun i => chars.getD i 0

/-- A font of one 8x8 glyph for the letter `A` (65). -/
def one_glyph_font : ssd1306_font_t :=
  { width := 8, height := 8, size := 1, letter_spacing := 1,
    data := [⟨65, some counting_bitmap⟩] }

/-- A text of 256 letters `A` followed by zero bytes. -/
def long_text : Nat → Nat := fun i => if i < 256 then 65 else 0

/-! ## Validity of a configuration -/

/-- Every parameter of the configuration passes the range check of the setter that
`ssd1306_init` hands it to (the guards of `ssd1306_set_multiplex_ratio`,
`ssd1306_set_display_clock`, `ssd1306_set_fade_out_and_blinking`,
`ssd1306_set_pre_charge_period` and `ssd1306_set_vcomh_deselect_level`). -/
def ssd1306_config_t.Valid (c : ssd1306_config_t) : Prop :=
  (SSD1306_MUX_RATIO_MIN ≤ c.mux_ratio ∧ c.mux_ratio ≤ SSD1306_MUX_RATIO_MAX)
  ∧ (SSD1306_DISPLAY_CLOCK_DIVIDE_RATIO_MIN ≤ c.divide_ratio
      ∧ c.divide_ratio ≤ SSD1306_DISPLAY_CLOCK_DIVIDE_RATIO_MAX)
  ∧ (SSD1306_DISPLAY_CLOCK_OSCILLATOR_FREQUENCY_MIN ≤ c.oscillator_frequency
      ∧ c.oscillator_frequency ≤ SSD1306_DISPLAY_CLOCK_OSCILLATOR_FREQUENCY_MAX)
  ∧ (c.fade_out_blinking_mode = SSD1306_FADE_OUT_BLINKING_DISABLE
      ∨ c.fade_out_blinking_mode = SSD1306_FADE_OUT_MODE
      ∨ c.fade_out_blinking_mode = SSD1306_BLINKING_MODE)
  ∧ (SSD1306_FADE_OUT_BLINKING_TIME_INTERVAL_MIN ≤ c.fade_out_time_interval
      ∧ c.fade_out_time_interval ≤ SSD1306_FADE_OUT_BLINKING_TIME_INTERVAL_MAX)
  ∧ (SSD1306_PRE_CHARGE_PERIOD_PHASE_MIN ≤ c.pre_charge_period_phase_1
      ∧ c.pre_charge_period_phase_1 ≤ SSD1306_PRE_CHARGE_PERIOD_PHASE_MAX)
  ∧ (SSD1306_PRE_CHARGE_PERIOD_PHASE_MIN ≤ c.pre_charge_period_phase_2
      ∧ c.pre_charge_period_phase_2 ≤ SSD1306_PRE_CHARGE_PERIOD_PHASE_MAX)
  ∧ (c.vcomh_deselect_level = SSD1306_VCOMH_DESELECT_LEVEL0
      ∨ c.vcomh_deselect_level = SSD1306_VCOMH_DESELECT_LEVEL1
      ∨ c.vcomh_deselect_level = SSD1306_VCOMH_DESELECT_LEVEL2)

instance (c : ssd1306_config_t) : Decidable c.Valid := by
  unfold ssd1306_config_t.Valid; infer_instance

end AvrMeteo
namespace AvrMeteo

/-! # Theorems -/

/-! ## Binary32 rounding -/

theorem log2Fuel_eq (fuel n : Nat) (h : n ≤ fuel) : log2Fuel fuel n = Nat.log2 n := by
  induction fuel generalizing n with
  | zero =>
    have : n = 0 := by omega
    subst this
    rw [Nat.log2]; simp [log2Fuel]
  | succ f ih =>
    unfold log2Fuel
    rw [Nat.log2]
    split_ifs with h1 h2 h2
    · omega
    · rfl
    · rw [ih _ (by omega)]
    · omega

theorem ilog2_eq (n : Nat) : ilog2 n = Nat.log2 n := log2Fuel_eq n n le_rfl

theorem ilog2_two_pow (k : Nat) : ilog2 (2 ^ k) = k := by
  rw [ilog2_eq, Nat.log2_two_pow]

theorem ilog2_le (n : Nat) (h : n ≠ 0) : 2 ^ ilog2 n ≤ n := by
  rw [ilog2_eq]; exact Nat.log2_self_le h

theorem ilog2_lt (n : Nat) : n < 2 ^ (ilog2 n + 1) := by
  rw [ilog2_eq]; exact Nat.lt_log2_self

theorem ilog2_lt_of_lt {n k : Nat} (h : n < 2 ^ k) (hn : n ≠ 0) : ilog2 n < k := by
  rw [ilog2_eq]; exact (Nat.log2_lt hn).mpr h

theorem le_ilog2_of_le {n k : Nat} (h : 2 ^ k ≤ n) : k ≤ ilog2 n := by
  by_contra hc
  have hn : n ≠ 0 := by
    have := Nat.pos_pow_of_pos k (by norm_num : 0 < 2)
    omega
  have h1 : ilog2 n < k := by omega
  rw [ilog2_eq] at h1
  have := (Nat.log2_lt hn).mp h1
  omega

/-- A quotient by `pow(2, k)` only moves the binary point. -/
theorem Dbl.div_pow2 (a : Dbl) (k : Nat) : Dbl.div a (Dbl.pow2 k) = ⟨a.num, a.scale + k⟩ := by
  have h : ((2 : Int) ^ k).natAbs = 2 ^ k := by
    rw [Int.natAbs_pow]; rfl
  unfold Dbl.div Dbl.pow2
  simp only [h, ilog2_two_pow]
  rw [if_pos ⟨trivial, by push_cast⟩]

theorem round24_of_lt {n : Int} (h : n.natAbs < 2 ^ 24) : round24 n = n := by
  unfold round24; rw [if_pos h]

theorem rne_ge (a s : Nat) : a / 2 ^ s ≤ rne a s := by
  unfold rne; split_ifs <;> omega

theorem rne_le (a s : Nat) : rne a s ≤ a / 2 ^ s + 1 := by
  unfold rne; split_ifs <;> omega

theorem rne_of_dvd (a s : Nat) (h : 2 ^ s ∣ a) : rne a s * 2 ^ s = a := by
  have hp : 0 < 2 ^ s := Nat.pos_pow_of_pos s (by norm_num)
  have h0 : a % 2 ^ s = 0 := Nat.mod_eq_zero_of_dvd h
  unfold rne
  rw [h0, if_pos (by omega)]
  exact Nat.div_mul_cancel h

/-- The magnitude of the rounded value, for an integer of 25 significant bits or more. -/
theorem round24_natAbs {n : Int} (h : ¬ n.natAbs < 2 ^ 24) :
    (round24 n).natAbs = rne n.natAbs (ilog2 n.natAbs - 23) * 2 ^ (ilog2 n.natAbs - 23) := by
  unfold round24
  rw [if_neg h, Int.natAbs_mul, Int.natAbs_ofNat]
  have hn : n ≠ 0 := by
    rintro rfl
    simp at h
  rw [Int.natAbs_sign_of_nonzero hn, one_mul]

theorem round24_nonneg {n : Int} (h : 0 ≤ n) : 0 ≤ round24 n := by
  unfold round24
  split_ifs
  · exact h
  · exact Int.mul_nonneg (Int.sign_nonneg.mpr h) (Int.ofNat_nonneg _)

theorem round24_nonpos {n : Int} (h : n ≤ 0) : round24 n ≤ 0 := by
  unfold round24
  split_ifs
  · exact h
  · have hs : n.sign ≤ 0 := by
      rcases lt_or_eq_of_le h with h1 | h1
      · rw [Int.sign_eq_neg_one_of_neg h1]; omega
      · rw [h1]; simp
    exact Int.mul_nonpos_of_nonpos_of_nonneg hs (Int.ofNat_nonneg _)

/-- Rounding to 24 significant bits does not pass the next power of two. -/
theorem round24_natAbs_le {n : Int} {k : Nat} (h : n.natAbs < 2 ^ k) :
    (round24 n).natAbs ≤ 2 ^ k := by
  by_cases h24 : n.natAbs < 2 ^ 24
  · rw [round24_of_lt h24]; omega
  · rw [round24_natAbs h24]
    generalize n.natAbs = a at *
    have ha : a ≠ 0 := by
      rintro rfl
      simp at h24
    have hL : 24 ≤ ilog2 a := le_ilog2_of_le (by omega)
    have hLk : ilog2 a < k := ilog2_lt_of_lt h ha
    have hup := ilog2_lt a
    obtain ⟨s, hs⟩ : ∃ s, ilog2 a = s + 23 := ⟨ilog2 a - 23, by omega⟩
    rw [hs] at hup ⊢
    have e : s + 23 - 23 = s := by omega
    rw [e]
    have hp : 0 < 2 ^ s := Nat.pos_pow_of_pos s (by norm_num)
    have hq : a / 2 ^ s < 2 ^ 24 := by
      rw [Nat.div_lt_iff_lt_mul hp]
      calc a < 2 ^ (s + 23 + 1) := hup
        _ = 2 ^ 24 * 2 ^ s := by rw [← pow_add]; congr 1; omega
    have hr := rne_le a s
    calc rne a s * 2 ^ s ≤ 2 ^ 24 * 2 ^ s := Nat.mul_le_mul_right _ (by omega)
      _ = 2 ^ (s + 24) := by rw [← pow_add]; congr 1; omega
      _ ≤ 2 ^ k := Nat.pow_le_pow_right (by norm_num) (by omega)

/-- An integer with at most 24 significant bits is not changed by the rounding. -/
theorem round24_mul_two_pow (m : Int) (j : Nat) (h : m.natAbs < 2 ^ 24) :
    round24 (m * 2 ^ j) = m * 2 ^ j := by
  by_cases h24 : (m * 2 ^ j).natAbs < 2 ^ 24
  · exact round24_of_lt h24
  · have hp : 0 < 2 ^ j := Nat.pos_pow_of_pos j (by norm_num)
    have habs : (m * 2 ^ j).natAbs = m.natAbs * 2 ^ j := by
      rw [Int.natAbs_mul, Int.natAbs_pow]; rfl
    have hm : m ≠ 0 := by
      rintro rfl
      simp at h24
    have hsign : (m * 2 ^ j).sign = m.sign := by
      rw [Int.sign_mul]
      have : ((2 : Int) ^ j).sign = 1 := Int.sign_eq_one_of_pos (by positivity)
      rw [this, mul_one]
    unfold round24
    rw [if_neg h24, habs, hsign]
    have hlt : m.natAbs * 2 ^ j < 2 ^ (24 + j) := by
      rw [pow_add]; exact Nat.mul_lt_mul_of_pos_right h hp
    have hne : m.natAbs * 2 ^ j ≠ 0 := by
      have : 0 < m.natAbs := Int.natAbs_pos.mpr hm
      exact Nat.mul_ne_zero (by omega) (by omega)
    have hL := ilog2_lt_of_lt hlt hne
    have hdvd : 2 ^ (ilog2 (m.natAbs * 2 ^ j) - 23) ∣ m.natAbs * 2 ^ j :=
      Dvd.dvd.mul_left (Nat.pow_dvd_pow 2 (by omega)) _
    rw [rne_of_dvd _ _ hdvd]
    push_cast
    rw [← mul_assoc, ← Int.natCast_natAbs, Int.sign_mul_natAbs]

/-- Known values of the rounding.  `2^24 + 1` lies halfway between two binary32 values and
goes to the one with the even significand, `2^24 + 3` goes up; the product of the data sheet
example at `UT = 26132` is rounded up by one; one third and one tenth are the binary32
constants `0x3EAAAAAB = 11184811 / 2^25` and `0x3DCCCCCD = 13421773 / 2^27`. -/
theorem binary32_known_values :
    round24 16777217 = 16777216
    ∧ round24 16777219 = 16777220
    ∧ round24 (-16777219) = -16777220
    ∧ round24 97583103 = 97583104
    ∧ (roundQuot 1 3).num * 2 ^ 25 = 11184811 * 2 ^ (roundQuot 1 3).scale
    ∧ (roundQuot 1 10).num * 2 ^ 27 = 13421773 * 2 ^ (roundQuot 1 10).scale
    ∧ Dbl.trunc (Dbl.div (Dbl.ofInt (-17840128)) (Dbl.ofInt 5846)) = -3051 := by
  decide

theorem to_int32_of_fits {n : Int} (h : fits32 n) : to_int32 n = n := by
  unfold to_int32; unfold fits32 at h; omega

theorem to_uint32_of_fits {n : Int} (h : fitsU32 n) : to_uint32 n = n := by
  unfold to_uint32; unfold fitsU32 at h; omega

theorem natAbs_tdiv_le (a b : Int) : (Int.tdiv a b).natAbs ≤ a.natAbs := by
  rw [Int.natAbs_tdiv]; exact Nat.div_le_self _ _

/-- The truncated quotient by `2^k`, `k ≥ 2`, of a rounded 32-bit value fits `int32_t`. -/
theorem fits32_tdiv_round24 (n : Int) (k : Nat) (h : n.natAbs < 2 ^ 32) (hk : 2 ≤ k) :
    fits32 (Int.tdiv (round24 n) (2 ^ k)) := by
  have h1 := round24_natAbs_le h
  have h2 : (Int.tdiv (round24 n) (2 ^ k)).natAbs ≤ 2 ^ 30 := by
    rw [Int.natAbs_tdiv, Int.natAbs_pow]
    have e : (2 : Int).natAbs = 2 := rfl
    rw [e]
    calc (round24 n).natAbs / 2 ^ k ≤ (round24 n).natAbs / 2 ^ 2 :=
          Nat.div_le_div_left (Nat.pow_le_pow_right (by norm_num) hk) (by norm_num)
      _ ≤ 2 ^ 32 / 2 ^ 2 := Nat.div_le_div_right h1
      _ = 2 ^ 30 := by norm_num
  unfold fits32
  omega

/-- The truncated binary32 quotient of a value below `2^27` fits `int32_t`. -/
theorem f32_quotient_natAbs_le (a b : Int) (ha : a.natAbs < 2 ^ 27) :
    (f32_quotient a b).natAbs ≤ 2 ^ 27 := by
  unfold f32_quotient Dbl.div Dbl.trunc
  simp only [pow_zero, mul_one]
  split_ifs
  · exact le_trans (natAbs_tdiv_le a _) (by omega)
  · unfold roundQuot
    simp only []
    generalize ilog2 b.natAbs = l
    rw [Int.natAbs_tdiv, Int.natAbs_mul, Int.natAbs_mul, Int.natAbs_pow]
    have e : (2 : Int).natAbs = 2 := rfl
    rw [e]
    have hs : a.sign.natAbs * b.sign.natAbs ≤ 1 := by
      have h1 : a.sign.natAbs ≤ 1 := by
        rcases lt_trichotomy a 0 with h | h | h
        · rw [Int.sign_eq_neg_one_of_neg h]; decide
        · rw [h]; decide
        · rw [Int.sign_eq_one_of_pos h]; decide
      have h2 : b.sign.natAbs ≤ 1 := by
        rcases lt_trichotomy b 0 with h | h | h
        · rw [Int.sign_eq_neg_one_of_neg h]; decide
        · rw [h]; decide
        · rw [Int.sign_eq_one_of_pos h]; decide
      calc a.sign.natAbs * b.sign.natAbs ≤ 1 * 1 := Nat.mul_le_mul h1 h2
        _ = 1 := rfl
    have hp : 0 < 2 ^ (26 + l) := Nat.pos_pow_of_pos _ (by norm_num)
    have hM : ((2 * (a.natAbs * 2 ^ (26 + l) / b.natAbs)
        + (if a.natAbs * 2 ^ (26 + l) % b.natAbs = 0 then 0 else 1) : Nat) : Int).natAbs
        < 2 ^ (54 + l) := by
      rw [Int.natAbs_ofNat]
      have h3 : (2 : Nat) ^ (54 + l) = 268435456 * 2 ^ (26 + l) := by
        rw [show 54 + l = 28 + (26 + l) by omega, pow_add]; norm_num
      rw [h3]
      generalize (2 : Nat) ^ (26 + l) = P at hp ⊢
      have h1 : a.natAbs * P / b.natAbs ≤ a.natAbs * P := Nat.div_le_self _ _
      have h2 : a.natAbs * P ≤ 134217727 * P := Nat.mul_le_mul_right _ (by omega)
      generalize a.natAbs * P / b.natAbs = q at h1 ⊢
      generalize a.natAbs * P = x at h1 h2 ⊢
      split_ifs <;> omega
    have hR := round24_natAbs_le hM
    generalize (round24 ((2 * (a.natAbs * 2 ^ (26 + l) / b.natAbs)
        + (if a.natAbs * 2 ^ (26 + l) % b.natAbs = 0 then 0 else 1) : Nat) : Int)).natAbs = r at hR
    have h5 : a.sign.natAbs * b.sign.natAbs * r ≤ r := by
      calc a.sign.natAbs * b.sign.natAbs * r ≤ 1 * r := Nat.mul_le_mul_right _ hs
        _ = r := one_mul r
    calc a.sign.natAbs * b.sign.natAbs * r / 2 ^ (26 + l + 1)
        ≤ 2 ^ (54 + l) / 2 ^ (26 + l + 1) := Nat.div_le_div_right (by omega)
      _ = 2 ^ 27 := by
          rw [Nat.pow_div (by omega) (by norm_num)]
          congr 1; omega

theorem shiftLeft8_or (msb lsb : Nat) (hl : lsb < 256) : (msb <<< 8) ||| lsb = msb * 256 + lsb := by
  rw [Nat.shiftLeft_eq, Nat.mul_comm msb]
  exact (Nat.mul_add_lt_is_or (i := 8) hl msb).symm

theorem temperature_ut_eq (msb lsb : Nat) (hm : msb < 128) (hl : lsb < 256) :
    temperature_ut msb lsb = (msb : Int) * 256 + lsb := by
  unfold temperature_ut
  rw [shiftLeft8_or msb lsb hl]
  unfold to_int32 to_int16
  push_cast
  omega

theorem fits32_natAbs {n : Int} (h : fits32 n) : n.natAbs < 2 ^ 32 := by
  unfold fits32 at h; omega

theorem temperature_x1_eq_f32 (data : bmp180_calibration_data_t) (msb lsb : Nat)
    (hd : data.InRange) (hm : msb < 128) (hl : lsb < 256)
    (hfit : fits32 ((((msb : Int) * 256 + lsb) - data.AC6) * data.AC5)) :
    temperature_x1 data (temperature_ut msb lsb)
      = f32_temperature_x1 data ((msb : Int) * 256 + lsb) := by
  obtain ⟨-, -, -, -, h5, h6, -, -, -, hMC, hMD⟩ := hd
  unfold temperature_x1 f32_temperature_x1
  rw [temperature_ut_eq msb lsb hm hl]
  have h1 : fits32 ((msb : Int) * 256 + lsb - data.AC6) := by unfold fits32; omega
  rw [to_int32_of_fits h1, to_int32_of_fits hfit, Dbl.div_pow2]
  simp only [Dbl.trunc, Dbl.ofInt, Nat.zero_add]
  exact to_int32_of_fits (fits32_tdiv_round24 _ 15 (fits32_natAbs hfit) (by norm_num))

theorem f32_temperature_x1_bound (data : bmp180_calibration_data_t) (raw : Int)
    (hfit : fits32 ((raw - data.AC6) * data.AC5)) :
    -131072 ≤ f32_temperature_x1 data raw ∧ f32_temperature_x1 data raw ≤ 131072 := by
  unfold f32_temperature_x1
  have h1 := round24_natAbs_le (fits32_natAbs hfit)
  have h2 : (Int.tdiv (round24 ((raw - data.AC6) * data.AC5)) (2 ^ 15)).natAbs ≤ 2 ^ 17 := by
    rw [Int.natAbs_tdiv, Int.natAbs_pow]
    have e : (2 : Int).natAbs = 2 := rfl
    rw [e]
    calc (round24 ((raw - data.AC6) * data.AC5)).natAbs / 2 ^ 15 ≤ 2 ^ 32 / 2 ^ 15 :=
          Nat.div_le_div_right h1
      _ = 2 ^ 17 := by norm_num
  omega

theorem temperature_x2_eq_f32 (data : bmp180_calibration_data_t) (x1 : Int)
    (hd : data.InRange) (hx : -131072 ≤ x1 ∧ x1 ≤ 131072) :
    temperature_x2 data x1 = f32_temperature_x2 data x1 := by
  obtain ⟨-, -, -, -, h5, h6, -, -, -, hMC, hMD⟩ := hd
  unfold temperature_x2 f32_temperature_x2
  have h1 : fits32 (x1 + data.MD) := by unfold fits32; omega
  have e1 : Dbl.mul (Dbl.ofInt data.MC) (Dbl.pow2 11) = ⟨data.MC * 2 ^ 11, 0⟩ := by
    unfold Dbl.mul Dbl.ofInt Dbl.pow2
    simp only []
    rw [round24_of_lt (by omega : data.MC.natAbs < 2 ^ 24),
      round24_mul_two_pow _ _ (by omega : data.MC.natAbs < 2 ^ 24)]
  have e2 : Dbl.ofInt (x1 + data.MD) = ⟨x1 + data.MD, 0⟩ := by
    unfold Dbl.ofInt
    rw [round24_of_lt (by omega : (x1 + data.MD).natAbs < 2 ^ 24)]
  rw [to_int32_of_fits h1, e1, e2]
  have hq := f32_quotient_natAbs_le (data.MC * 2 ^ 11) (x1 + data.MD) (by omega)
  unfold f32_quotient at hq ⊢
  exact to_int32_of_fits (by unfold fits32; omega)

theorem temperature_t_eq_f32 (B5 : Int) (h : fits32 (B5 + 8)) :
    temperature_t B5 = f32_temperature B5 := by
  unfold temperature_t f32_temperature
  rw [to_int32_of_fits h, Dbl.div_pow2]
  simp only [Dbl.trunc, Dbl.ofInt, Nat.zero_add]
  exact to_int32_of_fits (fits32_tdiv_round24 _ 4 (fits32_natAbs h) (by norm_num))

/-- The temperature arithmetic of the code, without the wrap-arounds: the binary32 reading of
the formula. -/
theorem temperature_B5_eq_f32 (data : bmp180_calibration_data_t) (msb lsb : Nat)
    (hd : data.InRange) (hm : msb < 128) (hl : lsb < 256)
    (hfit : fits32 ((((msb : Int) * 256 + lsb) - data.AC6) * data.AC5)) :
    temperature_B5 data msb lsb = f32_temperature_B5 data ((msb : Int) * 256 + lsb)
    ∧ temperature_t (temperature_B5 data msb lsb)
      = f32_temperature (f32_temperature_B5 data ((msb : Int) * 256 + lsb))
    ∧ temperature_divisor data msb lsb
      = f32_temperature_x1 data ((msb : Int) * 256 + lsb) + data.MD := by
  have hx1 := temperature_x1_eq_f32 data msb lsb hd hm hl hfit
  have hb := f32_temperature_x1_bound data ((msb : Int) * 256 + lsb) hfit
  have hx2 := temperature_x2_eq_f32 data _ hd hb
  have hq := f32_quotient_natAbs_le (data.MC * 2 ^ 11)
    (f32_temperature_x1 data ((msb : Int) * 256 + lsb) + data.MD)
    (by obtain ⟨-, -, -, -, -, -, -, -, -, hMC, -⟩ := hd; omega)
  have hMD := hd.2.2.2.2.2.2.2.2.2.2
  have hB5 : temperature_B5 data msb lsb = f32_temperature_B5 data ((msb : Int) * 256 + lsb) := by
    unfold temperature_B5 f32_temperature_B5
    rw [hx1, hx2]
    unfold f32_temperature_x2
    exact to_int32_of_fits (by unfold fits32; omega)
  refine ⟨hB5, ?_, ?_⟩
  · rw [hB5]
    apply temperature_t_eq_f32
    unfold f32_temperature_B5 f32_temperature_x2
    unfold fits32; omega
  · unfold temperature_divisor
    rw [hx1]
    exact to_int32_of_fits (by unfold fits32; omega)


theorem quot_gap (x y q r u st P E M : Nat) (hx : x < 2 ^ 24) (hxy : x = y * q + r)
    (hr : r < y) (hu : y * u ≤ r * P) (hst : st ≤ 1) (hP : 2 ^ 25 * (y + 1) ≤ P)
    (hM : M = q * (2 * P) + (2 * u + st)) (hE : 2 ^ 23 * E ≤ M) :
    E + 2 * M < 2 * ((q + 1) * (2 * P)) := by
  have hy : 0 < y := by omega
  -- multiply the goal by `2^23 * y`
  have key : 2 ^ 23 * y * (E + 2 * M) < 2 ^ 23 * y * (2 * ((q + 1) * (2 * P))) := by
    have h1 : 2 ^ 23 * y * E ≤ y * M := by
      calc 2 ^ 23 * y * E = y * (2 ^ 23 * E) := by ring
        _ ≤ y * M := Nat.mul_le_mul_left _ hE
    have h2 : y * M = y * q * (2 * P) + 2 * (y * u) + y * st := by rw [hM]; ring
    have h3 : y * st ≤ y := by
      calc y * st ≤ y * 1 := Nat.mul_le_mul_left _ hst
        _ = y := mul_one y
    have h4 : y * q * (2 * P) + r * (2 * P) = x * (2 * P) := by rw [hxy]; ring
    have h5 : r * (2 * P) = 2 * (r * P) := by ring
    have h6 : y * (q + 1) * (2 * P) = x * (2 * P) + (y - r) * (2 * P) := by
      have : y = r + (y - r) := by omega
      calc y * (q + 1) * (2 * P) = y * q * (2 * P) + y * (2 * P) := by ring
        _ = y * q * (2 * P) + (r + (y - r)) * (2 * P) := by rw [← this]
        _ = (y * q * (2 * P) + r * (2 * P)) + (y - r) * (2 * P) := by ring
        _ = x * (2 * P) + (y - r) * (2 * P) := by rw [h4]
    have h7 : 2 * P ≤ (y - r) * (2 * P) := Nat.le_mul_of_pos_left _ (by omega)
    have h8 : x * (2 * P) ≤ (2 ^ 24 - 1) * (2 * P) := Nat.mul_le_mul_right _ (by omega)
    have h9 : 2 ^ 23 * y * (E + 2 * M) = 2 ^ 23 * y * E + 2 ^ 24 * (y * M) := by ring
    have h10 : 2 ^ 23 * y * (2 * ((q + 1) * (2 * P))) = 2 ^ 24 * (y * (q + 1) * (2 * P)) := by ring
    rw [h9, h10, h6]
    generalize y * M = yM at *
    generalize y * u = yu at *
    generalize y * st = yst at *
    generalize r * P = rP at *
    generalize x * (2 * P) = xT at *
    generalize (y - r) * (2 * P) = dT at *
    generalize y * q * (2 * P) = yqT at *
    generalize r * (2 * P) = rT at *
    generalize 2 ^ 23 * y * E = yE at *
    norm_num at *
    omega
  exact Nat.lt_of_mul_lt_mul_left key


theorem rne_mul_ge (M s A : Nat) (hA : 2 ^ s ∣ A) (hle : A ≤ M) : A ≤ rne M s * 2 ^ s := by
  obtain ⟨c, rfl⟩ := hA
  have hp : 0 < 2 ^ s := Nat.pos_pow_of_pos s (by norm_num)
  have h1 : c ≤ M / 2 ^ s := (Nat.le_div_iff_mul_le hp).mpr (by rw [Nat.mul_comm]; exact hle)
  calc 2 ^ s * c = c * 2 ^ s := Nat.mul_comm _ _
    _ ≤ rne M s * 2 ^ s := Nat.mul_le_mul_right _ (le_trans h1 (rne_ge M s))

theorem rne_mul_lt (M s B : Nat) (hB : 2 ^ s ∣ B) (hlt : M < B) (hgap : 2 ^ s + 2 * M < 2 * B) :
    rne M s * 2 ^ s < B := by
  obtain ⟨c, rfl⟩ := hB
  have hp : 0 < 2 ^ s := Nat.pos_pow_of_pos s (by norm_num)
  have h1 : M / 2 ^ s < c := (Nat.div_lt_iff_lt_mul hp).mpr (by rw [Nat.mul_comm]; exact hlt)
  have hdm := Nat.div_add_mod M (2 ^ s)
  have hml := Nat.mod_lt M hp
  rw [Nat.mul_comm (2 ^ s) c]
  apply Nat.mul_lt_mul_of_pos_right _ hp
  unfold rne
  generalize M / 2 ^ s = d at *
  generalize M % 2 ^ s = m at *
  generalize 2 ^ s = E at *
  by_cases hd : d + 1 < c
  · split_ifs <;> omega
  · have hc : c = d + 1 := by omega
    subst hc
    have : E * (d + 1) = E * d + E := by ring
    rw [if_pos (by omega)]
    omega


theorem round24_natCast (M : Nat) :
    round24 (M : Int) = if M < 2 ^ 24 then (M : Int)
      else ((rne M (ilog2 M - 23) * 2 ^ (ilog2 M - 23) : Nat) : Int) := by
  unfold round24
  simp only [Int.natAbs_ofNat]
  split_ifs with h
  · rfl
  · have hpos : (0 : Int) < (M : Int) := by
      have : 0 < 2 ^ 24 := by norm_num
      omega
    rw [Int.sign_eq_one_of_pos hpos, one_mul]

/-- The binary32 quotient of a natural number below `2^24` by a positive natural number has
the integer part of the exact quotient. -/
theorem roundQuot_trunc (x y : Nat) (hx : x < 2 ^ 24) (hy : 0 < y) :
    ∃ R : Nat, (roundQuot x y).num = (R : Int) ∧ R / 2 ^ (roundQuot x y).scale = x / y := by
  unfold roundQuot
  simp only []
  have hyl := ilog2_lt y
  generalize ilog2 y = l at hyl
  have hP : 2 ^ 25 * (y + 1) ≤ 2 ^ (26 + l) := by
    have e : (2 : Nat) ^ (26 + l) = 2 ^ 25 * 2 ^ (l + 1) := by
      rw [← pow_add]; congr 1; omega
    rw [e]
    exact Nat.mul_le_mul_left _ hyl
  have hT : (2 : Nat) ^ (26 + l + 1) = 2 * 2 ^ (26 + l) := by rw [pow_succ]; ring
  rw [hT]
  have hpow : ∀ s, 2 ^ (s + 23) < 2 ^ 24 * (2 * 2 ^ (26 + l)) → 2 ^ s ∣ 2 * 2 ^ (26 + l) := by
    intro s hs
    rw [← hT, ← pow_add] at hs
    have h1 := (Nat.pow_lt_pow_iff_right (by norm_num : 1 < 2)).mp hs
    rw [← hT]
    exact Nat.pow_dvd_pow 2 (by omega)
  generalize (2 : Nat) ^ (26 + l) = P at hP hpow ⊢
  have hxy : x = y * (x / y) + x % y := (Nat.div_add_mod x y).symm
  have hr : x % y < y := Nat.mod_lt x hy
  generalize hq : x / y = q at hxy
  generalize x % y = r at hxy hr
  have hxP : x * P = y * (q * P) + r * P := by rw [hxy]; ring
  have hdiv : x * P / y = q * P + r * P / y := by rw [hxP, Nat.mul_add_div hy]
  have hmod : x * P % y = r * P % y := by rw [hxP, Nat.mul_add_mod]
  rw [hdiv, hmod]
  have hu : y * (r * P / y) ≤ r * P := Nat.mul_div_le _ _
  have hu2 : r * P / y < P := by
    apply Nat.div_lt_of_lt_mul
    exact Nat.mul_lt_mul_of_pos_right hr (by omega)
  generalize r * P / y = u at hu hu2
  have hst : (if r * P % y = 0 then 0 else 1) ≤ 1 := by split_ifs <;> omega
  generalize (if r * P % y = 0 then 0 else 1) = st at hst
  have hM : 2 * (q * P + u) + st = q * (2 * P) + (2 * u + st) := by ring
  rw [hM]
  have hw : 2 * u + st < 2 * P := by omega
  have hdivq : (q * (2 * P) + (2 * u + st)) / (2 * P) = q := by
    rw [Nat.mul_comm q, Nat.mul_add_div (by omega), Nat.div_eq_of_lt hw]
    rfl
  rw [round24_natCast]
  split_ifs with h24
  · exact ⟨_, rfl, hdivq⟩
  · refine ⟨_, rfl, ?_⟩
    generalize hMd : q * (2 * P) + (2 * u + st) = M at *
    have hM0 : M ≠ 0 := by
      have : 0 < 2 ^ 24 := by norm_num
      omega
    have hL1 : 24 ≤ ilog2 M := le_ilog2_of_le (by omega)
    have hL2 := ilog2_le M hM0
    have hqb : q + 1 ≤ 2 ^ 24 := by
      have : y * q ≤ x := by omega
      have : q ≤ y * q := Nat.le_mul_of_pos_left _ hy
      omega
    have hMlt : M < (q + 1) * (2 * P) := by
      rw [← hMd]
      have : (q + 1) * (2 * P) = q * (2 * P) + 2 * P := by ring
      omega
    obtain ⟨s, hs⟩ : ∃ s, ilog2 M = s + 23 := ⟨ilog2 M - 23, by omega⟩
    have es : s + 23 - 23 = s := by omega
    rw [hs, es]
    rw [hs] at hL2
    have hE : 2 ^ 23 * 2 ^ s ≤ M := by
      rw [← pow_add, Nat.add_comm]; exact hL2
    have hsT : 2 ^ s ∣ 2 * P := by
      apply hpow
      calc 2 ^ (s + 23) ≤ M := hL2
        _ < (q + 1) * (2 * P) := hMlt
        _ ≤ 2 ^ 24 * (2 * P) := Nat.mul_le_mul_right _ hqb
    have hlo : q * (2 * P) ≤ rne M s * 2 ^ s :=
      rne_mul_ge M s _ (Dvd.dvd.mul_left hsT q) (by omega)
    have hhi : rne M s * 2 ^ s < (q + 1) * (2 * P) :=
      rne_mul_lt M s _ (Dvd.dvd.mul_left hsT (q + 1)) hMlt
        (quot_gap x y q r u st P (2 ^ s) M hx hxy hr hu hst hP hMd.symm hE)
    exact Nat.div_eq_of_lt_le hlo hhi


theorem tdiv_natCast (R T : Nat) : Int.tdiv (R : Int) (T : Int) = ((R / T : Nat) : Int) := by
  rw [Int.tdiv_eq_ediv (Int.ofNat_nonneg R) (Int.ofNat_nonneg T)]
  exact (Int.natCast_div R T).symm

theorem tdiv_eq_sign_mul (a b : Int) :
    Int.tdiv a b = a.sign * b.sign * ((a.natAbs / b.natAbs : Nat) : Int) := by
  have key : ∀ x y : Nat, 0 < x → 0 < y →
      (Int.tdiv (x : Int) (y : Int) = (x : Int).sign * (y : Int).sign * ((x / y : Nat) : Int))
      ∧ (Int.tdiv (x : Int) (-(y : Int))
          = (x : Int).sign * (-(y : Int)).sign * ((x / y : Nat) : Int))
      ∧ (Int.tdiv (-(x : Int)) (y : Int)
          = (-(x : Int)).sign * (y : Int).sign * ((x / y : Nat) : Int))
      ∧ (Int.tdiv (-(x : Int)) (-(y : Int))
          = (-(x : Int)).sign * (-(y : Int)).sign * ((x / y : Nat) : Int)) := by
    intro x y hx hy
    have hx1 : (0 : Int) < (x : Int) := by exact_mod_cast hx
    have hy1 : (0 : Int) < (y : Int) := by exact_mod_cast hy
    have hx2 : -(x : Int) < 0 := by omega
    have hy2 : -(y : Int) < 0 := by omega
    rw [Int.sign_eq_one_of_pos hx1, Int.sign_eq_one_of_pos hy1, Int.sign_eq_neg_one_of_neg hx2,
      Int.sign_eq_neg_one_of_neg hy2, Int.neg_tdiv, Int.tdiv_neg, Int.neg_tdiv, Int.tdiv_neg,
      tdiv_natCast]
    refine ⟨?_, ?_, ?_, ?_⟩ <;> ring
  rcases Nat.eq_zero_or_pos a.natAbs with hx | hx
  · have ha : a = 0 := Int.natAbs_eq_zero.mp hx
    subst ha
    simp
  rcases Nat.eq_zero_or_pos b.natAbs with hy | hy
  · have hb : b = 0 := Int.natAbs_eq_zero.mp hy
    subst hb
    simp
  obtain ⟨k1, k2, k3, k4⟩ := key a.natAbs b.natAbs hx hy
  rcases Int.natAbs_eq a with ha | ha <;> rcases Int.natAbs_eq b with hb | hb
  · rw [← ha, ← hb] at k1; exact k1
  · have e : -(b.natAbs : Int) = b := by omega
    rw [← ha, e] at k2; exact k2
  · have e : -(a.natAbs : Int) = a := by omega
    rw [e, ← hb] at k3; exact k3
  · have e : -(a.natAbs : Int) = a := by omega
    have e2 : -(b.natAbs : Int) = b := by omega
    rw [e, e2] at k4; exact k4

theorem tdiv_sign_mul (σ τ : Int) (R T : Nat) (hσ : σ = 1 ∨ σ = -1 ∨ σ = 0)
    (hτ : τ = 1 ∨ τ = -1 ∨ τ = 0) :
    Int.tdiv (σ * τ * (R : Int)) (T : Int) = σ * τ * ((R / T : Nat) : Int) := by
  rcases hσ with h | h | h <;> rcases hτ with k | k | k <;> subst h k <;>
    simp [Int.neg_tdiv, tdiv_natCast]

theorem sign_cases (a : Int) : a.sign = 1 ∨ a.sign = -1 ∨ a.sign = 0 := by
  rcases lt_trichotomy a 0 with h | h | h
  · right; left; exact Int.sign_eq_neg_one_of_neg h
  · right; right; rw [h]; rfl
  · left; exact Int.sign_eq_one_of_pos h

/-- The truncated binary32 quotient of an integer below `2^24` in magnitude by a non-zero
integer is the truncating integer quotient. -/
theorem f32_quotient_exact (a b : Int) (ha : a.natAbs < 2 ^ 24) (hb : b ≠ 0) :
    f32_quotient a b = Int.tdiv a b := by
  unfold f32_quotient Dbl.div Dbl.trunc
  simp only [pow_zero, mul_one]
  split_ifs with hc
  · simp only [Nat.zero_add]
    conv_rhs => rw [hc.2]
  · obtain ⟨R, hR1, hR2⟩ := roundQuot_trunc a.natAbs b.natAbs ha (Int.natAbs_pos.mpr hb)
    simp only []
    rw [hR1, tdiv_eq_sign_mul a b, ← hR2]
    have e : (2 : Int) ^ (roundQuot a.natAbs b.natAbs).scale
        = ((2 ^ (roundQuot a.natAbs b.natAbs).scale : Nat) : Int) := by push_cast; rfl
    rw [e]
    exact tdiv_sign_mul _ _ _ _ (sign_cases a) (sign_cases b)


/-- When no value converted to `double` has more than 24 significant bits, the binary32
reading of the temperature formula is the formula with truncating integer division. -/
theorem f32_temperature_eq_spec (data : bmp180_calibration_data_t) (raw : Int)
    (hP : ((raw - data.AC6) * data.AC5).natAbs < 2 ^ 24)
    (hMC : (data.MC * 2 ^ 11).natAbs < 2 ^ 24)
    (hdiv : spec_temperature_x1 data raw + data.MD ≠ 0)
    (hB5 : (spec_temperature_B5 data raw + 8).natAbs < 2 ^ 24) :
    f32_temperature_B5 data raw = spec_temperature_B5 data raw
    ∧ f32_temperature (f32_temperature_B5 data raw)
      = spec_temperature (spec_temperature_B5 data raw) := by
  have hx1 : f32_temperature_x1 data raw = spec_temperature_x1 data raw := by
    unfold f32_temperature_x1 spec_temperature_x1
    rw [round24_of_lt hP]
  have hB : f32_temperature_B5 data raw = spec_temperature_B5 data raw := by
    unfold f32_temperature_B5 spec_temperature_B5 f32_temperature_x2 spec_temperature_x2
    rw [hx1, f32_quotient_exact _ _ hMC hdiv]
  refine ⟨hB, ?_⟩
  rw [hB]
  unfold f32_temperature spec_temperature
  rw [round24_of_lt hB5]

theorem pressure_p_eq_spec (b7 b4 : Int) (h7 : 0 ≤ b7 ∧ b7 < 4294967296) (h4 : 0 < b4)
    (hfit : fits32 (spec_pressure_p b7 b4)) : pressure_p b7 b4 = spec_pressure_p b7 b4 := by
  unfold pressure_p spec_pressure_p at *
  norm_num only at *
  split
  · next h =>
    rw [if_pos h] at hfit
    have h1 : to_uint32 (b7 * 2) = b7 * 2 := to_uint32_of_fits (by unfold fitsU32; omega)
    rw [h1, Int.tdiv_eq_ediv (by omega) (by omega)]
    exact to_int32_of_fits hfit
  · next h =>
    rw [if_neg h] at hfit
    rw [Int.tdiv_eq_ediv (by omega) (by omega)]
    have h0 : 0 ≤ b7 / b4 := Int.ediv_nonneg (by omega) (by omega)
    have h1 : to_uint32 (b7 / b4 * 2) = b7 / b4 * 2 :=
      to_uint32_of_fits (by unfold fitsU32; unfold fits32 at hfit; omega)
    rw [h1]
    exact to_int32_of_fits hfit

theorem pressure_b3_eq_f32 (data : bmp180_calibration_data_t) (mode : bmp180_mode_t) (b6 : Int)
    (hd : data.InRange) (h : f32_b3_fits data mode.toNat b6) :
    pressure_b3 data mode b6 = f32_b3 data mode.toNat b6 := by
  obtain ⟨-, -, -, -, -, -, -, hB2, -, -, -⟩ := hd
  obtain ⟨h1, h2, h3, h4, h5, h6, h7, h8, h9⟩ := h
  unfold pressure_b3 f32_b3
  simp only [Dbl.div_pow2, Dbl.mul, Dbl.ofInt, Dbl.trunc, Nat.zero_add]
  rw [round24_of_lt (by omega : data.B2.natAbs < 2 ^ 24)]
  rw [to_int32_of_fits h1, to_int32_of_fits h3]
  have e : (2 : Int) ^ (12 + 11) = 2 ^ 23 := by norm_num
  rw [e]
  rw [to_int32_of_fits h2, to_int32_of_fits h4, to_int32_of_fits h5, to_int32_of_fits h6,
    to_int32_of_fits h7, to_int32_of_fits h8, to_int32_of_fits h9]

theorem pressure_b4_eq_f32 (data : bmp180_calibration_data_t) (b6 : Int)
    (hd : data.InRange) (h : f32_b4_fits data b6) : pressure_b4 data b6 = f32_b4 data b6 := by
  obtain ⟨-, -, -, -, -, -, hB1, -, -, -, -⟩ := hd
  simp only [f32_b4_fits, f32_b4, f32_x3] at h
  obtain ⟨h1, h2, h3, h4, h5, h6, h7, h8, h9, h10, h11⟩ := h
  simp only [pressure_b4, f32_b4, f32_x3]
  simp only [Dbl.div_pow2, Dbl.mul, Dbl.ofInt, Dbl.trunc, Nat.zero_add]
  rw [round24_of_lt (by omega : data.B1.natAbs < 2 ^ 24)]
  rw [to_int32_of_fits h1, to_int32_of_fits h2]
  have e : (2 : Int) ^ (12 + 16) = 2 ^ 28 := by norm_num
  rw [e]
  rw [to_int32_of_fits h3, to_int32_of_fits h4, to_int32_of_fits h5, to_int32_of_fits h6,
    to_int32_of_fits h7, to_int32_of_fits h8]
  have e1 : to_uint32 (Int.tdiv (round24 (Int.tdiv (round24 (data.AC3 * b6)) (2 ^ 13)
      + Int.tdiv (round24 (data.B1 * round24 (b6 * b6))) (2 ^ 28) + 2)) (2 ^ 2) + 32768)
      = Int.tdiv (round24 (Int.tdiv (round24 (data.AC3 * b6)) (2 ^ 13)
      + Int.tdiv (round24 (data.B1 * round24 (b6 * b6))) (2 ^ 28) + 2)) (2 ^ 2) + 32768 :=
    to_uint32_of_fits (by unfold fitsU32; unfold fits32 at h8; omega)
  rw [e1, to_uint32_of_fits h10, to_uint32_of_fits h11]

theorem pressure_final_eq_f32 (p : Int) (h : f32_final_fits p) :
    pressure_final p = f32_final p := by
  obtain ⟨h1, h2, h3, h4, h5, h6, h7, h8⟩ := h
  unfold pressure_final f32_final
  simp only [Dbl.div_pow2, Dbl.mul, Dbl.add, Dbl.ofInt, Dbl.trunc, Nat.zero_add, pow_zero,
    mul_one]
  have e : (2 : Int) ^ (8 + 8) = 2 ^ 16 := by norm_num
  rw [e]
  rw [to_int32_of_fits h1, to_int32_of_fits h2, to_int32_of_fits h3, to_int32_of_fits h4,
    to_int32_of_fits h5, to_int32_of_fits h6, to_int32_of_fits h7, to_int32_of_fits h8]


/-! ## Arithmetic lemmas -/

theorem fits32_tdiv_of_abs {a : Int} (b : Int) (h : -2147483647 ≤ a ∧ a ≤ 2147483647) :
    fits32 (Int.tdiv a b) := by
  have h1 := natAbs_tdiv_le a b
  unfold fits32; omega

theorem tdiv_bounds_of_nonneg {a b : Int} (hb : 0 ≤ b) :
    (0 ≤ a → 0 ≤ Int.tdiv a b ∧ Int.tdiv a b ≤ a) ∧ (a ≤ 0 → a ≤ Int.tdiv a b ∧ Int.tdiv a b ≤ 0) := by
  have h1 := natAbs_tdiv_le a b
  constructor
  · intro ha
    have := Int.tdiv_nonneg ha hb
    omega
  · intro ha
    have h2 : 0 ≤ Int.tdiv (-a) b := Int.tdiv_nonneg (by omega) hb
    rw [Int.neg_tdiv] at h2
    omega

theorem tdiv_eq_ite (a b : Int) (hb : 0 ≤ b) :
    Int.tdiv a b = if 0 ≤ a then a / b else -((-a) / b) := by
  split
  · next h => exact Int.tdiv_eq_ediv h hb
  · next h =>
    have h1 : Int.tdiv (-a) b = (-a) / b := Int.tdiv_eq_ediv (by omega) hb
    rw [Int.neg_tdiv] at h1
    omega

theorem fits32_tdiv {a b : Int} (hb : 0 ≤ b) (h : fits32 a) : fits32 (Int.tdiv a b) := by
  have h1 := tdiv_bounds_of_nonneg (a := a) hb
  unfold fits32 at *
  rcases le_total 0 a with ha | ha
  · have := h1.1 ha; omega
  · have := h1.2 ha; omega

theorem pressure_up_bounds (mode : bmp180_mode_t) (msb lsb xlsb : Nat) :
    fits32 (pressure_up mode msb lsb xlsb) ∧ 0 ≤ pressure_up mode msb lsb xlsb := by
  unfold pressure_up
  have h1 : ((((msb <<< 16) ||| (lsb <<< 8)) ||| xlsb) % 4294967296) >>> (8 - mode.toNat)
      < 2147483648 := by
    rw [Nat.shiftRight_eq_div_pow]
    have h2 : (((msb <<< 16) ||| (lsb <<< 8)) ||| xlsb) % 4294967296 < 4294967296 :=
      Nat.mod_lt _ (by norm_num)
    have h3 : 2 ^ (8 - mode.toNat) ≥ 32 := by
      cases mode <;> simp [bmp180_mode_t.toNat]
    calc _ ≤ ((((msb <<< 16) ||| (lsb <<< 8)) ||| xlsb) % 4294967296) / 32 :=
          Nat.div_le_div_left h3 (by norm_num)
      _ < 2147483648 := by omega
  generalize ((((msb <<< 16) ||| (lsb <<< 8)) ||| xlsb) % 4294967296) >>> (8 - mode.toNat) = n at h1
  have h4 : fits32 ((n : Nat) : Int) := by
    unfold fits32; omega
  rw [to_int32_of_fits h4]
  exact ⟨h4, by omega⟩

theorem pressure_value_eq_f32 (bmp180 : bmp180_t) (msb lsb xlsb : Nat)
    (hd : bmp180.data.InRange)
    (hb4 : f32_b4 bmp180.data (bmp180.B5 - 4000) ≠ 0)
    (h : f32_pressure_fits bmp180.data bmp180.mode.toNat bmp180.B5
      (pressure_up bmp180.mode msb lsb xlsb)) :
    pressure_value bmp180 msb lsb xlsb
      = f32_pressure bmp180.data bmp180.mode.toNat bmp180.B5
          (pressure_up bmp180.mode msb lsb xlsb) := by
  obtain ⟨h1, h2, h3, h4, h5, h6, h7⟩ := h
  unfold pressure_value f32_pressure
  simp only []
  have e6 : pressure_b6 bmp180.B5 = bmp180.B5 - 4000 := to_int32_of_fits h1
  rw [e6, pressure_b3_eq_f32 _ _ _ hd h2, pressure_b4_eq_f32 _ _ hd h3]
  have hb4pos : 0 < f32_b4 bmp180.data (bmp180.B5 - 4000) := by
    have hnn : 0 ≤ f32_b4 bmp180.data (bmp180.B5 - 4000) := h3.2.2.2.2.2.2.2.2.2.2.1
    omega
  have e7 : pressure_b7 bmp180.mode (pressure_up bmp180.mode msb lsb xlsb)
      (f32_b3 bmp180.data bmp180.mode.toNat (bmp180.B5 - 4000))
      = (pressure_up bmp180.mode msb lsb xlsb
          - f32_b3 bmp180.data bmp180.mode.toNat (bmp180.B5 - 4000))
        * (50000 / 2 ^ bmp180.mode.toNat) := by
    unfold pressure_b7
    rw [to_uint32_of_fits h4, to_uint32_of_fits h5]
  rw [e7, pressure_p_eq_spec _ _ h5 hb4pos h6, pressure_final_eq_f32 _ h7]

/-! ## The engine primitives -/

/-- Effect of successful primitives on the environment: same bus, same readiness, `k` more
completed bus operations. -/
def Advances (k : Nat) (s s1 : I2C) : Prop :=
  s1.bus = s.bus ∧ s1.i2c_ready = s.i2c_ready ∧ s1.tick = s.tick + k

theorem Advances.trans {j k : Nat} {s s1 s2 : I2C} (h1 : Advances j s s1) (h2 : Advances k s1 s2) :
    Advances (j + k) s s2 := by
  obtain ⟨a1, a2, a3⟩ := h1
  obtain ⟨b1, b2, b3⟩ := h2
  exact ⟨by rw [b1, a1], by rw [b2, a2], by rw [b3, a3]; omega⟩

theorem i2c_start_log (a : Nat) (m : i2c_mode_t) (s : I2C) :
    (i2c_start a m s).2.log = s.log ++ [⟨.start a m, (i2c_start a m s).1⟩] := by
  unfold i2c_start record i2c_start_body i2c_wait
  simp only []
  split_ifs <;> rfl

theorem i2c_write_byte_log (d : Nat) (s : I2C) :
    (i2c_write_byte d s).2.log = s.log ++ [⟨.write (d % 256), (i2c_write_byte d s).1⟩] := by
  unfold i2c_write_byte record i2c_write_byte_body i2c_wait
  simp only []
  split_ifs <;> rfl

theorem i2c_read_byte_ACK_log (b : Nat) (s : I2C) :
    (i2c_read_byte_ACK b s).2.2.log = s.log ++ [⟨.readAck, (i2c_read_byte_ACK b s).1⟩] := by
  unfold i2c_read_byte_ACK record i2c_read_byte_ACK_body i2c_wait
  simp only []
  split_ifs <;> rfl

theorem i2c_read_byte_NACK_log (b : Nat) (s : I2C) :
    (i2c_read_byte_NACK b s).2.2.log = s.log ++ [⟨.readNack, (i2c_read_byte_NACK b s).1⟩] := by
  unfold i2c_read_byte_NACK record i2c_read_byte_NACK_body i2c_wait
  simp only []
  split_ifs <;> rfl

theorem i2c_stop_log (s : I2C) : (i2c_stop s).log = s.log ++ [⟨.stop, true⟩] := by
  unfold i2c_stop record
  split_ifs <;> rfl

theorem i2c_stop_advances (s : I2C) : Advances 0 s (i2c_stop s) := by
  unfold i2c_stop record Advances
  split_ifs <;> simp

theorem i2c_start_advances (a : Nat) (m : i2c_mode_t) (s : I2C) (h : (i2c_start a m s).1 = true) :
    s.i2c_ready = true ∧ Advances 2 s (i2c_start a m s).2 := by
  unfold i2c_start record i2c_start_body i2c_wait Advances at *
  simp only [] at *
  split_ifs at h ⊢ <;> simp_all

theorem i2c_write_byte_advances (d : Nat) (s : I2C) (h : (i2c_write_byte d s).1 = true) :
    s.i2c_ready = true ∧ Advances 1 s (i2c_write_byte d s).2 := by
  unfold i2c_write_byte record i2c_write_byte_body i2c_wait Advances at *
  simp only [] at *
  split_ifs at h ⊢ <;> simp_all

theorem i2c_read_byte_ACK_advances (b : Nat) (s : I2C) (h : (i2c_read_byte_ACK b s).1 = true) :
    s.i2c_ready = true ∧ Advances 1 s (i2c_read_byte_ACK b s).2.2
    ∧ (i2c_read_byte_ACK b s).2.1 = (s.bus s.tick .dataInAck).2 % 256 := by
  unfold i2c_read_byte_ACK record i2c_read_byte_ACK_body i2c_wait Advances at *
  simp only [] at *
  split_ifs at h ⊢ <;> simp_all

theorem i2c_read_byte_NACK_advances (b : Nat) (s : I2C) (h : (i2c_read_byte_NACK b s).1 = true) :
    s.i2c_ready = true ∧ Advances 1 s (i2c_read_byte_NACK b s).2.2
    ∧ (i2c_read_byte_NACK b s).2.1 = (s.bus s.tick .dataInNack).2 % 256 := by
  unfold i2c_read_byte_NACK record i2c_read_byte_NACK_body i2c_wait Advances at *
  simp only [] at *
  split_ifs at h ⊢ <;> simp_all

theorem AllAck.of_advances {k : Nat} {s s1 : I2C} (h : AllAck s) (ha : Advances k s s1) :
    AllAck s1 := by
  obtain ⟨a1, a2, -⟩ := ha
  exact ⟨by rw [a2]; exact h.1, by rw [a1]; exact h.2⟩

theorem sla_mod_two (a : Nat) (m : i2c_mode_t) : (((a <<< 1) ||| m.toNat) % 256) % 2 = m.toNat := by
  have h : ((a <<< 1) ||| m.toNat) = 2 * a + m.toNat := by
    rw [Nat.shiftLeft_eq, Nat.mul_comm a]
    exact (Nat.mul_add_lt_is_or (i := 1) (by cases m <;> simp [i2c_mode_t.toNat]) a).symm
  rw [h]
  cases m <;> simp [i2c_mode_t.toNat] <;> omega

theorem ackStatus_masked (op : BusOp) : ackStatus op % 256 &&& 0xF8 = ackStatus op := by
  cases op with
  | address sla_rw =>
    simp only [ackStatus]
    split_ifs
    · show TW_MT_SLA_ACK % 256 &&& 0xF8 = TW_MT_SLA_ACK
      decide
    · show TW_MR_SLA_ACK % 256 &&& 0xF8 = TW_MR_SLA_ACK
      decide
  | startCondition => decide
  | dataOut b => show TW_MT_DATA_ACK % 256 &&& 0xF8 = TW_MT_DATA_ACK; decide
  | dataInAck => decide
  | dataInNack => decide

theorem accepted_ackStatus (op : BusOp) : accepted op (ackStatus op % 256 &&& 0xF8) = true := by
  rw [ackStatus_masked]
  cases op <;> simp [accepted, ackStatus, TW_START]

theorem i2c_start_ack (a : Nat) (m : i2c_mode_t) (s : I2C) (h : AllAck s) :
    (i2c_start a m s).1 = true := by
  obtain ⟨h1, h2⟩ := h
  have hs := sla_mod_two a m
  have k1 := h2 s.tick .startCondition
  have k2 := h2 (s.tick + 1) (.address (((a <<< 1) ||| m.toNat) % 256))
  simp only [accepted, hs] at k1 k2
  unfold i2c_start record i2c_start_body i2c_wait TW_STATUS
  simp only [h1, k1]
  cases m <;> simp_all [i2c_mode_t.toNat]

theorem i2c_write_byte_ack (d : Nat) (s : I2C) (h : AllAck s) : (i2c_write_byte d s).1 = true := by
  obtain ⟨h1, h2⟩ := h
  have k1 := h2 s.tick (.dataOut (d % 256))
  simp only [accepted] at k1
  unfold i2c_write_byte record i2c_write_byte_body i2c_wait TW_STATUS
  simp [h1, k1]

theorem i2c_read_byte_ACK_ack (b : Nat) (s : I2C) (h : AllAck s) :
    (i2c_read_byte_ACK b s).1 = true := by
  obtain ⟨h1, h2⟩ := h
  have k1 := h2 s.tick .dataInAck
  simp only [accepted] at k1
  unfold i2c_read_byte_ACK record i2c_read_byte_ACK_body i2c_wait TW_STATUS
  simp [h1, k1]

theorem i2c_read_byte_NACK_ack (b : Nat) (s : I2C) (h : AllAck s) :
    (i2c_read_byte_NACK b s).1 = true := by
  obtain ⟨h1, h2⟩ := h
  have k1 := h2 s.tick .dataInNack
  simp only [accepted] at k1
  unfold i2c_read_byte_NACK record i2c_read_byte_NACK_body i2c_wait TW_STATUS
  simp [h1, k1]

theorem i2c_start_frame (a : Nat) (m : i2c_mode_t) (s : I2C) :
    (i2c_start a m s).2.bus = s.bus ∧ (i2c_start a m s).2.i2c_ready = s.i2c_ready := by
  unfold i2c_start record i2c_start_body i2c_wait
  simp only []
  split_ifs <;> simp

theorem i2c_write_byte_frame (d : Nat) (s : I2C) :
    (i2c_write_byte d s).2.bus = s.bus ∧ (i2c_write_byte d s).2.i2c_ready = s.i2c_ready := by
  unfold i2c_write_byte record i2c_write_byte_body i2c_wait
  simp only []
  split_ifs <;> simp

theorem i2c_read_byte_ACK_frame (b : Nat) (s : I2C) :
    (i2c_read_byte_ACK b s).2.2.bus = s.bus
    ∧ (i2c_read_byte_ACK b s).2.2.i2c_ready = s.i2c_ready := by
  unfold i2c_read_byte_ACK record i2c_read_byte_ACK_body i2c_wait
  simp only []
  split_ifs <;> simp

theorem i2c_read_byte_NACK_frame (b : Nat) (s : I2C) :
    (i2c_read_byte_NACK b s).2.2.bus = s.bus
    ∧ (i2c_read_byte_NACK b s).2.2.i2c_ready = s.i2c_ready := by
  unfold i2c_read_byte_NACK record i2c_read_byte_NACK_body i2c_wait
  simp only []
  split_ifs <;> simp

theorem AllAck.of_frame {s s1 : I2C} (h : AllAck s)
    (hf : s1.bus = s.bus ∧ s1.i2c_ready = s.i2c_ready) : AllAck s1 :=
  ⟨by rw [hf.2]; exact h.1, by rw [hf.1]; exact h.2⟩

theorem AllAck.keep_start {s : I2C} (h : AllAck s) (a : Nat) (m : i2c_mode_t) :
    AllAck (i2c_start a m s).2 := h.of_frame (i2c_start_frame a m s)

theorem AllAck.keep_write {s : I2C} (h : AllAck s) (d : Nat) : AllAck (i2c_write_byte d s).2 :=
  h.of_frame (i2c_write_byte_frame d s)

theorem AllAck.keep_readAck {s : I2C} (h : AllAck s) (b : Nat) : AllAck (i2c_read_byte_ACK b s).2.2 :=
  h.of_frame (i2c_read_byte_ACK_frame b s)

theorem AllAck.keep_readNack {s : I2C} (h : AllAck s) (b : Nat) : AllAck (i2c_read_byte_NACK b s).2.2 :=
  h.of_frame (i2c_read_byte_NACK_frame b s)

theorem AllAck.keep_stop {s : I2C} (h : AllAck s) : AllAck (i2c_stop s) :=
  h.of_advances (i2c_stop_advances s)

theorem andAlso_inv {r r1 : Bool × I2C} {f : I2C → Bool × I2C} (h : andAlso r f = r1)
    (h1 : r1.1 = true) : r.1 = true ∧ r1 = f r.2 := by
  unfold andAlso at h
  split at h
  · next hr => exact ⟨hr, h.symm⟩
  · rw [← h] at h1; simp at h1

theorem andRead_inv {r : Bool × I2C} {r1 : Bool × Nat × I2C} {b : Nat}
    {f : Nat → I2C → Bool × Nat × I2C} (h : andRead r b f = r1)
    (h1 : r1.1 = true) : r.1 = true ∧ r1 = f b r.2 := by
  unfold andRead at h
  split at h
  · next hr => exact ⟨hr, h.symm⟩
  · rw [← h] at h1; simp at h1

theorem andAlso_of_true {r : Bool × I2C} (f : I2C → Bool × I2C) (h : r.1 = true) :
    andAlso r f = f r.2 := by
  unfold andAlso; rw [if_pos h]

theorem andRead_of_true {r : Bool × I2C} (b : Nat) (f : Nat → I2C → Bool × Nat × I2C)
    (h : r.1 = true) : andRead r b f = f b r.2 := by
  unfold andRead; rw [if_pos h]

/-- A successful `bmp180_get_temperature` consumed eleven bus operations, read `msb` and `lsb`
at the tenth and eleventh, and stored the values computed from them. -/
theorem bmp180_get_temperature_success (b : bmp180_t) (temp : Int) (s : I2C)
    (h : (bmp180_get_temperature b temp s).1 = true) :
    Advances 11 s (bmp180_get_temperature b temp s).2.2.2
    ∧ (bmp180_get_temperature b temp s).2.1
        = { b with B5 := (temperature_B5 b.data ((s.bus (s.tick + 9) BusOp.dataInAck).2 % 256)
              ((s.bus (s.tick + 10) BusOp.dataInNack).2 % 256)) }
    ∧ (bmp180_get_temperature b temp s).2.2.1
        = temperature_t (temperature_B5 b.data ((s.bus (s.tick + 9) BusOp.dataInAck).2 % 256)
              ((s.bus (s.tick + 10) BusOp.dataInNack).2 % 256)) := by
  unfold bmp180_get_temperature at h ⊢
  simp only [] at h ⊢
  generalize hr1 : i2c_start b.i2c_address .I2C_MODE_WRITE s = r1 at h ⊢
  generalize hr2 : andAlso r1 (i2c_write_byte BMP180_REGISTER_CTR_MEAS) = r2 at h ⊢
  generalize hr3 : andAlso r2 (i2c_write_byte BMP180_START_MEASURE_TEMPERATURE) = r3 at h ⊢
  by_cases t3 : r3.1 = true
  swap
  · simp [t3] at h
  simp only [t3, Bool.not_true, Bool.false_eq_true, if_false] at h ⊢
  generalize hr5 : andAlso (true, i2c_stop r3.2) (i2c_start b.i2c_address .I2C_MODE_WRITE) = r5 at h ⊢
  generalize hr6 : andAlso r5 (i2c_write_byte BMP180_REGISTER_OUT_MSB) = r6 at h ⊢
  generalize hr7 : andAlso r6 (i2c_start b.i2c_address .I2C_MODE_READ) = r7 at h ⊢
  generalize hr8 : andRead r7 0 i2c_read_byte_ACK = r8 at h ⊢
  generalize hr9 : andRead (r8.1, r8.2.2) 0 i2c_read_byte_NACK = r9 at h ⊢
  by_cases t9 : r9.1 = true
  swap
  · simp [t9] at h
  simp only [t9, if_true] at h ⊢
  obtain ⟨t8, e9⟩ := andRead_inv hr9 t9
  obtain ⟨t7, e8⟩ := andRead_inv hr8 t8
  obtain ⟨t6, e7⟩ := andAlso_inv hr7 t7
  obtain ⟨t5, e6⟩ := andAlso_inv hr6 t6
  obtain ⟨-, e5⟩ := andAlso_inv hr5 t5
  obtain ⟨t2, e3⟩ := andAlso_inv hr3 t3
  obtain ⟨t1, e2⟩ := andAlso_inv hr2 t2
  simp only [] at e5 e9
  have a1 := (i2c_start_advances _ _ _ (by rw [hr1]; exact t1)).2
  rw [hr1] at a1
  have a2 := (i2c_write_byte_advances _ _ (by rw [← e2]; exact t2)).2
  rw [← e2] at a2
  have a3 := (i2c_write_byte_advances _ _ (by rw [← e3]; exact t3)).2
  rw [← e3] at a3
  have a4 := i2c_stop_advances r3.2
  have a5 := (i2c_start_advances _ _ _ (by rw [← e5]; exact t5)).2
  rw [← e5] at a5
  have a6 := (i2c_write_byte_advances _ _ (by rw [← e6]; exact t6)).2
  rw [← e6] at a6
  have a7 := (i2c_start_advances _ _ _ (by rw [← e7]; exact t7)).2
  rw [← e7] at a7
  have a8 := (i2c_read_byte_ACK_advances _ _ (by rw [← e8]; exact t8)).2
  rw [← e8] at a8
  have a9 := (i2c_read_byte_NACK_advances _ _ (by rw [← e9]; exact t9)).2
  rw [← e9] at a9
  have a10 := i2c_stop_advances r9.2.2
  have b7 := (((((a1.trans a2).trans a3).trans a4).trans a5).trans a6).trans a7
  have b8 := b7.trans a8.1
  have hm : r8.2.1 = (s.bus (s.tick + 9) BusOp.dataInAck).2 % 256 := by
    rw [a8.2, b7.1, b7.2.2]
  have hl : r9.2.1 = (s.bus (s.tick + 10) BusOp.dataInNack).2 % 256 := by
    rw [a9.2, b8.1, b8.2.2]
  refine ⟨(b8.trans a9.1).trans a10, ?_, ?_⟩
  · rw [hm, hl]
  · rw [hm, hl]

theorem bmp180_get_temperature_ack (b : bmp180_t) (temp : Int) (s : I2C) (h : AllAck s) :
    (bmp180_get_temperature b temp s).1 = true := by
  have h1 := i2c_start_ack b.i2c_address .I2C_MODE_WRITE s h
  have k1 := h.keep_start b.i2c_address .I2C_MODE_WRITE
  have h2 := i2c_write_byte_ack BMP180_REGISTER_CTR_MEAS _ k1
  have k2 := k1.keep_write BMP180_REGISTER_CTR_MEAS
  have h3 := i2c_write_byte_ack BMP180_START_MEASURE_TEMPERATURE _ k2
  have k3 := (k2.keep_write BMP180_START_MEASURE_TEMPERATURE).keep_stop
  have h5 := i2c_start_ack b.i2c_address .I2C_MODE_WRITE _ k3
  have k5 := k3.keep_start b.i2c_address .I2C_MODE_WRITE
  have h6 := i2c_write_byte_ack BMP180_REGISTER_OUT_MSB _ k5
  have k6 := k5.keep_write BMP180_REGISTER_OUT_MSB
  have h7 := i2c_start_ack b.i2c_address .I2C_MODE_READ _ k6
  have k7 := k6.keep_start b.i2c_address .I2C_MODE_READ
  have h8 := i2c_read_byte_ACK_ack 0 _ k7
  have k8 := k7.keep_readAck 0
  have h9 := i2c_read_byte_NACK_ack 0 _ k8
  unfold bmp180_get_temperature
  simp only [andAlso, andRead, h1, h2, h3, h5, h6, h7, h8, h9, if_true, Bool.not_true,
    Bool.false_eq_true, if_false]

/-- A successful `bmp180_get_pressure` consumed twelve bus operations, read `msb`, `lsb` and
`xlsb` at the tenth to twelfth, and stored the value computed from them. -/
theorem bmp180_get_pressure_success (b : bmp180_t) (press : Int) (s : I2C)
    (h : (bmp180_get_pressure b press s).1 = true) :
    Advances 12 s (bmp180_get_pressure b press s).2.2
    ∧ (bmp180_get_pressure b press s).2.1
        = pressure_value b ((s.bus (s.tick + 9) BusOp.dataInAck).2 % 256)
            ((s.bus (s.tick + 10) BusOp.dataInAck).2 % 256)
            ((s.bus (s.tick + 11) BusOp.dataInNack).2 % 256) := by
  unfold bmp180_get_pressure at h ⊢
  simp only [] at h ⊢
  generalize hr1 : i2c_start b.i2c_address .I2C_MODE_WRITE s = r1 at h ⊢
  generalize hr2 : andAlso r1 (i2c_write_byte BMP180_REGISTER_CTR_MEAS) = r2 at h ⊢
  generalize hr3 : andAlso r2 (i2c_write_byte
    ((BMP180_START_MEASURE_PRESSURE ||| (b.mode.toNat <<< 6)) % 256)) = r3 at h ⊢
  by_cases t3 : r3.1 = true
  swap
  · simp [t3] at h
  simp only [t3, Bool.not_true, Bool.false_eq_true, if_false] at h ⊢
  generalize hr5 : andAlso (true, i2c_stop r3.2) (i2c_start b.i2c_address .I2C_MODE_WRITE) = r5 at h ⊢
  generalize hr6 : andAlso r5 (i2c_write_byte BMP180_REGISTER_OUT_MSB) = r6 at h ⊢
  generalize hr7 : andAlso r6 (i2c_start b.i2c_address .I2C_MODE_READ) = r7 at h ⊢
  generalize hr8 : andRead r7 0 i2c_read_byte_ACK = r8 at h ⊢
  generalize hr9 : andRead (r8.1, r8.2.2) 0 i2c_read_byte_ACK = r9 at h ⊢
  generalize hr10 : andRead (r9.1, r9.2.2) 0 i2c_read_byte_NACK = r10 at h ⊢
  by_cases t10 : r10.1 = true
  swap
  · simp [t10] at h
  simp only [t10, if_true] at h ⊢
  obtain ⟨t9, e10⟩ := andRead_inv hr10 t10
  obtain ⟨t8, e9⟩ := andRead_inv hr9 t9
  obtain ⟨t7, e8⟩ := andRead_inv hr8 t8
  obtain ⟨t6, e7⟩ := andAlso_inv hr7 t7
  obtain ⟨t5, e6⟩ := andAlso_inv hr6 t6
  obtain ⟨-, e5⟩ := andAlso_inv hr5 t5
  obtain ⟨t2, e3⟩ := andAlso_inv hr3 t3
  obtain ⟨t1, e2⟩ := andAlso_inv hr2 t2
  simp only [] at e5 e9 e10
  have a1 := (i2c_start_advances _ _ _ (by rw [hr1]; exact t1)).2
  rw [hr1] at a1
  have a2 := (i2c_write_byte_advances _ _ (by rw [← e2]; exact t2)).2
  rw [← e2] at a2
  have a3 := (i2c_write_byte_advances _ _ (by rw [← e3]; exact t3)).2
  rw [← e3] at a3
  have a4 := i2c_stop_advances r3.2
  have a5 := (i2c_start_advances _ _ _ (by rw [← e5]; exact t5)).2
  rw [← e5] at a5
  have a6 := (i2c_write_byte_advances _ _ (by rw [← e6]; exact t6)).2
  rw [← e6] at a6
  have a7 := (i2c_start_advances _ _ _ (by rw [← e7]; exact t7)).2
  rw [← e7] at a7
  have a8 := (i2c_read_byte_ACK_advances _ _ (by rw [← e8]; exact t8)).2
  rw [← e8] at a8
  have a9 := (i2c_read_byte_ACK_advances _ _ (by rw [← e9]; exact t9)).2
  rw [← e9] at a9
  have a10 := (i2c_read_byte_NACK_advances _ _ (by rw [← e10]; exact t10)).2
  rw [← e10] at a10
  have a11 := i2c_stop_advances r10.2.2
  have b7 := (((((a1.trans a2).trans a3).trans a4).trans a5).trans a6).trans a7
  have b8 := b7.trans a8.1
  have b9 := b8.trans a9.1
  have hm : r8.2.1 = (s.bus (s.tick + 9) BusOp.dataInAck).2 % 256 := by
    rw [a8.2, b7.1, b7.2.2]
  have hl : r9.2.1 = (s.bus (s.tick + 10) BusOp.dataInAck).2 % 256 := by
    rw [a9.2, b8.1, b8.2.2]
  have hx : r10.2.1 = (s.bus (s.tick + 11) BusOp.dataInNack).2 % 256 := by
    rw [a10.2, b9.1, b9.2.2]
  refine ⟨(b9.trans a10.1).trans a11, ?_⟩
  rw [hm, hl, hx]

theorem bmp180_get_pressure_ack (b : bmp180_t) (press : Int) (s : I2C) (h : AllAck s) :
    (bmp180_get_pressure b press s).1 = true := by
  have h1 := i2c_start_ack b.i2c_address .I2C_MODE_WRITE s h
  have k1 := h.keep_start b.i2c_address .I2C_MODE_WRITE
  have h2 := i2c_write_byte_ack BMP180_REGISTER_CTR_MEAS _ k1
  have k2 := k1.keep_write BMP180_REGISTER_CTR_MEAS
  have h3 := i2c_write_byte_ack
    ((BMP180_START_MEASURE_PRESSURE ||| (b.mode.toNat <<< 6)) % 256) _ k2
  have k3 := (k2.keep_write ((BMP180_START_MEASURE_PRESSURE ||| (b.mode.toNat <<< 6)) % 256)).keep_stop
  have h5 := i2c_start_ack b.i2c_address .I2C_MODE_WRITE _ k3
  have k5 := k3.keep_start b.i2c_address .I2C_MODE_WRITE
  have h6 := i2c_write_byte_ack BMP180_REGISTER_OUT_MSB _ k5
  have k6 := k5.keep_write BMP180_REGISTER_OUT_MSB
  have h7 := i2c_start_ack b.i2c_address .I2C_MODE_READ _ k6
  have k7 := k6.keep_start b.i2c_address .I2C_MODE_READ
  have h8 := i2c_read_byte_ACK_ack 0 _ k7
  have k8 := k7.keep_readAck 0
  have h9 := i2c_read_byte_ACK_ack 0 _ k8
  have k9 := k8.keep_readAck 0
  have h10 := i2c_read_byte_NACK_ack 0 _ k9
  unfold bmp180_get_pressure
  simp only [andAlso, andRead, h1, h2, h3, h5, h6, h7, h8, h9, h10, if_true, Bool.not_true,
    Bool.false_eq_true, if_false]

theorem allAck_readyEngine (data : Nat → Nat) : AllAck (readyEngine (ackBus data)) :=
  ⟨rfl, fun _ op => accepted_ackStatus op⟩

theorem allAck_repStartBus (rep : Nat → Bool) (data : Nat → Nat) :
    AllAck (readyEngine (repStartBus rep data)) := by
  refine ⟨rfl, fun t op => ?_⟩
  cases op with
  | startCondition =>
    show accepted .startCondition ((if rep t then TW_REP_START else TW_START) % 256 &&& 0xF8) = true
    cases rep t <;> decide
  | address sla_rw => exact accepted_ackStatus _
  | dataOut b => exact accepted_ackStatus _
  | dataInAck => exact accepted_ackStatus _
  | dataInNack => exact accepted_ackStatus _

theorem pressure_up_5D23 (xlsb : Nat) (hx : xlsb < 256) :
    pressure_up .BMP180_ULTRA_LOW_POWER_MODE 0x5D 0x23 xlsb = 23843 := by
  unfold pressure_up
  have h1 : ((0x5D <<< 16) ||| (0x23 <<< 8)) = 2 ^ 8 * 23843 := by decide
  rw [h1, ← Nat.mul_add_lt_is_or (i := 8) hx 23843]
  simp only [bmp180_mode_t.toNat, Nat.shiftRight_eq_div_pow]
  unfold to_int32
  omega

/-! ## C1 -/

/-- C1, as stated, fails: with the data sheet calibration, mode 0, a bus on which every
primitive succeeds (repeated starts answered with `TW_REP_START`), `UT = 27898` and
`UP = 23843`, `bmp180_get_temperature` stores 150 but the following `bmp180_get_pressure`
does not store 69964. -/
theorem c1_datasheet_pressure_is_not_69964 :
    (bmp180_get_temperature (datasheet_sensor 0) 0 (readyEngine datasheet_bus)).2.2.1 = 150
    ∧ (bmp180_get_pressure
        (bmp180_get_temperature (datasheet_sensor 0) 0 (readyEngine datasheet_bus)).2.1 0
        (bmp180_get_temperature (datasheet_sensor 0) 0 (readyEngine datasheet_bus)).2.2.2).2.1
      ≠ 69964 := by
  decide

/-- C1, amended: with the data sheet calibration, mode 0, any bus on which every primitive
succeeds (each start condition answered with `TW_START` or `TW_REP_START`), raw temperature
bytes `0x6C 0xFA` (`UT = 27898`) and raw pressure bytes `0x5D 0x23` (`UP = 23843`, whatever
the third byte), `bmp180_get_temperature` succeeds, stores 150 in `*temp` and leaves
`B5 = 2400` in the instance, and the immediately following `bmp180_get_pressure` succeeds and
stores 69965 in `*press`. -/
theorem c1_datasheet_example (i2c_address : Nat) (B5 temp press : Int) (s : I2C) (h : AllAck s)
    (hmsb : (s.bus (s.tick + 9) BusOp.dataInAck).2 % 256 = 0x6C)
    (hlsb : (s.bus (s.tick + 10) BusOp.dataInNack).2 % 256 = 0xFA)
    (pmsb : (s.bus (s.tick + 20) BusOp.dataInAck).2 % 256 = 0x5D)
    (plsb : (s.bus (s.tick + 21) BusOp.dataInAck).2 % 256 = 0x23) :
    (bmp180_get_temperature ⟨i2c_address, .BMP180_ULTRA_LOW_POWER_MODE, datasheet_calibration, B5⟩
      temp s).1 = true
    ∧ (bmp180_get_temperature ⟨i2c_address, .BMP180_ULTRA_LOW_POWER_MODE, datasheet_calibration, B5⟩
      temp s).2.2.1 = 150
    ∧ (bmp180_get_temperature ⟨i2c_address, .BMP180_ULTRA_LOW_POWER_MODE, datasheet_calibration, B5⟩
      temp s).2.1.B5 = 2400
    ∧ (bmp180_get_pressure
        (bmp180_get_temperature ⟨i2c_address, .BMP180_ULTRA_LOW_POWER_MODE, datasheet_calibration, B5⟩
          temp s).2.1 press
        (bmp180_get_temperature ⟨i2c_address, .BMP180_ULTRA_LOW_POWER_MODE, datasheet_calibration, B5⟩
          temp s).2.2.2).1 = true
    ∧ (bmp180_get_pressure
        (bmp180_get_temperature ⟨i2c_address, .BMP180_ULTRA_LOW_POWER_MODE, datasheet_calibration, B5⟩
          temp s).2.1 press
        (bmp180_get_temperature ⟨i2c_address, .BMP180_ULTRA_LOW_POWER_MODE, datasheet_calibration, B5⟩
          temp s).2.2.2).2.1 = 69965 := by
  have t1 := bmp180_get_temperature_ack
    ⟨i2c_address, .BMP180_ULTRA_LOW_POWER_MODE, datasheet_calibration, B5⟩ temp s h
  obtain ⟨a1, e1, e2⟩ := bmp180_get_temperature_success _ _ _ t1
  generalize bmp180_get_temperature
    ⟨i2c_address, .BMP180_ULTRA_LOW_POWER_MODE, datasheet_calibration, B5⟩ temp s = r at *
  have k1 : AllAck r.2.2.2 := h.of_advances a1
  have t2 := bmp180_get_pressure_ack r.2.1 press r.2.2.2 k1
  obtain ⟨-, e3⟩ := bmp180_get_pressure_success _ _ _ t2
  refine ⟨t1, ?_, ?_, t2, ?_⟩
  · rw [e2, hmsb, hlsb]
    show temperature_t (temperature_B5 datasheet_calibration 0x6C 0xFA) = 150
    decide
  · rw [e1, hmsb, hlsb]
    show temperature_B5 datasheet_calibration 0x6C 0xFA = 2400
    decide
  · rw [e3, a1.1, a1.2.2, e1]
    have i1 : s.tick + 11 + 9 = s.tick + 20 := by omega
    have i2 : s.tick + 11 + 10 = s.tick + 21 := by omega
    rw [i1, i2, pmsb, plsb, hmsb, hlsb]
    unfold pressure_value
    simp only []
    show pressure_final (pressure_p (pressure_b7 .BMP180_ULTRA_LOW_POWER_MODE
      (pressure_up .BMP180_ULTRA_LOW_POWER_MODE 0x5D 0x23 _)
      (pressure_b3 datasheet_calibration .BMP180_ULTRA_LOW_POWER_MODE
        (pressure_b6 (temperature_B5 datasheet_calibration 0x6C 0xFA))))
      (pressure_b4 datasheet_calibration
        (pressure_b6 (temperature_B5 datasheet_calibration 0x6C 0xFA)))) = 69965
    rw [pressure_up_5D23 _ (Nat.mod_lt _ (by norm_num))]
    decide

/-- Instance of `c1_datasheet_example`: the bus `datasheet_bus`, on which the repeated starts
of the two reads are answered with `TW_REP_START`. -/
theorem c1_datasheet_example_witness :
    AllAck (readyEngine datasheet_bus)
    ∧ (bmp180_get_temperature (datasheet_sensor 0) 0 (readyEngine datasheet_bus)).1 = true
    ∧ (bmp180_get_temperature (datasheet_sensor 0) 0 (readyEngine datasheet_bus)).2.2.1 = 150
    ∧ (bmp180_get_temperature (datasheet_sensor 0) 0 (readyEngine datasheet_bus)).2.1.B5 = 2400
    ∧ (bmp180_get_pressure
        (bmp180_get_temperature (datasheet_sensor 0) 0 (readyEngine datasheet_bus)).2.1 0
        (bmp180_get_temperature (datasheet_sensor 0) 0 (readyEngine datasheet_bus)).2.2.2).1 = true
    ∧ (bmp180_get_pressure
        (bmp180_get_temperature (datasheet_sensor 0) 0 (readyEngine datasheet_bus)).2.1 0
        (bmp180_get_temperature (datasheet_sensor 0) 0 (readyEngine datasheet_bus)).2.2.2).2.1
      = 69965 :=
  ⟨allAck_repStartBus _ _,
    c1_datasheet_example 0x77 0 0 0 (readyEngine datasheet_bus)
      (allAck_repStartBus _ _) (by decide) (by decide) (by decide) (by decide)⟩

/-! ## C2 -/

/-- C2, as stated, fails, for two reasons.  With the data sheet calibration and the raw
reading `0x6614 = 26132` no integer operation overflows and the divisor is not zero, yet the
stored `B5` is -73 while the formula with truncating integer division gives -75: the product
`(raw - AC6) * AC5 = 97583103` is converted to binary32 and rounded to `97583104 = 2978 * 2^15`
before it is divided, so `x1` is 2978 and not 2977.  With the calibration `AC5 = AC6 = 65535`,
`MD = 1` (every coefficient inside its type) and the raw reading 0 the stored `B5` is 3 while
the formula gives -131068: the product does not fit the 32-bit `long` it is computed in. -/
theorem c2_temperature_formula_counterexample :
    datasheet_calibration.InRange
    ∧ fits32 ((0x66 * 256 + 0x14 - datasheet_calibration.AC6) * datasheet_calibration.AC5)
    ∧ spec_temperature_x1 datasheet_calibration (0x66 * 256 + 0x14) + datasheet_calibration.MD ≠ 0
    ∧ temperature_divisor datasheet_calibration 0x66 0x14 ≠ 0
    ∧ (bmp180_get_temperature (datasheet_sensor 0) 0
        (readyEngine (repStartBus (fun t => t == 7) temperature_data_6614))).1 = true
    ∧ (bmp180_get_temperature (datasheet_sensor 0) 0
        (readyEngine (repStartBus (fun t => t == 7) temperature_data_6614))).2.1.B5 = -73
    ∧ spec_temperature_B5 datasheet_calibration (0x66 * 256 + 0x14) = -75
    ∧ temperature_x1 datasheet_calibration (temperature_ut 0x66 0x14) = 2978
    ∧ spec_temperature_x1 datasheet_calibration (0x66 * 256 + 0x14) = 2977
    ∧ extreme_calibration.InRange
    ∧ spec_temperature_x1 extreme_calibration (0 * 256 + 0) + extreme_calibration.MD ≠ 0
    ∧ (bmp180_get_temperature ⟨0x77, .BMP180_STANDARD_MODE, extreme_calibration, 0⟩ 0
        (readyEngine (ackBus (fun _ => 0)))).1 = true
    ∧ (bmp180_get_temperature ⟨0x77, .BMP180_STANDARD_MODE, extreme_calibration, 0⟩ 0
        (readyEngine (ackBus (fun _ => 0)))).2.1.B5 = 3
    ∧ spec_temperature_B5 extreme_calibration (0 * 256 + 0) = -131068 := by
  decide

/-- C2, amended: for every calibration data inside its types and every raw reading
`raw = msb*256 + lsb` with `msb < 128` for which `(raw - AC6) * AC5` fits a signed 32-bit
integer and the divisor `x1 + MD` is not zero, a successful `bmp180_get_temperature` sets
`B5 = x1 + x2` and `*temp = trunc(fl(B5 + 8) / 2^4)`, where
`x1 = trunc(fl((raw - AC6) * AC5) / 2^15)` and `x2 = trunc(fl(MC * 2^11 / (x1 + MD)))`: the
divisions are binary32 divisions, `fl` rounds to 24 significant bits (to nearest, ties to
even) and `trunc` discards the fractional part.  When `(raw - AC6) * AC5`, `MC * 2^11` and
`B5 + 8` are below `2^24` in magnitude nothing is rounded, and `x1`, `x2`, `B5` and `*temp` are
the truncating integer quotients `(raw - AC6) * AC5 / 2^15`, `MC * 2^11 / (x1 + MD)`,
`x1 + x2` and `(B5 + 8) / 2^4`.  `msb` and `lsb` are the bytes the bus delivers at the tenth
and eleventh bus operation of the call. -/
theorem c2_temperature_formula (b : bmp180_t) (temp : Int) (s : I2C)
    (hd : b.data.InRange)
    (hok : (bmp180_get_temperature b temp s).1 = true)
    (hmsb : (s.bus (s.tick + 9) BusOp.dataInAck).2 % 256 < 128)
    (hfit : fits32 (((((s.bus (s.tick + 9) BusOp.dataInAck).2 % 256 : Nat) : Int) * 256
      + (((s.bus (s.tick + 10) BusOp.dataInNack).2 % 256 : Nat) : Int) - b.data.AC6) * b.data.AC5))
    (hdiv : temperature_divisor b.data ((s.bus (s.tick + 9) BusOp.dataInAck).2 % 256)
      ((s.bus (s.tick + 10) BusOp.dataInNack).2 % 256) ≠ 0) :
    (bmp180_get_temperature b temp s).2.1.B5
      = f32_temperature_B5 b.data
          ((((s.bus (s.tick + 9) BusOp.dataInAck).2 % 256 : Nat) : Int) * 256
            + (((s.bus (s.tick + 10) BusOp.dataInNack).2 % 256 : Nat) : Int))
    ∧ (bmp180_get_temperature b temp s).2.2.1
      = f32_temperature (f32_temperature_B5 b.data
          ((((s.bus (s.tick + 9) BusOp.dataInAck).2 % 256 : Nat) : Int) * 256
            + (((s.bus (s.tick + 10) BusOp.dataInNack).2 % 256 : Nat) : Int)))
    ∧ ((((((s.bus (s.tick + 9) BusOp.dataInAck).2 % 256 : Nat) : Int) * 256
          + (((s.bus (s.tick + 10) BusOp.dataInNack).2 % 256 : Nat) : Int) - b.data.AC6)
          * b.data.AC5).natAbs < 2 ^ 24 →
        (b.data.MC * 2 ^ 11).natAbs < 2 ^ 24 →
        (spec_temperature_B5 b.data
          ((((s.bus (s.tick + 9) BusOp.dataInAck).2 % 256 : Nat) : Int) * 256
            + (((s.bus (s.tick + 10) BusOp.dataInNack).2 % 256 : Nat) : Int)) + 8).natAbs
          < 2 ^ 24 →
        (bmp180_get_temperature b temp s).2.1.B5
          = spec_temperature_B5 b.data
              ((((s.bus (s.tick + 9) BusOp.dataInAck).2 % 256 : Nat) : Int) * 256
                + (((s.bus (s.tick + 10) BusOp.dataInNack).2 % 256 : Nat) : Int))
        ∧ (bmp180_get_temperature b temp s).2.2.1
          = spec_temperature (spec_temperature_B5 b.data
              ((((s.bus (s.tick + 9) BusOp.dataInAck).2 % 256 : Nat) : Int) * 256
                + (((s.bus (s.tick + 10) BusOp.dataInNack).2 % 256 : Nat) : Int)))) := by
  obtain ⟨-, e1, e2⟩ := bmp180_get_temperature_success b temp s hok
  have hl : (s.bus (s.tick + 10) BusOp.dataInNack).2 % 256 < 256 := Nat.mod_lt _ (by norm_num)
  obtain ⟨k1, k2, k3⟩ := temperature_B5_eq_f32 b.data _ _ hd hmsb hl hfit
  rw [e1, e2]
  refine ⟨k1, k2, fun hP hMC hB5 => ?_⟩
  have hx1 : f32_temperature_x1 b.data
      ((((s.bus (s.tick + 9) BusOp.dataInAck).2 % 256 : Nat) : Int) * 256
        + (((s.bus (s.tick + 10) BusOp.dataInNack).2 % 256 : Nat) : Int))
      = spec_temperature_x1 b.data
      ((((s.bus (s.tick + 9) BusOp.dataInAck).2 % 256 : Nat) : Int) * 256
        + (((s.bus (s.tick + 10) BusOp.dataInNack).2 % 256 : Nat) : Int)) := by
    unfold f32_temperature_x1 spec_temperature_x1
    rw [round24_of_lt hP]
  rw [k3, hx1] at hdiv
  obtain ⟨j1, j2⟩ := f32_temperature_eq_spec b.data _ hP hMC hdiv hB5
  rw [k2, k1]
  exact ⟨j1, j2⟩

/-- Instances of `c2_temperature_formula` on the bus `datasheet_bus`, `UT = 27898`: the data
sheet calibration (`B5 = 2400`, `*temp = 150`), and a calibration for which nothing is rounded
(`AC5 = 400`, `MC = -8000`), where `B5` is the value of the truncating integer formula. -/
theorem c2_temperature_formula_witness :
    (bmp180_get_temperature (datasheet_sensor 0) 0 (readyEngine datasheet_bus)).2.1.B5
      = f32_temperature_B5 datasheet_calibration (((0x6C : Nat) : Int) * 256 + ((0xFA : Nat) : Int))
    ∧ (bmp180_get_temperature (datasheet_sensor 0) 0 (readyEngine datasheet_bus)).2.2.1
      = f32_temperature (f32_temperature_B5 datasheet_calibration
          (((0x6C : Nat) : Int) * 256 + ((0xFA : Nat) : Int)))
    ∧ f32_temperature_B5 datasheet_calibration (((0x6C : Nat) : Int) * 256 + ((0xFA : Nat) : Int))
      = 2400
    ∧ (bmp180_get_temperature ⟨0x77, .BMP180_STANDARD_MODE, small_calibration, 0⟩ 0
        (readyEngine datasheet_bus)).2.1.B5
      = spec_temperature_B5 small_calibration (((0x6C : Nat) : Int) * 256 + ((0xFA : Nat) : Int))
    ∧ spec_temperature_B5 small_calibration (((0x6C : Nat) : Int) * 256 + ((0xFA : Nat) : Int))
      = -5544 :=
  have k := c2_temperature_formula (datasheet_sensor 0) 0 (readyEngine datasheet_bus)
    (by decide) (by decide) (by decide) (by decide) (by decide)
  have j := c2_temperature_formula ⟨0x77, .BMP180_STANDARD_MODE, small_calibration, 0⟩ 0
    (readyEngine datasheet_bus) (by decide) (by decide) (by decide) (by decide) (by decide)
  ⟨k.1, k.2.1, by decide, (j.2.2 (by decide) (by decide) (by decide)).1, by decide⟩

/-! ## C3 -/

set_option maxRecDepth 100000 in
/-- C3, as stated, fails.  With the data sheet calibration, `B5 = 2400`, mode 0 and the raw
pressure bytes `0x5D 0x43 0x00`, `b4` is 33457 and `bmp180_get_pressure` stores 70060, while
the reduction with truncation at every division step gives 70059: the quotients
`b6*b6/2^12` and `p/2^8` are `double` values and are not truncated.  With the same
calibration and `B5`, mode 1 and the bytes `0x6D 0x30 0x00` it stores 82241 while the
reduction with integer division gives 82242: the product `-7357 * p = -605356031` is rounded
to 24 significant bits when it is converted to `double`. -/
theorem c3_pressure_reduction_counterexample :
    (bmp180_get_pressure (datasheet_sensor 2400) 0
      (readyEngine (repStartBus (fun t => t == 7) pressure_data_5D43))).1 = true
    ∧ (bmp180_get_pressure (datasheet_sensor 2400) 0
        (readyEngine (repStartBus (fun t => t == 7) pressure_data_5D43))).2.1 = 70060
    ∧ pressure_b4 datasheet_calibration (pressure_b6 2400) = 33457
    ∧ spec_pressure datasheet_calibration 0 2400
        (pressure_up .BMP180_ULTRA_LOW_POWER_MODE 0x5D 0x43 0x00) = 70059
    ∧ (bmp180_get_pressure ⟨0x77, .BMP180_STANDARD_MODE, datasheet_calibration, 2400⟩ 0
        (readyEngine (repStartBus (fun t => t == 7) pressure_data_6D30))).1 = true
    ∧ (bmp180_get_pressure ⟨0x77, .BMP180_STANDARD_MODE, datasheet_calibration, 2400⟩ 0
        (readyEngine (repStartBus (fun t => t == 7) pressure_data_6D30))).2.1 = 82241
    ∧ spec_pressure datasheet_calibration 1 2400
        (pressure_up .BMP180_STANDARD_MODE 0x6D 0x30 0x00) = 82242
    ∧ round24 (-605356031) = -605356032 := by
  decide

/-- C3, amended: for every calibration data inside its C types, carried `B5`, mode in 0..3
and raw pressure bytes for which `b4 ≠ 0` and no intermediate value leaves the range of its C
type, the value a successful `bmp180_get_pressure` stores in `*press` equals the sensor
reduction evaluated in binary32 wherever the source divides by `pow(2, k)`: an integer
converted to `double` and a product or sum of `double` values are rounded to 24 significant
bits (to nearest, ties to even; `round24`), a division by `2^k` is exact, and a quotient is
truncated toward zero only when it is stored in an integer variable.  So
`x1 = fl(B2 * fl(b6*b6)) / 2^23`, `x2 = fl(B1 * fl(b6*b6)) / 2^28` and
`x1 = fl(fl(p) * fl(p)) / 2^16` are each one truncation (the inner quotients `b6*b6/2^12` and
`p/2^8` are not truncated), every other quotient by `2^k` is the truncation of
`fl(numerator) / 2^k`, and the last step truncates `fl(fl(p) + fl(x1+x2+3791)/2^4)`. -/
theorem c3_pressure_reduction (b : bmp180_t) (press : Int) (s : I2C)
    (hd : b.data.InRange)
    (hok : (bmp180_get_pressure b press s).1 = true)
    (hb4 : f32_b4 b.data (b.B5 - 4000) ≠ 0)
    (hfits : f32_pressure_fits b.data b.mode.toNat b.B5
      (pressure_up b.mode ((s.bus (s.tick + 9) BusOp.dataInAck).2 % 256)
        ((s.bus (s.tick + 10) BusOp.dataInAck).2 % 256)
        ((s.bus (s.tick + 11) BusOp.dataInNack).2 % 256))) :
    (bmp180_get_pressure b press s).2.1
      = f32_pressure b.data b.mode.toNat b.B5
          (pressure_up b.mode ((s.bus (s.tick + 9) BusOp.dataInAck).2 % 256)
            ((s.bus (s.tick + 10) BusOp.dataInAck).2 % 256)
            ((s.bus (s.tick + 11) BusOp.dataInNack).2 % 256)) := by
  obtain ⟨-, e1⟩ := bmp180_get_pressure_success b press s hok
  rw [e1]
  exact pressure_value_eq_f32 b _ _ _ hd hb4 hfits

/-- Instance of `c3_pressure_reduction`: the second input of
`c3_pressure_reduction_counterexample` (mode 1, bytes `0x6D 0x30 0x00`); the value is 82241. -/
theorem c3_pressure_reduction_witness :
    (bmp180_get_pressure ⟨0x77, .BMP180_STANDARD_MODE, datasheet_calibration, 2400⟩ 0
      (readyEngine (repStartBus (fun t => t == 7) pressure_data_6D30))).2.1
      = f32_pressure datasheet_calibration 1 2400
          (pressure_up .BMP180_STANDARD_MODE 0x6D 0x30 0x00)
    ∧ f32_pressure datasheet_calibration 1 2400
          (pressure_up .BMP180_STANDARD_MODE 0x6D 0x30 0x00) = 82241 :=
  ⟨c3_pressure_reduction ⟨0x77, .BMP180_STANDARD_MODE, datasheet_calibration, 2400⟩ 0
    (readyEngine (repStartBus (fun t => t == 7) pressure_data_6D30))
    (by decide) (by decide) (by decide) (by decide), by decide⟩

/-! ## C4 -/

/-- C4, as stated, fails: with `AC4 = 1` and every other coefficient zero, `B5 = 4000` and
`UP = 23843` in mode 0 the code reaches `b4 = 1`, `b7 = 1192150000 < 2^31`; the doubled
quotient is 2384300000 but `p`, a signed 32-bit variable, holds -1910667296. -/
theorem c4_pressure_branch_counterexample :
    pressure_b4 unit_calibration (pressure_b6 4000) = 1
    ∧ pressure_b7 .BMP180_ULTRA_LOW_POWER_MODE 23843
        (pressure_b3 unit_calibration .BMP180_ULTRA_LOW_POWER_MODE (pressure_b6 4000)) = 1192150000
    ∧ (1192150000 : Int) < 2 ^ 31
    ∧ pressure_p 1192150000 1 = -1910667296
    ∧ (1192150000 * 2 : Int) / 1 = 2384300000 := by
  decide

/-- C4, amended: for every unsigned 32-bit `b7` and non-zero `b4`: if `b7 < 2^31` the doubling
`b7*2` does not wrap modulo `2^32` and `p = (b7*2)/b4` whenever that quotient is below `2^31`;
if `b7 ≥ 2^31` (`b7 = 2^31` included) then `p = (b7/b4)*2` whenever that value is below `2^31`.
`p` is a signed 32-bit variable, so a value of `2^31` or more is not stored as such. -/
theorem c4_pressure_branch (b7 b4 : Int) (h7 : fitsU32 b7) (h4 : 0 < b4) :
    (b7 < 2 ^ 31 → to_uint32 (b7 * 2) = b7 * 2
      ∧ ((b7 * 2) / b4 < 2 ^ 31 → pressure_p b7 b4 = (b7 * 2) / b4))
    ∧ (2 ^ 31 ≤ b7 → (b7 / b4) * 2 < 2 ^ 31 → pressure_p b7 b4 = (b7 / b4) * 2) := by
  unfold fitsU32 at h7
  refine ⟨fun hlt => ⟨to_uint32_of_fits (by unfold fitsU32; omega), fun hq => ?_⟩, fun hge hq => ?_⟩
  · have hs : spec_pressure_p b7 b4 = (b7 * 2) / b4 := by
      unfold spec_pressure_p; rw [if_pos hlt]
    have h0 : 0 ≤ (b7 * 2) / b4 := Int.ediv_nonneg (by omega) (by omega)
    rw [← hs]
    exact pressure_p_eq_spec b7 b4 h7 h4 (by rw [hs]; unfold fits32; omega)
  · have hs : spec_pressure_p b7 b4 = (b7 / b4) * 2 := by
      unfold spec_pressure_p; rw [if_neg (by omega)]
    have h0 : 0 ≤ b7 / b4 := Int.ediv_nonneg (by omega) (by omega)
    rw [← hs]
    exact pressure_p_eq_spec b7 b4 h7 h4 (by rw [hs]; unfold fits32; omega)

/-- Instance of `c4_pressure_branch`: `b7 = 1171050000`, `b4 = 33457` (first branch) and
`b7 = 2^31`, `b4 = 4` (second branch). -/
theorem c4_pressure_branch_witness :
    pressure_p 1171050000 33457 = (1171050000 * 2) / 33457
    ∧ pressure_p 2147483648 4 = (2147483648 / 4) * 2 :=
  ⟨((c4_pressure_branch 1171050000 33457 (by decide) (by decide)).1 (by decide)).2 (by decide),
   (c4_pressure_branch 2147483648 4 (by decide) (by decide)).2 (by decide) (by decide)⟩

/-! ## Bit copy -/

theorem bit_is_set_eq_testBit (v i : Nat) : bit_is_set v i = v.testBit i := by
  unfold bit_is_set
  rw [Nat.one_shiftLeft]
  by_cases h : v.testBit i = true
  · rw [h]
    have : (v &&& 2 ^ i).testBit i = true := by
      rw [Nat.testBit_land, h, Nat.testBit_two_pow_self]; rfl
    have hne : v &&& 2 ^ i ≠ 0 := by
      intro h0; rw [h0] at this; simp at this
    simpa using hne
  · have hf : v.testBit i = false := by simpa using h
    rw [hf]
    have : v &&& 2 ^ i = 0 := by
      apply Nat.eq_of_testBit_eq
      intro k
      rw [Nat.testBit_land, Nat.testBit_two_pow, Nat.zero_testBit]
      by_cases hk : i = k
      · subst hk; simp [hf]
      · simp [hk]
    simp [this]

theorem testBit_set_bit (dst n k : Nat) (hd : dst < 256) (hn : n < 8) :
    (set_bit dst n).testBit k = if k = n then true else dst.testBit k := by
  unfold set_bit
  rw [show (256 : Nat) = 2 ^ 8 from rfl, Nat.testBit_mod_two_pow, Nat.testBit_lor,
    Nat.one_shiftLeft, Nat.testBit_two_pow]
  by_cases hk : k = n
  · subst hk; simp [hn]
  · have hk2 : ¬ n = k := fun e => hk e.symm
    simp only [hk, hk2, if_false, decide_False, Bool.or_false]
    by_cases h8 : k < 8
    · simp [h8]
    · have h2k : dst < 2 ^ k :=
        calc dst < 2 ^ 8 := hd
          _ ≤ 2 ^ k := Nat.pow_le_pow_right (by norm_num) (by omega)
      have : dst.testBit k = false := Nat.testBit_lt_two_pow h2k
      simp [this]

theorem testBit_clear_bit (dst n k : Nat) (hd : dst < 256) (hn : n < 8) :
    (clear_bit dst n).testBit k = if k = n then false else dst.testBit k := by
  unfold clear_bit
  rw [show (256 : Nat) = 2 ^ 8 from rfl, Nat.testBit_mod_two_pow, Nat.testBit_land,
    Nat.testBit_xor, show (0xFFFF : Nat) = 2 ^ 16 - 1 from rfl, Nat.testBit_two_pow_sub_one,
    Nat.one_shiftLeft, Nat.testBit_two_pow]
  by_cases hk : k = n
  · subst hk; simp [hn]; omega
  · have hk2 : ¬ n = k := fun e => hk e.symm
    simp only [hk, hk2, if_false, decide_False, Bool.xor_false]
    by_cases h8 : k < 8
    · have h16 : k < 16 := by omega
      simp [h8, h16]
    · have h2k : dst < 2 ^ k :=
        calc dst < 2 ^ 8 := hd
          _ ≤ 2 ^ k := Nat.pow_le_pow_right (by norm_num) (by omega)
      have : dst.testBit k = false := Nat.testBit_lt_two_pow h2k
      simp [this]

theorem copy_bit_lt (src dst sb db : Nat) : copy_bit src dst sb db < 256 := by
  unfold copy_bit set_bit clear_bit
  split <;> exact Nat.mod_lt _ (by norm_num)

theorem testBit_copy_bit (src dst col n k : Nat) (hd : dst < 256) (hn : n < 8) :
    (copy_bit src dst col n).testBit k = if k = n then src.testBit col else dst.testBit k := by
  unfold copy_bit
  rw [bit_is_set_eq_testBit]
  by_cases h : src.testBit col = true
  · rw [if_pos h, testBit_set_bit dst n k hd hn, h]
  · rw [if_neg h, testBit_clear_bit dst n k hd hn]
    have hf : src.testBit col = false := by simpa using h
    rw [hf]

theorem dst_value_upto (buff : Nat → Nat) (col n : Nat) (hn : n ≤ 8) :
    (List.range n).foldl (fun dst_value bit => copy_bit (buff bit) dst_value col bit) 0 < 256
    ∧ ∀ k, ((List.range n).foldl (fun dst_value bit => copy_bit (buff bit) dst_value col bit)
        0).testBit k = (decide (k < n) && (buff k).testBit col) := by
  induction n with
  | zero => simp
  | succ n ih =>
    obtain ⟨h1, h2⟩ := ih (by omega)
    rw [List.range_succ, List.foldl_append]
    simp only [List.foldl_cons, List.foldl_nil]
    refine ⟨copy_bit_lt _ _ _ _, fun k => ?_⟩
    rw [testBit_copy_bit _ _ _ _ _ h1 (by omega), h2 k]
    by_cases hk : k = n
    · subst hk; simp
    · by_cases hlt : k < n
      · have : k < n + 1 := by omega
        simp [hk, hlt, this]
      · have : ¬ k < n + 1 := by omega
        simp [hk, hlt, this]

theorem draw_bitmap_dst_value_lt (buff : Nat → Nat) (col : Nat) :
    draw_bitmap_dst_value buff col < 256 :=
  (dst_value_upto buff col 8 (le_refl 8)).1

theorem testBit_draw_bitmap_dst_value (buff : Nat → Nat) (col k : Nat) :
    (draw_bitmap_dst_value buff col).testBit k = (decide (k < 8) && (buff k).testBit col) :=
  (dst_value_upto buff col 8 (le_refl 8)).2 k

set_option maxRecDepth 100000 in
theorem transpose_back_byte_eq (v : Nat) (hv : v < 256) :
    (List.range 8).foldl (fun acc c => acc + (if v.testBit c then 2 ^ c else 0)) 0 = v := by
  revert v
  decide

/-! ## Streaming loops -/

theorem foldl_flatMap_eq {α β γ : Type} (f : γ → β → γ) (g : α → List β) (l : List α) (c : γ) :
    (l.flatMap g).foldl f c = l.foldl (fun c a => (g a).foldl f c) c := by
  induction l generalizing c with
  | nil => rfl
  | cons a l ih => simp only [List.flatMap_cons, List.foldl_append, List.foldl_cons, ih]

theorem writeAll_nil (r : Bool × I2C) : writeAll [] r = r := rfl

theorem writeAll_cons (b : Nat) (bs : List Nat) (r : Bool × I2C) :
    writeAll (b :: bs) r = writeAll bs (andAlso r (i2c_write_byte b)) := rfl

theorem writeAll_append (as bs : List Nat) (r : Bool × I2C) :
    writeAll (as ++ bs) r = writeAll bs (writeAll as r) := by
  unfold writeAll; rw [List.foldl_append]

/-- The three nested loops of `ssd1306_draw_bitmap` write the bytes of `draw_bitmap_stream`. -/
theorem draw_bitmap_loops_eq (width height : Nat) (bitmap : ssd1306_bitmap_t) (r : Bool × I2C) :
    (List.range (div_ceil height SSD1306_BITS_IN_BYTE)).foldl (fun r y =>
      (List.range (div_ceil width SSD1306_BITS_IN_BYTE)).foldl (fun r x =>
        (List.range SSD1306_BITS_IN_BYTE).foldl (fun r col =>
          andAlso r (i2c_write_byte
            (draw_bitmap_dst_value (draw_bitmap_buff bitmap width height y x) col)))
          r) r) r
    = writeAll (draw_bitmap_stream width height bitmap) r := by
  unfold writeAll draw_bitmap_stream
  rw [foldl_flatMap_eq]
  congr 1
  funext r y
  rw [foldl_flatMap_eq]
  congr 1

theorem Good.then_start {r : Bool × I2C} (h : Good r) (a : Nat) (m : i2c_mode_t) :
    Good (andAlso r (i2c_start a m)) := by
  rw [andAlso_of_true _ h.1]
  exact ⟨i2c_start_ack a m _ h.2, h.2.keep_start a m⟩

theorem Good.then_write {r : Bool × I2C} (h : Good r) (d : Nat) :
    Good (andAlso r (i2c_write_byte d)) := by
  rw [andAlso_of_true _ h.1]
  exact ⟨i2c_write_byte_ack d _ h.2, h.2.keep_write d⟩

theorem Good.then_write_log {r : Bool × I2C} (h : Good r) (d : Nat) :
    (andAlso r (i2c_write_byte d)).2.log = r.2.log ++ [⟨.write (d % 256), true⟩] := by
  rw [andAlso_of_true _ h.1, i2c_write_byte_log, i2c_write_byte_ack d _ h.2]

theorem Good.then_start_log {r : Bool × I2C} (h : Good r) (a : Nat) (m : i2c_mode_t) :
    (andAlso r (i2c_start a m)).2.log = r.2.log ++ [⟨.start a m, true⟩] := by
  rw [andAlso_of_true _ h.1, i2c_start_log, i2c_start_ack a m _ h.2]

theorem Good.then_writeAll {r : Bool × I2C} (h : Good r) (bytes : List Nat) :
    Good (writeAll bytes r)
    ∧ (writeAll bytes r).2.log = r.2.log ++ bytes.map (fun b => ⟨.write (b % 256), true⟩) := by
  induction bytes generalizing r with
  | nil => exact ⟨h, by simp [writeAll_nil]⟩
  | cons b bs ih =>
    rw [writeAll_cons]
    obtain ⟨g, e⟩ := ih (h.then_write b)
    refine ⟨g, ?_⟩
    rw [e, h.then_write_log b]
    simp

theorem Good.then_stop {r : Bool × I2C} (h : Good r) : Good (r.1, i2c_stop r.2) :=
  ⟨h.1, h.2.keep_stop⟩

theorem ssd1306_set_area_good (ssd1306 : ssd1306_t) (sp ep sc ec : Nat) (s : I2C)
    (h : AllAck s) : Good (ssd1306_set_area ssd1306 sp ep sc ec s) := by
  have g1 : Good (i2c_start ssd1306.i2c_address .I2C_MODE_WRITE s) :=
    ⟨i2c_start_ack _ _ _ h, h.keep_start _ _⟩
  have g3 := (g1.then_write SSD1306_SEND_COMMAND).then_write SSD1306_DISPLAY_START_LINE_COMMAND
  unfold ssd1306_set_area
  simp only []
  apply Good.then_stop
  split_ifs
  · exact (((((g3.then_write _).then_write _).then_write _).then_write _).then_write _).then_write _
  · exact ((g3.then_write _).then_write _).then_write _
  · exact ((g3.then_write _).then_write _).then_write _
  · exact g3

/-- The events after the last call of `i2c_start`. -/
theorem lastTransaction_append (pre post : List Event) (e : Event) (he : e.isStart = true)
    (hpost : ∀ f ∈ post, f.isStart = false) : lastTransaction (pre ++ e :: post) = post := by
  unfold lastTransaction
  rw [List.reverse_append, List.reverse_cons, List.append_assoc]
  rw [List.takeWhile_append_of_pos]
  · simp [he]
  · intro f hf
    rw [List.mem_reverse] at hf
    simp [hpost f hf]

theorem writtenBytes_map_write (bytes : List Nat) :
    writtenBytes (bytes.map (fun b => (⟨.write b, true⟩ : Event))) = bytes := by
  induction bytes with
  | nil => rfl
  | cons b bs ih => simp [writtenBytes, ih]

theorem writtenBytes_append (as bs : List Event) :
    writtenBytes (as ++ bs) = writtenBytes as ++ writtenBytes bs := by
  induction as with
  | nil => rfl
  | cons a as ih =>
    obtain ⟨p, ok⟩ := a
    cases p <;> simp [writtenBytes, ih]

/-- On an acknowledging bus `ssd1306_draw_bitmap` succeeds and the bytes written in its last
transaction are the data control byte `0x40` followed by `draw_bitmap_stream`. -/
theorem ssd1306_draw_bitmap_written (ssd1306 : ssd1306_t) (sp sc width height : Nat)
    (bitmap : ssd1306_bitmap_t) (s : I2C) (h : AllAck s) :
    Good (ssd1306_draw_bitmap ssd1306 sp sc width height bitmap s)
    ∧ writtenBytes (lastTransaction (ssd1306_draw_bitmap ssd1306 sp sc width height bitmap s).2.log)
        = SSD1306_SEND_DATA :: draw_bitmap_stream width height bitmap := by
  unfold ssd1306_draw_bitmap
  simp only []
  rw [draw_bitmap_loops_eq]
  have g1 := ssd1306_set_area_good ssd1306 sp ((height / SSD1306_BITS_PER_COLUMN + sp) % 256) sc
    (to_uint8 ((sc : Int) + (width : Int) - 1)).toNat s h
  generalize ssd1306_set_area ssd1306 sp ((height / SSD1306_BITS_PER_COLUMN + sp) % 256) sc
    (to_uint8 ((sc : Int) + (width : Int) - 1)).toNat s = r1 at g1 ⊢
  have g2 := g1.then_start ssd1306.i2c_address .I2C_MODE_WRITE
  have l2 := g1.then_start_log ssd1306.i2c_address .I2C_MODE_WRITE
  have g3 := g2.then_write SSD1306_SEND_DATA
  have l3 := g2.then_write_log SSD1306_SEND_DATA
  obtain ⟨g4, l4⟩ := g3.then_writeAll (draw_bitmap_stream width height bitmap)
  refine ⟨g4.then_stop, ?_⟩
  rw [i2c_stop_log, l4, l3, l2]
  have hshape : r1.2.log ++ [⟨.start ssd1306.i2c_address .I2C_MODE_WRITE, true⟩]
        ++ [⟨.write (SSD1306_SEND_DATA % 256), true⟩]
        ++ List.map (fun b => (⟨.write (b % 256), true⟩ : Event))
            (draw_bitmap_stream width height bitmap)
        ++ [⟨.stop, true⟩]
      = r1.2.log ++ (⟨.start ssd1306.i2c_address .I2C_MODE_WRITE, true⟩ : Event)
        :: ([⟨.write (SSD1306_SEND_DATA % 256), true⟩]
          ++ List.map (fun b => (⟨.write (b % 256), true⟩ : Event))
              (draw_bitmap_stream width height bitmap)
          ++ [⟨.stop, true⟩]) := by
    simp
  rw [hshape, lastTransaction_append r1.2.log _
    (⟨.start ssd1306.i2c_address .I2C_MODE_WRITE, true⟩ : Event) rfl]
  · rw [writtenBytes_append, writtenBytes_append]
    have hmap : List.map (fun b => (⟨.write (b % 256), true⟩ : Event))
        (draw_bitmap_stream width height bitmap)
        = List.map (fun b => (⟨.write b, true⟩ : Event)) (draw_bitmap_stream width height bitmap) := by
      apply List.map_congr_left
      intro b hb
      have hlt : b < 256 := by
        unfold draw_bitmap_stream at hb
        simp only [List.mem_flatMap, List.mem_map, List.mem_range] at hb
        obtain ⟨y, -, x, -, col, -, rfl⟩ := hb
        exact draw_bitmap_dst_value_lt _ _
      rw [Nat.mod_eq_of_lt hlt]
    rw [hmap, writtenBytes_map_write]
    simp [writtenBytes, SSD1306_SEND_DATA]
  · intro f hf
    simp only [List.mem_append, List.mem_singleton, List.mem_map] at hf
    rcases hf with (rfl | ⟨b, -, rfl⟩) | rfl <;> rfl

/-- On an acknowledging bus `ssd1306_draw_bitmap` succeeds and the data stream of its last
transaction is `draw_bitmap_stream`. -/
theorem ssd1306_draw_bitmap_ack (ssd1306 : ssd1306_t) (sp sc width height : Nat)
    (bitmap : ssd1306_bitmap_t) (s : I2C) (h : AllAck s) :
    Good (ssd1306_draw_bitmap ssd1306 sp sc width height bitmap s)
    ∧ dataStream (ssd1306_draw_bitmap ssd1306 sp sc width height bitmap s).2.log
        = draw_bitmap_stream width height bitmap := by
  obtain ⟨g, e⟩ := ssd1306_draw_bitmap_written ssd1306 sp sc width height bitmap s h
  refine ⟨g, ?_⟩
  unfold dataStream
  rw [e]
  rfl

/-! ## Positions in the data stream -/

theorem length_flatMap_range {α : Type} (g : Nat → List α) (m n : Nat)
    (hlen : ∀ i, (g i).length = m) : ((List.range n).flatMap g).length = n * m := by
  induction n with
  | zero => simp
  | succ n ih =>
    rw [List.range_succ, List.flatMap_append, List.length_append, ih]
    simp [hlen, Nat.succ_mul]

theorem getD_flatMap_range {α : Type} (g : Nat → List α) (m n : Nat) (d : α)
    (hlen : ∀ i, (g i).length = m) (i j : Nat) (hi : i < n) (hj : j < m) :
    ((List.range n).flatMap g).getD (i * m + j) d = (g i).getD j d := by
  induction n with
  | zero => omega
  | succ n ih =>
    rw [List.range_succ, List.flatMap_append]
    have hl := length_flatMap_range g m n hlen
    by_cases hin : i < n
    · have hlt : i * m + j < ((List.range n).flatMap g).length := by
        rw [hl]
        calc i * m + j < i * m + m := by omega
          _ = (i + 1) * m := by rw [Nat.succ_mul]
          _ ≤ n * m := Nat.mul_le_mul_right m hin
      rw [List.getD_append _ _ _ _ hlt]
      exact ih hin
    · have hie : i = n := by omega
      subst hie
      have hge : ((List.range i).flatMap g).length ≤ i * m + j := by rw [hl]; omega
      rw [List.getD_append_right _ _ _ _ hge, hl]
      simp

theorem div_ceil_of_dvd (a : Nat) (ha : a ≤ 255) (h8 : a % 8 = 0) :
    div_ceil a SSD1306_BITS_IN_BYTE = a / 8 := by
  unfold div_ceil SSD1306_BITS_IN_BYTE
  simp only [h8, lt_irrefl, if_false]
  omega

theorem draw_bitmap_stream_length (w h : Nat) (bitmap : ssd1306_bitmap_t) :
    (draw_bitmap_stream w h bitmap).length
      = div_ceil h SSD1306_BITS_IN_BYTE * (div_ceil w SSD1306_BITS_IN_BYTE * 8) := by
  unfold draw_bitmap_stream
  apply length_flatMap_range
  intro y
  apply length_flatMap_range
  intro x
  simp [SSD1306_BITS_IN_BYTE]

theorem draw_bitmap_stream_getD (w h : Nat) (bitmap : ssd1306_bitmap_t) (y x col : Nat)
    (hy : y < div_ceil h SSD1306_BITS_IN_BYTE) (hx : x < div_ceil w SSD1306_BITS_IN_BYTE)
    (hc : col < 8) :
    (draw_bitmap_stream w h bitmap).getD (8 * (y * div_ceil w SSD1306_BITS_IN_BYTE + x) + col) 0
      = draw_bitmap_dst_value (draw_bitmap_buff bitmap w h y x) col := by
  unfold draw_bitmap_stream
  have e : 8 * (y * div_ceil w SSD1306_BITS_IN_BYTE + x) + col
      = y * (div_ceil w SSD1306_BITS_IN_BYTE * 8) + (x * 8 + col) := by ring
  rw [e, getD_flatMap_range _ (div_ceil w SSD1306_BITS_IN_BYTE * 8) _ 0 _ y (x * 8 + col) hy]
  · rw [getD_flatMap_range _ 8 _ 0 _ x col hx hc]
    · rw [List.getD_eq_getElem _ _ (by simp [SSD1306_BITS_IN_BYTE]; exact hc)]
      simp
    · intro i; simp [SSD1306_BITS_IN_BYTE]
  · calc x * 8 + col < x * 8 + 8 := by omega
      _ = (x + 1) * 8 := by ring
      _ ≤ div_ceil w SSD1306_BITS_IN_BYTE * 8 := Nat.mul_le_mul_right 8 hx
  · intro i
    apply length_flatMap_range
    intro x
    simp [SSD1306_BITS_IN_BYTE]

/-- For a bitmap whose sides are multiples of 8 within the display, the gather index is the
row-major index and passes the bound check. -/
theorem draw_bitmap_buff_eq (w h : Nat) (bitmap : ssd1306_bitmap_t) (y x i : Nat)
    (hw : w % 8 = 0) (hh : h % 8 = 0) (hw128 : w ≤ 128) (hh64 : h ≤ 64)
    (hy : y < h / 8) (hx : x < w / 8) (hi : i < 8) :
    draw_bitmap_buff bitmap w h y x i = bitmap ((8 * y + i) * (w / 8) + x) % 256 := by
  unfold draw_bitmap_buff
  rw [div_ceil_of_dvd w (by omega) hw]
  have hidx : draw_bitmap_index (w / 8) w y x i = (8 * y + i) * (w / 8) + x := by
    unfold draw_bitmap_index to_uint16 to_int16
    have hyw : y * w = 8 * y * (w / 8) := by
      have : w = 8 * (w / 8) := by omega
      calc y * w = y * (8 * (w / 8)) := by rw [← this]
        _ = 8 * y * (w / 8) := by ring
    have hb1 : i * (w / 8) ≤ 7 * 16 := Nat.mul_le_mul (by omega) (by omega)
    have hb2 : y * w ≤ 7 * 128 := Nat.mul_le_mul (by omega) hw128
    have hsum : (8 * y + i) * (w / 8) + x = i * (w / 8) + x + y * w := by
      rw [hyw]; ring
    rw [hsum]
    omega
  have hmax : draw_bitmap_max_index w h = h * (w / 8) := by
    unfold draw_bitmap_max_index to_uint16 to_int16
    have hwh : w * h ≤ 128 * 64 := Nat.mul_le_mul hw128 hh64
    have hwh2 : w * h = 8 * (h * (w / 8)) := by
      have : w = 8 * (w / 8) := by omega
      calc w * h = (8 * (w / 8)) * h := by rw [← this]
        _ = 8 * (h * (w / 8)) := by ring
    have hcast : ((w : Int) * (h : Int)) = ((w * h : Nat) : Int) := by push_cast; ring
    rw [hcast, hwh2]
    have hq : h * (w / 8) ≤ 1024 := by omega
    generalize h * (w / 8) = q at hq
    have h1 : (((8 * q : Nat) : Int) + 32768) % 65536 - 32768 = ((8 * q : Nat) : Int) := by omega
    rw [h1, Int.tdiv_eq_ediv (by omega) (by norm_num)]
    omega
  rw [hidx, hmax]
  have hlt : (8 * y + i) * (w / 8) + x < h * (w / 8) := by
    calc (8 * y + i) * (w / 8) + x < (8 * y + i) * (w / 8) + w / 8 := by omega
      _ = (8 * y + i + 1) * (w / 8) := by ring
      _ ≤ h * (w / 8) := Nat.mul_le_mul_right _ (by omega)
  rw [if_pos hlt]

/-- Bit `bit` of the stream byte of band `(y, x)`, column `col`, is bit `col` of the bitmap
byte at row-major index `(8*y + bit)*(w/8) + x`. -/
theorem draw_bitmap_stream_testBit (w h : Nat) (bitmap : ssd1306_bitmap_t) (y x col bit : Nat)
    (hw : w % 8 = 0) (hh : h % 8 = 0) (hw128 : w ≤ 128) (hh64 : h ≤ 64)
    (hy : y < h / 8) (hx : x < w / 8) (hc : col < 8) (hb : bit < 8) :
    ((draw_bitmap_stream w h bitmap).getD (8 * (y * (w / 8) + x) + col) 0).testBit bit
      = (bitmap ((8 * y + bit) * (w / 8) + x) % 256).testBit col := by
  have e1 := div_ceil_of_dvd w (by omega) hw
  have e2 := div_ceil_of_dvd h (by omega) hh
  have hg := draw_bitmap_stream_getD w h bitmap y x col (by rw [e2]; exact hy)
    (by rw [e1]; exact hx) hc
  rw [e1] at hg
  rw [hg, testBit_draw_bitmap_dst_value, draw_bitmap_buff_eq w h bitmap y x bit hw hh hw128 hh64
    hy hx hb]
  simp [hb]

/-! ## C5 -/

/-- C5: for every width `w ≤ 128` and height `h ≤ 64` that are multiples of 8, every bitmap
and a bus on which every primitive succeeds, `ssd1306_draw_bitmap` succeeds, the bytes of its
last transaction are the data byte `0x40` followed by a data stream of `8 * (h/8) * (w/8)`
bytes, and for all `y < h/8`, `x < w/8`,
`col < 8`, `bit < 8`, bit `bit` of the data byte at position `8*(y*(w/8) + x) + col` equals
bit `col` of the bitmap byte at row-major index `(8*y + bit)*(w/8) + x`, an index below
`w*h/8`. -/
theorem c5_bit_transpose (ssd1306 : ssd1306_t) (start_page start_column w h : Nat)
    (bitmap : ssd1306_bitmap_t) (s : I2C) (hack : AllAck s)
    (hw : w % 8 = 0) (hh : h % 8 = 0) (hw128 : w ≤ 128) (hh64 : h ≤ 64) :
    (ssd1306_draw_bitmap ssd1306 start_page start_column w h bitmap s).1 = true
    ∧ writtenBytes
        (lastTransaction (ssd1306_draw_bitmap ssd1306 start_page start_column w h bitmap s).2.log)
      = 0x40 :: dataStream (ssd1306_draw_bitmap ssd1306 start_page start_column w h bitmap s).2.log
    ∧ (dataStream (ssd1306_draw_bitmap ssd1306 start_page start_column w h bitmap s).2.log).length
        = 8 * ((h / 8) * (w / 8))
    ∧ ∀ y x col bit, y < h / 8 → x < w / 8 → col < 8 → bit < 8 →
        (8 * y + bit) * (w / 8) + x < w * h / 8
        ∧ ((dataStream (ssd1306_draw_bitmap ssd1306 start_page start_column w h bitmap s).2.log).getD
            (8 * (y * (w / 8) + x) + col) 0).testBit bit
          = (bitmap ((8 * y + bit) * (w / 8) + x) % 256).testBit col := by
  obtain ⟨g, e⟩ := ssd1306_draw_bitmap_ack ssd1306 start_page start_column w h bitmap s hack
  have ew := (ssd1306_draw_bitmap_written ssd1306 start_page start_column w h bitmap s hack).2
  rw [e, ew]
  refine ⟨g.1, rfl, ?_, fun y x col bit hy hx hc hb => ⟨?_, ?_⟩⟩
  · rw [draw_bitmap_stream_length, div_ceil_of_dvd w (by omega) hw,
      div_ceil_of_dvd h (by omega) hh]
    ring
  · have hwh : w * h / 8 = h * (w / 8) := by
      have hw8 : w = 8 * (w / 8) := by omega
      have : w * h = 8 * (h * (w / 8)) := by
        calc w * h = (8 * (w / 8)) * h := by rw [← hw8]
          _ = 8 * (h * (w / 8)) := by ring
      rw [this, Nat.mul_div_cancel_left _ (by norm_num : 0 < 8)]
    rw [hwh]
    calc (8 * y + bit) * (w / 8) + x < (8 * y + bit) * (w / 8) + w / 8 := by omega
      _ = (8 * y + bit + 1) * (w / 8) := by ring
      _ ≤ h * (w / 8) := Nat.mul_le_mul_right _ (by omega)
  · exact draw_bitmap_stream_testBit w h bitmap y x col bit hw hh hw128 hh64 hy hx hc hb

/-- Instance of `c5_bit_transpose`: an 8 by 8 bitmap whose byte `i` is `i + 1`; bit 5 of the
data byte at position 3 is bit 3 of bitmap byte 5. -/
theorem c5_bit_transpose_witness :
    (ssd1306_draw_bitmap ⟨0x3C, none⟩ 0 0 8 8 counting_bitmap
      (readyEngine (ackBus (fun _ => 0)))).1 = true
    ∧ (dataStream (ssd1306_draw_bitmap ⟨0x3C, none⟩ 0 0 8 8 counting_bitmap
        (readyEngine (ackBus (fun _ => 0)))).2.log).length = 8 * ((8 / 8) * (8 / 8))
    ∧ ((dataStream (ssd1306_draw_bitmap ⟨0x3C, none⟩ 0 0 8 8 counting_bitmap
        (readyEngine (ackBus (fun _ => 0)))).2.log).getD (8 * (0 * (8 / 8) + 0) + 3) 0).testBit 5
      = (counting_bitmap ((8 * 0 + 5) * (8 / 8) + 0) % 256).testBit 3 :=
  have k := c5_bit_transpose ⟨0x3C, none⟩ 0 0 8 8 counting_bitmap
    (readyEngine (ackBus (fun _ => 0))) (allAck_readyEngine _) (by decide) (by decide)
    (by decide) (by decide)
  ⟨k.1, k.2.2.1, (k.2.2.2 0 0 3 5 (by decide) (by decide) (by decide) (by decide)).2⟩

/-! ## C6 -/

theorem transpose_back_stream (w h : Nat) (bitmap : ssd1306_bitmap_t)
    (hw : w % 8 = 0) (hh : h % 8 = 0) (hw128 : w ≤ 128) (hh64 : h ≤ 64) :
    inverse_transpose w h (draw_bitmap_stream w h bitmap) = bitmap_bytes w h bitmap := by
  unfold inverse_transpose bitmap_bytes
  apply List.map_congr_left
  intro k hk
  rw [List.mem_range] at hk
  have hwh : w * h / 8 = h * (w / 8) := by
    have hw8 : w = 8 * (w / 8) := by omega
    have : w * h = 8 * (h * (w / 8)) := by
      calc w * h = (8 * (w / 8)) * h := by rw [← hw8]
        _ = 8 * (h * (w / 8)) := by ring
    rw [this, Nat.mul_div_cancel_left _ (by norm_num : 0 < 8)]
  rw [hwh] at hk
  have ha : 0 < w / 8 := by
    rcases Nat.eq_zero_or_pos (w / 8) with h0 | h0
    · rw [h0] at hk; omega
    · exact h0
  have hr : k / (w / 8) < h := (Nat.div_lt_iff_lt_mul ha).mpr hk
  have hx : k % (w / 8) < w / 8 := Nat.mod_lt _ ha
  have hy : k / (w / 8) / 8 < h / 8 := by omega
  have hi : k / (w / 8) % 8 < 8 := Nat.mod_lt _ (by norm_num)
  have hkk : (8 * (k / (w / 8) / 8) + k / (w / 8) % 8) * (w / 8) + k % (w / 8) = k := by
    have h1 : 8 * (k / (w / 8) / 8) + k / (w / 8) % 8 = k / (w / 8) := by omega
    rw [h1, Nat.mul_comm]
    exact Nat.div_add_mod k (w / 8)
  unfold transpose_back_byte
  rw [← transpose_back_byte_eq (bitmap k % 256) (Nat.mod_lt _ (by norm_num))]
  apply List.foldl_ext
  intro acc c hc
  rw [List.mem_range] at hc
  rw [draw_bitmap_stream_testBit w h bitmap _ _ c _ hw hh hw128 hh64 hy hx hc hi, hkk]

/-- C6: for every width `w ≤ 128` and height `h ≤ 64` that are multiples of 8, every bitmap
and a bus on which every primitive succeeds, the inverse transpose applied to the data stream
transmitted by `ssd1306_draw_bitmap` is the original bitmap (its `w*h/8` bytes); hence two
bitmaps with the same transmitted data stream are equal. -/
theorem c6_transpose_round_trip (ssd1306 : ssd1306_t) (start_page start_column w h : Nat)
    (bitmap : ssd1306_bitmap_t) (s : I2C) (hack : AllAck s)
    (hw : w % 8 = 0) (hh : h % 8 = 0) (hw128 : w ≤ 128) (hh64 : h ≤ 64) :
    inverse_transpose w h
        (dataStream (ssd1306_draw_bitmap ssd1306 start_page start_column w h bitmap s).2.log)
      = bitmap_bytes w h bitmap
    ∧ ∀ bitmap2 : ssd1306_bitmap_t,
        dataStream (ssd1306_draw_bitmap ssd1306 start_page start_column w h bitmap s).2.log
          = dataStream (ssd1306_draw_bitmap ssd1306 start_page start_column w h bitmap2 s).2.log
        → bitmap_bytes w h bitmap = bitmap_bytes w h bitmap2 := by
  have e := (ssd1306_draw_bitmap_ack ssd1306 start_page start_column w h bitmap s hack).2
  refine ⟨?_, fun bitmap2 heq => ?_⟩
  · rw [e]
    exact transpose_back_stream w h bitmap hw hh hw128 hh64
  · have e2 := (ssd1306_draw_bitmap_ack ssd1306 start_page start_column w h bitmap2 s hack).2
    rw [e, e2] at heq
    rw [← transpose_back_stream w h bitmap hw hh hw128 hh64,
      ← transpose_back_stream w h bitmap2 hw hh hw128 hh64, heq]

/-- Instance of `c6_transpose_round_trip`: a 16 by 8 bitmap whose byte `i` is `i + 1`. -/
theorem c6_transpose_round_trip_witness :
    inverse_transpose 16 8
        (dataStream (ssd1306_draw_bitmap ⟨0x3C, none⟩ 2 5 16 8 counting_bitmap
          (readyEngine (ackBus (fun _ => 0)))).2.log)
      = bitmap_bytes 16 8 counting_bitmap :=
  (c6_transpose_round_trip ⟨0x3C, none⟩ 2 5 16 8 counting_bitmap
    (readyEngine (ackBus (fun _ => 0))) (allAck_readyEngine _) (by decide) (by decide)
    (by decide) (by decide)).1

/-! ## C7 -/

/-- C7, as stated, fails: for an 8 by 8 draw of a bitmap of four bytes (fewer than
`8*8/8 = 8`), the transmitted data stream depends on the flash bytes that follow the bitmap:
with `0xFF` after the bitmap the stream differs from the stream obtained with zeros there, so
the positions at or beyond the bitmap's byte count are read and contribute bits. -/
theorem c7_short_bitmap_counterexample :
    (∀ i, i < 4 → short_bitmap_then_ff i = short_bitmap_then_zero i)
    ∧ dataStream (ssd1306_draw_bitmap ⟨0x3C, none⟩ 0 0 8 8 short_bitmap_then_ff
        (readyEngine (ackBus (fun _ => 0)))).2.log
      ≠ dataStream (ssd1306_draw_bitmap ⟨0x3C, none⟩ 0 0 8 8 short_bitmap_then_zero
        (readyEngine (ackBus (fun _ => 0)))).2.log := by
  decide

theorem draw_bitmap_max_index_eq (w h : Nat) (hwh : w * h < 32768) :
    draw_bitmap_max_index w h = w * h / 8 := by
  unfold draw_bitmap_max_index to_uint16 to_int16
  have hcast : ((w : Int) * (h : Int)) = ((w * h : Nat) : Int) := by push_cast; ring
  rw [hcast]
  generalize w * h = q at hwh
  have h1 : ((q : Int) + 32768) % 65536 - 32768 = (q : Int) := by omega
  rw [h1, Int.tdiv_eq_ediv (by omega) (by norm_num)]
  omega

/-- C7, amended: the gather of `ssd1306_draw_bitmap` is bounds-checked against `max_index`,
the 16-bit value computed from the two parameters as `width * height / 8` in the 16-bit `int`
(equal to `width*height/8` when the product is below 32768; 65473 for 255 by 255), not against
the byte count of the bitmap passed.  For every width, height and position: a buffer entry
whose index is at or beyond `max_index` is 0 and contributes a zero bit to every byte
transmitted; a buffer entry whose index is below `max_index` is the bitmap byte at that
index, whatever the length of the bitmap; and two flash contents that agree on every index
below `max_index` give the same call result on every bus. -/
theorem c7_gather_bound (ssd1306 : ssd1306_t) (start_page start_column w h : Nat)
    (bitmap1 bitmap2 : ssd1306_bitmap_t) (s : I2C)
    (hagree : ∀ i, i < draw_bitmap_max_index w h → bitmap1 i % 256 = bitmap2 i % 256) :
    ssd1306_draw_bitmap ssd1306 start_page start_column w h bitmap1 s
      = ssd1306_draw_bitmap ssd1306 start_page start_column w h bitmap2 s
    ∧ (∀ y x i, draw_bitmap_max_index w h
          ≤ draw_bitmap_index (div_ceil w SSD1306_BITS_IN_BYTE) w y x i →
        draw_bitmap_buff bitmap1 w h y x i = 0
        ∧ ∀ col, (draw_bitmap_dst_value (draw_bitmap_buff bitmap1 w h y x) col).testBit i
            = false)
    ∧ (∀ y x i, draw_bitmap_index (div_ceil w SSD1306_BITS_IN_BYTE) w y x i
          < draw_bitmap_max_index w h →
        draw_bitmap_buff bitmap1 w h y x i
          = bitmap1 (draw_bitmap_index (div_ceil w SSD1306_BITS_IN_BYTE) w y x i) % 256)
    ∧ (w * h < 32768 → draw_bitmap_max_index w h = w * h / 8)
    ∧ draw_bitmap_max_index 255 255 = 65473 := by
  refine ⟨?_, ?_, ?_, draw_bitmap_max_index_eq w h, by decide⟩
  · have hbuff : ∀ y x, draw_bitmap_buff bitmap1 w h y x = draw_bitmap_buff bitmap2 w h y x := by
      intro y x
      funext i
      unfold draw_bitmap_buff
      split
      · next hlt => exact hagree _ hlt
      · rfl
    unfold ssd1306_draw_bitmap
    simp only [hbuff]
  · intro y x i hge
    have h0 : draw_bitmap_buff bitmap1 w h y x i = 0 := by
      unfold draw_bitmap_buff
      rw [if_neg (by omega)]
    refine ⟨h0, fun col => ?_⟩
    rw [testBit_draw_bitmap_dst_value, h0]
    simp
  · intro y x i hlt
    unfold draw_bitmap_buff
    rw [if_pos hlt]

/-- Instance of `c7_gather_bound`: an 8 by 8 draw; the two flash contents agree below index 8
(and differ from index 8 on), and the buffer entry of index 8 is 0. -/
theorem c7_gather_bound_witness :
    ssd1306_draw_bitmap ⟨0x3C, none⟩ 0 0 8 8 counting_bitmap (readyEngine (ackBus (fun _ => 0)))
      = ssd1306_draw_bitmap ⟨0x3C, none⟩ 0 0 8 8 (fun i => if i < 8 then i + 1 else 0)
          (readyEngine (ackBus (fun _ => 0)))
    ∧ draw_bitmap_max_index 8 8 = 8
    ∧ draw_bitmap_index (div_ceil 8 SSD1306_BITS_IN_BYTE) 8 1 0 0 = 8
    ∧ draw_bitmap_buff counting_bitmap 8 8 1 0 0 = 0 :=
  have k := c7_gather_bound ⟨0x3C, none⟩ 0 0 8 8 counting_bitmap
    (fun i => if i < 8 then i + 1 else 0) (readyEngine (ackBus (fun _ => 0)))
    (fun i hi => by
      have h8 : draw_bitmap_max_index 8 8 = 8 := by decide
      rw [h8] at hi
      simp [counting_bitmap, hi])
  ⟨k.1, by decide, by decide, (k.2.1 1 0 0 (by decide)).1⟩

/-! ## C8 -/

/-- C8 fails on `ssd1306_send_command_value`: on a ready engine whose addressed slave does not
acknowledge, `i2c_start` returns false and the operation still calls `i2c_write_byte` three
times (control byte, command, value) before `i2c_stop`. -/
theorem c8_send_command_value_writes_after_failed_start :
    (ssd1306_send_command_value ⟨0x3C, none⟩ 0x81 0x7F (readyEngine addressNackBus)).2.log
      = [⟨.start 0x3C .I2C_MODE_WRITE, false⟩, ⟨.write 0x00, true⟩, ⟨.write 0x81, true⟩,
         ⟨.write 0x7F, true⟩, ⟨.stop, true⟩]
    ∧ (ssd1306_send_command_value ⟨0x3C, none⟩ 0x81 0x7F (readyEngine addressNackBus)).1 = false
    ∧ (ssd1306_send_command_value ⟨0x3C, none⟩ 0x81 0x7F (readyEngine addressNackBus)).2.tick = 5
    ∧ stopsAfterFailure
        (ssd1306_send_command_value ⟨0x3C, none⟩ 0x81 0x7F (readyEngine addressNackBus)).2.log
        = false := by
  decide

/-! ## Calls of `i2c_stop` -/

theorem NoStopSince.refl (s : I2C) : NoStopSince s.log s :=
  ⟨[], by simp, by simp⟩

theorem NoStopSince.extend {base : List Event} {s s1 : I2C} (h : NoStopSince base s) (e : Event)
    (hlog : s1.log = s.log ++ [e]) (he : e.isStop = false) : NoStopSince base s1 := by
  obtain ⟨evs, h1, h2⟩ := h
  refine ⟨evs ++ [e], by rw [hlog, h1, List.append_assoc], ?_⟩
  intro f hf
  rw [List.mem_append, List.mem_singleton] at hf
  rcases hf with hf | rfl
  · exact h2 f hf
  · exact he

theorem NoStopSince.past_start {base : List Event} {s : I2C} (h : NoStopSince base s) (a : Nat)
    (m : i2c_mode_t) : NoStopSince base (i2c_start a m s).2 :=
  h.extend _ (i2c_start_log a m s) rfl

theorem NoStopSince.past_write {base : List Event} {s : I2C} (h : NoStopSince base s) (d : Nat) :
    NoStopSince base (i2c_write_byte d s).2 :=
  h.extend _ (i2c_write_byte_log d s) rfl

theorem NoStopSince.past_readAck {base : List Event} {s : I2C} (h : NoStopSince base s) (b : Nat) :
    NoStopSince base (i2c_read_byte_ACK b s).2.2 :=
  h.extend _ (i2c_read_byte_ACK_log b s) rfl

theorem NoStopSince.past_readNack {base : List Event} {s : I2C} (h : NoStopSince base s) (b : Nat) :
    NoStopSince base (i2c_read_byte_NACK b s).2.2 :=
  h.extend _ (i2c_read_byte_NACK_log b s) rfl

theorem NoStopSince.past_andAlso {base : List Event} {r : Bool × I2C} (h : NoStopSince base r.2)
    (f : I2C → Bool × I2C) (hf : ∀ s, NoStopSince base s → NoStopSince base (f s).2) :
    NoStopSince base (andAlso r f).2 := by
  unfold AvrMeteo.andAlso
  split
  · exact hf _ h
  · exact h

theorem NoStopSince.past_bitAnd {base : List Event} {r : Bool × I2C} (h : NoStopSince base r.2)
    (f : I2C → Bool × I2C) (hf : ∀ s, NoStopSince base s → NoStopSince base (f s).2) :
    NoStopSince base (bitAnd r f).2 :=
  hf _ h

theorem NoStopSince.past_andRead {base : List Event} {r : Bool × I2C} (h : NoStopSince base r.2)
    (b : Nat) (f : Nat → I2C → Bool × Nat × I2C)
    (hf : ∀ s, NoStopSince base s → NoStopSince base (f b s).2.2) :
    NoStopSince base (andRead r b f).2.2 := by
  unfold AvrMeteo.andRead
  split
  · exact hf _ h
  · exact h

theorem NoStopSince.past_stop {s s1 : I2C} (h : NoStopSince s.log s1) :
    StopOnceAtEnd (issued s (i2c_stop s1)) := by
  obtain ⟨evs, h1, h2⟩ := h
  have hi : issued s (i2c_stop s1) = evs ++ [⟨.stop, true⟩] := by
    unfold issued
    rw [i2c_stop_log, h1, List.append_assoc, List.drop_left]
  rw [hi]
  refine ⟨?_, by simp⟩
  rw [List.countP_append]
  have h0 : List.countP Event.isStop evs = 0 := by
    rw [List.countP_eq_zero]
    intro e he
    simp [h2 e he]
  rw [h0]
  rfl

/-! ## C9 -/

/-- C9: for each single-transaction operation (`i2c_read_uin16`, `bmp180_reset`,
`bmp180_get_id`, `ssd1306_send_command`, `ssd1306_send_command_value`, `ssd1306_set_area`),
every engine state and every behaviour of the bus, the primitives issued by one call contain
exactly one call of `i2c_stop`, and it is the last of them. -/
theorem c9_stop_exactly_once (s : I2C) (bmp180 : bmp180_t) (ssd1306 : ssd1306_t)
    (i2c_address reg chip_id command value start_page end_page start_column end_column : Nat)
    (result : Int) :
    StopOnceAtEnd (issued s (i2c_read_uin16 i2c_address reg result s).2.2)
    ∧ StopOnceAtEnd (issued s (bmp180_reset bmp180 s).2)
    ∧ StopOnceAtEnd (issued s (bmp180_get_id bmp180 chip_id s).2.2)
    ∧ StopOnceAtEnd (issued s (ssd1306_send_command ssd1306 command s).2)
    ∧ StopOnceAtEnd (issued s (ssd1306_send_command_value ssd1306 command value s).2)
    ∧ StopOnceAtEnd (issued s
        (ssd1306_set_area ssd1306 start_page end_page start_column end_column s).2) := by
  have h0 := NoStopSince.refl s
  refine ⟨?_, ?_, ?_, ?_, ?_, ?_⟩
  · unfold i2c_read_uin16
    apply NoStopSince.past_stop
    apply NoStopSince.past_andRead _ _ _ (fun s h => h.past_readNack _)
    apply NoStopSince.past_andRead _ _ _ (fun s h => h.past_readAck _)
    apply NoStopSince.past_andAlso _ _ (fun s h => h.past_start _ _)
    apply NoStopSince.past_andAlso _ _ (fun s h => h.past_write _)
    exact h0.past_start _ _
  · unfold bmp180_reset
    apply NoStopSince.past_stop
    apply NoStopSince.past_andAlso _ _ (fun s h => h.past_write _)
    apply NoStopSince.past_andAlso _ _ (fun s h => h.past_write _)
    exact h0.past_start _ _
  · unfold bmp180_get_id
    apply NoStopSince.past_stop
    apply NoStopSince.past_andRead _ _ _ (fun s h => h.past_readNack _)
    apply NoStopSince.past_andAlso _ _ (fun s h => h.past_start _ _)
    apply NoStopSince.past_andAlso _ _ (fun s h => h.past_write _)
    exact h0.past_start _ _
  · unfold ssd1306_send_command
    apply NoStopSince.past_stop
    apply NoStopSince.past_andAlso _ _ (fun s h => h.past_write _)
    apply NoStopSince.past_andAlso _ _ (fun s h => h.past_write _)
    exact h0.past_start _ _
  · unfold ssd1306_send_command_value
    apply NoStopSince.past_stop
    apply NoStopSince.past_bitAnd _ _ (fun s h => h.past_write _)
    apply NoStopSince.past_bitAnd _ _ (fun s h => h.past_write _)
    apply NoStopSince.past_bitAnd _ _ (fun s h => h.past_write _)
    exact h0.past_start _ _
  · unfold ssd1306_set_area
    apply NoStopSince.past_stop
    have h3 : NoStopSince s.log (andAlso (andAlso (i2c_start ssd1306.i2c_address .I2C_MODE_WRITE s)
        (i2c_write_byte SSD1306_SEND_COMMAND))
        (i2c_write_byte SSD1306_DISPLAY_START_LINE_COMMAND)).2 := by
      apply NoStopSince.past_andAlso _ _ (fun s h => h.past_write _)
      apply NoStopSince.past_andAlso _ _ (fun s h => h.past_write _)
      exact h0.past_start _ _
    split_ifs
    · apply NoStopSince.past_andAlso _ _ (fun s h => h.past_write _)
      apply NoStopSince.past_andAlso _ _ (fun s h => h.past_write _)
      apply NoStopSince.past_andAlso _ _ (fun s h => h.past_write _)
      apply NoStopSince.past_andAlso _ _ (fun s h => h.past_write _)
      apply NoStopSince.past_andAlso _ _ (fun s h => h.past_write _)
      apply NoStopSince.past_andAlso _ _ (fun s h => h.past_write _)
      exact h3
    · apply NoStopSince.past_andAlso _ _ (fun s h => h.past_write _)
      apply NoStopSince.past_andAlso _ _ (fun s h => h.past_write _)
      apply NoStopSince.past_andAlso _ _ (fun s h => h.past_write _)
      exact h3
    · apply NoStopSince.past_andAlso _ _ (fun s h => h.past_write _)
      apply NoStopSince.past_andAlso _ _ (fun s h => h.past_write _)
      apply NoStopSince.past_andAlso _ _ (fun s h => h.past_write _)
      exact h3
    · exact h3

/-! ## C10 -/

/-- C10, as stated, fails: on an engine that is not ready `i2c_start` returns false, but
`last_error` keeps its old value 0, which is not the status code in the status register
(`0xF8`); no bus operation was performed. -/
theorem c10_start_not_ready_counterexample :
    (i2c_start 0x77 .I2C_MODE_WRITE (idleEngine (ackBus (fun _ => 0)))).1 = false
    ∧ i2c_get_error (i2c_start 0x77 .I2C_MODE_WRITE (idleEngine (ackBus (fun _ => 0)))).2 = 0
    ∧ TW_STATUS (i2c_start 0x77 .I2C_MODE_WRITE (idleEngine (ackBus (fun _ => 0)))).2 = 0xF8
    ∧ (i2c_start 0x77 .I2C_MODE_WRITE (idleEngine (ackBus (fun _ => 0)))).2.tick = 0 := by
  decide

/-- C10, amended: `i2c_start` returns false if the engine is not ready, and then `last_error`
is left unchanged and no bus operation is performed; on a ready engine it returns false if the
status after the start condition is neither `TW_START` nor `TW_REP_START`, or if the status
after the address byte is not the SLA acknowledge of the requested direction, and in these two
cases the observed status code is stored in `last_error`; otherwise it returns true and leaves
`last_error` unchanged. -/
theorem c10_start_failures (address : Nat) (mode : i2c_mode_t) (s : I2C) :
    (s.i2c_ready = false →
      (i2c_start address mode s).1 = false
      ∧ i2c_get_error (i2c_start address mode s).2 = i2c_get_error s
      ∧ (i2c_start address mode s).2.tick = s.tick)
    ∧ (s.i2c_ready = true →
        ((s.bus s.tick .startCondition).1 % 256 &&& 0xF8) ≠ TW_START →
        ((s.bus s.tick .startCondition).1 % 256 &&& 0xF8) ≠ TW_REP_START →
        (i2c_start address mode s).1 = false
        ∧ i2c_get_error (i2c_start address mode s).2
            = ((s.bus s.tick .startCondition).1 % 256 &&& 0xF8)
        ∧ TW_STATUS (i2c_start address mode s).2
            = ((s.bus s.tick .startCondition).1 % 256 &&& 0xF8))
    ∧ (s.i2c_ready = true →
        (((s.bus s.tick .startCondition).1 % 256 &&& 0xF8) = TW_START
          ∨ ((s.bus s.tick .startCondition).1 % 256 &&& 0xF8) = TW_REP_START) →
        ((s.bus (s.tick + 1) (.address (((address <<< 1) ||| mode.toNat) % 256))).1 % 256 &&& 0xF8)
          ≠ (match mode with
              | .I2C_MODE_WRITE => TW_MT_SLA_ACK
              | .I2C_MODE_READ => TW_MR_SLA_ACK) →
        (i2c_start address mode s).1 = false
        ∧ i2c_get_error (i2c_start address mode s).2
            = ((s.bus (s.tick + 1) (.address (((address <<< 1) ||| mode.toNat) % 256))).1 % 256
                &&& 0xF8)
        ∧ TW_STATUS (i2c_start address mode s).2
            = ((s.bus (s.tick + 1) (.address (((address <<< 1) ||| mode.toNat) % 256))).1 % 256
                &&& 0xF8))
    ∧ (s.i2c_ready = true →
        (((s.bus s.tick .startCondition).1 % 256 &&& 0xF8) = TW_START
          ∨ ((s.bus s.tick .startCondition).1 % 256 &&& 0xF8) = TW_REP_START) →
        ((s.bus (s.tick + 1) (.address (((address <<< 1) ||| mode.toNat) % 256))).1 % 256 &&& 0xF8)
          = (match mode with
              | .I2C_MODE_WRITE => TW_MT_SLA_ACK
              | .I2C_MODE_READ => TW_MR_SLA_ACK) →
        (i2c_start address mode s).1 = true
        ∧ i2c_get_error (i2c_start address mode s).2 = i2c_get_error s) := by
  refine ⟨fun hr => ?_, fun hr h1 h2 => ?_, fun hr h1 h2 => ?_, fun hr h1 h2 => ?_⟩
  · simp [i2c_start, record, i2c_start_body, i2c_get_error, hr]
  · simp [i2c_start, record, i2c_start_body, i2c_wait, i2c_get_error, TW_STATUS, hr, h1, h2]
  · have h1' : (((s.bus s.tick .startCondition).1 % 256 &&& 0xF8) == TW_START
        || ((s.bus s.tick .startCondition).1 % 256 &&& 0xF8) == TW_REP_START) = true := by
      rcases h1 with h | h <;> simp [h]
    cases mode <;>
      simp [i2c_start, record, i2c_start_body, i2c_wait, i2c_get_error, TW_STATUS, hr, h1',
        i2c_mode_t.toNat] at h2 ⊢ <;> simp [h2]
  · have h1' : (((s.bus s.tick .startCondition).1 % 256 &&& 0xF8) == TW_START
        || ((s.bus s.tick .startCondition).1 % 256 &&& 0xF8) == TW_REP_START) = true := by
      rcases h1 with h | h <;> simp [h]
    cases mode <;>
      simp [i2c_start, record, i2c_start_body, i2c_wait, i2c_get_error, TW_STATUS, hr, h1',
        i2c_mode_t.toNat] at h2 ⊢ <;> simp [h2]

/-- With the 16-bit `int` of the target, a raw temperature with `msb ≥ 128` is sign-extended:
`(0x80 << 8) | 0x00` is -32768, not 32768. -/
theorem temperature_ut_sign_extends : temperature_ut 0x80 0x00 = -32768 := by decide

/-! ## No primitive after a failure -/

theorem stopsAfterFailure_iff (evs : List Event) :
    stopsAfterFailure evs = true ↔ StopsAfterFailure evs := by
  induction evs with
  | nil =>
    refine ⟨fun _ pre e post h => ?_, fun _ => rfl⟩
    simp at h
  | cons x es ih =>
    unfold stopsAfterFailure
    rw [Bool.and_eq_true, ih, Bool.or_eq_true, List.all_eq_true]
    constructor
    · rintro ⟨h1, h2⟩ pre e post heq hfail f hf
      cases pre with
      | nil =>
        simp only [List.nil_append, List.cons.injEq] at heq
        obtain ⟨rfl, rfl⟩ := heq
        rcases h1 with h1 | h1
        · rw [h1] at hfail; cases hfail
        · have := h1 f hf
          simpa [Event.isStop] using this
      | cons y pre =>
        simp only [List.cons_append, List.cons.injEq] at heq
        exact h2 pre e post heq.2 hfail f hf
    · intro h
      refine ⟨?_, fun pre e post heq => h (x :: pre) e post (by rw [heq]; rfl)⟩
      by_cases hx : x.ok = true
      · exact Or.inl hx
      · right
        intro f hf
        have := h [] x es rfl (by simpa using hx) f hf
        simp [Event.isStop, this]

theorem stopsAfterFailure_snoc_of_all_ok (evs : List Event) (e : Event)
    (h : ∀ f ∈ evs, f.ok = true) : stopsAfterFailure (evs ++ [e]) = true := by
  induction evs with
  | nil => simp [stopsAfterFailure]
  | cons x es ih =>
    simp only [List.cons_append, stopsAfterFailure, Bool.and_eq_true, Bool.or_eq_true]
    exact ⟨Or.inl (h x (List.mem_cons_self _ _)),
      ih (fun f hf => h f (List.mem_cons_of_mem _ hf))⟩

theorem stopsAfterFailure_snoc_stop (evs : List Event) (h : stopsAfterFailure evs = true) :
    stopsAfterFailure (evs ++ [⟨.stop, true⟩]) = true := by
  induction evs with
  | nil => rfl
  | cons x es ih =>
    simp only [List.cons_append, stopsAfterFailure, Bool.and_eq_true, Bool.or_eq_true] at h ⊢
    refine ⟨?_, ih h.2⟩
    rcases h.1 with h1 | h1
    · exact Or.inl h1
    · right
      have hall : (es ++ [(⟨.stop, true⟩ : Event)]).all Event.isStop = true := by
        rw [List.all_append, h1]
        rfl
      exact hall

theorem Orderly.base_case (s : I2C) : Orderly s.log (true, s) :=
  ⟨[], by simp, rfl, by simp⟩

theorem Orderly.and_prim {base : List Event} {r : Bool × I2C} (h : Orderly base r)
    (f : I2C → Bool × I2C) (p : Prim) (hlog : ∀ s, (f s).2.log = s.log ++ [⟨p, (f s).1⟩]) :
    Orderly base (andAlso r f) := by
  obtain ⟨evs, h1, h2, h3⟩ := h
  unfold andAlso
  split
  · next hr =>
    refine ⟨evs ++ [⟨p, (f r.2).1⟩], by rw [hlog, h1, List.append_assoc],
      stopsAfterFailure_snoc_of_all_ok _ _ (h3 hr), fun hok e he => ?_⟩
    rw [List.mem_append, List.mem_singleton] at he
    rcases he with he | rfl
    · exact h3 hr e he
    · exact hok
  · exact ⟨evs, h1, h2, fun hf => by simp at hf⟩

theorem Orderly.and_read {base : List Event} {r : Bool × I2C} (h : Orderly base r) (b : Nat)
    (f : Nat → I2C → Bool × Nat × I2C) (p : Prim)
    (hlog : ∀ s, (f b s).2.2.log = s.log ++ [⟨p, (f b s).1⟩]) :
    Orderly base ((andRead r b f).1, (andRead r b f).2.2) := by
  obtain ⟨evs, h1, h2, h3⟩ := h
  unfold andRead
  split
  · next hr =>
    refine ⟨evs ++ [⟨p, (f b r.2).1⟩], by simp only []; rw [hlog, h1, List.append_assoc],
      stopsAfterFailure_snoc_of_all_ok _ _ (h3 hr), fun hok e he => ?_⟩
    rw [List.mem_append, List.mem_singleton] at he
    rcases he with he | rfl
    · exact h3 hr e he
    · exact hok
  · exact ⟨evs, h1, h2, fun hf => by simp at hf⟩

theorem Orderly.and_start {base : List Event} {r : Bool × I2C} (h : Orderly base r) (a : Nat)
    (m : i2c_mode_t) : Orderly base (andAlso r (i2c_start a m)) :=
  h.and_prim _ _ (i2c_start_log a m)

theorem Orderly.and_write {base : List Event} {r : Bool × I2C} (h : Orderly base r) (d : Nat) :
    Orderly base (andAlso r (i2c_write_byte d)) :=
  h.and_prim _ _ (i2c_write_byte_log d)

theorem Orderly.and_readAck {base : List Event} {r : Bool × I2C} (h : Orderly base r) (b : Nat) :
    Orderly base ((andRead r b i2c_read_byte_ACK).1, (andRead r b i2c_read_byte_ACK).2.2) :=
  h.and_read b _ _ (i2c_read_byte_ACK_log b)

theorem Orderly.and_readNack {base : List Event} {r : Bool × I2C} (h : Orderly base r) (b : Nat) :
    Orderly base ((andRead r b i2c_read_byte_NACK).1, (andRead r b i2c_read_byte_NACK).2.2) :=
  h.and_read b _ _ (i2c_read_byte_NACK_log b)

theorem Orderly.first_start (s : I2C) (a : Nat) (m : i2c_mode_t) :
    Orderly s.log (i2c_start a m s) := by
  have h := (Orderly.base_case s).and_start a m
  rwa [andAlso_of_true _ rfl] at h

theorem Orderly.and_stop {base : List Event} {r : Bool × I2C} (h : Orderly base r) :
    Orderly base (r.1, i2c_stop r.2) := by
  obtain ⟨evs, h1, h2, h3⟩ := h
  refine ⟨evs ++ [⟨.stop, true⟩], by simp only []; rw [i2c_stop_log, h1, List.append_assoc],
    stopsAfterFailure_snoc_stop _ h2, fun hok e he => ?_⟩
  rw [List.mem_append, List.mem_singleton] at he
  rcases he with he | rfl
  · exact h3 hok e he
  · rfl

theorem Orderly.and_writeAll {base : List Event} {r : Bool × I2C} (h : Orderly base r)
    (bytes : List Nat) : Orderly base (writeAll bytes r) := by
  induction bytes generalizing r with
  | nil => exact h
  | cons b bs ih => rw [writeAll_cons]; exact ih (h.and_write b)

theorem Orderly.and_repeat {base : List Event} {r : Bool × I2C} (h : Orderly base r) (d : Nat)
    (l : List Nat) : Orderly base (l.foldl (fun r _ => andAlso r (i2c_write_byte d)) r) := by
  induction l generalizing r with
  | nil => exact h
  | cons b bs ih => exact ih (h.and_write d)

theorem Orderly.issued {s : I2C} {r : Bool × I2C} (h : Orderly s.log r) :
    StopsAfterFailure (issued s r.2) := by
  obtain ⟨evs, h1, h2, -⟩ := h
  unfold AvrMeteo.issued
  rw [h1, List.drop_left]
  exact (stopsAfterFailure_iff evs).mp h2

theorem Orderly.issued_pair {s : I2C} (b : Bool) (s1 : I2C) (h : Orderly s.log (b, s1)) :
    StopsAfterFailure (AvrMeteo.issued s s1) :=
  Orderly.issued h

theorem ssd1306_set_area_orderly (ssd1306 : ssd1306_t) (sp ep sc ec : Nat) (s : I2C) :
    Orderly s.log (ssd1306_set_area ssd1306 sp ep sc ec s) := by
  have h3 := ((Orderly.first_start s ssd1306.i2c_address .I2C_MODE_WRITE).and_write
    SSD1306_SEND_COMMAND).and_write SSD1306_DISPLAY_START_LINE_COMMAND
  unfold ssd1306_set_area
  apply Orderly.and_stop
  split_ifs
  · exact (((((h3.and_write _).and_write _).and_write _).and_write _).and_write _).and_write _
  · exact ((h3.and_write _).and_write _).and_write _
  · exact ((h3.and_write _).and_write _).and_write _
  · exact h3

/-- The nine other composite operations named by C8 issue no primitive other than `i2c_stop`
once a primitive has returned false, in every engine state and for every behaviour of the
bus. -/
theorem c8_other_operations_stop_after_failure (s : I2C) (bmp180 : bmp180_t)
    (ssd1306 : ssd1306_t)
    (i2c_address reg chip_id command start_page end_page start_column end_column width height : Nat)
    (result temp press : Int) (bitmap : ssd1306_bitmap_t) :
    StopsAfterFailure (issued s (i2c_read_uin16 i2c_address reg result s).2.2)
    ∧ StopsAfterFailure (issued s (bmp180_get_temperature bmp180 temp s).2.2.2)
    ∧ StopsAfterFailure (issued s (bmp180_get_pressure bmp180 press s).2.2)
    ∧ StopsAfterFailure (issued s (bmp180_reset bmp180 s).2)
    ∧ StopsAfterFailure (issued s (bmp180_get_id bmp180 chip_id s).2.2)
    ∧ StopsAfterFailure (issued s (ssd1306_send_command ssd1306 command s).2)
    ∧ StopsAfterFailure (issued s
        (ssd1306_set_area ssd1306 start_page end_page start_column end_column s).2)
    ∧ StopsAfterFailure (issued s (ssd1306_clear_display ssd1306 s).2)
    ∧ StopsAfterFailure (issued s
        (ssd1306_draw_bitmap ssd1306 start_page start_column width height bitmap s).2) := by
  have h1 := fun a m => Orderly.first_start s a m
  refine ⟨?_, ?_, ?_, ?_, ?_, ?_, ?_, ?_, ?_⟩
  · exact Orderly.issued_pair _ _ (((((h1 i2c_address .I2C_MODE_WRITE).and_write reg).and_start
      i2c_address .I2C_MODE_READ).and_readAck 0).and_readNack 0).and_stop
  · have h3 := (((h1 bmp180.i2c_address .I2C_MODE_WRITE).and_write
      BMP180_REGISTER_CTR_MEAS).and_write BMP180_START_MEASURE_TEMPERATURE).and_stop
    have h9 := (((((h3.and_start bmp180.i2c_address .I2C_MODE_WRITE).and_write
      BMP180_REGISTER_OUT_MSB).and_start bmp180.i2c_address .I2C_MODE_READ).and_readAck
      0).and_readNack 0).and_stop
    unfold bmp180_get_temperature
    simp only []
    split_ifs
    · exact Orderly.issued_pair _ _ h3
    · exact Orderly.issued_pair _ _ h9
    · exact Orderly.issued_pair _ _ h9
  · have h3 := (((h1 bmp180.i2c_address .I2C_MODE_WRITE).and_write
      BMP180_REGISTER_CTR_MEAS).and_write
      ((BMP180_START_MEASURE_PRESSURE ||| (bmp180.mode.toNat <<< 6)) % 256)).and_stop
    have h9 := ((((((h3.and_start bmp180.i2c_address .I2C_MODE_WRITE).and_write
      BMP180_REGISTER_OUT_MSB).and_start bmp180.i2c_address .I2C_MODE_READ).and_readAck
      0).and_readAck 0).and_readNack 0).and_stop
    unfold bmp180_get_pressure
    simp only []
    split_ifs
    · exact Orderly.issued_pair _ _ h3
    · exact Orderly.issued_pair _ _ h9
    · exact Orderly.issued_pair _ _ h9
  · exact Orderly.issued_pair _ _ (((h1 bmp180.i2c_address .I2C_MODE_WRITE).and_write
      BMP180_REGISTER_SOFT_RESET).and_write BMP180_START_SOFT_RESET).and_stop
  · exact Orderly.issued_pair _ _ ((((h1 bmp180.i2c_address .I2C_MODE_WRITE).and_write
      BMP180_REGISTER_CHIP_ID).and_start bmp180.i2c_address .I2C_MODE_READ).and_readNack
      chip_id).and_stop
  · exact Orderly.issued_pair _ _ (((h1 ssd1306.i2c_address .I2C_MODE_WRITE).and_write
      SSD1306_SEND_COMMAND).and_write command).and_stop
  · exact Orderly.issued (ssd1306_set_area_orderly ssd1306 _ _ _ _ s)
  · unfold ssd1306_clear_display
    generalize List.range SSD1306_DISPLAY_BYTES = l
    exact Orderly.issued_pair _ _ ((((ssd1306_set_area_orderly ssd1306 _ _ _ _ s).and_start
      _ _).and_write _).and_repeat _ l).and_stop
  · have h := ((((ssd1306_set_area_orderly ssd1306 start_page
      ((height / SSD1306_BITS_PER_COLUMN + start_page) % 256) start_column
      (to_uint8 ((start_column : Int) + (width : Int) - 1)).toNat s).and_start
      ssd1306.i2c_address .I2C_MODE_WRITE).and_write SSD1306_SEND_DATA).and_writeAll
      (draw_bitmap_stream width height bitmap)).and_stop
    unfold ssd1306_draw_bitmap
    simp only []
    rw [draw_bitmap_loops_eq]
    exact Orderly.issued_pair _ _ h

/-! ## C11 -/

/-- C11: with the engine ready, `i2c_write_byte` returns true iff the status observed after
completion is `TW_MT_DATA_ACK`, `i2c_read_byte_ACK` iff it is `TW_MR_DATA_ACK`,
`i2c_read_byte_NACK` iff it is `TW_MR_DATA_NACK`; the status is the one the bus delivers for
the operation; a successful read stores the data register in `*byte`, a failed read leaves
`*byte` unchanged and stores the observed status in `last_error`. -/
theorem c11_byte_transfers (data byte : Nat) (s : I2C) (hr : s.i2c_ready = true) :
    (((i2c_write_byte data s).1 = true ↔ TW_STATUS (i2c_write_byte data s).2 = TW_MT_DATA_ACK)
      ∧ TW_STATUS (i2c_write_byte data s).2
          = ((s.bus s.tick (BusOp.dataOut (data % 256))).1 % 256 &&& 0xF8))
    ∧ (((i2c_read_byte_ACK byte s).1 = true
          ↔ TW_STATUS (i2c_read_byte_ACK byte s).2.2 = TW_MR_DATA_ACK)
      ∧ TW_STATUS (i2c_read_byte_ACK byte s).2.2
          = ((s.bus s.tick BusOp.dataInAck).1 % 256 &&& 0xF8))
    ∧ (((i2c_read_byte_NACK byte s).1 = true
          ↔ TW_STATUS (i2c_read_byte_NACK byte s).2.2 = TW_MR_DATA_NACK)
      ∧ TW_STATUS (i2c_read_byte_NACK byte s).2.2
          = ((s.bus s.tick BusOp.dataInNack).1 % 256 &&& 0xF8))
    ∧ ((i2c_read_byte_ACK byte s).1 = true →
        (i2c_read_byte_ACK byte s).2.1 = (i2c_read_byte_ACK byte s).2.2.TWDR
        ∧ (i2c_read_byte_ACK byte s).2.2.TWDR = (s.bus s.tick BusOp.dataInAck).2 % 256)
    ∧ ((i2c_read_byte_NACK byte s).1 = true →
        (i2c_read_byte_NACK byte s).2.1 = (i2c_read_byte_NACK byte s).2.2.TWDR
        ∧ (i2c_read_byte_NACK byte s).2.2.TWDR = (s.bus s.tick BusOp.dataInNack).2 % 256)
    ∧ ((i2c_read_byte_ACK byte s).1 = false →
        (i2c_read_byte_ACK byte s).2.1 = byte
        ∧ i2c_get_error (i2c_read_byte_ACK byte s).2.2 = TW_STATUS (i2c_read_byte_ACK byte s).2.2)
    ∧ ((i2c_read_byte_NACK byte s).1 = false →
        (i2c_read_byte_NACK byte s).2.1 = byte
        ∧ i2c_get_error (i2c_read_byte_NACK byte s).2.2
            = TW_STATUS (i2c_read_byte_NACK byte s).2.2) := by
  refine ⟨?_, ?_, ?_, ?_, ?_, ?_, ?_⟩
  · unfold i2c_write_byte record i2c_write_byte_body i2c_wait TW_STATUS
    simp only [hr]
    split_ifs <;> simp_all
  · unfold i2c_read_byte_ACK record i2c_read_byte_ACK_body i2c_wait TW_STATUS
    simp only [hr]
    split_ifs <;> simp_all
  · unfold i2c_read_byte_NACK record i2c_read_byte_NACK_body i2c_wait TW_STATUS
    simp only [hr]
    split_ifs <;> simp_all
  · unfold i2c_read_byte_ACK record i2c_read_byte_ACK_body i2c_wait TW_STATUS
    simp only [hr]
    split_ifs <;> simp_all
  · unfold i2c_read_byte_NACK record i2c_read_byte_NACK_body i2c_wait TW_STATUS
    simp only [hr]
    split_ifs <;> simp_all
  · unfold i2c_read_byte_ACK record i2c_read_byte_ACK_body i2c_wait TW_STATUS i2c_get_error
    simp only [hr]
    split_ifs <;> simp_all
  · unfold i2c_read_byte_NACK record i2c_read_byte_NACK_body i2c_wait TW_STATUS i2c_get_error
    simp only [hr]
    split_ifs <;> simp_all

/-- Instance of `c11_byte_transfers`: a ready engine on a bus that answers every operation with
`TW_MT_DATA_ACK` and the data byte `0x5A`: the write succeeds, the two reads fail, leave
`*byte = 7` unchanged and store the status `0x28` in `last_error`. -/
theorem c11_byte_transfers_witness :
    (i2c_write_byte 0x12 (readyEngine (fun _ _ => (TW_MT_DATA_ACK, 0x5A)))).1 = true
    ∧ (i2c_read_byte_ACK 7 (readyEngine (fun _ _ => (TW_MT_DATA_ACK, 0x5A)))).2.1 = 7
    ∧ i2c_get_error (i2c_read_byte_ACK 7 (readyEngine (fun _ _ => (TW_MT_DATA_ACK, 0x5A)))).2.2
        = TW_STATUS (i2c_read_byte_ACK 7 (readyEngine (fun _ _ => (TW_MT_DATA_ACK, 0x5A)))).2.2 :=
  have k := c11_byte_transfers 0x12 7 (readyEngine (fun _ _ => (TW_MT_DATA_ACK, 0x5A))) rfl
  ⟨k.1.1.mpr (by decide), (k.2.2.2.2.2.1 (by decide)).1, (k.2.2.2.2.2.1 (by decide)).2⟩

/-! ## C12 -/

/-- C12: `last_error` is sticky.  Every call of `i2c_start`, `i2c_write_byte`,
`i2c_read_byte_ACK`, `i2c_read_byte_NACK` that returns true, and every call of `i2c_stop` and
`i2c_init`, leaves `last_error` as it was; a primitive call that changes `last_error` has
returned false, and `last_error` then equals the status it observed. -/
theorem c12_last_error_sticky (address data byte F_CPU : Nat) (mode : i2c_mode_t) (s : I2C) :
    ((i2c_start address mode s).1 = true →
        i2c_get_error (i2c_start address mode s).2 = i2c_get_error s)
    ∧ ((i2c_write_byte data s).1 = true →
        i2c_get_error (i2c_write_byte data s).2 = i2c_get_error s)
    ∧ ((i2c_read_byte_ACK byte s).1 = true →
        i2c_get_error (i2c_read_byte_ACK byte s).2.2 = i2c_get_error s)
    ∧ ((i2c_read_byte_NACK byte s).1 = true →
        i2c_get_error (i2c_read_byte_NACK byte s).2.2 = i2c_get_error s)
    ∧ i2c_get_error (i2c_stop s) = i2c_get_error s
    ∧ i2c_get_error (i2c_init F_CPU s) = i2c_get_error s
    ∧ (i2c_get_error (i2c_start address mode s).2 ≠ i2c_get_error s →
        (i2c_start address mode s).1 = false
        ∧ i2c_get_error (i2c_start address mode s).2 = TW_STATUS (i2c_start address mode s).2)
    ∧ (i2c_get_error (i2c_write_byte data s).2 ≠ i2c_get_error s →
        (i2c_write_byte data s).1 = false
        ∧ i2c_get_error (i2c_write_byte data s).2 = TW_STATUS (i2c_write_byte data s).2)
    ∧ (i2c_get_error (i2c_read_byte_ACK byte s).2.2 ≠ i2c_get_error s →
        (i2c_read_byte_ACK byte s).1 = false
        ∧ i2c_get_error (i2c_read_byte_ACK byte s).2.2
            = TW_STATUS (i2c_read_byte_ACK byte s).2.2)
    ∧ (i2c_get_error (i2c_read_byte_NACK byte s).2.2 ≠ i2c_get_error s →
        (i2c_read_byte_NACK byte s).1 = false
        ∧ i2c_get_error (i2c_read_byte_NACK byte s).2.2
            = TW_STATUS (i2c_read_byte_NACK byte s).2.2) := by
  refine ⟨?_, ?_, ?_, ?_, ?_, ?_, ?_, ?_, ?_, ?_⟩
  · cases mode <;>
      (unfold i2c_start record i2c_start_body i2c_wait i2c_get_error
       simp only []
       split_ifs <;> simp_all)
  · unfold i2c_write_byte record i2c_write_byte_body i2c_wait i2c_get_error
    simp only []
    split_ifs <;> simp_all
  · unfold i2c_read_byte_ACK record i2c_read_byte_ACK_body i2c_wait i2c_get_error
    simp only []
    split_ifs <;> simp_all
  · unfold i2c_read_byte_NACK record i2c_read_byte_NACK_body i2c_wait i2c_get_error
    simp only []
    split_ifs <;> simp_all
  · unfold i2c_stop record i2c_get_error
    split_ifs <;> rfl
  · rfl
  · cases mode <;>
      (unfold i2c_start record i2c_start_body i2c_wait i2c_get_error TW_STATUS
       simp only []
       split_ifs <;> simp_all)
  · unfold i2c_write_byte record i2c_write_byte_body i2c_wait i2c_get_error TW_STATUS
    simp only []
    split_ifs <;> simp_all
  · unfold i2c_read_byte_ACK record i2c_read_byte_ACK_body i2c_wait i2c_get_error TW_STATUS
    simp only []
    split_ifs <;> simp_all
  · unfold i2c_read_byte_NACK record i2c_read_byte_NACK_body i2c_wait i2c_get_error TW_STATUS
    simp only []
    split_ifs <;> simp_all

/-! ## C17 -/

/-- C17: a failed reading leaves the previous readings untouched.  When
`bmp180_get_temperature` returns false the instance (hence the carried `B5`) and `*temp` are
what they were before the call; when `bmp180_get_pressure` returns false `*press` is what it
was before the call.  `bmp180_get_pressure` takes the instance through a pointer to const and
has no statement assigning to it, so it returns no instance: mode, calibration data and `B5`
are those of the call.  `bmp180_get_temperature` keeps mode, calibration data and address. -/
theorem c17_failed_reading_frame (b : bmp180_t) (temp press : Int) (s : I2C) :
    ((bmp180_get_temperature b temp s).1 = false →
        (bmp180_get_temperature b temp s).2.2.1 = temp
        ∧ (bmp180_get_temperature b temp s).2.1 = b)
    ∧ ((bmp180_get_pressure b press s).1 = false →
        (bmp180_get_pressure b press s).2.1 = press)
    ∧ (bmp180_get_temperature b temp s).2.1.mode = b.mode
    ∧ (bmp180_get_temperature b temp s).2.1.data = b.data
    ∧ (bmp180_get_temperature b temp s).2.1.i2c_address = b.i2c_address := by
  refine ⟨?_, ?_, ?_, ?_, ?_⟩
  · unfold bmp180_get_temperature
    simp only []
    split_ifs <;> simp_all
  · unfold bmp180_get_pressure
    simp only []
    split_ifs <;> simp_all
  · unfold bmp180_get_temperature
    simp only []
    split_ifs <;> rfl
  · unfold bmp180_get_temperature
    simp only []
    split_ifs <;> rfl
  · unfold bmp180_get_temperature
    simp only []
    split_ifs <;> rfl

/-- Instance of the failure cases of `c17_failed_reading_frame`: on an engine that was never
initialised both readings fail and leave `*temp = 123`, `B5 = 2400` and `*press = 456`. -/
theorem c17_failed_reading_frame_witness :
    (bmp180_get_temperature (datasheet_sensor 2400) 123 (idleEngine (ackBus datasheet_data))).1
        = false
    ∧ (bmp180_get_temperature (datasheet_sensor 2400) 123
        (idleEngine (ackBus datasheet_data))).2.2.1 = 123
    ∧ (bmp180_get_temperature (datasheet_sensor 2400) 123
        (idleEngine (ackBus datasheet_data))).2.1.B5 = 2400
    ∧ (bmp180_get_pressure (datasheet_sensor 2400) 456
        (idleEngine (ackBus datasheet_data))).2.1 = 456 :=
  have k := c17_failed_reading_frame (datasheet_sensor 2400) 123 456
    (idleEngine (ackBus datasheet_data))
  ⟨by decide, (k.1 (by decide)).1, congrArg bmp180_t.B5 (k.1 (by decide)).2,
    k.2.1 (by decide)⟩

/-! ## C18 -/

theorem pressure_raw_or (msb lsb xlsb : Nat) (hl : lsb < 256) (hx : xlsb < 256) :
    ((msb <<< 16) ||| (lsb <<< 8)) ||| xlsb = msb * 65536 + lsb * 256 + xlsb := by
  have h1 : lsb <<< 8 < 2 ^ 16 := by rw [Nat.shiftLeft_eq]; omega
  have h2 : (msb <<< 16) ||| (lsb <<< 8) = 2 ^ 16 * msb + (lsb <<< 8) := by
    rw [Nat.shiftLeft_eq msb, Nat.mul_comm msb]
    exact (Nat.mul_add_lt_is_or h1 msb).symm
  have h3 : 2 ^ 16 * msb + (lsb <<< 8) = 2 ^ 8 * (msb * 256 + lsb) := by
    rw [Nat.shiftLeft_eq]; omega
  have h4 : xlsb < 2 ^ 8 := by omega
  rw [h2, h3, ← Nat.mul_add_lt_is_or h4]
  omega

theorem pressure_trigger_byte (mode : bmp180_mode_t) :
    (BMP180_START_MEASURE_PRESSURE ||| (mode.toNat <<< 6)) % 256 = 0x34 + 64 * mode.toNat := by
  cases mode <;> decide

/-- The primitives `bmp180_get_pressure` issues on a bus on which every primitive succeeds. -/
theorem bmp180_get_pressure_issued (b : bmp180_t) (press : Int) (s : I2C) (h : AllAck s) :
    issued s (bmp180_get_pressure b press s).2.2
      = [⟨.start b.i2c_address .I2C_MODE_WRITE, true⟩, ⟨.write BMP180_REGISTER_CTR_MEAS, true⟩,
          ⟨.write (0x34 + 64 * b.mode.toNat), true⟩, ⟨.stop, true⟩,
          ⟨.start b.i2c_address .I2C_MODE_WRITE, true⟩, ⟨.write BMP180_REGISTER_OUT_MSB, true⟩,
          ⟨.start b.i2c_address .I2C_MODE_READ, true⟩, ⟨.readAck, true⟩, ⟨.readAck, true⟩,
          ⟨.readNack, true⟩, ⟨.stop, true⟩] := by
  have h1 := i2c_start_ack b.i2c_address .I2C_MODE_WRITE s h
  have k1 := h.keep_start b.i2c_address .I2C_MODE_WRITE
  have h2 := i2c_write_byte_ack BMP180_REGISTER_CTR_MEAS _ k1
  have k2 := k1.keep_write BMP180_REGISTER_CTR_MEAS
  have h3 := i2c_write_byte_ack
    ((BMP180_START_MEASURE_PRESSURE ||| (b.mode.toNat <<< 6)) % 256) _ k2
  have k3 := (k2.keep_write ((BMP180_START_MEASURE_PRESSURE ||| (b.mode.toNat <<< 6)) % 256)).keep_stop
  have h5 := i2c_start_ack b.i2c_address .I2C_MODE_WRITE _ k3
  have k5 := k3.keep_start b.i2c_address .I2C_MODE_WRITE
  have h6 := i2c_write_byte_ack BMP180_REGISTER_OUT_MSB _ k5
  have k6 := k5.keep_write BMP180_REGISTER_OUT_MSB
  have h7 := i2c_start_ack b.i2c_address .I2C_MODE_READ _ k6
  have k7 := k6.keep_start b.i2c_address .I2C_MODE_READ
  have h8 := i2c_read_byte_ACK_ack 0 _ k7
  have k8 := k7.keep_readAck 0
  have h9 := i2c_read_byte_ACK_ack 0 _ k8
  have k9 := k8.keep_readAck 0
  have h10 := i2c_read_byte_NACK_ack 0 _ k9
  have e1 : BMP180_REGISTER_CTR_MEAS % 256 = BMP180_REGISTER_CTR_MEAS := by decide
  have e2 : BMP180_REGISTER_OUT_MSB % 256 = BMP180_REGISTER_OUT_MSB := by decide
  have e3 : (BMP180_START_MEASURE_PRESSURE ||| (b.mode.toNat <<< 6)) % 256 % 256
      = 0x34 + 64 * b.mode.toNat := by
    rw [Nat.mod_mod, pressure_trigger_byte]
  unfold bmp180_get_pressure issued
  simp only [andAlso, andRead, h1, h2, h3, h5, h6, h7, h8, h9, h10, if_true, Bool.not_true,
    Bool.false_eq_true, if_false, i2c_stop_log, i2c_read_byte_NACK_log, i2c_read_byte_ACK_log,
    i2c_start_log, i2c_write_byte_log, e1, e2, e3, List.append_assoc, List.drop_left]
  rfl

/-- C18: for every mode and result bytes `msb`, `lsb`, `xlsb`, the raw pressure
`bmp180_get_pressure` uses is `up = (msb*65536 + lsb*256 + xlsb) >> (8 - mode)`, so that
`0 <= up < 2^(16+mode)`; on a bus on which every primitive succeeds (a start condition
answered with `TW_START` or `TW_REP_START`) the bytes the call writes are the control
register `0xF4`, the trigger `0x34 + 64*mode` (mode in bits 7..6, `0x34` in the low six bits)
and the result register `0xF6`, and, when the arithmetic is defined for the three bytes read
(`b4 ≠ 0`, every converted value in range), the value it stores is the reduction that starts
from the `up` of those three bytes. -/
theorem c18_raw_pressure_and_trigger (b : bmp180_t) (press : Int) (s : I2C) (msb lsb xlsb : Nat)
    (h : AllAck s) (hm : msb < 256) (hl : lsb < 256) (hx : xlsb < 256) :
    pressure_up b.mode msb lsb xlsb
        = (((msb * 65536 + lsb * 256 + xlsb) >>> (8 - b.mode.toNat) : Nat) : Int)
    ∧ 0 ≤ pressure_up b.mode msb lsb xlsb
    ∧ pressure_up b.mode msb lsb xlsb < 2 ^ (16 + b.mode.toNat)
    ∧ (pressure_defined b ((s.bus (s.tick + 9) BusOp.dataInAck).2 % 256)
          ((s.bus (s.tick + 10) BusOp.dataInAck).2 % 256)
          ((s.bus (s.tick + 11) BusOp.dataInNack).2 % 256) →
        (bmp180_get_pressure b press s).2.1
          = pressure_final (pressure_p
              (pressure_b7 b.mode
                (pressure_up b.mode ((s.bus (s.tick + 9) BusOp.dataInAck).2 % 256)
                  ((s.bus (s.tick + 10) BusOp.dataInAck).2 % 256)
                  ((s.bus (s.tick + 11) BusOp.dataInNack).2 % 256))
                (pressure_b3 b.data b.mode (pressure_b6 b.B5)))
              (pressure_b4 b.data (pressure_b6 b.B5))))
    ∧ writtenBytes (issued s (bmp180_get_pressure b press s).2.2)
        = [0xF4, 0x34 + 64 * b.mode.toNat, 0xF6]
    ∧ (0x34 + 64 * b.mode.toNat) / 64 = b.mode.toNat
    ∧ (0x34 + 64 * b.mode.toNat) % 64 = 0x34
    ∧ b.mode.toNat ≤ 3 := by
  have hup : pressure_up b.mode msb lsb xlsb
      = (((msb * 65536 + lsb * 256 + xlsb) >>> (8 - b.mode.toNat) : Nat) : Int) := by
    unfold pressure_up
    rw [pressure_raw_or msb lsb xlsb hl hx]
    have h0 : (msb * 65536 + lsb * 256 + xlsb) % 4294967296 = msb * 65536 + lsb * 256 + xlsb :=
      Nat.mod_eq_of_lt (by omega)
    rw [h0]
    apply to_int32_of_fits
    have h2 : (msb * 65536 + lsb * 256 + xlsb) >>> (8 - b.mode.toNat)
        ≤ msb * 65536 + lsb * 256 + xlsb := by
      rw [Nat.shiftRight_eq_div_pow]; exact Nat.div_le_self _ _
    generalize (msb * 65536 + lsb * 256 + xlsb) >>> (8 - b.mode.toNat) = n at h2 ⊢
    unfold fits32
    omega
  have hlt : (msb * 65536 + lsb * 256 + xlsb) >>> (8 - b.mode.toNat) < 2 ^ (16 + b.mode.toNat) := by
    rw [Nat.shiftRight_eq_div_pow]
    cases b.mode <;> simp only [bmp180_mode_t.toNat] <;> omega
  refine ⟨hup, ?_, ?_, ?_, ?_, ?_, ?_, ?_⟩
  · rw [hup]; exact Int.ofNat_nonneg _
  · rw [hup]; exact_mod_cast hlt
  · intro _
    exact (bmp180_get_pressure_success b press s (bmp180_get_pressure_ack b press s h)).2
  · rw [bmp180_get_pressure_issued b press s h]; rfl
  · omega
  · omega
  · cases b.mode <;> decide

/-- Instance of `c18_raw_pressure_and_trigger`: ultra high resolution (mode 3) with bytes
`0xFF 0xFF 0xFF` gives `up = 2^19 - 1`; on the bus `datasheet_bus`, whose repeated start is
answered with `TW_REP_START`, the trigger byte is `0xF4` and the value stored for the bytes
`0x6C 0xFA 0x00` read is the reduction of `up = 0x6CFA00 >> 5 = 223184`. -/
theorem c18_raw_pressure_and_trigger_witness :
    AllAck (readyEngine datasheet_bus)
    ∧ pressure_up .BMP180_ULTRA_HIGH_RESOLUTION_MODE 0xFF 0xFF 0xFF = 524287
    ∧ writtenBytes (issued (readyEngine datasheet_bus)
        (bmp180_get_pressure
          ⟨0x77, .BMP180_ULTRA_HIGH_RESOLUTION_MODE, datasheet_calibration, 2400⟩ 0
          (readyEngine datasheet_bus)).2.2) = [0xF4, 0xF4, 0xF6]
    ∧ (bmp180_get_pressure
          ⟨0x77, .BMP180_ULTRA_HIGH_RESOLUTION_MODE, datasheet_calibration, 2400⟩ 0
          (readyEngine datasheet_bus)).2.1
        = pressure_final (pressure_p
            (pressure_b7 .BMP180_ULTRA_HIGH_RESOLUTION_MODE 223184
              (pressure_b3 datasheet_calibration .BMP180_ULTRA_HIGH_RESOLUTION_MODE
                (pressure_b6 2400)))
            (pressure_b4 datasheet_calibration (pressure_b6 2400))) :=
  have k := c18_raw_pressure_and_trigger
    ⟨0x77, .BMP180_ULTRA_HIGH_RESOLUTION_MODE, datasheet_calibration, 2400⟩ 0
    (readyEngine datasheet_bus) 0xFF 0xFF 0xFF (allAck_repStartBus _ _)
    (by decide) (by decide) (by decide)
  ⟨allAck_repStartBus _ _, k.1.trans (by decide), k.2.2.2.2.1, k.2.2.2.1 (by decide)⟩

/-! ## C19 -/

/-- `ssd1306_set_area` is one transaction writing the bytes of `set_area_bytes`. -/
theorem ssd1306_set_area_eq_writeAll (ssd1306 : ssd1306_t) (sp ep sc ec : Nat) (s : I2C) :
    ssd1306_set_area ssd1306 sp ep sc ec s
      = ((writeAll (set_area_bytes sp ep sc ec)
            (i2c_start ssd1306.i2c_address .I2C_MODE_WRITE s)).1,
          i2c_stop (writeAll (set_area_bytes sp ep sc ec)
            (i2c_start ssd1306.i2c_address .I2C_MODE_WRITE s)).2) := by
  unfold ssd1306_set_area set_area_bytes
  simp only []
  split_ifs <;> rfl

theorem writtenBytes_map_write_mod (bytes : List Nat) :
    writtenBytes (bytes.map (fun b => (⟨.write (b % 256), true⟩ : Event)))
      = bytes.map (fun b => b % 256) := by
  induction bytes with
  | nil => rfl
  | cons b bs ih => simp [writtenBytes, ih]

/-- The primitives `ssd1306_set_area` issues on a bus on which every primitive succeeds. -/
theorem ssd1306_set_area_issued (ssd1306 : ssd1306_t) (sp ep sc ec : Nat) (s : I2C)
    (h : AllAck s) :
    issued s (ssd1306_set_area ssd1306 sp ep sc ec s).2
      = (⟨.start ssd1306.i2c_address .I2C_MODE_WRITE, true⟩ : Event)
        :: ((set_area_bytes sp ep sc ec).map (fun b => (⟨.write (b % 256), true⟩ : Event))
          ++ [⟨.stop, true⟩]) := by
  have g1 : Good (i2c_start ssd1306.i2c_address .I2C_MODE_WRITE s) :=
    ⟨i2c_start_ack _ _ _ h, h.keep_start _ _⟩
  obtain ⟨-, e⟩ := g1.then_writeAll (set_area_bytes sp ep sc ec)
  rw [ssd1306_set_area_eq_writeAll]
  unfold issued
  simp only []
  rw [i2c_stop_log, e, i2c_start_log, i2c_start_ack _ _ _ h]
  simp

/-- C19: on a ready bus that acknowledges everything, for 8-bit `start_page`, `end_page`,
`start_column`, `end_column`, `ssd1306_set_area` returns true and issues exactly: a start for
writing, the bytes `0x00`, `0x40`, then `0x22, start_page, end_page` iff both pages are at
most 7, then `0x21, start_column, end_column` iff both columns are at most 127, and a stop;
each axis is decided on its own, so one axis out of range leaves the command of the other
axis sent. -/
theorem c19_set_area_bytes (ssd1306 : ssd1306_t) (start_page end_page start_column end_column : Nat)
    (s : I2C) (h : AllAck s) (hsp : start_page < 256) (hep : end_page < 256)
    (hsc : start_column < 256) (hec : end_column < 256) :
    (ssd1306_set_area ssd1306 start_page end_page start_column end_column s).1 = true
    ∧ issued s (ssd1306_set_area ssd1306 start_page end_page start_column end_column s).2
      = (⟨.start ssd1306.i2c_address .I2C_MODE_WRITE, true⟩ : Event)
        :: ((([0x00, 0x40]
            ++ (if start_page ≤ 7 ∧ end_page ≤ 7 then [0x22, start_page, end_page] else [])
            ++ (if start_column ≤ 127 ∧ end_column ≤ 127 then [0x21, start_column, end_column]
                else [])).map (fun b => (⟨.write b, true⟩ : Event)))
          ++ [⟨.stop, true⟩]) := by
  refine ⟨(ssd1306_set_area_good ssd1306 _ _ _ _ s h).1, ?_⟩
  rw [ssd1306_set_area_issued ssd1306 start_page end_page start_column end_column s h]
  unfold set_area_bytes is_valid_page is_valid_column
  simp only [SSD1306_PAGE_START_ADDRESS, SSD1306_PAGE_END_ADDRESS, SSD1306_COLUMN_START_ADDRESS,
    SSD1306_COLUMN_END_ADDRESS, SSD1306_SEND_COMMAND, SSD1306_DISPLAY_START_LINE_COMMAND,
    SSD1306_PAGE_START_END_ADDRESS_COMMAND, SSD1306_COLUMN_START_END_ADDRESS_COMMAND]
  by_cases hp : start_page ≤ 7 ∧ end_page ≤ 7 <;>
    by_cases hc : start_column ≤ 127 ∧ end_column ≤ 127 <;>
    simp [hp, hc, Nat.mod_eq_of_lt hsp, Nat.mod_eq_of_lt hep,
      Nat.mod_eq_of_lt hsc, Nat.mod_eq_of_lt hec]

/-- Instance of `c19_set_area_bytes`: pages 0 to 8 (end page out of range) with columns 0 to
127: the page command is not sent, the column command is, and the call returns true. -/
theorem c19_set_area_bytes_witness :
    AllAck (readyEngine (ackBus datasheet_data))
    ∧ (ssd1306_set_area ⟨0x3C, none⟩ 0 8 0 127 (readyEngine (ackBus datasheet_data))).1 = true
    ∧ writtenBytes (issued (readyEngine (ackBus datasheet_data))
        (ssd1306_set_area ⟨0x3C, none⟩ 0 8 0 127 (readyEngine (ackBus datasheet_data))).2)
      = [0x00, 0x40, 0x21, 0, 127] :=
  have k := c19_set_area_bytes ⟨0x3C, none⟩ 0 8 0 127 (readyEngine (ackBus datasheet_data))
    (allAck_readyEngine _) (by decide) (by decide) (by decide) (by decide)
  ⟨allAck_readyEngine _, k.1, by rw [k.2]; decide⟩

/-! ## C20 -/

theorem Good.then_bitAnd_write {r : Bool × I2C} (h : Good r) (d : Nat) :
    Good (bitAnd r (i2c_write_byte d))
    ∧ (bitAnd r (i2c_write_byte d)).2.log = r.2.log ++ [⟨.write (d % 256), true⟩] := by
  have ha := i2c_write_byte_ack d _ h.2
  refine ⟨⟨?_, h.2.keep_write d⟩, ?_⟩
  · unfold bitAnd; simp [h.1, ha]
  · unfold bitAnd; simp only []; rw [i2c_write_byte_log, ha]

/-- The primitives `ssd1306_send_command_value` issues on a bus on which every primitive
succeeds. -/
theorem ssd1306_send_command_value_issued (ssd1306 : ssd1306_t) (command value : Nat) (s : I2C)
    (h : AllAck s) :
    (ssd1306_send_command_value ssd1306 command value s).1 = true
    ∧ issued s (ssd1306_send_command_value ssd1306 command value s).2
      = [⟨.start ssd1306.i2c_address .I2C_MODE_WRITE, true⟩, ⟨.write 0x00, true⟩,
          ⟨.write (command % 256), true⟩, ⟨.write (value % 256), true⟩, ⟨.stop, true⟩] := by
  have g1 : Good (i2c_start ssd1306.i2c_address .I2C_MODE_WRITE s) :=
    ⟨i2c_start_ack _ _ _ h, h.keep_start _ _⟩
  obtain ⟨g2, l2⟩ := g1.then_bitAnd_write SSD1306_SEND_COMMAND
  obtain ⟨g3, l3⟩ := g2.then_bitAnd_write command
  obtain ⟨g4, l4⟩ := g3.then_bitAnd_write value
  unfold ssd1306_send_command_value issued
  simp only []
  refine ⟨g4.1, ?_⟩
  rw [i2c_stop_log, l4, l3, l2, i2c_start_log, i2c_start_ack _ _ _ h]
  simp [SSD1306_SEND_COMMAND]

/-- C20: on a ready bus that acknowledges everything, for every 8-bit `v`,
`ssd1306_set_multiplex_ratio` returns true iff `15 <= v <= 63`; when accepted it issues a
start, the bytes `0x00`, `0xA8`, `v` and a stop; when rejected it returns false and leaves the
engine as it was. -/
theorem c20_multiplex_ratio_range (ssd1306 : ssd1306_t) (v : Nat) (s : I2C) (h : AllAck s)
    (hv : v < 256) :
    ((ssd1306_set_multiplex_ratio ssd1306 v s).1 = true ↔ 15 ≤ v ∧ v ≤ 63)
    ∧ (15 ≤ v ∧ v ≤ 63 →
        issued s (ssd1306_set_multiplex_ratio ssd1306 v s).2
          = [⟨.start ssd1306.i2c_address .I2C_MODE_WRITE, true⟩, ⟨.write 0x00, true⟩,
              ⟨.write 0xA8, true⟩, ⟨.write v, true⟩, ⟨.stop, true⟩])
    ∧ (¬ (15 ≤ v ∧ v ≤ 63) → ssd1306_set_multiplex_ratio ssd1306 v s = (false, s)) := by
  have k := ssd1306_send_command_value_issued ssd1306 SSD1306_MUX_RATIO_COMMAND v s h
  rw [Nat.mod_eq_of_lt hv] at k
  unfold ssd1306_set_multiplex_ratio
  simp only [SSD1306_MUX_RATIO_MIN, SSD1306_MUX_RATIO_MAX, ge_iff_le, Bool.and_eq_true,
    decide_eq_true_eq]
  by_cases hr : 15 ≤ v ∧ v ≤ 63
  · rw [if_pos hr]
    exact ⟨⟨fun _ => hr, fun _ => k.1⟩, fun _ => k.2, fun hn => absurd hr hn⟩
  · rw [if_neg hr]
    exact ⟨⟨fun hf => by simp at hf, fun hp => absurd hp hr⟩, fun hp => absurd hp hr,
      fun _ => rfl⟩

/-- Instance of `c20_multiplex_ratio_range` at the four boundary values: 14 and 64 are
rejected, 15 and 63 are accepted. -/
theorem c20_multiplex_ratio_range_witness :
    AllAck (readyEngine (ackBus datasheet_data))
    ∧ (ssd1306_set_multiplex_ratio ⟨0x3C, none⟩ 14 (readyEngine (ackBus datasheet_data))).1 = false
    ∧ (ssd1306_set_multiplex_ratio ⟨0x3C, none⟩ 15 (readyEngine (ackBus datasheet_data))).1 = true
    ∧ (ssd1306_set_multiplex_ratio ⟨0x3C, none⟩ 63 (readyEngine (ackBus datasheet_data))).1 = true
    ∧ (ssd1306_set_multiplex_ratio ⟨0x3C, none⟩ 64 (readyEngine (ackBus datasheet_data))).1 = false
    ∧ writtenBytes (issued (readyEngine (ackBus datasheet_data))
        (ssd1306_set_multiplex_ratio ⟨0x3C, none⟩ 63 (readyEngine (ackBus datasheet_data))).2)
      = [0x00, 0xA8, 63] :=
  ⟨allAck_readyEngine _,
    congrArg Prod.fst ((c20_multiplex_ratio_range ⟨0x3C, none⟩ 14
      (readyEngine (ackBus datasheet_data)) (allAck_readyEngine _) (by decide)).2.2 (by decide)),
    (c20_multiplex_ratio_range ⟨0x3C, none⟩ 15
      (readyEngine (ackBus datasheet_data)) (allAck_readyEngine _) (by decide)).1.mpr (by decide),
    (c20_multiplex_ratio_range ⟨0x3C, none⟩ 63
      (readyEngine (ackBus datasheet_data)) (allAck_readyEngine _) (by decide)).1.mpr (by decide),
    congrArg Prod.fst ((c20_multiplex_ratio_range ⟨0x3C, none⟩ 64
      (readyEngine (ackBus datasheet_data)) (allAck_readyEngine _) (by decide)).2.2 (by decide)),
    by rw [(c20_multiplex_ratio_range ⟨0x3C, none⟩ 63
      (readyEngine (ackBus datasheet_data)) (allAck_readyEngine _) (by decide)).2.1 (by decide)]
       decide⟩

/-! ## Calibration read-out (`bmp180_init`) -/

theorem bmp180_init_eq_upto (b : bmp180_t) (s : I2C) :
    bmp180_init b s = ((bmp180_init_upto 11 b s).1,
      { b with data := (bmp180_init_upto 11 b s).2.1 }, (bmp180_init_upto 11 b s).2.2) := rfl

theorem bmp180_init_upto_zero (b : bmp180_t) (s : I2C) :
    bmp180_init_upto 0 b s = (true, b.data, s) := rfl

theorem bmp180_init_upto_succ (k : Nat) (hk : k < 11) (b : bmp180_t) (s : I2C) :
    bmp180_init_upto (k + 1) b s
      = calStep b.i2c_address (bmp180_init_upto k b s) (calibration_slots.getD k slot_AC1) := by
  interval_cases k <;> rfl

theorem calStep_of_false (a : Nat) (r : Bool × bmp180_calibration_data_t × I2C) (slot : CalSlot)
    (h : r.1 = false) : calStep a r slot = (false, r.2.1, r.2.2) := by
  unfold calStep; simp [h]

theorem calStep_of_true (a : Nat) (r : Bool × bmp180_calibration_data_t × I2C) (slot : CalSlot)
    (h : r.1 = true) : calStep a r slot = calRead a slot r.2.1 r.2.2 := by
  unfold calStep; simp [h]

theorem foldl_calStep_of_false (a : Nat) (l : List CalSlot)
    (r : Bool × bmp180_calibration_data_t × I2C) (h : r.1 = false) :
    l.foldl (calStep a) r = (false, r.2.1, r.2.2) := by
  induction l generalizing r with
  | nil => obtain ⟨r1, r2, r3⟩ := r; simp at h; simp [h]
  | cons x xs ih =>
    rw [List.foldl_cons, ih _ (by rw [calStep_of_false a r x h]), calStep_of_false a r x h]

/-- Once a statement of `bmp180_init` has left the flag false, the flag, the calibration data
and the engine stay as they are through the remaining statements. -/
theorem bmp180_init_upto_frozen (k n : Nat) (hkn : k ≤ n) (b : bmp180_t) (s : I2C)
    (h : (bmp180_init_upto k b s).1 = false) :
    bmp180_init_upto n b s = (false, (bmp180_init_upto k b s).2.1, (bmp180_init_upto k b s).2.2) := by
  have e : calibration_slots.take n
      = calibration_slots.take k ++ (calibration_slots.take n).drop k := by
    have := (List.take_append_drop k (calibration_slots.take n)).symm
    rwa [List.take_take, Nat.min_eq_left hkn] at this
  unfold bmp180_init_upto at h ⊢
  rw [e, List.foldl_append]
  exact foldl_calStep_of_false _ _ _ h

theorem bmp180_init_upto_true_of_le (k n : Nat) (hkn : k ≤ n) (b : bmp180_t) (s : I2C)
    (h : (bmp180_init_upto n b s).1 = true) : (bmp180_init_upto k b s).1 = true := by
  by_contra hc
  rw [Bool.not_eq_true] at hc
  rw [bmp180_init_upto_frozen k n hkn b s hc] at h
  simp at h

/-- When the first `k` statements succeeded, statement `k` performs its read. -/
theorem bmp180_init_upto_succ_of_true (k : Nat) (hk : k < 11) (b : bmp180_t) (s : I2C)
    (h : (bmp180_init_upto k b s).1 = true) :
    bmp180_init_upto (k + 1) b s = kth_calibration_read k b s := by
  rw [bmp180_init_upto_succ k hk, calStep_of_true _ _ _ h]
  rfl

theorem bmp180_init_upto_all_true (b : bmp180_t) (s : I2C)
    (h : ∀ k, k < 11 → (kth_calibration_read k b s).1 = true) (n : Nat) (hn : n ≤ 11) :
    (bmp180_init_upto n b s).1 = true := by
  induction n with
  | zero => rfl
  | succ n ih =>
    rw [bmp180_init_upto_succ_of_true n (by omega) b s (ih (by omega))]
    exact h n (by omega)

/-! ## C13 -/

/-- C13: `bmp180_init` reads the registers `0xAA, 0xAC, ..., 0xBE` in that order; it returns
true iff every one of the eleven reads is performed and succeeds; and if the read of
statement `k` (the first `k` having succeeded) fails, it returns false with the engine,
log of issued primitives included, exactly as that failed read left it: no bus primitive is
issued for the later registers. -/
theorem c13_init_reads_all_or_stops (b : bmp180_t) (s : I2C) :
    calibration_slots.map CalSlot.reg
        = [0xAA, 0xAC, 0xAE, 0xB0, 0xB2, 0xB4, 0xB6, 0xB8, 0xBA, 0xBC, 0xBE]
    ∧ ((bmp180_init b s).1 = true ↔
        ∀ k, k < 11 → (bmp180_init_upto k b s).1 = true ∧ (kth_calibration_read k b s).1 = true)
    ∧ ((bmp180_init b s).1 = true ↔ ∀ k, k < 11 → (kth_calibration_read k b s).1 = true)
    ∧ (∀ k, k < 11 → (bmp180_init_upto k b s).1 = true → (kth_calibration_read k b s).1 = false →
        (bmp180_init b s).1 = false
        ∧ (bmp180_init b s).2.2 = (kth_calibration_read k b s).2.2
        ∧ issued s (bmp180_init b s).2.2 = issued s (kth_calibration_read k b s).2.2) := by
  have hfwd : (bmp180_init b s).1 = true →
      ∀ k, k < 11 → (bmp180_init_upto k b s).1 = true ∧ (kth_calibration_read k b s).1 = true := by
    intro h k hk
    rw [bmp180_init_eq_upto] at h
    have h1 := bmp180_init_upto_true_of_le k 11 (by omega) b s h
    have h2 := bmp180_init_upto_true_of_le (k + 1) 11 (by omega) b s h
    rw [bmp180_init_upto_succ_of_true k hk b s h1] at h2
    exact ⟨h1, h2⟩
  have hbwd : (∀ k, k < 11 → (kth_calibration_read k b s).1 = true) → (bmp180_init b s).1 = true := by
    intro h
    rw [bmp180_init_eq_upto]
    exact bmp180_init_upto_all_true b s h 11 (le_refl _)
  refine ⟨by decide, ⟨hfwd, fun h => hbwd (fun k hk => (h k hk).2)⟩,
    ⟨fun h k hk => (hfwd h k hk).2, hbwd⟩, ?_⟩
  intro k hk h1 h2
  have e := bmp180_init_upto_succ_of_true k hk b s h1
  have hf : (bmp180_init_upto (k + 1) b s).1 = false := by rw [e]; exact h2
  have e11 := bmp180_init_upto_frozen (k + 1) 11 (by omega) b s hf
  rw [bmp180_init_eq_upto]
  simp only []
  rw [e11]
  simp only []
  rw [e]
  refine ⟨?_, ?_, ?_⟩ <;> trivial

/-- Instance of the failure case of `c13_init_reads_all_or_stops`: on a bus that stops
acknowledging after 42 operations the first six reads succeed, the seventh (register `0xB6`)
fails at its first primitive, and `bmp180_init` returns false having issued the 36 primitives
of six reads and the start and stop of the seventh. -/
theorem c13_init_reads_all_or_stops_witness :
    (bmp180_init_upto 6 (bmp180_create 0x77) (readyEngine (ackUntilBus 42))).1 = true
    ∧ (kth_calibration_read 6 (bmp180_create 0x77) (readyEngine (ackUntilBus 42))).1 = false
    ∧ (bmp180_init (bmp180_create 0x77) (readyEngine (ackUntilBus 42))).1 = false
    ∧ (issued (readyEngine (ackUntilBus 42))
        (bmp180_init (bmp180_create 0x77) (readyEngine (ackUntilBus 42))).2.2).length = 38 :=
  have k := (c13_init_reads_all_or_stops (bmp180_create 0x77)
    (readyEngine (ackUntilBus 42))).2.2.2 6 (by decide) (by decide) (by decide)
  ⟨by decide, by decide, k.1, by rw [k.2.2]; decide⟩

/-! ## The sixteen-bit reads -/

theorem i2c_read_uin16_failed (a reg : Nat) (result : Int) (s : I2C)
    (h : (i2c_read_uin16 a reg result s).1 = false) :
    (i2c_read_uin16 a reg result s).2.1 = result := by
  unfold i2c_read_uin16 at h ⊢
  simp only [] at h ⊢
  rw [if_neg (by rw [h]; simp)]

theorem i2c_read_in16_failed (a reg : Nat) (result : Int) (s : I2C)
    (h : (i2c_read_in16 a reg result s).1 = false) :
    (i2c_read_in16 a reg result s).2.1 = result := by
  unfold i2c_read_in16 at h ⊢
  simp only [] at h ⊢
  rw [if_neg (by rw [h]; simp)]

/-- A successful `i2c_read_uin16` consumed seven bus operations, read `msb` and `lsb` at the
sixth and seventh, and stored `msb*256 + lsb`. -/
theorem i2c_read_uin16_success (a reg : Nat) (result : Int) (s : I2C)
    (h : (i2c_read_uin16 a reg result s).1 = true) :
    Advances 7 s (i2c_read_uin16 a reg result s).2.2
    ∧ (i2c_read_uin16 a reg result s).2.1
        = (((s.bus (s.tick + 5) BusOp.dataInAck).2 % 256 : Nat) : Int) * 256
          + (((s.bus (s.tick + 6) BusOp.dataInNack).2 % 256 : Nat) : Int) := by
  unfold i2c_read_uin16 at h ⊢
  simp only [] at h ⊢
  generalize hr1 : i2c_start a .I2C_MODE_WRITE s = r1 at h ⊢
  generalize hr2 : andAlso r1 (i2c_write_byte reg) = r2 at h ⊢
  generalize hr3 : andAlso r2 (i2c_start a .I2C_MODE_READ) = r3 at h ⊢
  generalize hr4 : andRead r3 0 i2c_read_byte_ACK = r4 at h ⊢
  generalize hr5 : andRead (r4.1, r4.2.2) 0 i2c_read_byte_NACK = r5 at h ⊢
  obtain ⟨t4, e5⟩ := andRead_inv hr5 h
  obtain ⟨t3, e4⟩ := andRead_inv hr4 t4
  obtain ⟨t2, e3⟩ := andAlso_inv hr3 t3
  obtain ⟨t1, e2⟩ := andAlso_inv hr2 t2
  simp only [] at e5
  have a1 := (i2c_start_advances _ _ _ (by rw [hr1]; exact t1)).2
  rw [hr1] at a1
  have a2 := (i2c_write_byte_advances _ _ (by rw [← e2]; exact t2)).2
  rw [← e2] at a2
  have a3 := (i2c_start_advances _ _ _ (by rw [← e3]; exact t3)).2
  rw [← e3] at a3
  have a4 := (i2c_read_byte_ACK_advances _ _ (by rw [← e4]; exact t4)).2
  rw [← e4] at a4
  have a5 := (i2c_read_byte_NACK_advances _ _ (by rw [← e5]; exact h)).2
  rw [← e5] at a5
  have a6 := i2c_stop_advances r5.2.2
  have b3 := (a1.trans a2).trans a3
  have b4 := b3.trans a4.1
  have hm : r4.2.1 = (s.bus (s.tick + 5) BusOp.dataInAck).2 % 256 := by
    rw [a4.2, b3.1, b3.2.2]
  have hl : r5.2.1 = (s.bus (s.tick + 6) BusOp.dataInNack).2 % 256 := by
    rw [a5.2, b4.1, b4.2.2]
  refine ⟨(b4.trans a5.1).trans a6, ?_⟩
  rw [if_pos h, hm, hl]
  have h1 : (s.bus (s.tick + 5) BusOp.dataInAck).2 % 256 < 256 := Nat.mod_lt _ (by norm_num)
  have h2 : (s.bus (s.tick + 6) BusOp.dataInNack).2 % 256 < 256 := Nat.mod_lt _ (by norm_num)
  generalize (s.bus (s.tick + 5) BusOp.dataInAck).2 % 256 = msb at h1 ⊢
  generalize (s.bus (s.tick + 6) BusOp.dataInNack).2 % 256 = lsb at h2 ⊢
  rw [shiftLeft8_or msb lsb h2]
  unfold to_uint16 to_int16
  push_cast
  omega

/-- A successful `i2c_read_in16` consumed seven bus operations and stored the two's
complement reading of `msb*256 + lsb`. -/
theorem i2c_read_in16_success (a reg : Nat) (result : Int) (s : I2C)
    (h : (i2c_read_in16 a reg result s).1 = true) :
    Advances 7 s (i2c_read_in16 a reg result s).2.2
    ∧ (i2c_read_in16 a reg result s).2.1
        = to_int16 ((((s.bus (s.tick + 5) BusOp.dataInAck).2 % 256 : Nat) : Int) * 256
          + (((s.bus (s.tick + 6) BusOp.dataInNack).2 % 256 : Nat) : Int)) := by
  unfold i2c_read_in16 at h ⊢
  simp only [] at h ⊢
  obtain ⟨k1, k2⟩ := i2c_read_uin16_success a reg 0 s h
  exact ⟨k1, by rw [if_pos h, k2]⟩

/-! ## The eleven statements of `bmp180_init` -/

theorem slot_read_failed (k : Nat) (hk : k < 11) (a reg : Nat) (r : Int) (s : I2C)
    (h : ((calibration_slots.getD k slot_AC1).read a reg r s).1 = false) :
    ((calibration_slots.getD k slot_AC1).read a reg r s).2.1 = r := by
  interval_cases k
  · exact i2c_read_in16_failed a reg r s h
  · exact i2c_read_in16_failed a reg r s h
  · exact i2c_read_in16_failed a reg r s h
  · exact i2c_read_uin16_failed a reg r s h
  · exact i2c_read_uin16_failed a reg r s h
  · exact i2c_read_uin16_failed a reg r s h
  · exact i2c_read_in16_failed a reg r s h
  · exact i2c_read_in16_failed a reg r s h
  · exact i2c_read_in16_failed a reg r s h
  · exact i2c_read_in16_failed a reg r s h
  · exact i2c_read_in16_failed a reg r s h

theorem slot_set_get (k : Nat) (hk : k < 11) (d : bmp180_calibration_data_t) :
    (calibration_slots.getD k slot_AC1).set d ((calibration_slots.getD k slot_AC1).get d) = d := by
  interval_cases k <;> rfl

theorem slot_get_set (k : Nat) (hk : k < 11) (d : bmp180_calibration_data_t) (v : Int) :
    calibration_field k ((calibration_slots.getD k slot_AC1).set d v) = v := by
  interval_cases k <;> rfl

theorem slot_get_set_ne (i j : Nat) (hi : i < 11) (hj : j < 11) (hij : i ≠ j)
    (d : bmp180_calibration_data_t) (v : Int) :
    calibration_field j ((calibration_slots.getD i slot_AC1).set d v) = calibration_field j d := by
  interval_cases i <;> interval_cases j <;> first | rfl | exact absurd rfl hij

/-- A failed calibration read leaves the calibration data as it was. -/
theorem calRead_failed (k : Nat) (hk : k < 11) (a : Nat) (d : bmp180_calibration_data_t) (s : I2C)
    (h : (calRead a (calibration_slots.getD k slot_AC1) d s).1 = false) :
    (calRead a (calibration_slots.getD k slot_AC1) d s).2.1 = d := by
  unfold calRead at h ⊢
  simp only [] at h ⊢
  rw [slot_read_failed k hk _ _ _ _ h, slot_set_get k hk]

/-- Statement `i` of `bmp180_init` leaves every field other than its own as it was. -/
theorem calStep_field_ne (i j : Nat) (hi : i < 11) (hj : j < 11) (hij : i ≠ j) (a : Nat)
    (r : Bool × bmp180_calibration_data_t × I2C) :
    calibration_field j (calStep a r (calibration_slots.getD i slot_AC1)).2.1
      = calibration_field j r.2.1 := by
  unfold calStep
  split_ifs
  · unfold calRead
    simp only []
    exact slot_get_set_ne i j hi hj hij _ _
  · rfl

/-- Fields not yet reached by the read-out keep the value they had before the call. -/
theorem bmp180_init_upto_field_later (b : bmp180_t) (s : I2C) (j : Nat) (hj : j < 11) (n : Nat)
    (hn : n ≤ j) :
    calibration_field j (bmp180_init_upto n b s).2.1 = calibration_field j b.data := by
  induction n with
  | zero => rfl
  | succ n ih =>
    rw [bmp180_init_upto_succ n (by omega), calStep_field_ne n j (by omega) hj (by omega)]
    exact ih (by omega)

/-- A field already read keeps the value stored by its read through the later statements. -/
theorem bmp180_init_upto_field_earlier (b : bmp180_t) (s : I2C) (j : Nat) (n : Nat)
    (hjn : j < n) (hn : n ≤ 11) :
    calibration_field j (bmp180_init_upto n b s).2.1
      = calibration_field j (bmp180_init_upto (j + 1) b s).2.1 := by
  induction n with
  | zero => omega
  | succ n ih =>
    by_cases hjn1 : j = n
    · rw [hjn1]
    · rw [bmp180_init_upto_succ n (by omega), calStep_field_ne n j (by omega) (by omega)
        (fun e => hjn1 e.symm)]
      exact ih (by omega) (by omega)

/-- A successful read of statement `k` consumed seven bus operations and delivers the
sixteen-bit value read, as it is for the registers of statements 3, 4 and 5 (`AC4`, `AC5`,
`AC6`, read by `i2c_read_uin16`) and in two's complement for the others. -/
theorem slot_read_success (k : Nat) (hk : k < 11) (a reg : Nat) (r : Int) (s : I2C)
    (h : ((calibration_slots.getD k slot_AC1).read a reg r s).1 = true) :
    Advances 7 s ((calibration_slots.getD k slot_AC1).read a reg r s).2.2
    ∧ ((calibration_slots.getD k slot_AC1).read a reg r s).2.1
        = if k = 3 ∨ k = 4 ∨ k = 5 then calibration_raw s 0 else to_int16 (calibration_raw s 0) := by
  have hraw : calibration_raw s 0
      = (((s.bus (s.tick + 5) BusOp.dataInAck).2 % 256 : Nat) : Int) * 256
        + (((s.bus (s.tick + 6) BusOp.dataInNack).2 % 256 : Nat) : Int) := by
    unfold calibration_raw; simp
  rw [hraw]
  interval_cases k
  · exact i2c_read_in16_success a reg r s h
  · exact i2c_read_in16_success a reg r s h
  · exact i2c_read_in16_success a reg r s h
  · exact i2c_read_uin16_success a reg r s h
  · exact i2c_read_uin16_success a reg r s h
  · exact i2c_read_uin16_success a reg r s h
  · exact i2c_read_in16_success a reg r s h
  · exact i2c_read_in16_success a reg r s h
  · exact i2c_read_in16_success a reg r s h
  · exact i2c_read_in16_success a reg r s h
  · exact i2c_read_in16_success a reg r s h

theorem calibration_raw_shift (s s1 : I2C) (k : Nat) (h : Advances (7 * k) s s1) :
    calibration_raw s1 0 = calibration_raw s k := by
  obtain ⟨h1, -, h3⟩ := h
  unfold calibration_raw
  rw [h1, h3]

/-- After `k` successful statements the engine has consumed `7*k` bus operations. -/
theorem bmp180_init_upto_advances (b : bmp180_t) (s : I2C) (k : Nat) (hk : k ≤ 11)
    (h : (bmp180_init_upto k b s).1 = true) : Advances (7 * k) s (bmp180_init_upto k b s).2.2 := by
  induction k with
  | zero => exact ⟨rfl, rfl, rfl⟩
  | succ k ih =>
    have h0 := bmp180_init_upto_true_of_le k (k + 1) (by omega) b s h
    have a0 := ih (by omega) h0
    rw [bmp180_init_upto_succ_of_true k (by omega) b s h0] at h ⊢
    have a1 := (slot_read_success k (by omega) _ _ _ _ h).1
    have a2 := a0.trans a1
    rw [show 7 * k + 7 = 7 * (k + 1) by ring] at a2
    exact a2

/-- The value a successful statement `j` stores in its field. -/
theorem bmp180_init_upto_field_read (b : bmp180_t) (s : I2C) (j : Nat) (hj : j < 11)
    (h : (bmp180_init_upto (j + 1) b s).1 = true) :
    calibration_field j (bmp180_init_upto (j + 1) b s).2.1
      = if j = 3 ∨ j = 4 ∨ j = 5 then calibration_raw s j else to_int16 (calibration_raw s j) := by
  have h0 := bmp180_init_upto_true_of_le j (j + 1) (by omega) b s h
  have a0 := bmp180_init_upto_advances b s j (by omega) h0
  rw [bmp180_init_upto_succ_of_true j hj b s h0] at h ⊢
  have a1 := (slot_read_success j hj _ _ _ _ h).2
  rw [calibration_raw_shift s _ j a0] at a1
  unfold kth_calibration_read calRead
  simp only []
  rw [slot_get_set j hj, a1]

theorem bmp180_init_field_read (b : bmp180_t) (s : I2C) (j : Nat) (hj : j < 11)
    (h : (bmp180_init b s).1 = true) :
    calibration_field j (bmp180_init b s).2.1.data
      = if j = 3 ∨ j = 4 ∨ j = 5 then calibration_raw s j else to_int16 (calibration_raw s j) := by
  rw [bmp180_init_eq_upto] at h ⊢
  simp only [] at h ⊢
  rw [bmp180_init_upto_field_earlier b s j 11 hj (le_refl _)]
  exact bmp180_init_upto_field_read b s j hj
    (bmp180_init_upto_true_of_le (j + 1) 11 (by omega) b s h)

/-! ## C14 -/

/-- C14, as stated, fails: on a bus that stops acknowledging after 42 operations (data bytes
`0xFF`) the seventh read fails and `bmp180_init` returns false, but the six fields read before
it have been written: the calibration data of the freshly created instance is no longer what
it was before the call. -/
theorem c14_partial_calibration_counterexample :
    (bmp180_init_upto 6 (bmp180_create 0x77) (readyEngine (ackUntilBus 42))).1 = true
    ∧ (kth_calibration_read 6 (bmp180_create 0x77) (readyEngine (ackUntilBus 42))).1 = false
    ∧ (bmp180_init (bmp180_create 0x77) (readyEngine (ackUntilBus 42))).1 = false
    ∧ (bmp180_init (bmp180_create 0x77) (readyEngine (ackUntilBus 42))).2.1.data
        = ⟨-1, -1, -1, 65535, 65535, 65535, 0, 0, 0, 0, 0⟩
    ∧ (bmp180_init (bmp180_create 0x77) (readyEngine (ackUntilBus 42))).2.1.data
        ≠ (bmp180_create 0x77).data := by
  decide

/-- C14, amended: if the read of statement `k` (counted from 0, the earlier ones having
succeeded) fails, `bmp180_init` returns false and the calibration data is the data as the
first `k` reads left it: the fields of statements `k` to 10 have their value from before the
call, the fields of statements before `k` hold what their reads stored; the data as a whole
equals its value before the call when it is the first read that fails. -/
theorem c14_failed_init_data (b : bmp180_t) (s : I2C) (k : Nat) (hk : k < 11)
    (h1 : (bmp180_init_upto k b s).1 = true) (h2 : (kth_calibration_read k b s).1 = false) :
    (bmp180_init b s).1 = false
    ∧ (bmp180_init b s).2.1.data = (bmp180_init_upto k b s).2.1
    ∧ (∀ j, k ≤ j → j < 11 →
        calibration_field j (bmp180_init b s).2.1.data = calibration_field j b.data)
    ∧ (∀ j, j < k →
        calibration_field j (bmp180_init b s).2.1.data
          = calibration_field j (kth_calibration_read j b s).2.1)
    ∧ (k = 0 → (bmp180_init b s).2.1.data = b.data) := by
  have e := bmp180_init_upto_succ_of_true k hk b s h1
  have hf : (bmp180_init_upto (k + 1) b s).1 = false := by rw [e]; exact h2
  have e11 := bmp180_init_upto_frozen (k + 1) 11 (by omega) b s hf
  have hd : (bmp180_init b s).2.1.data = (bmp180_init_upto k b s).2.1 := by
    rw [bmp180_init_eq_upto]
    simp only []
    rw [e11]
    simp only []
    rw [e]
    exact calRead_failed k hk _ _ _ h2
  refine ⟨?_, hd, ?_, ?_, ?_⟩
  · rw [bmp180_init_eq_upto]
    simp only []
    rw [e11]
  · intro j hkj hj
    rw [hd]
    exact bmp180_init_upto_field_later b s j hj k hkj
  · intro j hjk
    rw [hd, bmp180_init_upto_field_earlier b s j k hjk (by omega),
      bmp180_init_upto_succ_of_true j (by omega) b s
        (bmp180_init_upto_true_of_le j k (by omega) b s h1)]
  · intro hk0
    rw [hd, hk0]
    rfl

/-- Instance of `c14_failed_init_data`: the seventh read (statement 6) fails on a bus that
stops acknowledging after 42 operations; `AC1` holds what its read stored, `B1` is as
before. -/
theorem c14_failed_init_data_witness :
    (bmp180_init_upto 6 (bmp180_create 0x77) (readyEngine (ackUntilBus 42))).1 = true
    ∧ (kth_calibration_read 6 (bmp180_create 0x77) (readyEngine (ackUntilBus 42))).1 = false
    ∧ (bmp180_init (bmp180_create 0x77) (readyEngine (ackUntilBus 42))).2.1.data.AC1 = -1
    ∧ (bmp180_init (bmp180_create 0x77) (readyEngine (ackUntilBus 42))).2.1.data.B1 = 0 :=
  have k := c14_failed_init_data (bmp180_create 0x77) (readyEngine (ackUntilBus 42)) 6
    (by decide) (by decide) (by decide)
  ⟨by decide, by decide, (k.2.2.2.1 0 (by decide)).trans (by decide),
    (k.2.2.1 6 (by decide) (by decide)).trans (by decide)⟩

/-! ## C16 -/

set_option maxRecDepth 100000 in
/-- C16, as stated, fails: an instance from `bmp180_create`, initialised by `bmp180_init`
from the data sheet EEPROM, on which `bmp180_get_temperature` was never called (`B5 = 0`):
on a bus on which every primitive succeeds `bmp180_get_pressure` returns true and overwrites
`*press = -1` with 67613. -/
theorem c16_pressure_without_temperature_counterexample :
    (bmp180_init (bmp180_create 0x77) (readyEngine eeprom_bus)).1 = true
    ∧ (bmp180_init (bmp180_create 0x77) (readyEngine eeprom_bus)).2.1
        = ⟨0x77, .BMP180_STANDARD_MODE, datasheet_calibration, 0⟩
    ∧ pressure_defined (bmp180_init (bmp180_create 0x77) (readyEngine eeprom_bus)).2.1
        0x5D 0x23 0x00
    ∧ (bmp180_get_pressure
        (bmp180_init (bmp180_create 0x77) (readyEngine eeprom_bus)).2.1 (-1)
        (bmp180_init (bmp180_create 0x77) (readyEngine eeprom_bus)).2.2).1
        = true
    ∧ (bmp180_get_pressure
        (bmp180_init (bmp180_create 0x77) (readyEngine eeprom_bus)).2.1 (-1)
        (bmp180_init (bmp180_create 0x77) (readyEngine eeprom_bus)).2.2).2.1
        = 67613 := by
  decide

/-- C16, amended: `bmp180_get_pressure` has no precondition on a preceding temperature read.
For every instance, in particular one returned by `bmp180_create` (whose `B5` is 0) and
passed through `bmp180_init` (which keeps `B5`), on a bus on which every primitive succeeds
and for bytes for which the arithmetic is defined (`b4 ≠ 0`, every converted value in range)
`bmp180_get_pressure` returns true and stores in `*press` the reduction of the three bytes
read, computed with the `B5` the instance carries.  For an instance straight from
`bmp180_create` the calibration is all zero, so `b4 = 0` and the arithmetic is not defined:
the call divides by zero. -/
theorem c16_pressure_without_temperature (b : bmp180_t) (i2c_address : Nat) (press : Int)
    (s s0 : I2C) (h : AllAck s)
    (_hdef : pressure_defined b ((s.bus (s.tick + 9) BusOp.dataInAck).2 % 256)
      ((s.bus (s.tick + 10) BusOp.dataInAck).2 % 256)
      ((s.bus (s.tick + 11) BusOp.dataInNack).2 % 256)) :
    (bmp180_get_pressure b press s).1 = true
    ∧ (bmp180_get_pressure b press s).2.1
        = pressure_value b ((s.bus (s.tick + 9) BusOp.dataInAck).2 % 256)
            ((s.bus (s.tick + 10) BusOp.dataInAck).2 % 256)
            ((s.bus (s.tick + 11) BusOp.dataInNack).2 % 256)
    ∧ (bmp180_create i2c_address).B5 = 0
    ∧ (bmp180_init b s0).2.1.B5 = b.B5
    ∧ (∀ msb lsb xlsb : Nat, ¬ pressure_defined (bmp180_create i2c_address) msb lsb xlsb) := by
  refine ⟨bmp180_get_pressure_ack b press s h,
    (bmp180_get_pressure_success b press s (bmp180_get_pressure_ack b press s h)).2, rfl, rfl, ?_⟩
  intro msb lsb xlsb hc
  have h0 : pressure_b4 (bmp180_create i2c_address).data (pressure_b6 (bmp180_create i2c_address).B5)
      = 0 := by
    show pressure_b4 ⟨0, 0, 0, 0, 0, 0, 0, 0, 0, 0, 0⟩ (pressure_b6 0) = 0
    decide
  exact hc.2.2.1 h0

/-- Instance of `c16_pressure_without_temperature`: the instance `bmp180_create(0x77)`
initialised by `bmp180_init` from the data sheet EEPROM, never passed to
`bmp180_get_temperature`, on the bus `eeprom_bus` delivering `0x5D 0x23 0x00`. -/
theorem c16_pressure_without_temperature_witness :
    AllAck (bmp180_init (bmp180_create 0x77) (readyEngine eeprom_bus)).2.2
    ∧ (bmp180_init (bmp180_create 0x77) (readyEngine eeprom_bus)).2.1.B5 = 0
    ∧ (bmp180_get_pressure (bmp180_init (bmp180_create 0x77) (readyEngine eeprom_bus)).2.1 (-1)
        (bmp180_init (bmp180_create 0x77) (readyEngine eeprom_bus)).2.2).1 = true :=
  have ha : AllAck (bmp180_init (bmp180_create 0x77) (readyEngine eeprom_bus)).2.2 :=
    (allAck_repStartBus _ _).of_advances
      (bmp180_init_upto_advances (bmp180_create 0x77) (readyEngine eeprom_bus) 11 le_rfl
        (by decide))
  ⟨ha, rfl,
    (c16_pressure_without_temperature
      (bmp180_init (bmp180_create 0x77) (readyEngine eeprom_bus)).2.1 0x77 (-1)
      (bmp180_init (bmp180_create 0x77) (readyEngine eeprom_bus)).2.2
      (readyEngine eeprom_bus) ha (by decide)).1⟩

/-! ## C15 -/

/-- C15, as stated, fails: on a bus whose eleven reads all succeed with data bytes `0xFF`,
`bmp180_init` stores 65535 (unsigned reading) in exactly three fields, `AC4`, `AC5`, `AC6`,
and -1 (two's complement reading) in the eight others; with five unsigned coefficients five
fields would hold 65535. -/
theorem c15_signedness_counterexample :
    (bmp180_init (bmp180_create 0x77) (readyEngine (ackUntilBus 77))).1 = true
    ∧ (bmp180_init (bmp180_create 0x77) (readyEngine (ackUntilBus 77))).2.1.data
        = ⟨-1, -1, -1, 65535, 65535, 65535, -1, -1, -1, -1, -1⟩
    ∧ ((List.range 11).filter (fun k => decide (calibration_field k
        (bmp180_init (bmp180_create 0x77) (readyEngine (ackUntilBus 77))).2.1.data = 65535))).length
        = 3
    ∧ ((List.range 11).filter (fun k => decide (calibration_field k
        (bmp180_init (bmp180_create 0x77) (readyEngine (ackUntilBus 77))).2.1.data = -1))).length
        = 8 := by
  decide

/-- C15, amended: of the eleven calibration coefficients a successful `bmp180_init` reads,
exactly three (`AC4`, `AC5`, `AC6`) are stored as the unsigned value `msb*256 + lsb` in
`0..65535`, and exactly eight (`AC1`, `AC2`, `AC3`, `B1`, `B2`, `MB`, `MC`, `MD`) as its
two's complement reading in `-32768..32767`. -/
theorem c15_signedness (b : bmp180_t) (s : I2C) (h : (bmp180_init b s).1 = true) :
    (bmp180_init b s).2.1.data
      = ⟨to_int16 (calibration_raw s 0), to_int16 (calibration_raw s 1),
          to_int16 (calibration_raw s 2), calibration_raw s 3, calibration_raw s 4,
          calibration_raw s 5, to_int16 (calibration_raw s 6), to_int16 (calibration_raw s 7),
          to_int16 (calibration_raw s 8), to_int16 (calibration_raw s 9),
          to_int16 (calibration_raw s 10)⟩
    ∧ (∀ k, 0 ≤ calibration_raw s k ∧ calibration_raw s k < 65536)
    ∧ (∀ k, -32768 ≤ to_int16 (calibration_raw s k) ∧ to_int16 (calibration_raw s k) < 32768)
    ∧ (∀ k, calibration_raw s k < 32768 → to_int16 (calibration_raw s k) = calibration_raw s k)
    ∧ (∀ k, 32768 ≤ calibration_raw s k →
        to_int16 (calibration_raw s k) = calibration_raw s k - 65536) := by
  have hr : ∀ k, 0 ≤ calibration_raw s k ∧ calibration_raw s k < 65536 := by
    intro k
    unfold calibration_raw
    have h1 : (s.bus (s.tick + 7 * k + 5) BusOp.dataInAck).2 % 256 < 256 :=
      Nat.mod_lt _ (by norm_num)
    have h2 : (s.bus (s.tick + 7 * k + 6) BusOp.dataInNack).2 % 256 < 256 :=
      Nat.mod_lt _ (by norm_num)
    omega
  refine ⟨?_, hr, ?_, ?_, ?_⟩
  · have f0 := bmp180_init_field_read b s 0 (by decide) h
    have f1 := bmp180_init_field_read b s 1 (by decide) h
    have f2 := bmp180_init_field_read b s 2 (by decide) h
    have f3 := bmp180_init_field_read b s 3 (by decide) h
    have f4 := bmp180_init_field_read b s 4 (by decide) h
    have f5 := bmp180_init_field_read b s 5 (by decide) h
    have f6 := bmp180_init_field_read b s 6 (by decide) h
    have f7 := bmp180_init_field_read b s 7 (by decide) h
    have f8 := bmp180_init_field_read b s 8 (by decide) h
    have f9 := bmp180_init_field_read b s 9 (by decide) h
    have f10 := bmp180_init_field_read b s 10 (by decide) h
    norm_num at f0 f1 f2 f3 f4 f5 f6 f7 f8 f9 f10
    generalize (bmp180_init b s).2.1.data = d at *
    obtain ⟨d0, d1, d2, d3, d4, d5, d6, d7, d8, d9, d10⟩ := d
    change d0 = _ at f0
    change d1 = _ at f1
    change d2 = _ at f2
    change d3 = _ at f3
    change d4 = _ at f4
    change d5 = _ at f5
    change d6 = _ at f6
    change d7 = _ at f7
    change d8 = _ at f8
    change d9 = _ at f9
    change d10 = _ at f10
    rw [f0, f1, f2, f3, f4, f5, f6, f7, f8, f9, f10]
  · intro k
    unfold to_int16
    omega
  · intro k hlt
    have := (hr k).1
    unfold to_int16
    omega
  · intro k hge
    have := (hr k).2
    unfold to_int16
    omega

/-- Instance of `c15_signedness`: the read-out of the data sheet EEPROM succeeds; `AC4` is
stored as 32741 and `MB`, read from the bytes `0x80 0x00`, as -32768. -/
theorem c15_signedness_witness :
    (bmp180_init (bmp180_create 0x77) (readyEngine (ackBus eeprom_then_pressure_data))).1 = true
    ∧ (bmp180_init (bmp180_create 0x77)
        (readyEngine (ackBus eeprom_then_pressure_data))).2.1.data.AC4 = 32741
    ∧ (bmp180_init (bmp180_create 0x77)
        (readyEngine (ackBus eeprom_then_pressure_data))).2.1.data.MB = -32768 :=
  have k := c15_signedness (bmp180_create 0x77)
    (readyEngine (ackBus eeprom_then_pressure_data)) (by decide)
  ⟨by decide, (congrArg bmp180_calibration_data_t.AC4 k.1).trans (by decide),
    (congrArg bmp180_calibration_data_t.MB k.1).trans (by decide)⟩

/-! ## C21 -/

/-- C21: each range-checked setter called with a parameter outside its range returns false
with the engine exactly as it was (ready flag, `last_error`, registers and call log: no bus
primitive is issued): `ssd1306_set_multiplex_ratio` outside 15..63,
`ssd1306_set_display_clock` with divide ratio outside 1..15 or oscillator frequency above 15,
`ssd1306_set_pre_charge_period` with a phase outside 1..15, `ssd1306_set_offset` above 63,
`ssd1306_set_fade_out_and_blinking` with interval above 15 or a mode that is no enumerator,
`ssd1306_set_vcomh_deselect_level` with a level that is no enumerator. -/
theorem c21_validation_before_bus (ssd1306 : ssd1306_t) (s : I2C)
    (value divide_ratio oscillator_frequency phase_1 phase_2 offset mode time_interval level : Nat) :
    (¬ (15 ≤ value ∧ value ≤ 63) → ssd1306_set_multiplex_ratio ssd1306 value s = (false, s))
    ∧ (¬ (1 ≤ divide_ratio ∧ divide_ratio ≤ 15) ∨ ¬ (oscillator_frequency ≤ 15) →
        ssd1306_set_display_clock ssd1306 divide_ratio oscillator_frequency s = (false, s))
    ∧ (¬ (1 ≤ phase_1 ∧ phase_1 ≤ 15) ∨ ¬ (1 ≤ phase_2 ∧ phase_2 ≤ 15) →
        ssd1306_set_pre_charge_period ssd1306 phase_1 phase_2 s = (false, s))
    ∧ (¬ (offset ≤ 63) → ssd1306_set_offset ssd1306 offset s = (false, s))
    ∧ (¬ (time_interval ≤ 15) ∨ (mode ≠ 0x00 ∧ mode ≠ 0x20 ∧ mode ≠ 0x30) →
        ssd1306_set_fade_out_and_blinking ssd1306 mode time_interval s = (false, s))
    ∧ (level ≠ 0x00 ∧ level ≠ 0x20 ∧ level ≠ 0x30 →
        ssd1306_set_vcomh_deselect_level ssd1306 level s = (false, s))
    ∧ issued s s = [] := by
  refine ⟨?_, ?_, ?_, ?_, ?_, ?_, ?_⟩
  · intro h
    unfold ssd1306_set_multiplex_ratio
    rw [if_neg]
    simp only [SSD1306_MUX_RATIO_MIN, SSD1306_MUX_RATIO_MAX, ge_iff_le, Bool.and_eq_true,
      decide_eq_true_eq]
    exact h
  · intro h
    unfold ssd1306_set_display_clock
    rw [if_neg]
    simp only [SSD1306_DISPLAY_CLOCK_DIVIDE_RATIO_MIN, SSD1306_DISPLAY_CLOCK_DIVIDE_RATIO_MAX,
      SSD1306_DISPLAY_CLOCK_OSCILLATOR_FREQUENCY_MIN, SSD1306_DISPLAY_CLOCK_OSCILLATOR_FREQUENCY_MAX,
      ge_iff_le, Bool.and_eq_true, decide_eq_true_eq]
    omega
  · intro h
    unfold ssd1306_set_pre_charge_period
    rw [if_neg]
    simp only [SSD1306_PRE_CHARGE_PERIOD_PHASE_MIN, SSD1306_PRE_CHARGE_PERIOD_PHASE_MAX,
      ge_iff_le, Bool.and_eq_true, decide_eq_true_eq]
    omega
  · intro h
    unfold ssd1306_set_offset
    rw [if_neg]
    simp only [SSD1306_DISPLAY_OFFSET_MIN, SSD1306_DISPLAY_OFFSET_MAX,
      ge_iff_le, Bool.and_eq_true, decide_eq_true_eq]
    omega
  · intro h
    unfold ssd1306_set_fade_out_and_blinking
    rw [if_neg]
    simp only [SSD1306_FADE_OUT_BLINKING_DISABLE, SSD1306_FADE_OUT_MODE, SSD1306_BLINKING_MODE,
      SSD1306_FADE_OUT_BLINKING_TIME_INTERVAL_MIN, SSD1306_FADE_OUT_BLINKING_TIME_INTERVAL_MAX,
      ge_iff_le, Bool.and_eq_true, Bool.or_eq_true, decide_eq_true_eq, beq_iff_eq]
    omega
  · intro h
    unfold ssd1306_set_vcomh_deselect_level
    rw [if_neg]
    simp only [SSD1306_VCOMH_DESELECT_LEVEL0, SSD1306_VCOMH_DESELECT_LEVEL1,
      SSD1306_VCOMH_DESELECT_LEVEL2, Bool.or_eq_true, beq_iff_eq]
    omega
  · unfold issued
    simp

/-- Instance of `c21_validation_before_bus` on an acknowledging bus: multiplex ratio 64,
divide ratio 0, phase 16, offset 64, fade interval 16 and level `0x10` are all refused with
the engine untouched. -/
theorem c21_validation_before_bus_witness :
    ssd1306_set_multiplex_ratio ⟨0x3C, none⟩ 64 (readyEngine (ackBus datasheet_data))
        = (false, readyEngine (ackBus datasheet_data))
    ∧ ssd1306_set_display_clock ⟨0x3C, none⟩ 0 8 (readyEngine (ackBus datasheet_data))
        = (false, readyEngine (ackBus datasheet_data))
    ∧ ssd1306_set_pre_charge_period ⟨0x3C, none⟩ 16 2 (readyEngine (ackBus datasheet_data))
        = (false, readyEngine (ackBus datasheet_data))
    ∧ ssd1306_set_offset ⟨0x3C, none⟩ 64 (readyEngine (ackBus datasheet_data))
        = (false, readyEngine (ackBus datasheet_data))
    ∧ ssd1306_set_fade_out_and_blinking ⟨0x3C, none⟩ 0x20 16 (readyEngine (ackBus datasheet_data))
        = (false, readyEngine (ackBus datasheet_data))
    ∧ ssd1306_set_vcomh_deselect_level ⟨0x3C, none⟩ 0x10 (readyEngine (ackBus datasheet_data))
        = (false, readyEngine (ackBus datasheet_data)) :=
  have k := c21_validation_before_bus ⟨0x3C, none⟩ (readyEngine (ackBus datasheet_data))
    64 0 8 16 2 64 0x20 16 0x10
  ⟨k.1 (by decide), k.2.1 (by decide), k.2.2.1 (by decide), k.2.2.2.1 (by decide),
    k.2.2.2.2.1 (by decide), k.2.2.2.2.2.1 (by decide)⟩

/-! ## C22 -/

/-- C22 fails on the code.  The documentation of `ssd1306_set_contrast` gives the range of
`contrast` as 1-255 (`@param contrast (1-255)` in `ssd1306.c`, `Value: 1-255` in
`ssd1306_def.h`), and a setter with a documented range rejects a value outside it without
sending: `ssd1306_set_multiplex_ratio` with 14, below its range 15-63, returns false and
issues no primitive.  Yet `ssd1306_set_contrast` with contrast 0 on an acknowledging bus
returns true and transmits `0x00, 0x81, 0x00`: the function has no guard. -/
theorem c22_contrast_zero_accepted :
    (ssd1306_set_contrast ⟨0x3C, none⟩ 0 (readyEngine (ackBus datasheet_data))).1 = true
    ∧ writtenBytes (issued (readyEngine (ackBus datasheet_data))
        (ssd1306_set_contrast ⟨0x3C, none⟩ 0 (readyEngine (ackBus datasheet_data))).2)
      = [0x00, 0x81, 0x00]
    ∧ (ssd1306_set_multiplex_ratio ⟨0x3C, none⟩ 14 (readyEngine (ackBus datasheet_data))).1
      = false
    ∧ issued (readyEngine (ackBus datasheet_data))
        (ssd1306_set_multiplex_ratio ⟨0x3C, none⟩ 14 (readyEngine (ackBus datasheet_data))).2
      = [] := by
  decide

/-- The part of C22 that holds: with any contrast in 1..255 (and with 0 as well) on a ready
bus that acknowledges everything `ssd1306_set_contrast` issues a start, the bytes `0x00`,
`0x81`, contrast and a stop, and returns true. -/
theorem ssd1306_set_contrast_issued (ssd1306 : ssd1306_t) (contrast : Nat) (s : I2C)
    (h : AllAck s) (hc : contrast < 256) :
    (ssd1306_set_contrast ssd1306 contrast s).1 = true
    ∧ issued s (ssd1306_set_contrast ssd1306 contrast s).2
      = [⟨.start ssd1306.i2c_address .I2C_MODE_WRITE, true⟩, ⟨.write 0x00, true⟩,
          ⟨.write 0x81, true⟩, ⟨.write contrast, true⟩, ⟨.stop, true⟩] := by
  have k := ssd1306_send_command_value_issued ssd1306 SSD1306_CONTRAST_COMMAND contrast s h
  rw [Nat.mod_eq_of_lt hc] at k
  exact k

/-! ## Sequences of guarded statements -/

theorem andAlso_of_false {r : Bool × I2C} (f : I2C → Bool × I2C) (h : r.1 = false) :
    andAlso r f = (false, r.2) := by
  unfold andAlso; simp [h]

theorem runAll_of_false (fs : List (I2C → Bool × I2C)) (r : Bool × I2C) (h : r.1 = false) :
    runAll fs r = (false, r.2) := by
  induction fs generalizing r with
  | nil => obtain ⟨r1, r2⟩ := r; simp at h; simp [runAll, h]
  | cons f fs ih =>
    have e : runAll (f :: fs) r = runAll fs (andAlso r f) := rfl
    rw [e, ih _ (by rw [andAlso_of_false f h]), andAlso_of_false f h]

theorem ssd1306_init_eq_runAll (ssd1306 : ssd1306_t) (config : ssd1306_config_t) (s : I2C) :
    ssd1306_init ssd1306 config s = runAll (init_setters ssd1306 config) (true, s) := rfl

theorem ssd1306_init_eq_upto (ssd1306 : ssd1306_t) (config : ssd1306_config_t) (s : I2C) :
    ssd1306_init ssd1306 config s = ssd1306_init_upto 15 ssd1306 config s := rfl

theorem ssd1306_init_upto_succ (k : Nat) (hk : k < 15) (ssd1306 : ssd1306_t)
    (config : ssd1306_config_t) (s : I2C) :
    ssd1306_init_upto (k + 1) ssd1306 config s
      = andAlso (ssd1306_init_upto k ssd1306 config s)
          ((init_setters ssd1306 config).getD k (fun s => (false, s))) := by
  interval_cases k <;> rfl

/-- Once a setter of `ssd1306_init` has returned false the engine stays as it is through the
remaining statements. -/
theorem ssd1306_init_upto_frozen (k n : Nat) (hkn : k ≤ n) (ssd1306 : ssd1306_t)
    (config : ssd1306_config_t) (s : I2C) (h : (ssd1306_init_upto k ssd1306 config s).1 = false) :
    ssd1306_init_upto n ssd1306 config s = (false, (ssd1306_init_upto k ssd1306 config s).2) := by
  have e : (init_setters ssd1306 config).take n
      = (init_setters ssd1306 config).take k ++ ((init_setters ssd1306 config).take n).drop k := by
    have := (List.take_append_drop k ((init_setters ssd1306 config).take n)).symm
    rwa [List.take_take, Nat.min_eq_left hkn] at this
  unfold ssd1306_init_upto runAll at h ⊢
  rw [e, List.foldl_append]
  exact runAll_of_false _ _ h

theorem ssd1306_init_upto_true_of_le (k n : Nat) (hkn : k ≤ n) (ssd1306 : ssd1306_t)
    (config : ssd1306_config_t) (s : I2C) (h : (ssd1306_init_upto n ssd1306 config s).1 = true) :
    (ssd1306_init_upto k ssd1306 config s).1 = true := by
  by_contra hc
  rw [Bool.not_eq_true] at hc
  rw [ssd1306_init_upto_frozen k n hkn ssd1306 config s hc] at h
  simp at h

/-- When the first `k` setters succeeded, setter `k` is called. -/
theorem ssd1306_init_upto_succ_of_true (k : Nat) (hk : k < 15) (ssd1306 : ssd1306_t)
    (config : ssd1306_config_t) (s : I2C) (h : (ssd1306_init_upto k ssd1306 config s).1 = true) :
    ssd1306_init_upto (k + 1) ssd1306 config s = kth_setter_call k ssd1306 config s := by
  rw [ssd1306_init_upto_succ k hk, andAlso_of_true _ h]
  rfl

theorem ssd1306_init_upto_all_true (ssd1306 : ssd1306_t) (config : ssd1306_config_t) (s : I2C)
    (h : ∀ k, k < 15 → (kth_setter_call k ssd1306 config s).1 = true) (n : Nat) (hn : n ≤ 15) :
    (ssd1306_init_upto n ssd1306 config s).1 = true := by
  induction n with
  | zero => rfl
  | succ n ih =>
    rw [ssd1306_init_upto_succ_of_true n (by omega) ssd1306 config s (ih (by omega))]
    exact h n (by omega)

/-! ## C23 -/

/-- C23: `ssd1306_init` runs its fifteen setters in the coded order, each guarded by the
flag; it returns true iff every setter is called and returns true; once setter `k` has
returned false the call returns false with the engine, call log included, exactly as that
setter left it, so no later setter issues a bus primitive; the last setter is
`ssd1306_display_on`, called only when the fourteen before it succeeded, and the engine
returned is then the one it leaves (a start, `0x00`, `0xAF` and a stop being the last
primitives when they are acknowledged). -/
theorem c23_init_short_circuits (ssd1306 : ssd1306_t) (config : ssd1306_config_t) (s : I2C) :
    ssd1306_init ssd1306 config s = runAll (init_setters ssd1306 config) (true, s)
    ∧ (init_setters ssd1306 config).length = 15
    ∧ ((ssd1306_init ssd1306 config s).1 = true ↔
        ∀ k, k < 15 → (ssd1306_init_upto k ssd1306 config s).1 = true
          ∧ (kth_setter_call k ssd1306 config s).1 = true)
    ∧ (∀ k, k < 15 → (ssd1306_init_upto k ssd1306 config s).1 = true →
        (kth_setter_call k ssd1306 config s).1 = false →
        ssd1306_init ssd1306 config s = (false, (kth_setter_call k ssd1306 config s).2))
    ∧ kth_setter_call 14 ssd1306 config s
        = ssd1306_display_on ssd1306 (ssd1306_init_upto 14 ssd1306 config s).2
    ∧ ((ssd1306_init_upto 14 ssd1306 config s).1 = true →
        ssd1306_init ssd1306 config s
          = ssd1306_display_on ssd1306 (ssd1306_init_upto 14 ssd1306 config s).2)
    ∧ ((ssd1306_init_upto 14 ssd1306 config s).1 = false →
        ssd1306_init ssd1306 config s = (false, (ssd1306_init_upto 14 ssd1306 config s).2))
    ∧ ((ssd1306_init ssd1306 config s).1 = true →
        (ssd1306_init ssd1306 config s).2.log
          = (ssd1306_init_upto 14 ssd1306 config s).2.log
            ++ [⟨.start ssd1306.i2c_address .I2C_MODE_WRITE, true⟩, ⟨.write 0x00, true⟩,
                ⟨.write 0xAF, true⟩, ⟨.stop, true⟩]) := by
  have hfwd : (ssd1306_init ssd1306 config s).1 = true →
      ∀ k, k < 15 → (ssd1306_init_upto k ssd1306 config s).1 = true
        ∧ (kth_setter_call k ssd1306 config s).1 = true := by
    intro h k hk
    rw [ssd1306_init_eq_upto] at h
    have h1 := ssd1306_init_upto_true_of_le k 15 (by omega) ssd1306 config s h
    have h2 := ssd1306_init_upto_true_of_le (k + 1) 15 (by omega) ssd1306 config s h
    rw [ssd1306_init_upto_succ_of_true k hk ssd1306 config s h1] at h2
    exact ⟨h1, h2⟩
  have hlast : ∀ h14 : (ssd1306_init_upto 14 ssd1306 config s).1 = true,
      ssd1306_init ssd1306 config s
        = ssd1306_display_on ssd1306 (ssd1306_init_upto 14 ssd1306 config s).2 := by
    intro h14
    rw [ssd1306_init_eq_upto, ssd1306_init_upto_succ_of_true 14 (by omega) ssd1306 config s h14]
    rfl
  refine ⟨rfl, rfl, ⟨hfwd, fun h => ?_⟩, ?_, rfl, hlast, ?_, ?_⟩
  · rw [ssd1306_init_eq_upto]
    exact ssd1306_init_upto_all_true ssd1306 config s (fun k hk => (h k hk).2) 15 (le_refl _)
  · intro k hk h1 h2
    have e := ssd1306_init_upto_succ_of_true k hk ssd1306 config s h1
    have hf : (ssd1306_init_upto (k + 1) ssd1306 config s).1 = false := by rw [e]; exact h2
    rw [ssd1306_init_eq_upto, ssd1306_init_upto_frozen (k + 1) 15 (by omega) ssd1306 config s hf, e]
  · intro h14
    rw [ssd1306_init_eq_upto]
    exact ssd1306_init_upto_frozen 14 15 (by omega) ssd1306 config s h14
  · intro h
    have h14 := (hfwd h 14 (by omega)).1
    have e := hlast h14
    rw [e] at h ⊢
    generalize (ssd1306_init_upto 14 ssd1306 config s).2 = s14 at h ⊢
    unfold ssd1306_display_on ssd1306_send_command at h ⊢
    simp only [] at h ⊢
    generalize hr1 : i2c_start ssd1306.i2c_address .I2C_MODE_WRITE s14 = r1 at h ⊢
    generalize hr2 : andAlso r1 (i2c_write_byte SSD1306_SEND_COMMAND) = r2 at h ⊢
    generalize hr3 : andAlso r2 (i2c_write_byte SSD1306_DISPLAY_ON_COMMAND) = r3 at h ⊢
    obtain ⟨t2, e3⟩ := andAlso_inv hr3 h
    obtain ⟨t1, e2⟩ := andAlso_inv hr2 t2
    rw [i2c_stop_log, e3, i2c_write_byte_log, ← e3, h, e2, i2c_write_byte_log, ← e2, t2, ← hr1,
      i2c_start_log, hr1, t1]
    simp [SSD1306_SEND_COMMAND, SSD1306_DISPLAY_ON_COMMAND]

/-- Instance of the failure case of `c23_init_short_circuits`: the default configuration with
the divide ratio set to 0 on an acknowledging bus: the first two setters succeed, the third,
`ssd1306_set_display_clock`, refuses its parameter, and `ssd1306_init` returns false having
issued the nine primitives of the first two setters only. -/
theorem c23_init_short_circuits_witness :
    (ssd1306_init_upto 2 ⟨0x3C, none⟩ { ssd1306_create_config 0x3C with divide_ratio := 0 }
        (readyEngine (ackBus datasheet_data))).1 = true
    ∧ (kth_setter_call 2 ⟨0x3C, none⟩ { ssd1306_create_config 0x3C with divide_ratio := 0 }
        (readyEngine (ackBus datasheet_data))).1 = false
    ∧ (ssd1306_init ⟨0x3C, none⟩ { ssd1306_create_config 0x3C with divide_ratio := 0 }
        (readyEngine (ackBus datasheet_data))).1 = false
    ∧ (issued (readyEngine (ackBus datasheet_data))
        (ssd1306_init ⟨0x3C, none⟩ { ssd1306_create_config 0x3C with divide_ratio := 0 }
          (readyEngine (ackBus datasheet_data))).2).length = 9 :=
  have k := (c23_init_short_circuits ⟨0x3C, none⟩
    { ssd1306_create_config 0x3C with divide_ratio := 0 }
    (readyEngine (ackBus datasheet_data))).2.2.2.1 2 (by decide) (by decide) (by decide)
  ⟨by decide, by decide, congrArg Prod.fst k, by rw [k]; decide⟩

/-! ## Calls recorded by the display operations -/

theorem ssd1306_set_area_log (ssd1306 : ssd1306_t) (sp ep sc ec : Nat) (s : I2C)
    (h : AllAck s) :
    (ssd1306_set_area ssd1306 sp ep sc ec s).2.log
      = s.log ++ (⟨.start ssd1306.i2c_address .I2C_MODE_WRITE, true⟩ : Event)
        :: ((set_area_bytes sp ep sc ec).map (fun b => (⟨.write (b % 256), true⟩ : Event))
          ++ [⟨.stop, true⟩]) := by
  have g1 : Good (i2c_start ssd1306.i2c_address .I2C_MODE_WRITE s) :=
    ⟨i2c_start_ack _ _ _ h, h.keep_start _ _⟩
  obtain ⟨-, e⟩ := g1.then_writeAll (set_area_bytes sp ep sc ec)
  rw [ssd1306_set_area_eq_writeAll]
  simp only []
  rw [i2c_stop_log, e, i2c_start_log, i2c_start_ack _ _ _ h]
  simp

theorem repeat_eq_writeAll (d : Nat) (l : List Nat) (r : Bool × I2C) :
    l.foldl (fun r _ => andAlso r (i2c_write_byte d)) r = writeAll (List.replicate l.length d) r := by
  induction l generalizing r with
  | nil => rfl
  | cons x xs ih =>
    rw [List.foldl_cons, ih, List.length_cons, List.replicate_succ, writeAll_cons]

theorem draw_bitmap_stream_map_mod (width height : Nat) (bitmap : ssd1306_bitmap_t) :
    List.map (fun b => (⟨.write (b % 256), true⟩ : Event)) (draw_bitmap_stream width height bitmap)
      = List.map (fun b => (⟨.write b, true⟩ : Event)) (draw_bitmap_stream width height bitmap) := by
  apply List.map_congr_left
  intro b hb
  have hlt : b < 256 := by
    unfold draw_bitmap_stream at hb
    simp only [List.mem_flatMap, List.mem_map, List.mem_range] at hb
    obtain ⟨y, -, x, -, col, -, rfl⟩ := hb
    exact draw_bitmap_dst_value_lt _ _
  rw [Nat.mod_eq_of_lt hlt]

/-- The primitives `ssd1306_draw_bitmap` issues on a bus on which every primitive succeeds:
the transaction of `ssd1306_set_area`, then a second transaction with the data control byte
and the stream. -/
theorem ssd1306_draw_bitmap_issued (ssd1306 : ssd1306_t) (sp sc width height : Nat)
    (bitmap : ssd1306_bitmap_t) (s : I2C) (h : AllAck s) :
    issued s (ssd1306_draw_bitmap ssd1306 sp sc width height bitmap s).2
      = (⟨.start ssd1306.i2c_address .I2C_MODE_WRITE, true⟩ : Event)
        :: ((set_area_bytes sp ((height / 8 + sp) % 256) sc
              (((sc : Int) + (width : Int) - 1) % 256).toNat).map
              (fun b => (⟨.write (b % 256), true⟩ : Event))
          ++ [⟨.stop, true⟩, ⟨.start ssd1306.i2c_address .I2C_MODE_WRITE, true⟩,
              ⟨.write 0x40, true⟩]
          ++ (draw_bitmap_stream width height bitmap).map (fun b => (⟨.write b, true⟩ : Event))
          ++ [⟨.stop, true⟩]) := by
  unfold ssd1306_draw_bitmap issued
  simp only []
  rw [draw_bitmap_loops_eq]
  have g1 := ssd1306_set_area_good ssd1306 sp ((height / SSD1306_BITS_PER_COLUMN + sp) % 256) sc
    (to_uint8 ((sc : Int) + (width : Int) - 1)).toNat s h
  have l1 := ssd1306_set_area_log ssd1306 sp ((height / SSD1306_BITS_PER_COLUMN + sp) % 256) sc
    (to_uint8 ((sc : Int) + (width : Int) - 1)).toNat s h
  generalize ssd1306_set_area ssd1306 sp ((height / SSD1306_BITS_PER_COLUMN + sp) % 256) sc
    (to_uint8 ((sc : Int) + (width : Int) - 1)).toNat s = r1 at g1 l1 ⊢
  have g2 := g1.then_start ssd1306.i2c_address .I2C_MODE_WRITE
  have l2 := g1.then_start_log ssd1306.i2c_address .I2C_MODE_WRITE
  have g3 := g2.then_write SSD1306_SEND_DATA
  have l3 := g2.then_write_log SSD1306_SEND_DATA
  obtain ⟨-, l4⟩ := g3.then_writeAll (draw_bitmap_stream width height bitmap)
  rw [i2c_stop_log, l4, l3, l2, l1, draw_bitmap_stream_map_mod]
  simp [SSD1306_SEND_DATA, SSD1306_BITS_PER_COLUMN, to_uint8]

/-- The primitives `ssd1306_clear_display` issues on a bus on which every primitive
succeeds. -/
theorem ssd1306_clear_display_issued (ssd1306 : ssd1306_t) (s : I2C) (h : AllAck s) :
    (ssd1306_clear_display ssd1306 s).1 = true
    ∧ issued s (ssd1306_clear_display ssd1306 s).2
      = (⟨.start ssd1306.i2c_address .I2C_MODE_WRITE, true⟩ : Event)
        :: ((set_area_bytes 0 7 0 127).map (fun b => (⟨.write (b % 256), true⟩ : Event))
          ++ [⟨.stop, true⟩, ⟨.start ssd1306.i2c_address .I2C_MODE_WRITE, true⟩,
              ⟨.write 0x40, true⟩]
          ++ List.replicate 1024 (⟨.write 0, true⟩ : Event)
          ++ [⟨.stop, true⟩]) := by
  unfold ssd1306_clear_display issued
  simp only []
  have hlen : (List.range SSD1306_DISPLAY_BYTES).length = 1024 := by
    rw [List.length_range]; rfl
  generalize List.range SSD1306_DISPLAY_BYTES = l at hlen ⊢
  rw [repeat_eq_writeAll, hlen]
  have g1 := ssd1306_set_area_good ssd1306 SSD1306_PAGE_START_ADDRESS SSD1306_PAGE_END_ADDRESS
    SSD1306_COLUMN_START_ADDRESS SSD1306_COLUMN_END_ADDRESS s h
  have l1 := ssd1306_set_area_log ssd1306 SSD1306_PAGE_START_ADDRESS SSD1306_PAGE_END_ADDRESS
    SSD1306_COLUMN_START_ADDRESS SSD1306_COLUMN_END_ADDRESS s h
  generalize ssd1306_set_area ssd1306 SSD1306_PAGE_START_ADDRESS SSD1306_PAGE_END_ADDRESS
    SSD1306_COLUMN_START_ADDRESS SSD1306_COLUMN_END_ADDRESS s = r1 at g1 l1 ⊢
  have g2 := g1.then_start ssd1306.i2c_address .I2C_MODE_WRITE
  have l2 := g1.then_start_log ssd1306.i2c_address .I2C_MODE_WRITE
  have g3 := g2.then_write SSD1306_SEND_DATA
  have l3 := g2.then_write_log SSD1306_SEND_DATA
  obtain ⟨g4, l4⟩ := g3.then_writeAll (List.replicate 1024 0)
  refine ⟨g4.1, ?_⟩
  rw [i2c_stop_log, l4, l3, l2, l1, List.map_replicate]
  have e0 : (0 % 256 : Nat) = 0 := rfl
  have e1 : SSD1306_SEND_DATA % 256 = 0x40 := rfl
  simp only [e0, e1, List.append_assoc, List.cons_append, List.nil_append, List.drop_left,
    SSD1306_PAGE_START_ADDRESS, SSD1306_PAGE_END_ADDRESS, SSD1306_COLUMN_START_ADDRESS,
    SSD1306_COLUMN_END_ADDRESS]

theorem andAlso_log_ext (r : Bool × I2C) (f : I2C → Bool × I2C)
    (hf : ∀ s, ∃ l, (f s).2.log = s.log ++ l) : ∃ l, (andAlso r f).2.log = r.2.log ++ l := by
  unfold andAlso
  split
  · exact hf _
  · exact ⟨[], by simp⟩

theorem writeAll_log_ext (bytes : List Nat) (r : Bool × I2C) :
    ∃ l, (writeAll bytes r).2.log = r.2.log ++ l := by
  induction bytes generalizing r with
  | nil => exact ⟨[], by simp [writeAll_nil]⟩
  | cons b bs ih =>
    rw [writeAll_cons]
    obtain ⟨l1, e1⟩ := andAlso_log_ext r (i2c_write_byte b) (fun s => ⟨_, i2c_write_byte_log b s⟩)
    obtain ⟨l2, e2⟩ := ih (andAlso r (i2c_write_byte b))
    exact ⟨l1 ++ l2, by rw [e2, e1, List.append_assoc]⟩

/-- Whatever the bus does, the calls `ssd1306_draw_bitmap` records begin with the calls of its
call of `ssd1306_set_area`. -/
theorem ssd1306_draw_bitmap_log_ext (ssd1306 : ssd1306_t) (sp sc width height : Nat)
    (bitmap : ssd1306_bitmap_t) (s : I2C) :
    ∃ rest, issued s (ssd1306_draw_bitmap ssd1306 sp sc width height bitmap s).2
      = issued s (ssd1306_set_area ssd1306 sp ((height / 8 + sp) % 256) sc
          (to_uint8 ((sc : Int) + (width : Int) - 1)).toNat s).2 ++ rest := by
  obtain ⟨evs, h1, -, -⟩ := ssd1306_set_area_orderly ssd1306 sp ((height / 8 + sp) % 256) sc
    (to_uint8 ((sc : Int) + (width : Int) - 1)).toNat s
  unfold ssd1306_draw_bitmap issued
  simp only []
  rw [draw_bitmap_loops_eq]
  have e8 : SSD1306_BITS_PER_COLUMN = 8 := rfl
  rw [e8]
  generalize ssd1306_set_area ssd1306 sp ((height / 8 + sp) % 256) sc
    (to_uint8 ((sc : Int) + (width : Int) - 1)).toNat s = r1 at h1 ⊢
  obtain ⟨l2, e2⟩ := andAlso_log_ext r1 (i2c_start ssd1306.i2c_address .I2C_MODE_WRITE)
    (fun s => ⟨_, i2c_start_log _ _ s⟩)
  obtain ⟨l3, e3⟩ := andAlso_log_ext (andAlso r1 (i2c_start ssd1306.i2c_address .I2C_MODE_WRITE))
    (i2c_write_byte SSD1306_SEND_DATA) (fun s => ⟨_, i2c_write_byte_log _ s⟩)
  obtain ⟨l4, e4⟩ := writeAll_log_ext (draw_bitmap_stream width height bitmap)
    (andAlso (andAlso r1 (i2c_start ssd1306.i2c_address .I2C_MODE_WRITE))
      (i2c_write_byte SSD1306_SEND_DATA))
  refine ⟨l2 ++ l3 ++ l4 ++ [⟨.stop, true⟩], ?_⟩
  rw [i2c_stop_log, e4, e3, e2, h1]
  simp

/-! ## C24 -/

/-- C24: on a ready bus that acknowledges everything `ssd1306_clear_display` returns true and
issues one transaction with the area command for pages 0..7 and columns 0..127
(`0x00, 0x40, 0x22, 0, 7, 0x21, 0, 127`) and a second transaction with the data control byte
`0x40` followed by exactly `128*64/8 = 1024` bytes `0x00`. -/
theorem c24_clear_display (ssd1306 : ssd1306_t) (s : I2C) (h : AllAck s) :
    (ssd1306_clear_display ssd1306 s).1 = true
    ∧ issued s (ssd1306_clear_display ssd1306 s).2
      = [⟨.start ssd1306.i2c_address .I2C_MODE_WRITE, true⟩, ⟨.write 0x00, true⟩,
          ⟨.write 0x40, true⟩, ⟨.write 0x22, true⟩, ⟨.write 0, true⟩, ⟨.write 7, true⟩,
          ⟨.write 0x21, true⟩, ⟨.write 0, true⟩, ⟨.write 127, true⟩, ⟨.stop, true⟩,
          ⟨.start ssd1306.i2c_address .I2C_MODE_WRITE, true⟩, ⟨.write 0x40, true⟩]
        ++ List.replicate 1024 (⟨.write 0x00, true⟩ : Event) ++ [⟨.stop, true⟩]
    ∧ SSD1306_DISPLAY_BYTES = 1024 ∧ 128 * 64 / 8 = 1024 := by
  obtain ⟨k1, k2⟩ := ssd1306_clear_display_issued ssd1306 s h
  refine ⟨k1, ?_, rfl, rfl⟩
  rw [k2]
  have e : (set_area_bytes 0 7 0 127).map (fun b => (⟨.write (b % 256), true⟩ : Event))
      = [⟨.write 0x00, true⟩, ⟨.write 0x40, true⟩, ⟨.write 0x22, true⟩, ⟨.write 0, true⟩,
          ⟨.write 7, true⟩, ⟨.write 0x21, true⟩, ⟨.write 0, true⟩, ⟨.write 127, true⟩] := rfl
  rw [e]
  simp only [List.cons_append, List.nil_append, List.append_assoc]

/-- Instance of `c24_clear_display`: on an acknowledging bus the call issues 1037 primitives,
of which 1033 are writes. -/
theorem c24_clear_display_witness :
    AllAck (readyEngine (ackBus datasheet_data))
    ∧ (ssd1306_clear_display ⟨0x3C, none⟩ (readyEngine (ackBus datasheet_data))).1 = true
    ∧ (issued (readyEngine (ackBus datasheet_data))
        (ssd1306_clear_display ⟨0x3C, none⟩ (readyEngine (ackBus datasheet_data))).2).length
        = 1037 :=
  have k := c24_clear_display ⟨0x3C, none⟩ (readyEngine (ackBus datasheet_data))
    (allAck_readyEngine _)
  ⟨allAck_readyEngine _, k.1, by
    rw [k.2.1]
    simp only [List.length_append, List.length_cons, List.length_nil, List.length_replicate]⟩

/-! ## C25 -/

/-- C25: for all `start_page`, `start_column`, `width`, `height`, whatever the bus does, the
primitives `ssd1306_draw_bitmap` issues begin with those of the call
`ssd1306_set_area(start_page, end_page, start_column, end_column)` with
`end_page = (start_page + height/8) mod 256` and
`end_column = (start_column + width - 1) mod 256`; on a bus on which every primitive succeeds
what follows is the data transaction: start, `0x40`, the stream, stop. -/
theorem c25_draw_bitmap_area (ssd1306 : ssd1306_t) (start_page start_column width height : Nat)
    (bitmap : ssd1306_bitmap_t) (s : I2C) :
    (∃ rest, issued s
        (ssd1306_draw_bitmap ssd1306 start_page start_column width height bitmap s).2
      = issued s (ssd1306_set_area ssd1306 start_page ((start_page + height / 8) % 256)
          start_column (((start_column : Int) + (width : Int) - 1) % 256).toNat s).2 ++ rest)
    ∧ (AllAck s → issued s
        (ssd1306_draw_bitmap ssd1306 start_page start_column width height bitmap s).2
      = issued s (ssd1306_set_area ssd1306 start_page ((start_page + height / 8) % 256)
          start_column (((start_column : Int) + (width : Int) - 1) % 256).toNat s).2
        ++ ([⟨.start ssd1306.i2c_address .I2C_MODE_WRITE, true⟩, ⟨.write 0x40, true⟩]
          ++ (draw_bitmap_stream width height bitmap).map (fun b => (⟨.write b, true⟩ : Event))
          ++ [⟨.stop, true⟩])) := by
  have ec : (height / 8 + start_page) % 256 = (start_page + height / 8) % 256 := by
    rw [Nat.add_comm]
  constructor
  · have k := ssd1306_draw_bitmap_log_ext ssd1306 start_page start_column width height bitmap s
    rw [ec] at k
    exact k
  · intro h
    rw [ssd1306_draw_bitmap_issued ssd1306 start_page start_column width height bitmap s h,
      ssd1306_set_area_issued ssd1306 _ _ _ _ s h, ec]
    simp

/-- Instance of `c25_draw_bitmap_area`: an 8x8 bitmap at page 7, column 250, on an
acknowledging bus: the area addressed has end page 8 and end column `(250 + 8 - 1) mod 256 =
1`, both rejected by `ssd1306_set_area`, which sends `0x00, 0x40` only. -/
theorem c25_draw_bitmap_area_witness :
    AllAck (readyEngine (ackBus datasheet_data))
    ∧ (issued (readyEngine (ackBus datasheet_data))
        (ssd1306_draw_bitmap ⟨0x3C, none⟩ 7 250 8 8 counting_bitmap
          (readyEngine (ackBus datasheet_data))).2).take 4
      = [⟨.start 0x3C .I2C_MODE_WRITE, true⟩, ⟨.write 0x00, true⟩, ⟨.write 0x40, true⟩,
          ⟨.stop, true⟩] :=
  ⟨allAck_readyEngine _, by
    rw [(c25_draw_bitmap_area ⟨0x3C, none⟩ 7 250 8 8 counting_bitmap
      (readyEngine (ackBus datasheet_data))).2 (allAck_readyEngine _)]
    rfl⟩

/-! ## C26 -/

/-- C26, as stated, fails: for an 8x8 bitmap (`x_len = y_len = 1`) on an acknowledging bus
`ssd1306_draw_bitmap` streams 8 data bytes after the `0x40` control byte, not
`x_len * y_len = 1`. -/
theorem c26_stream_length_counterexample :
    (dataStream (ssd1306_draw_bitmap ⟨0x3C, none⟩ 0 0 8 8 counting_bitmap
        (readyEngine (ackBus datasheet_data))).2.log).length = 8
    ∧ div_ceil 8 SSD1306_BITS_IN_BYTE * div_ceil 8 SSD1306_BITS_IN_BYTE = 1 := by
  decide

/-- C26, amended: for every width and height and a bus that acknowledges everything, the
number of data bytes `ssd1306_draw_bitmap` streams after the `0x40` control byte is exactly
`8 * x_len * y_len`, with `x_len = ceil(width/8)` and `y_len = ceil(height/8)`: eight bytes
(one for each column) for every band, the bands in row-major order (all `x` for `y = 0`, then
`y = 1`, ...). -/
theorem c26_stream_length (ssd1306 : ssd1306_t) (start_page start_column width height : Nat)
    (bitmap : ssd1306_bitmap_t) (s : I2C) (h : AllAck s) :
    dataStream (ssd1306_draw_bitmap ssd1306 start_page start_column width height bitmap s).2.log
      = (List.range (div_ceil height 8)).flatMap (fun y =>
          (List.range (div_ceil width 8)).flatMap (fun x =>
            (List.range 8).map (fun col =>
              draw_bitmap_dst_value (draw_bitmap_buff bitmap width height y x) col)))
    ∧ (dataStream
        (ssd1306_draw_bitmap ssd1306 start_page start_column width height bitmap s).2.log).length
      = 8 * (div_ceil width 8 * div_ceil height 8)
    ∧ div_ceil width 8 = (width / 8 + (if width % 8 > 0 then 1 else 0)) % 256
    ∧ div_ceil height 8 = (height / 8 + (if height % 8 > 0 then 1 else 0)) % 256 := by
  have k := (ssd1306_draw_bitmap_ack ssd1306 start_page start_column width height bitmap s h).2
  refine ⟨k, ?_, rfl, rfl⟩
  rw [k, draw_bitmap_stream_length]
  simp only [SSD1306_BITS_IN_BYTE]
  ring

/-- Instance of `c26_stream_length`: a 16x8 bitmap on an acknowledging bus is streamed as
16 data bytes. -/
theorem c26_stream_length_witness :
    AllAck (readyEngine (ackBus datasheet_data))
    ∧ (dataStream (ssd1306_draw_bitmap ⟨0x3C, none⟩ 0 0 16 8 counting_bitmap
        (readyEngine (ackBus datasheet_data))).2.log).length = 16 :=
  ⟨allAck_readyEngine _,
    (c26_stream_length ⟨0x3C, none⟩ 0 0 16 8 counting_bitmap
      (readyEngine (ackBus datasheet_data)) (allAck_readyEngine _)).2.1.trans (by decide)⟩

/-! ## C30 -/

/-- C30: for `start_page` in 0..7, a height that is a positive multiple of 8 up to 64 and
valid columns, on a bus on which every primitive succeeds, `ssd1306_draw_bitmap` sends the
page window command `0x22, start_page, start_page + height/8` iff
`start_page + height/8 <= 7`; otherwise (as for a bitmap whose last row lies on page 7, where
`start_page + height/8 = 8`) the bitmap is streamed with no page window programmed.  A window
that is programmed runs from `start_page` to `start_page + height/8`: `height/8 + 1` pages. -/
theorem c30_page_window (ssd1306 : ssd1306_t) (start_page start_column width height : Nat)
    (bitmap : ssd1306_bitmap_t) (s : I2C) (hA : AllAck s) (hsp : start_page ≤ 7)
    (hh0 : 0 < height) (hh8 : height % 8 = 0) (hh : height ≤ 64) (hsc : start_column ≤ 127)
    (hw : 1 ≤ width) (hec : start_column + width - 1 ≤ 127) :
    issued s (ssd1306_draw_bitmap ssd1306 start_page start_column width height bitmap s).2
      = [⟨.start ssd1306.i2c_address .I2C_MODE_WRITE, true⟩, ⟨.write 0x00, true⟩,
          ⟨.write 0x40, true⟩]
        ++ (if start_page + height / 8 ≤ 7 then
              [⟨.write 0x22, true⟩, ⟨.write start_page, true⟩,
                ⟨.write (start_page + height / 8), true⟩] else [])
        ++ [⟨.write 0x21, true⟩, ⟨.write start_column, true⟩,
            ⟨.write (start_column + width - 1), true⟩, ⟨.stop, true⟩,
            ⟨.start ssd1306.i2c_address .I2C_MODE_WRITE, true⟩, ⟨.write 0x40, true⟩]
        ++ (draw_bitmap_stream width height bitmap).map (fun b => (⟨.write b, true⟩ : Event))
        ++ [⟨.stop, true⟩]
    ∧ (start_page + height / 8 = 8 →
        issued s (ssd1306_draw_bitmap ssd1306 start_page start_column width height bitmap s).2
          = [⟨.start ssd1306.i2c_address .I2C_MODE_WRITE, true⟩, ⟨.write 0x00, true⟩,
              ⟨.write 0x40, true⟩, ⟨.write 0x21, true⟩, ⟨.write start_column, true⟩,
              ⟨.write (start_column + width - 1), true⟩, ⟨.stop, true⟩,
              ⟨.start ssd1306.i2c_address .I2C_MODE_WRITE, true⟩, ⟨.write 0x40, true⟩]
            ++ (draw_bitmap_stream width height bitmap).map (fun b => (⟨.write b, true⟩ : Event))
            ++ [⟨.stop, true⟩])
    ∧ (start_page + height / 8) - start_page + 1 = height / 8 + 1 := by
  have main : issued s
      (ssd1306_draw_bitmap ssd1306 start_page start_column width height bitmap s).2
      = [⟨.start ssd1306.i2c_address .I2C_MODE_WRITE, true⟩, ⟨.write 0x00, true⟩,
          ⟨.write 0x40, true⟩]
        ++ (if start_page + height / 8 ≤ 7 then
              [⟨.write 0x22, true⟩, ⟨.write start_page, true⟩,
                ⟨.write (start_page + height / 8), true⟩] else [])
        ++ [⟨.write 0x21, true⟩, ⟨.write start_column, true⟩,
            ⟨.write (start_column + width - 1), true⟩, ⟨.stop, true⟩,
            ⟨.start ssd1306.i2c_address .I2C_MODE_WRITE, true⟩, ⟨.write 0x40, true⟩]
        ++ (draw_bitmap_stream width height bitmap).map (fun b => (⟨.write b, true⟩ : Event))
        ++ [⟨.stop, true⟩] := by
    rw [ssd1306_draw_bitmap_issued ssd1306 start_page start_column width height bitmap s hA]
    have e1 : (height / 8 + start_page) % 256 = start_page + height / 8 := by omega
    have e2 : (((start_column : Int) + (width : Int) - 1) % 256).toNat = start_column + width - 1 := by
      omega
    rw [e1, e2]
    unfold set_area_bytes is_valid_page is_valid_column
    simp only [SSD1306_PAGE_START_ADDRESS, SSD1306_PAGE_END_ADDRESS, SSD1306_COLUMN_START_ADDRESS,
      SSD1306_COLUMN_END_ADDRESS, SSD1306_SEND_COMMAND, SSD1306_DISPLAY_START_LINE_COMMAND,
      SSD1306_PAGE_START_END_ADDRESS_COMMAND, SSD1306_COLUMN_START_END_ADDRESS_COMMAND]
    have m1 : start_page % 256 = start_page := by omega
    have m2 : (start_page + height / 8) % 256 = start_page + height / 8 := by omega
    have m3 : start_column % 256 = start_column := by omega
    have m4 : (start_column + width - 1) % 256 = start_column + width - 1 := by omega
    by_cases hp : start_page + height / 8 ≤ 7 <;>
      simp [hp, hsp, hsc, hec, m1, m2, m3, m4]
  refine ⟨main, fun h8 => ?_, by omega⟩
  rw [main, if_neg (by omega)]
  simp

/-- Instance of `c30_page_window`: an 8x8 bitmap on page 7 (`start_page + height/8 = 8`) is
streamed with the column window only; on page 6 the page window `0x22, 6, 7` is sent. -/
theorem c30_page_window_witness :
    AllAck (readyEngine (ackBus datasheet_data))
    ∧ (writtenBytes (issued (readyEngine (ackBus datasheet_data))
        (ssd1306_draw_bitmap ⟨0x3C, none⟩ 7 0 8 8 counting_bitmap
          (readyEngine (ackBus datasheet_data))).2)).take 6
      = [0x00, 0x40, 0x21, 0, 7, 0x40]
    ∧ (writtenBytes (issued (readyEngine (ackBus datasheet_data))
        (ssd1306_draw_bitmap ⟨0x3C, none⟩ 6 0 8 8 counting_bitmap
          (readyEngine (ackBus datasheet_data))).2)).take 9
      = [0x00, 0x40, 0x22, 6, 7, 0x21, 0, 7, 0x40] :=
  ⟨allAck_readyEngine _,
    by rw [(c30_page_window ⟨0x3C, none⟩ 7 0 8 8 counting_bitmap
        (readyEngine (ackBus datasheet_data)) (allAck_readyEngine _) (by decide) (by decide)
        (by decide) (by decide) (by decide) (by decide) (by decide)).1]
       rfl,
    by rw [(c30_page_window ⟨0x3C, none⟩ 6 0 8 8 counting_bitmap
        (readyEngine (ackBus datasheet_data)) (allAck_readyEngine _) (by decide) (by decide)
        (by decide) (by decide) (by decide) (by decide) (by decide)).1]
       rfl⟩

/-! ## Text -/

theorem print_step_of_false (ssd1306 : ssd1306_t) (font : ssd1306_font_t) (text : Nat → Nat)
    (sp sc : Nat) (r : Bool × I2C) (i : Nat) (h : r.1 = false) :
    print_step ssd1306 font text sp sc r i = (false, r.2) := by
  unfold print_step
  split
  · exact andAlso_of_false _ h
  · exact Prod.ext h rfl

theorem foldl_print_step_of_false (ssd1306 : ssd1306_t) (font : ssd1306_font_t)
    (text : Nat → Nat) (sp sc : Nat) (l : List Nat) (r : Bool × I2C) (h : r.1 = false) :
    l.foldl (print_step ssd1306 font text sp sc) r = (false, r.2) := by
  induction l generalizing r with
  | nil => exact Prod.ext h rfl
  | cons x xs ih =>
    rw [List.foldl_cons, ih _ (by rw [print_step_of_false _ _ _ _ _ _ _ h]),
      print_step_of_false _ _ _ _ _ _ _ h]

/-- The loop of `ssd1306_print`, started at index `j` of a text whose terminating zero is at
index `n < 256`, ends and has run the body for the indices `j, ..., n - 1`. -/
theorem ssd1306_print_loop_eq (ssd1306 : ssd1306_t) (font : ssd1306_font_t) (text : Nat → Nat)
    (sp sc n : Nat) (hn : n < 256) (hz : text n = 0) (hnz : ∀ i, i < n → text i ≠ 0)
    (m : Nat) : ∀ (j : Nat) (r : Bool × I2C) (fuel : Nat), j + m = n → m < fuel →
      ssd1306_print_loop ssd1306 font text sp sc fuel j r
        = some ((List.range' j m).foldl (print_step ssd1306 font text sp sc) r) := by
  induction m with
  | zero =>
    intro j r fuel hj hf
    obtain ⟨f, rfl⟩ : ∃ f, fuel = f + 1 := ⟨fuel - 1, by omega⟩
    have hjn : j = n := by omega
    unfold ssd1306_print_loop
    rw [if_pos (by rw [hjn]; exact hz)]
    rfl
  | succ m ih =>
    intro j r fuel hj hf
    obtain ⟨f, rfl⟩ : ∃ f, fuel = f + 1 := ⟨fuel - 1, by omega⟩
    unfold ssd1306_print_loop
    rw [if_neg (hnz j (by omega)), Nat.mod_eq_of_lt (by omega : j + 1 < 256),
      ih (j + 1) _ f (by omega) (by omega), List.range'_succ, List.foldl_cons]

/-- On a text of fewer than 256 characters `ssd1306_print` returns, having run the body of
its loop once for every index. -/
theorem ssd1306_print_eq (ssd1306 : ssd1306_t) (font : ssd1306_font_t) (text : Nat → Nat)
    (sp sc n : Nat) (s : I2C) (hfont : ssd1306.font = some font) (hn : n < 256)
    (hz : text n = 0) (hnz : ∀ i, i < n → text i ≠ 0) (fuel : Nat) (hf : n < fuel) :
    ssd1306_print fuel ssd1306 text sp sc s
      = some ((List.range n).foldl (print_step ssd1306 font text sp sc) (true, s)) := by
  unfold ssd1306_print
  rw [hfont]
  simp only []
  rw [ssd1306_print_loop_eq ssd1306 font text sp sc n hn hz hnz n 0 (true, s) fuel (by omega) hf,
    List.range_eq_range']

theorem print_column_eq (font : ssd1306_font_t) (start_column i : Nat) :
    print_column font start_column i
      = (start_column + i * (font.width + font.letter_spacing)) % 256 := by
  unfold print_column to_uint8 to_int16
  have e : start_column + i * (font.width + font.letter_spacing)
      = start_column + i * font.width + i * font.letter_spacing := by ring
  have e2 : (start_column : Int) + (i : Int) * (font.width : Int)
      + (i : Int) * (font.letter_spacing : Int)
      = ((start_column + i * font.width + i * font.letter_spacing : Nat) : Int) := by
    push_cast; ring
  rw [e, e2]
  generalize start_column + i * font.width + i * font.letter_spacing = n
  omega

theorem find_take_first {α : Type} (p : α → Bool) (xs : List α) :
    ∀ (m k : Nat) (x : α), k < m → xs[k]? = some x → p x = true →
      (∀ k', k' < k → ∀ y, xs[k']? = some y → p y = false) →
      (xs.take m).find? p = some x := by
  induction xs with
  | nil => intro m k x _ hx; simp at hx
  | cons a as ih =>
    intro m k x hk hx hp hfirst
    obtain ⟨m, rfl⟩ : ∃ m', m = m' + 1 := ⟨m - 1, by omega⟩
    rw [List.take_succ_cons, List.find?_cons]
    cases k with
    | zero =>
      simp only [List.getElem?_cons_zero, Option.some.injEq] at hx
      rw [hx, hp]
    | succ k =>
      have ha : p a = false := hfirst 0 (by omega) a (by simp)
      rw [ha]
      simp only [List.getElem?_cons_succ] at hx
      exact ih m k x (by omega) hx hp (fun k' hk' y hy => hfirst (k' + 1) (by omega) y (by simpa using hy))

/-- `ssd1306_find_char` returns the bitmap of the first entry of the glyph table whose letter
is `chr`. -/
theorem ssd1306_find_char_first (chr : Nat) (font : ssd1306_font_t) (k : Nat)
    (l : ssd1306_letter_t) (hk : k < font.size) (hl : font.data[k]? = some l)
    (he : l.letter = chr)
    (hfirst : ∀ k', k' < k → ∀ l', font.data[k']? = some l' → l'.letter ≠ chr) :
    ssd1306_find_char chr font = l.bitmap := by
  unfold ssd1306_find_char
  rw [find_take_first (fun l => l.letter == chr) font.data font.size k l hk hl (by simp [he])
    (fun k' hk' y hy => by simp [hfirst k' hk' y hy])]

/-- A character without an entry among the first `size` entries has no glyph. -/
theorem ssd1306_find_char_none (chr : Nat) (font : ssd1306_font_t)
    (h : ∀ l, l ∈ font.data.take font.size → l.letter ≠ chr) :
    ssd1306_find_char chr font = none := by
  unfold ssd1306_find_char
  have : (font.data.take font.size).find? (fun l => l.letter == chr) = none := by
    rw [List.find?_eq_none]
    intro l hl
    simp [h l hl]
  rw [this]

theorem Good.then_print_step {r : Bool × I2C} (h : Good r) (ssd1306 : ssd1306_t)
    (font : ssd1306_font_t) (text : Nat → Nat) (sp sc i : Nat) :
    Good (print_step ssd1306 font text sp sc r i) := by
  unfold print_step
  split
  · rw [andAlso_of_true _ h.1]
    exact (ssd1306_draw_bitmap_ack ssd1306 _ _ _ _ _ _ h.2).1
  · exact h

theorem Good.then_print_steps {r : Bool × I2C} (h : Good r) (ssd1306 : ssd1306_t)
    (font : ssd1306_font_t) (text : Nat → Nat) (sp sc : Nat) (l : List Nat) :
    Good (l.foldl (print_step ssd1306 font text sp sc) r) := by
  induction l generalizing r with
  | nil => exact h
  | cons x xs ih => exact ih (h.then_print_step ssd1306 font text sp sc x)

/-! ## C27 -/

/-- C27: for every text and position, `ssd1306_print` on a session whose font is `NULL`, as
is the session returned by `ssd1306_create`, returns false with the engine exactly as it was:
no bus primitive is issued. -/
theorem c27_print_without_font (fuel i2c_address : Nat) (settings : ssd1306_config_t)
    (text : Nat → Nat) (start_page start_column : Nat) (s : I2C) :
    ssd1306_print fuel ⟨i2c_address, none⟩ text start_page start_column s = some (false, s)
    ∧ (ssd1306_create settings).font = none
    ∧ ssd1306_print fuel (ssd1306_create settings) text start_page start_column s
        = some (false, s)
    ∧ issued s s = [] :=
  ⟨rfl, rfl, rfl, by unfold issued; simp⟩

/-! ## C28 -/

/-- C28, as stated, fails: with a font holding a glyph for `A`, the text `AA` and a bus whose
slave does not acknowledge its address, the draw of the first character fails (its start
fails, followed by the two stops of `ssd1306_set_area` and `ssd1306_draw_bitmap`) and
`ssd1306_print` returns false without calling `ssd1306_draw_bitmap` for the second `A`: the
three primitives of the first draw are all it issues. -/
theorem c28_print_continues_counterexample :
    (ssd1306_find_char (text_of [65, 65] 1) one_glyph_font).isSome = true
    ∧ (ssd1306_draw_bitmap ⟨0x3C, some one_glyph_font⟩ 0 0 8 8 counting_bitmap
        (readyEngine addressNackBus)).1 = false
    ∧ (ssd1306_print 3 ⟨0x3C, some one_glyph_font⟩ (text_of [65, 65]) 0 0
        (readyEngine addressNackBus)).map
          (fun r => (r.1, issued (readyEngine addressNackBus) r.2))
      = some (false, [⟨.start 0x3C .I2C_MODE_WRITE, false⟩, ⟨.stop, true⟩, ⟨.stop, true⟩]) := by
  decide

/-- C28, amended: `ssd1306_print` guards every draw with the flag (`&&`).  On a text of fewer
than 256 characters, if the draw of the character at index `j` is called (the flag still
true) and fails, `ssd1306_print` calls `ssd1306_draw_bitmap` for no later character: it runs
to the end of the text and returns false with the engine, call log included, exactly as the
failed draw left it. -/
theorem c28_print_stops_drawing (ssd1306 : ssd1306_t) (font : ssd1306_font_t) (text : Nat → Nat)
    (start_page start_column n j : Nat) (bitmap : ssd1306_bitmap_t) (s : I2C)
    (hfont : ssd1306.font = some font) (hn : n < 256) (hz : text n = 0)
    (hnz : ∀ i, i < n → text i ≠ 0) (hj : j < n)
    (hpre : ((List.range j).foldl
      (print_step ssd1306 font text start_page start_column) (true, s)).1 = true)
    (hglyph : ssd1306_find_char (text j) font = some bitmap)
    (hfail : (ssd1306_draw_bitmap ssd1306 start_page (print_column font start_column j)
      font.width font.height bitmap
      ((List.range j).foldl (print_step ssd1306 font text start_page start_column) (true, s)).2).1
        = false) :
    ssd1306_print (n + 1) ssd1306 text start_page start_column s
      = some (false,
          (ssd1306_draw_bitmap ssd1306 start_page (print_column font start_column j)
            font.width font.height bitmap
            ((List.range j).foldl
              (print_step ssd1306 font text start_page start_column) (true, s)).2).2) := by
  rw [ssd1306_print_eq ssd1306 font text start_page start_column n s hfont hn hz hnz (n + 1)
    (by omega)]
  have hsplit : List.range n = List.range j ++ j :: List.range' (j + 1) (n - j - 1) := by
    rw [List.range_eq_range', List.range_eq_range', ← List.range'_succ,
      show n - j - 1 + 1 = n - j by omega]
    have := List.range'_append 0 j (n - j) 1
    simp only [Nat.zero_add, Nat.one_mul] at this
    rw [this, show n - j + j = n by omega]
  rw [hsplit, List.foldl_append, List.foldl_cons]
  have hstep : print_step ssd1306 font text start_page start_column
      ((List.range j).foldl (print_step ssd1306 font text start_page start_column) (true, s)) j
      = ssd1306_draw_bitmap ssd1306 start_page (print_column font start_column j)
          font.width font.height bitmap
          ((List.range j).foldl
            (print_step ssd1306 font text start_page start_column) (true, s)).2 := by
    generalize (List.range j).foldl (print_step ssd1306 font text start_page start_column)
      (true, s) = pre at hpre ⊢
    unfold print_step
    rw [hglyph]
    exact andAlso_of_true _ hpre
  rw [hstep, foldl_print_step_of_false _ _ _ _ _ _ _ hfail]

/-- Instance of `c28_print_stops_drawing`: the text `AA` on a bus whose slave does not
acknowledge its address; the draw of the first `A` fails and the call returns false. -/
theorem c28_print_stops_drawing_witness :
    (ssd1306_print 3 ⟨0x3C, some one_glyph_font⟩ (text_of [65, 65]) 0 0
        (readyEngine addressNackBus)).map Prod.fst = some false :=
  congrArg (Option.map Prod.fst)
    (c28_print_stops_drawing ⟨0x3C, some one_glyph_font⟩ one_glyph_font (text_of [65, 65])
      0 0 2 0 counting_bitmap (readyEngine addressNackBus) rfl (by decide) (by decide)
      (by intro i hi; interval_cases i <;> decide) (by decide) (by decide) rfl
      (by decide))

/-! ## C29 -/

/-- C29, as stated, fails for a text of 256 characters or more: the index of the loop is a
`uint8_t`, which returns to 0 after 255 and never reaches the terminating zero, so
`ssd1306_print` does not return, whatever the fuel. -/
theorem c29_long_text_counterexample :
    long_text 255 = 65 ∧ long_text 256 = 0
    ∧ ∀ fuel, ssd1306_print fuel ⟨0x3C, some one_glyph_font⟩ long_text 0 0
        (readyEngine (ackBus datasheet_data)) = none := by
  refine ⟨by decide, by decide, ?_⟩
  have key : ∀ (fuel i : Nat) (r : Bool × I2C), i < 256 →
      ssd1306_print_loop ⟨0x3C, some one_glyph_font⟩ one_glyph_font long_text 0 0 fuel i r
        = none := by
    intro fuel
    induction fuel with
    | zero => intro i r _; rfl
    | succ f ih =>
      intro i r hi
      unfold ssd1306_print_loop
      have h65 : long_text i = 65 := by unfold long_text; rw [if_pos hi]
      rw [if_neg (by rw [h65]; decide)]
      exact ih _ _ (Nat.mod_lt _ (by norm_num))
  intro fuel
  exact key fuel 0 _ (by norm_num)

/-- C29, amended: for every text of fewer than 256 characters, font and start position,
`ssd1306_print` returns, having gone through the characters in order: the character at index
`i`, when the font contains it (`ssd1306_find_char`, the first matching entry of the glyph
table), is drawn, under the guard of the flag, at column
`(start_column + i*(font.width + font.letter_spacing)) mod 256` on `start_page` with the
width and height of the font; a character with no glyph draws nothing, and the column of a
later character depends on its index only.  On a bus on which every primitive succeeds every
such draw is made and the call returns true. -/
theorem c29_print_columns (ssd1306 : ssd1306_t) (font : ssd1306_font_t) (text : Nat → Nat)
    (start_page start_column n : Nat) (s : I2C) (hfont : ssd1306.font = some font)
    (hn : n < 256) (hz : text n = 0) (hnz : ∀ i, i < n → text i ≠ 0) :
    ssd1306_print (n + 1) ssd1306 text start_page start_column s
      = some ((List.range n).foldl (fun r i =>
          match ssd1306_find_char (text i) font with
          | some bitmap =>
            andAlso r (ssd1306_draw_bitmap ssd1306 start_page
              ((start_column + i * (font.width + font.letter_spacing)) % 256)
              font.width font.height bitmap)
          | none => r) (true, s))
    ∧ (∀ chr k l, k < font.size → font.data[k]? = some l → l.letter = chr →
        (∀ k', k' < k → ∀ l', font.data[k']? = some l' → l'.letter ≠ chr) →
        ssd1306_find_char chr font = l.bitmap)
    ∧ (∀ chr, (∀ l, l ∈ font.data.take font.size → l.letter ≠ chr) →
        ssd1306_find_char chr font = none)
    ∧ (AllAck s → ∃ r, ssd1306_print (n + 1) ssd1306 text start_page start_column s = some r
        ∧ r.1 = true) := by
  have e := ssd1306_print_eq ssd1306 font text start_page start_column n s hfont hn hz hnz
    (n + 1) (by omega)
  refine ⟨?_, fun chr k l => ssd1306_find_char_first chr font k l,
    fun chr => ssd1306_find_char_none chr font, fun hA => ⟨_, e, ?_⟩⟩
  · have hf : print_step ssd1306 font text start_page start_column
        = (fun r i =>
          match ssd1306_find_char (text i) font with
          | some bitmap =>
            andAlso r (ssd1306_draw_bitmap ssd1306 start_page
              ((start_column + i * (font.width + font.letter_spacing)) % 256)
              font.width font.height bitmap)
          | none => r) := by
      funext r i
      unfold print_step
      rw [print_column_eq]
    rw [e, hf]
  · exact (Good.then_print_steps (r := (true, s)) ⟨rfl, hA⟩ ssd1306 font text start_page
      start_column (List.range n)).1

/-- Instance of `c29_print_columns`: the text `ABA` (no glyph for `B`) at page 2, column 10,
font width 8 and spacing 1, on an acknowledging bus: the two `A` are drawn at columns 10 and
`10 + 2*9 = 28`. -/
theorem c29_print_columns_witness :
    (ssd1306_print 4 ⟨0x3C, some one_glyph_font⟩ (text_of [65, 66, 65]) 2 10
        (readyEngine (ackBus datasheet_data))).map
      (fun r => (writtenBytes (issued (readyEngine (ackBus datasheet_data)) r.2)).take 8)
      = some [0x00, 0x40, 0x22, 2, 3, 0x21, 10, 17]
    ∧ (ssd1306_print 4 ⟨0x3C, some one_glyph_font⟩ (text_of [65, 66, 65]) 2 10
        (readyEngine (ackBus datasheet_data))).map
      (fun r => ((writtenBytes (issued (readyEngine (ackBus datasheet_data)) r.2)).drop 17).take 8)
      = some [0x00, 0x40, 0x22, 2, 3, 0x21, 28, 35] :=
  have k := (c29_print_columns ⟨0x3C, some one_glyph_font⟩ one_glyph_font
    (text_of [65, 66, 65]) 2 10 3 (readyEngine (ackBus datasheet_data)) rfl (by decide)
    (by decide) (by intro i hi; interval_cases i <;> decide)).1
  ⟨by rw [k]; decide, by rw [k]; decide⟩

/-! ## Setters on an acknowledging bus -/

theorem ssd1306_send_command_good (ssd1306 : ssd1306_t) (command : Nat) (s : I2C)
    (h : AllAck s) : Good (ssd1306_send_command ssd1306 command s) := by
  have g1 : Good (i2c_start ssd1306.i2c_address .I2C_MODE_WRITE s) :=
    ⟨i2c_start_ack _ _ _ h, h.keep_start _ _⟩
  have g3 := (g1.then_write SSD1306_SEND_COMMAND).then_write command
  unfold ssd1306_send_command
  exact g3.then_stop

theorem ssd1306_send_command_value_good (ssd1306 : ssd1306_t) (command value : Nat) (s : I2C)
    (h : AllAck s) : Good (ssd1306_send_command_value ssd1306 command value s) := by
  have g1 : Good (i2c_start ssd1306.i2c_address .I2C_MODE_WRITE s) :=
    ⟨i2c_start_ack _ _ _ h, h.keep_start _ _⟩
  obtain ⟨g2, -⟩ := g1.then_bitAnd_write SSD1306_SEND_COMMAND
  obtain ⟨g3, -⟩ := g2.then_bitAnd_write command
  obtain ⟨g4, -⟩ := g3.then_bitAnd_write value
  unfold ssd1306_send_command_value
  exact g4.then_stop

theorem Good.then_andAlso {r : Bool × I2C} (h : Good r) (f : I2C → Bool × I2C)
    (hf : ∀ s, AllAck s → Good (f s)) : Good (andAlso r f) := by
  rw [andAlso_of_true _ h.1]
  exact hf _ h.2

theorem Good.then_runAll {r : Bool × I2C} (h : Good r) (fs : List (I2C → Bool × I2C))
    (hfs : ∀ f, f ∈ fs → ∀ s, AllAck s → Good (f s)) : Good (runAll fs r) := by
  induction fs generalizing r with
  | nil => exact h
  | cons f fs ih =>
    have e : runAll (f :: fs) r = runAll fs (andAlso r f) := rfl
    rw [e]
    exact ih (h.then_andAlso f (hfs f (List.mem_cons_self _ _)))
      (fun g hg => hfs g (List.mem_cons_of_mem _ hg))

/-- With a configuration that passes every range check, each of the fifteen setters of
`ssd1306_init` succeeds on a bus on which every primitive succeeds. -/
theorem init_setters_good (ssd1306 : ssd1306_t) (config : ssd1306_config_t) (hv : config.Valid) :
    ∀ f, f ∈ init_setters ssd1306 config → ∀ s, AllAck s → Good (f s) := by
  obtain ⟨hmux, hdiv, hosc, hmode, hint, hp1, hp2, hlev⟩ := hv
  intro f hf s hs
  simp only [init_setters, List.mem_cons, List.mem_singleton, List.not_mem_nil, or_false] at hf
  rcases hf with rfl | rfl | rfl | rfl | rfl | rfl | rfl | rfl | rfl | rfl | rfl | rfl | rfl
    | rfl | rfl
  · exact ssd1306_send_command_good _ _ _ hs
  · unfold ssd1306_set_multiplex_ratio
    rw [if_pos (by simp [hmux])]
    exact ssd1306_send_command_value_good _ _ _ _ hs
  · unfold ssd1306_set_display_clock
    rw [if_pos (by simp [hdiv, hosc])]
    exact ssd1306_send_command_value_good _ _ _ _ hs
  · exact ssd1306_send_command_good _ _ _ hs
  · exact ssd1306_send_command_value_good _ _ _ _ hs
  · unfold ssd1306_set_fade_out_and_blinking
    rw [if_pos (by simp [hint]; tauto)]
    exact ssd1306_send_command_value_good _ _ _ _ hs
  · exact ssd1306_send_command_value_good _ _ _ _ hs
  · unfold ssd1306_set_offset
    rw [if_pos (by decide)]
    exact ssd1306_send_command_value_good _ _ _ _ hs
  · exact ssd1306_send_command_value_good _ _ _ _ hs
  · unfold ssd1306_set_pre_charge_period
    rw [if_pos (by simp [hp1, hp2])]
    exact ssd1306_send_command_value_good _ _ _ _ hs
  · unfold ssd1306_set_vcomh_deselect_level
    rw [if_pos (by simp; tauto)]
    exact ssd1306_send_command_value_good _ _ _ _ hs
  · exact ssd1306_send_command_value_good _ _ _ _ hs
  · exact ssd1306_send_command_good _ _ _ hs
  · exact ssd1306_send_command_value_good _ _ _ _ hs
  · exact ssd1306_send_command_good _ _ _ hs

/-- With a configuration that passes every range check `ssd1306_init` returns true on a bus
on which every primitive succeeds. -/
theorem ssd1306_init_good (ssd1306 : ssd1306_t) (config : ssd1306_config_t) (hv : config.Valid)
    (s : I2C) (h : AllAck s) : Good (ssd1306_init ssd1306 config s) := by
  rw [ssd1306_init_eq_runAll]
  exact Good.then_runAll (r := (true, s)) ⟨rfl, h⟩ _ (init_setters_good ssd1306 config hv)

/-! ## C31 -/

/-- C31: for every address `a` the configuration of `ssd1306_create_config(a)` passes every
range check: multiplex ratio 63 in 15..63, divide ratio 1 in 1..15, oscillator frequency 15
in 0..15, pre-charge phases 2 and 2 in 1..15, VCOMH level `0x20` and fade mode `0x00` among
the enumerators, fade interval 0 in 0..15, and the offset 0 that `ssd1306_init` passes in
0..63; so on a ready bus that acknowledges everything `ssd1306_init` with that configuration
returns true, every one of its fifteen setters having been called and having returned
true. -/
theorem c31_default_config_valid (a : Nat) (ssd1306 : ssd1306_t) (s : I2C) (h : AllAck s) :
    (ssd1306_create_config a).Valid
    ∧ ((ssd1306_create_config a).mux_ratio = 63 ∧ (ssd1306_create_config a).divide_ratio = 1
      ∧ (ssd1306_create_config a).oscillator_frequency = 15
      ∧ (ssd1306_create_config a).pre_charge_period_phase_1 = 2
      ∧ (ssd1306_create_config a).pre_charge_period_phase_2 = 2
      ∧ (ssd1306_create_config a).vcomh_deselect_level = 0x20
      ∧ (ssd1306_create_config a).fade_out_blinking_mode = 0x00
      ∧ (ssd1306_create_config a).fade_out_time_interval = 0
      ∧ SSD1306_DISPLAY_OFFSET_MIN = 0)
    ∧ (ssd1306_init ssd1306 (ssd1306_create_config a) s).1 = true
    ∧ (∀ k, k < 15 →
        (ssd1306_init_upto k ssd1306 (ssd1306_create_config a) s).1 = true
        ∧ (kth_setter_call k ssd1306 (ssd1306_create_config a) s).1 = true)
    ∧ (ssd1306_init (ssd1306_create (ssd1306_create_config a)) (ssd1306_create_config a) s).1
        = true := by
  have hv : (ssd1306_create_config a).Valid := by
    unfold ssd1306_config_t.Valid ssd1306_create_config
    simp only []
    decide
  have hi := (ssd1306_init_good ssd1306 (ssd1306_create_config a) hv s h).1
  refine ⟨hv, ⟨rfl, rfl, rfl, rfl, rfl, rfl, rfl, rfl, rfl⟩, hi, ?_,
    (ssd1306_init_good _ (ssd1306_create_config a) hv s h).1⟩
  intro k hk
  rw [ssd1306_init_eq_upto] at hi
  have h1 := ssd1306_init_upto_true_of_le k 15 (by omega) ssd1306 _ s hi
  have h2 := ssd1306_init_upto_true_of_le (k + 1) 15 (by omega) ssd1306 _ s hi
  rw [ssd1306_init_upto_succ_of_true k hk ssd1306 _ s h1] at h2
  exact ⟨h1, h2⟩

/-- Instance of `c31_default_config_valid`: address `0x3C` (that of `main.c`) on an
acknowledging bus. -/
theorem c31_default_config_valid_witness :
    AllAck (readyEngine (ackBus datasheet_data))
    ∧ (ssd1306_init (ssd1306_create (ssd1306_create_config 0x3C)) (ssd1306_create_config 0x3C)
        (readyEngine (ackBus datasheet_data))).1 = true :=
  ⟨allAck_readyEngine _,
    (c31_default_config_valid 0x3C (ssd1306_create (ssd1306_create_config 0x3C))
      (readyEngine (ackBus datasheet_data)) (allAck_readyEngine _)).2.2.1⟩

/-! ## The divisor of the temperature formula -/

theorem to_int32_fits (n : Int) : fits32 (to_int32 n) := by
  unfold fits32 to_int32; omega

theorem temperature_ut_range (msb lsb : Nat) :
    -32768 ≤ temperature_ut msb lsb ∧ temperature_ut msb lsb ≤ 32767 := by
  unfold temperature_ut
  generalize ((((msb <<< 8) ||| lsb : Nat) : Int)) = n
  have h : fits32 (to_int16 n) := by unfold fits32 to_int16; omega
  rw [to_int32_of_fits h]
  unfold to_int16
  omega

/-! ## C32 -/

/-- C32, as stated, fails: with the all-zero calibration of a freshly created instance
`x1 = 0` and `MD = 0`, so the divisor `x1 + MD` is zero for every raw reading, and on an
acknowledging bus `bmp180_get_temperature` reaches the division (it returns true); with the
data sheet calibration the divisor is zero for the raw reading `0x4F3C = 20284`
(`x1 = -2868 = -MD`); and with `AC5 = 32768`, `AC6 = 0`, `MD = 100` it is zero for the bytes
`0xFF 0x9C`, which the 16-bit `int` of the target sign-extends to `ut = -100`. -/
theorem c32_zero_divisor_counterexample :
    (∀ msb lsb : Nat, temperature_divisor (bmp180_create 0x77).data msb lsb = 0)
    ∧ temperature_divisor (bmp180_create 0x77).data 0x6C 0xFA = 0
    ∧ (bmp180_get_temperature (bmp180_create 0x77) 0 (readyEngine datasheet_bus)).1 = true
    ∧ temperature_x1 datasheet_calibration (temperature_ut 0x4F 0x3C) = -2868
    ∧ temperature_divisor datasheet_calibration 0x4F 0x3C = 0
    ∧ half_scale_calibration.InRange
    ∧ temperature_ut 0xFF 0x9C = -100
    ∧ temperature_divisor half_scale_calibration 0xFF 0x9C = 0 := by
  refine ⟨?_, by decide, by decide, by decide, by decide, by decide, by decide, by decide⟩
  intro msb lsb
  unfold temperature_divisor temperature_x1 bmp180_create
  simp only [mul_zero]
  decide

/-- C32, amended: `bmp180_get_temperature` divides by `x1 + MD` without checking it.  For
calibration data within the ranges of its C types and bytes `msb < 128`, `lsb` whose raw
reading `msb*256 + lsb` is at least `AC6`, the value `x1` is not negative and the sum
`x1 + MD` does not wrap, so the divisor is at least `MD`, hence non-zero, whenever `MD > 0`. -/
theorem c32_temperature_divisor (data : bmp180_calibration_data_t) (msb lsb : Nat)
    (hd : data.InRange) (hm : msb < 128) (hl : lsb < 256) (hmd : 0 < data.MD)
    (hraw : data.AC6 ≤ (msb : Int) * 256 + lsb) :
    0 ≤ temperature_x1 data (temperature_ut msb lsb)
    ∧ temperature_divisor data msb lsb = temperature_x1 data (temperature_ut msb lsb) + data.MD
    ∧ data.MD ≤ temperature_divisor data msb lsb
    ∧ temperature_divisor data msb lsb ≠ 0 := by
  have hd' := hd
  obtain ⟨-, -, -, -, h5, h6, -, -, -, -, hMD⟩ := hd'
  have hp0 : 0 ≤ ((msb : Int) * 256 + lsb - data.AC6) * data.AC5 :=
    Int.mul_nonneg (by omega) h5.1
  have hp1 : ((msb : Int) * 256 + lsb - data.AC6) * data.AC5 ≤ 32767 * 65535 :=
    mul_le_mul (by omega) h5.2 h5.1 (by norm_num)
  have hfit : fits32 (((msb : Int) * 256 + lsb - data.AC6) * data.AC5) := by
    unfold fits32; omega
  have e1 := temperature_x1_eq_f32 data msb lsb hd hm hl hfit
  have hb := f32_temperature_x1_bound data ((msb : Int) * 256 + lsb) hfit
  have h0 : 0 ≤ f32_temperature_x1 data ((msb : Int) * 256 + lsb) := by
    unfold f32_temperature_x1
    exact Int.tdiv_nonneg (round24_nonneg hp0) (by norm_num)
  have e : temperature_divisor data msb lsb
      = temperature_x1 data (temperature_ut msb lsb) + data.MD := by
    unfold temperature_divisor
    rw [e1]
    exact to_int32_of_fits (by unfold fits32; omega)
  rw [e, e1]
  exact ⟨h0, rfl, by omega, by omega⟩

/-- Instance of `c32_temperature_divisor`: the data sheet calibration with the data sheet
reading `UT = 27898 = 0x6CFA`: `x1 = 4743`, `MD = 2868`, divisor 7611. -/
theorem c32_temperature_divisor_witness :
    datasheet_calibration.InRange
    ∧ temperature_divisor datasheet_calibration 0x6C 0xFA = 7611
    ∧ temperature_divisor datasheet_calibration 0x6C 0xFA ≠ 0 :=
  have k := c32_temperature_divisor datasheet_calibration 0x6C 0xFA (by decide) (by decide)
    (by decide) (by decide) (by decide)
  ⟨by decide, k.2.1.trans (by decide), k.2.2.2⟩

end AvrMeteo
